import Mathlib

/-!
# Verification of the Hack VM translator (`seangeo/hack_vm_translator`)

This file shallowly embeds the Rust sources `src/vm.rs`, `src/asm.rs` and
`src/main.rs` of the translator, together with an operational semantics of
the Hack target machine, and proves the specification claims about them.

Conventions of the embedding:
* Rust `u16` values become `Nat` with explicit `% 65536` wherever machine
  arithmetic happens; `usize` line numbers become `Nat`.
* Rust `Result<T, String>` becomes `Except String T`.
* The generators in `asm.rs` build assembly text with `formatdoc!`; here each
  generator produces the same instructions as a `List Instr`, one list entry
  per emitted text line (instruction, `(label)` line, or `//` comment line).
* Decimal formatting of numbers (Rust `format!("{}")`) is embedded by
  `natStr`, a standard decimal printer.
-/

/-! ## Decimal printing (Rust's `format!("{}", n)` for unsigned integers) -/

/-- Fuelled decimal-digit printer (structural recursion on the fuel, so
that terms compute by plain reduction). -/
def natDigitsAux : Nat → Nat → List Char
  | 0, _ => []
  | fuel + 1, n =>
    if n < 10 then [Char.ofNat (48 + n)]
    else natDigitsAux fuel (n / 10) ++ [Char.ofNat (48 + n % 10)]

/-- The decimal digits of `n`, most significant first, as characters. -/
def natDigits (n : Nat) : List Char := natDigitsAux (n + 1) n

/-- Decimal string of `n`: the embedding of Rust's `format!("{}", n)`. -/
def natStr (n : Nat) : String := ⟨natDigits n⟩

/-! ## The Hack target machine

A small operational model of the Hack computer: an accumulator register `d`
(Hack's D), an address register `a` (Hack's A, which also addresses RAM),
a RAM array modelled as `Nat → Nat` holding 16-bit words, and a program
counter.  `@SP/@LCL/@ARG/@THIS/@THAT` resolve to RAM addresses 0-4; other
symbols resolve to the position of a matching `(label)` line in the program
when one exists, and through an environment `env` (the assembler's symbol
table for variables and external labels) otherwise. -/

/-- Reduce a value to a 16-bit machine word. -/
def w16 (x : Nat) : Nat := x % 65536

/-- A 16-bit word read as a signed (two's complement) integer. -/
def toSigned (x : Nat) : Int :=
  if x % 65536 < 32768 then ((x % 65536 : Nat) : Int)
  else ((x % 65536 : Nat) : Int) - 65536

/-- Destination field of a Hack C-instruction: which of A, D, M receive
the computed value. -/
structure Dest where
  a : Bool
  d : Bool
  m : Bool
deriving DecidableEq, Repr

def dNone : Dest := ⟨false, false, false⟩
def dA : Dest := ⟨true, false, false⟩
def dD : Dest := ⟨false, true, false⟩
def dM : Dest := ⟨false, false, true⟩
def dAM : Dest := ⟨true, false, true⟩

/-- Computation field of a Hack C-instruction (only the forms the generator
emits, plus the constants). -/
inductive Comp where
  | zero      -- 0
  | negOne    -- -1
  | ca        -- A
  | cd        -- D
  | cm        -- M
  | negA      -- -A
  | negD      -- -D
  | notD      -- !D
  | mPlus1    -- M+1
  | mMinus1   -- M-1
  | dPlusM    -- D+M
  | dPlusA    -- D+A
  | dMinusA   -- D-A
  | dMinusM   -- D-M
  | mMinusD   -- M-D
  | dAndM    -- D&M
  | dOrM     -- D|M
deriving DecidableEq, Repr

/-- Value of a computation given current A, D and M (= RAM[A]). -/
def evalComp (c : Comp) (a d m : Nat) : Nat :=
  match c with
  | .zero => 0
  | .negOne => 65535
  | .ca => w16 a
  | .cd => w16 d
  | .cm => w16 m
  | .negA => w16 (65536 - w16 a)
  | .negD => w16 (65536 - w16 d)
  | .notD => 65535 - w16 d
  | .mPlus1 => w16 (m + 1)
  | .mMinus1 => w16 (w16 m + 65535)
  | .dPlusM => w16 (d + m)
  | .dPlusA => w16 (d + a)
  | .dMinusA => w16 (w16 d + (65536 - w16 a))
  | .dMinusM => w16 (w16 d + (65536 - w16 m))
  | .mMinusD => w16 (w16 m + (65536 - w16 d))
  | .dAndM => Nat.land (w16 d) (w16 m)
  | .dOrM => Nat.lor (w16 d) (w16 m)

/-- Jump field of a Hack C-instruction. -/
inductive Jump where
  | jnone | jgt | jeq | jlt | jne | jmp
deriving DecidableEq, Repr

/-- Whether a jump fires, given the signed value of the computation. -/
def jumpTaken (j : Jump) (x : Int) : Prop :=
  match j with
  | .jnone => False
  | .jgt => 0 < x
  | .jeq => x = 0
  | .jlt => x < 0
  | .jne => x ≠ 0
  | .jmp => True

instance (j : Jump) (x : Int) : Decidable (jumpTaken j x) :=
  match j with
  | .jnone => isFalse (fun h => h)
  | .jgt => inferInstanceAs (Decidable (0 < x))
  | .jeq => inferInstanceAs (Decidable (x = 0))
  | .jlt => inferInstanceAs (Decidable (x < 0))
  | .jne => inferInstanceAs (Decidable (x ≠ 0))
  | .jmp => isTrue trivial

/-- One output line of the translator: an A-instruction with a numeric or
symbolic operand, a C-instruction, a `(label)` declaration line, or a
`// comment` line. -/
inductive Instr where
  | atNum (n : Nat)
  | atSym (s : String)
  | cinstr (dst : Dest) (cmp : Comp) (jp : Jump)
  | labelDef (s : String)
  | comment (s : String)
deriving DecidableEq, Repr

/-- Machine state: A register, D register, RAM, program counter. -/
structure Mach where
  a : Nat
  d : Nat
  ram : Nat → Nat
  pc : Nat

/-- RAM update. -/
def updateRam (r : Nat → Nat) (x v : Nat) : Nat → Nat :=
  fun y => if y = x then v else r y

/-- `nth prog i`: the instruction at position `i`. -/
def nth : List Instr → Nat → Option Instr
  | [], _ => none
  | x :: _, 0 => some x
  | _ :: xs, n + 1 => nth xs n

/-- Position of `(label s)` in the program, if declared. -/
def labelPos (prog : List Instr) (s : String) : Option Nat :=
  List.findIdx? (fun i => match i with | .labelDef t => t == s | _ => false) prog

/-- Resolve an A-instruction symbol: the five register symbols map to RAM
addresses 0-4, a declared label maps to its program position, anything else
(assembler-allocated variables, labels of other compilation outputs) is
looked up in `env`. -/
def resolveSym (prog : List Instr) (env : String → Nat) (s : String) : Nat :=
  if s = "SP" then 0
  else if s = "LCL" then 1
  else if s = "ARG" then 2
  else if s = "THIS" then 3
  else if s = "THAT" then 4
  else match labelPos prog s with
       | some i => i
       | none => env s

/-- Effect of one instruction.  Label declarations and comments are no-ops
(they occupy a position but do nothing).  A C-instruction computes its
value from the old A, D and M = RAM[A], writes it to the selected
destinations (an M-write goes to RAM at the old A), and jumps to the A
register's value when its jump condition holds on the signed value. -/
def applyInstr (env : String → Nat) (prog : List Instr) (i : Instr) (st : Mach) : Mach :=
  match i with
  | .atNum n => { st with a := w16 n, pc := st.pc + 1 }
  | .atSym s => { st with a := w16 (resolveSym prog env s), pc := st.pc + 1 }
  | .labelDef _ => { st with pc := st.pc + 1 }
  | .comment _ => { st with pc := st.pc + 1 }
  | .cinstr dst c j =>
    let v := evalComp c st.a st.d (st.ram st.a)
    let ram' := if dst.m then updateRam st.ram st.a v else st.ram
    let a' := if dst.a then v else st.a
    let d' := if dst.d then v else st.d
    let pc' := if jumpTaken j (toSigned v) then a' else st.pc + 1
    { a := a', d := d', ram := ram', pc := pc' }

/-- One machine step: fetch at the program counter and apply.  A
past-the-program counter makes the step a no-op, so running with surplus
fuel is harmless. -/
def step (env : String → Nat) (prog : List Instr) (st : Mach) : Mach :=
  match nth prog st.pc with
  | none => st
  | some i => applyInstr env prog i st

/-- Run `fuel` machine steps. -/
def run (env : String → Nat) (prog : List Instr) : Nat → Mach → Mach
  | 0, st => st
  | fuel + 1, st => run env prog fuel (step env prog st)

/-! ## String helpers

The embedding works on `String.data` (the character list) directly, so that
every parsing function computes by plain reduction.  Each helper mirrors the
Rust `str` method named in its doc comment. -/

/-- Rust `str::starts_with`. -/
def strStartsWith (s p : String) : Bool := p.data.isPrefixOf s.data

/-- Dropping the `n`-character prefix (Rust slicing, as used after
`strip_prefix` with a prefix of length `n`). -/
def strDrop (s : String) (n : Nat) : String := ⟨s.data.drop n⟩

/-- Trim helper on characters. -/
def trimChars (l : List Char) : List Char :=
  ((l.dropWhile Char.isWhitespace).reverse.dropWhile Char.isWhitespace).reverse

/-- Rust `str::trim`. -/
def strTrim (s : String) : String := ⟨trimChars s.data⟩

/-- Rust `str::is_empty`. -/
def strIsEmpty (s : String) : Bool := s.data.isEmpty

/-- Splitter for `split_whitespace`: walk the characters keeping the
current word (reversed); whitespace ends a word, empty pieces are dropped. -/
def splitWsChars : List Char → List Char → List String
  | [], acc => if acc.isEmpty then [] else [⟨acc.reverse⟩]
  | c :: rest, acc =>
    if c.isWhitespace then
      (if acc.isEmpty then [] else [⟨acc.reverse⟩]) ++ splitWsChars rest []
    else splitWsChars rest (c :: acc)

/-- Decimal digit value of a character, if it is one. -/
def chDigit (c : Char) : Option Nat :=
  if 48 ≤ c.toNat ∧ c.toNat ≤ 57 then some (c.toNat - 48) else none

/-- Accumulating decimal parser. -/
def parseNatAux : List Char → Nat → Option Nat
  | [], acc => some acc
  | c :: rest, acc =>
    match chDigit c with
    | some d => parseNatAux rest (acc * 10 + d)
    | none => none

/-- Rust `str::parse::<uN>`'s digit handling: all-decimal, non-empty.
(The optional leading `+` sign Rust accepts is not modelled.) -/
def strToNat (s : String) : Option Nat :=
  if s.data.isEmpty then none else parseNatAux s.data 0

/-- Text before the first `//` (Rust `find` + `split_at`). -/
def stripCommentsChars : List Char → List Char
  | [] => []
  | c :: rest =>
    if c = '/' then
      match rest with
      | c2 :: _ => if c2 = '/' then [] else c :: stripCommentsChars rest
      | [] => [c]
    else c :: stripCommentsChars rest

/-- Rust `str::lines` (plus a possibly-empty trailing piece, which the
comment stripper discards anyway). -/
def splitLinesChars : List Char → List Char → List String
  | [], acc => [⟨acc.reverse⟩]
  | c :: rest, acc =>
    if c = '\n' then ⟨acc.reverse⟩ :: splitLinesChars rest []
    else splitLinesChars rest (c :: acc)

/-- The lines of a source text. -/
def strLines (source : String) : List String := splitLinesChars source.data []

/-- 0-based enumeration of a list (Rust `Iterator::enumerate`). -/
def enumFromAux (i : Nat) : List String → List (Nat × String)
  | [] => []
  | x :: xs => (i, x) :: enumFromAux (i + 1) xs

/-! ## `src/vm.rs`: segments, commands, parsing -/

/-- `enum Segment` of `vm.rs`. -/
inductive Segment where
  | Argument | Constant | Local | Pointer | Static | Temp | That | This
deriving DecidableEq, Repr

/-- Debug name of a segment (Rust's `{:?}` for `Segment`). -/
def segDebug : Segment → String
  | .Argument => "Argument"
  | .Constant => "Constant"
  | .Local => "Local"
  | .Pointer => "Pointer"
  | .Static => "Static"
  | .Temp => "Temp"
  | .That => "That"
  | .This => "This"

/-- `impl FromStr for Segment` of `vm.rs`. -/
def Segment.from_str (s : String) : Except String Segment :=
  if s = "argument" then .ok .Argument
  else if s = "constant" then .ok .Constant
  else if s = "local" then .ok .Local
  else if s = "pointer" then .ok .Pointer
  else if s = "static" then .ok .Static
  else if s = "temp" then .ok .Temp
  else if s = "that" then .ok .That
  else if s = "this" then .ok .This
  else .error ("Unknown segment name: '" ++ s ++ "'")

/-- `enum Command` as required by the code base.  NOTE: in the `vm.rs` of
this snapshot the enum is declared WITHOUT a `Call` variant, yet `asm.rs`
pattern-matches `Command::Call { name, nargs }` and constructs
`Command::Call` in `bootstrap()`; the `Call` constructor is therefore
included here so that the dispatcher of `asm.rs` can be embedded.  The
parser `Command.from_str` below follows `vm.rs` exactly and never produces
`Call`. -/
inductive Command where
  | Push (segment : Segment) (index : Nat)
  | Pop (segment : Segment) (index : Nat)
  | Add | Sub | Neg | Eq | Gt | Lt | And | Or | Not
  | Goto (label : String)
  | IfGoto (label : String)
  | Label (label : String)
  | Function (name : String) (nvars : Nat)
  | Call (name : String) (nargs : Nat)
  | Return
deriving DecidableEq, Repr

/-- `Command::parse_label_name` of `vm.rs`. -/
def Command.parse_label_name (s : String) : Except String String :=
  let s := strTrim s
  if strIsEmpty s then .error "Label must have a name" else .ok s

/-- Rust's `str::split_whitespace`: split on whitespace, dropping empty
pieces. -/
def splitWhitespace (s : String) : List String := splitWsChars s.data []

/-- `Command::parse_label_and_n` of `vm.rs`.  A `u16` parse failure is
reported with the display text of Rust's `ParseIntError`. -/
def Command.parse_label_and_n (s : String) : Except String (String × Nat) :=
  match splitWhitespace s with
  | [name, index] =>
    match strToNat index with
    | some n =>
      if n < 65536 then .ok (name, n)
      else .error "Error parsing index: number too large to fit in target type"
    | none => .error "Error parsing index: invalid digit found in string"
  | _ => .error "expected format '<string> <int>'"

/-- `Command::parse_stack_arguments` of `vm.rs`. -/
def Command.parse_stack_arguments (s : String) : Except String (Segment × Nat) :=
  match Command.parse_label_and_n s with
  | .ok (label, n) =>
    match Segment.from_str label with
    | .error e => .error e
    | .ok segment => .ok (segment, n)
  | .error e => .error e

/-- `Command::parse_push` of `vm.rs`. -/
def Command.parse_push (s : String) : Except String Command :=
  match Command.parse_stack_arguments s with
  | .ok (segment, index) => .ok (.Push segment index)
  | .error e => .error e

/-- `Command::parse_pop` of `vm.rs`. -/
def Command.parse_pop (s : String) : Except String Command :=
  match Command.parse_stack_arguments s with
  | .ok (segment, index) => .ok (.Pop segment index)
  | .error e => .error e

/-- `Command::parse_label` of `vm.rs`. -/
def Command.parse_label (s : String) : Except String Command :=
  match Command.parse_label_name s with
  | .ok name => .ok (.Label name)
  | .error e => .error e

/-- `Command::parse_if_goto` of `vm.rs`. -/
def Command.parse_if_goto (s : String) : Except String Command :=
  match Command.parse_label_name s with
  | .ok name => .ok (.IfGoto name)
  | .error e => .error e

/-- `Command::parse_goto` of `vm.rs`. -/
def Command.parse_goto (s : String) : Except String Command :=
  match Command.parse_label_name s with
  | .ok name => .ok (.Goto name)
  | .error e => .error e

/-- `Command::parse_function` of `vm.rs`. -/
def Command.parse_function (s : String) : Except String Command :=
  match Command.parse_label_and_n s with
  | .ok (name, n) => .ok (.Function name n)
  | .error e => .error e

/-- `Command::from_str` of `vm.rs`.  The chain of `strip_prefix` calls is
embedded as `startsWith`/`drop` pairs.  Note there is no branch for
`call`: a line starting with `call` falls through every prefix test and
every keyword equality and hits the final error case. -/
def Command.from_str (line : String) : Except String Command :=
  if strStartsWith line "push" then Command.parse_push (strTrim (strDrop line 4))
  else if strStartsWith line "pop" then Command.parse_pop (strTrim (strDrop line 3))
  else if strStartsWith line "label" then Command.parse_label (strTrim (strDrop line 5))
  else if strStartsWith line "if-goto" then Command.parse_if_goto (strDrop line 7)
  else if strStartsWith line "goto" then Command.parse_goto (strDrop line 4)
  else if strStartsWith line "function" then Command.parse_function (strDrop line 8)
  else if line = "add" then .ok .Add
  else if line = "sub" then .ok .Sub
  else if line = "neg" then .ok .Neg
  else if line = "eq" then .ok .Eq
  else if line = "lt" then .ok .Lt
  else if line = "gt" then .ok .Gt
  else if line = "and" then .ok .And
  else if line = "or" then .ok .Or
  else if line = "not" then .ok .Not
  else if line = "return" then .ok .Return
  else .error ("Parser not implemented for '" ++ line ++ "'")

/-- `struct SourceCommand` of `vm.rs`. -/
structure SourceCommand where
  line : Nat
  command : Command
  source : String
  file_base : String
deriving DecidableEq, Repr

/-- Modelled from the spec: `SourceCommand::bootstrap` is invoked by
`asm.rs` but its definition is absent from the `vm.rs` of this snapshot.
The spec (§4.6 Bootstrap) says the bootstrap performs "a synthetic Call to
the entry function", "constructing its own label-bearing return address at
the top of the generated program"; we model the synthetic source command
with line number 0, translation-unit name "Bootstrap" (the scope
`generate_call` is explicitly passed), and a placeholder source text. -/
def SourceCommand.bootstrap (c : Command) : SourceCommand :=
  ⟨0, c, "call Sys.init 0", "Bootstrap"⟩

/-- `strip_comments` of `vm.rs`: text before the first `//`, trimmed;
`none` when nothing is left. -/
def strip_comments (line : String) : Option String :=
  let code := strTrim ⟨stripCommentsChars line.data⟩
  if strIsEmpty code then none else some code

/-- `parse_source_command` of `vm.rs`. -/
def parse_source_command (file_base : String) (i : Nat) (source : String) :
    Except String SourceCommand :=
  match Command.from_str source with
  | .ok command => .ok ⟨i, command, source, file_base⟩
  | .error e =>
    .error ("Parse error at line " ++ file_base ++ ":" ++ natStr i ++
      " (" ++ source ++ "): " ++ e)

/-- `parse_source` of `vm.rs`: split into lines, enumerate (0-based),
strip comments and blank lines, parse the rest. -/
def parse_source (file_base source : String) : List (Except String SourceCommand) :=
  (enumFromAux 0 (strLines source)).filterMap (fun p =>
    match strip_comments p.2 with
    | some s => some (parse_source_command file_base p.1 s)
    | none => none)

/-! ## `src/asm.rs`: the code generators

Each Rust generator returns `Result<String, String>` where the string is a
newline-joined block; here each returns `Except String (List Instr)` with
one list element per line of that block. -/

/-- Extract the instruction list of an infallible generator (Rust `unwrap`
or an `Ok` that is immediately consumed). -/
def okD (e : Except String (List Instr)) : List Instr :=
  match e with
  | .ok l => l
  | .error _ => []

/-- `pop_d` of `asm.rs`: `@SP / AM=M-1 / D=M`. -/
def pop_d : List Instr :=
  [.atSym "SP", .cinstr dAM .mMinus1 .jnone, .cinstr dD .cm .jnone]

/-- `push_d` of `asm.rs`: `@SP / A=M / M=D / @SP / M=M+1`. -/
def push_d : List Instr :=
  [.atSym "SP", .cinstr dA .cm .jnone, .cinstr dM .cd .jnone,
   .atSym "SP", .cinstr dM .mPlus1 .jnone]

/-- `push_symbol` of `asm.rs`: `@{symbol} / D=M` then `push_d`. -/
def push_symbol (symbol : String) : List Instr :=
  [.atSym symbol, .cinstr dD .cm .jnone] ++ push_d

/-- `comment` of `asm.rs`: `// {file}[{line}]: {source}`. -/
def comment (sc : SourceCommand) : String :=
  "// " ++ sc.file_base ++ "[" ++ natStr sc.line ++ "]: " ++ sc.source

/-- `generate_if_goto` of `asm.rs`: pop, then `@{scope}${label} / D;JNE`. -/
def generate_if_goto (sc : SourceCommand) (label : String) (scope : Option String) :
    Except String (List Instr) :=
  let label_scope := scope.getD sc.file_base
  .ok (pop_d ++ [.atSym (label_scope ++ "$" ++ label), .cinstr dNone .cd .jne])

/-- `generate_goto` of `asm.rs`: `@{scope}${label} / 0;JMP`. -/
def generate_goto (sc : SourceCommand) (label : String) (scope : Option String) :
    Except String (List Instr) :=
  let label_scope := scope.getD sc.file_base
  .ok [.atSym (label_scope ++ "$" ++ label), .cinstr dNone .zero .jmp]

/-- `generate_label` of `asm.rs`: `({scope}${label})`. -/
def generate_label (sc : SourceCommand) (label : String) (scope : Option String) :
    Except String (List Instr) :=
  let label_scope := scope.getD sc.file_base
  .ok [.labelDef (label_scope ++ "$" ++ label)]

/-- The return-address label of a call site: `{scope}$ret.{line}`. -/
def returnLabel (label_scope : String) (line : Nat) : String :=
  label_scope ++ "$ret." ++ natStr line

/-- `generate_call` of `asm.rs`. -/
def generate_call (sc : SourceCommand) (name : String) (nargs : Nat)
    (scope : Option String) : Except String (List Instr) :=
  let arg_offset := nargs + 5
  let label_scope := scope.getD sc.file_base
  let return_label := returnLabel label_scope sc.line
  .ok ([Instr.atSym return_label, .cinstr dD .ca .jnone] ++ push_d
    ++ push_symbol "LCL" ++ push_symbol "ARG"
    ++ push_symbol "THIS" ++ push_symbol "THAT"
    ++ [.atSym "SP", .cinstr dD .cm .jnone, .atNum arg_offset,
        .cinstr dD .dMinusA .jnone, .atSym "ARG", .cinstr dM .cd .jnone]
    ++ [.atSym "SP", .cinstr dD .cm .jnone, .atSym "LCL", .cinstr dM .cd .jnone]
    ++ [.atSym name, .cinstr dNone .zero .jmp]
    ++ [.labelDef return_label])

/-- `push_constant` of `asm.rs`: `@{value} / D=A` then `push_d`. -/
def push_constant (value : Nat) : Except String (List Instr) :=
  .ok ([.atNum value, .cinstr dD .ca .jnone] ++ push_d)

/-- `generate_function` of `asm.rs`: `({name})` then `nvars` pushes of 0. -/
def generate_function (name : String) (nvars : Nat) : Except String (List Instr) :=
  .ok (Instr.labelDef name :: (List.replicate nvars (okD (push_constant 0))).flatten)

/-- `generate_return` of `asm.rs`. -/
def generate_return : Except String (List Instr) :=
  .ok ([.atSym "LCL", .cinstr dD .cm .jnone, .atSym "frame", .cinstr dM .cd .jnone]
    ++ [.atSym "frame", .cinstr dD .cm .jnone, .atNum 5, .cinstr dA .dMinusA .jnone,
        .cinstr dD .cm .jnone, .atSym "retaddr", .cinstr dM .cd .jnone]
    ++ pop_d
    ++ [.atSym "ARG", .cinstr dA .cm .jnone, .cinstr dM .cd .jnone]
    ++ [.atSym "ARG", .cinstr dD .mPlus1 .jnone, .atSym "SP", .cinstr dM .cd .jnone]
    ++ [.atSym "frame", .cinstr dAM .mMinus1 .jnone, .cinstr dD .cm .jnone,
        .atSym "THAT", .cinstr dM .cd .jnone,
        .atSym "frame", .cinstr dAM .mMinus1 .jnone, .cinstr dD .cm .jnone,
        .atSym "THIS", .cinstr dM .cd .jnone,
        .atSym "frame", .cinstr dAM .mMinus1 .jnone, .cinstr dD .cm .jnone,
        .atSym "ARG", .cinstr dM .cd .jnone,
        .atSym "frame", .cinstr dAM .mMinus1 .jnone, .cinstr dD .cm .jnone,
        .atSym "LCL", .cinstr dM .cd .jnone]
    ++ [.atSym "retaddr", .cinstr dA .cm .jnone, .cinstr dNone .zero .jmp])

/-- `generate_binary_operation` of `asm.rs`: pop right into D, address the
left operand in place, combine, push. -/
def generate_binary_operation (op : Comp) : Except String (List Instr) :=
  .ok (pop_d ++ [.atSym "SP", .cinstr dAM .mMinus1 .jnone, .cinstr dD op .jnone]
    ++ push_d)

/-- `generate_and` of `asm.rs` (`D&M`). -/
def generate_and : Except String (List Instr) := generate_binary_operation .dAndM

/-- `generate_or` of `asm.rs` (`D|M`). -/
def generate_or : Except String (List Instr) := generate_binary_operation .dOrM

/-- `generate_add` of `asm.rs` (`D+M`). -/
def generate_add : Except String (List Instr) := generate_binary_operation .dPlusM

/-- `generate_sub` of `asm.rs` (`M-D`). -/
def generate_sub : Except String (List Instr) := generate_binary_operation .mMinusD

/-- `generate_unary` of `asm.rs`: pop into D, apply, push. -/
def generate_unary (op : Comp) : Except String (List Instr) :=
  .ok (pop_d ++ [.cinstr dD op .jnone] ++ push_d)

/-- `generate_neg` of `asm.rs` (`-D`). -/
def generate_neg : Except String (List Instr) := generate_unary .negD

/-- `generate_not` of `asm.rs` (`!D`). -/
def generate_not : Except String (List Instr) := generate_unary .notD

/-- `pop_to_variable` of `asm.rs`: pop then `@{variable} / M=D`. -/
def pop_to_variable (var : String) : Except String (List Instr) :=
  .ok (pop_d ++ [.atSym var, .cinstr dM .cd .jnone])

/-- `pop_to_address` of `asm.rs`. -/
def pop_to_address (address : Nat) : Except String (List Instr) :=
  pop_to_variable (natStr address)

/-- `pop_to_segment` of `asm.rs`: the two-register subtract/recombine
trick storing the popped value at `base+index`. -/
def pop_to_segment (segment_name : String) (index : Nat) : Except String (List Instr) :=
  .ok [.atSym segment_name, .cinstr dD .cm .jnone, .atNum index,
       .cinstr dD .dPlusA .jnone, .atSym "SP", .cinstr dAM .mMinus1 .jnone,
       .cinstr dD .dPlusM .jnone, .cinstr dA .dMinusM .jnone,
       .cinstr dM .dMinusA .jnone]

/-- `generate_pop` of `asm.rs`.  The Rust wildcard arm (reached only by
`Constant`) reports an unaddressable segment. -/
def generate_pop (sc : SourceCommand) (segment : Segment) (index : Nat) :
    Except String (List Instr) :=
  match segment with
  | .Argument => pop_to_segment "ARG" index
  | .Local => pop_to_segment "LCL" index
  | .Pointer => pop_to_address (index + 3)
  | .Static => pop_to_variable (sc.file_base ++ "." ++ natStr index)
  | .Temp => pop_to_address (index + 5)
  | .That => pop_to_segment "THAT" index
  | .This => pop_to_segment "THIS" index
  | .Constant => .error ("Unable to address segment for pop: " ++ segDebug .Constant)

/-- `push_from_variable` of `asm.rs`. -/
def push_from_variable (var : String) : Except String (List Instr) :=
  .ok ([.atSym var, .cinstr dD .cm .jnone] ++ push_d)

/-- `push_from_address` of `asm.rs`. -/
def push_from_address (index : Nat) : Except String (List Instr) :=
  push_from_variable (natStr index)

/-- `push_from_segment` of `asm.rs`. -/
def push_from_segment (segment_name : String) (index : Nat) : Except String (List Instr) :=
  .ok ([.atNum index, .cinstr dD .ca .jnone, .atSym segment_name,
        .cinstr dA .dPlusM .jnone, .cinstr dD .cm .jnone] ++ push_d)

/-- `generate_push` of `asm.rs`. -/
def generate_push (sc : SourceCommand) (segment : Segment) (index : Nat) :
    Except String (List Instr) :=
  match segment with
  | .Argument => push_from_segment "ARG" index
  | .Constant => push_constant index
  | .Local => push_from_segment "LCL" index
  | .Pointer => push_from_address (index + 3)
  | .Static => push_from_variable (sc.file_base ++ "." ++ natStr index)
  | .Temp => push_from_address (index + 5)
  | .That => push_from_segment "THAT" index
  | .This => push_from_segment "THIS" index

/-- The branch-taken label of a comparison site: `COMP_TRUE_{file}.{line}`. -/
def compTrueLabel (file : String) (line : Nat) : String :=
  "COMP_TRUE_" ++ file ++ "." ++ natStr line

/-- The join label of a comparison site: `COMP_END_{file}.{line}`. -/
def compEndLabel (file : String) (line : Nat) : String :=
  "COMP_END_" ++ file ++ "." ++ natStr line

/-- `generate_comparison` of `asm.rs`: leaves X - Y in D (Y popped first,
X the next element), jumps on D with the given jump kind, materializes
all-ones or zero, pushes the result. -/
def generate_comparison (sc : SourceCommand) (cmp : Jump) : Except String (List Instr) :=
  let file := sc.file_base
  let line := sc.line
  .ok (pop_d
    ++ [.atSym "SP", .cinstr dAM .mMinus1 .jnone, .cinstr dD .mMinusD .jnone,
        .atSym (compTrueLabel file line), .cinstr dNone .cd cmp,
        .atNum 0, .cinstr dD .ca .jnone,
        .atSym (compEndLabel file line), .cinstr dNone .zero .jmp,
        .labelDef (compTrueLabel file line),
        .atNum 1, .cinstr dD .negA .jnone,
        .labelDef (compEndLabel file line)]
    ++ push_d)

/-- `generate_eq` of `asm.rs` (`JEQ`). -/
def generate_eq (sc : SourceCommand) : Except String (List Instr) :=
  generate_comparison sc .jeq

/-- `generate_gt` of `asm.rs` (`JGT`). -/
def generate_gt (sc : SourceCommand) : Except String (List Instr) :=
  generate_comparison sc .jgt

/-- `generate_lt` of `asm.rs` (`JLT`). -/
def generate_lt (sc : SourceCommand) : Except String (List Instr) :=
  generate_comparison sc .jlt

/-- The dispatch of `generate_code_for_command` of `asm.rs` (its
`let code = match source_command.command() {...}`). -/
def generate_command_code (sc : SourceCommand) (scope : Option String) :
    Except String (List Instr) :=
  match sc.command with
    | .Add => generate_add
    | .And => generate_and
    | .Eq => generate_eq sc
    | .Gt => generate_gt sc
    | .Lt => generate_lt sc
    | .Neg => generate_neg
    | .Not => generate_not
    | .Or => generate_or
    | .Pop segment index => generate_pop sc segment index
    | .Push segment index => generate_push sc segment index
    | .Sub => generate_sub
    | .Goto label => generate_goto sc label scope
    | .IfGoto label => generate_if_goto sc label scope
    | .Label label => generate_label sc label scope
    | .Call name nargs => generate_call sc name nargs scope
    | .Function name nvars => generate_function name nvars
    | .Return => generate_return

/-- `generate_code_for_command` of `asm.rs`: dispatch on the command tag,
and on success prepend the echo comment. -/
def generate_code_for_command (sc : SourceCommand) (scope : Option String) :
    Except String (List Instr) :=
  match generate_command_code sc scope with
  | .ok code => .ok (Instr.comment (comment sc) :: code)
  | .error e => .error e

/-- `bootstrap` of `asm.rs`: machine initialization followed by a synthetic
call to `Sys.init` in scope "Bootstrap". -/
def bootstrap : List Instr :=
  [.atNum 256, .cinstr dD .ca .jnone, .atSym "SP", .cinstr dM .cd .jnone,
   .atSym "LCL", .cinstr dM .negOne .jnone,
   .atNum 2, .cinstr dD .negA .jnone, .atSym "ARG", .cinstr dM .cd .jnone,
   .atNum 3, .cinstr dD .negA .jnone, .atSym "THIS", .cinstr dM .cd .jnone,
   .atNum 4, .cinstr dD .negA .jnone, .atSym "THAT", .cinstr dM .cd .jnone]
  ++ okD (generate_call (SourceCommand.bootstrap (Command.Call "Bootstrap" 0))
       "Sys.init" 0 (some "Bootstrap"))

/-- Is this a `function Sys.init …` command?  (`asm.rs` sets
`should_bootstrap` when it sees one.) -/
def isSysInit (sc : SourceCommand) : Bool :=
  match sc.command with
  | .Function name _ => name == "Sys.init"
  | _ => false

/-- The name declared by a `Function` command, if any. -/
def functionName (sc : SourceCommand) : Option String :=
  match sc.command with
  | .Function name _ => some name
  | _ => none

/-- The loop body of `generate_code` of `asm.rs`: walk the commands left to
right, pushing the name of each `Function` command onto the scope stack
before generating its code, passing the innermost scope to the generator,
and remembering whether `Sys.init` was seen. -/
def generate_code_go (scope : List String) :
    List SourceCommand → Except String (Bool × List (List Instr))
  | [] => .ok (false, [])
  | sc :: rest =>
    let scope' := match functionName sc with
      | some name => scope ++ [name]
      | none => scope
    match generate_code_for_command sc scope'.getLast? with
    | .error e => .error e
    | .ok code =>
      match generate_code_go scope' rest with
      | .error e => .error e
      | .ok (flag, more) => .ok (isSysInit sc || flag, code :: more)

/-- `generate_code` of `asm.rs`: generate every command's block, and when a
`Sys.init` function was seen, insert the bootstrap block at position 0. -/
def generate_code (commands : List SourceCommand) :
    Except String (List (List Instr)) :=
  match generate_code_go [] commands with
  | .error e => .error e
  | .ok (should_bootstrap, instructions) =>
    .ok (if should_bootstrap then bootstrap :: instructions else instructions)

/-! ## `src/main.rs`: the driver -/

/-- `parse_sources` of `main.rs`: parse every (file-stem, contents) pair
and concatenate the per-file results. -/
def parse_sources (sources : List (String × String)) :
    List (Except String SourceCommand) :=
  sources.flatMap (fun p => parse_source p.1 p.2)

/-- `extract_and_report_errors` of `main.rs`.  First component: the error
messages printed (one per parse error, in order); second: the commands when
there was no error, or the summary error.  -/
def extract_and_report_errors (results : List (Except String SourceCommand)) :
    List String × Except String (List SourceCommand) :=
  let reported := results.filterMap (fun r =>
    match r with | .error e => some e | .ok _ => none)
  let parsed_commands := results.filterMap (fun r =>
    match r with | .ok c => some c | .error _ => none)
  if reported.length > 0 then
    (reported, .error ("Parse errors found: " ++ natStr reported.length))
  else
    (reported, .ok parsed_commands)

/-- The output-producing part of `main` of `main.rs`: parse all sources,
stop (writing nothing) if any parse error was reported, otherwise run
codegen and, on success, return the blocks that are written to the output
file.  `none` models "no output file written". -/
def main_result (sources : List (String × String)) : Option (List (List Instr)) :=
  match (extract_and_report_errors (parse_sources sources)).2 with
  | .error _ => none
  | .ok ast =>
    match generate_code ast with
    | .error _ => none
    | .ok asm => some asm

/-- Flattened program of a command sequence: the lines written to the
output file, in order (empty if code generation fails). -/
def programOf (cmds : List SourceCommand) : List Instr :=
  match generate_code cmds with
  | .ok blocks => blocks.flatten
  | .error _ => []

/-! ## Lemmas: single-step execution -/

theorem run_succ (env : String → Nat) (p : List Instr) (n : Nat) (st : Mach) :
    run env p (n + 1) st = run env p n (step env p st) := rfl

theorem run_zero (env : String → Nat) (p : List Instr) (st : Mach) :
    run env p 0 st = st := rfl

theorem step_at {env : String → Nat} {p : List Instr} {A D k : Nat}
    {R : Nat → Nat} {i : Instr} (hi : nth p k = some i) :
    step env p ⟨A, D, R, k⟩ = applyInstr env p i ⟨A, D, R, k⟩ := by
  simp only [step]
  rw [hi]

theorem applyInstr_atNum (env : String → Nat) (p : List Instr) (n A D k : Nat)
    (R : Nat → Nat) : applyInstr env p (.atNum n) ⟨A, D, R, k⟩ = ⟨w16 n, D, R, k + 1⟩ := rfl

theorem applyInstr_atSym (env : String → Nat) (p : List Instr) (A D k : Nat)
    (R : Nat → Nat) (s : String) :
    applyInstr env p (.atSym s) ⟨A, D, R, k⟩ = ⟨w16 (resolveSym p env s), D, R, k + 1⟩ := rfl

theorem applyInstr_label (env : String → Nat) (p : List Instr) (A D k : Nat)
    (R : Nat → Nat) (s : String) :
    applyInstr env p (.labelDef s) ⟨A, D, R, k⟩ = ⟨A, D, R, k + 1⟩ := rfl

theorem applyInstr_comment (env : String → Nat) (p : List Instr) (A D k : Nat)
    (R : Nat → Nat) (s : String) :
    applyInstr env p (.comment s) ⟨A, D, R, k⟩ = ⟨A, D, R, k + 1⟩ := rfl

theorem applyInstr_cA (env : String → Nat) (p : List Instr) (A D k : Nat)
    (R : Nat → Nat) (c : Comp) :
    applyInstr env p (.cinstr dA c .jnone) ⟨A, D, R, k⟩ =
      ⟨evalComp c A D (R A), D, R, k + 1⟩ := rfl

theorem applyInstr_cD (env : String → Nat) (p : List Instr) (A D k : Nat)
    (R : Nat → Nat) (c : Comp) :
    applyInstr env p (.cinstr dD c .jnone) ⟨A, D, R, k⟩ =
      ⟨A, evalComp c A D (R A), R, k + 1⟩ := rfl

theorem applyInstr_cM (env : String → Nat) (p : List Instr) (A D k : Nat)
    (R : Nat → Nat) (c : Comp) :
    applyInstr env p (.cinstr dM c .jnone) ⟨A, D, R, k⟩ =
      ⟨A, D, updateRam R A (evalComp c A D (R A)), k + 1⟩ := rfl

theorem applyInstr_cAM (env : String → Nat) (p : List Instr) (A D k : Nat)
    (R : Nat → Nat) (c : Comp) :
    applyInstr env p (.cinstr dAM c .jnone) ⟨A, D, R, k⟩ =
      ⟨evalComp c A D (R A), D, updateRam R A (evalComp c A D (R A)), k + 1⟩ := rfl

theorem applyInstr_jump (env : String → Nat) (p : List Instr) (A D k : Nat)
    (R : Nat → Nat) (c : Comp) (j : Jump) :
    applyInstr env p (.cinstr dNone c j) ⟨A, D, R, k⟩ =
      ⟨A, D, R, if jumpTaken j (toSigned (evalComp c A D (R A))) then A else k + 1⟩ := rfl

theorem updateRam_read (r : Nat → Nat) (x v y : Nat) :
    updateRam r x v y = if y = x then v else r y := rfl

/-! ## Claim C4: add and sub on pushed constants -/

/-- The command sequence `push constant a; push constant b; add`. -/
def c4AddCmds (a b : Nat) (f s0 s1 s2 : String) : List SourceCommand :=
  [⟨0, Command.Push Segment.Constant a, s0, f⟩,
   ⟨1, Command.Push Segment.Constant b, s1, f⟩,
   ⟨2, Command.Add, s2, f⟩]

/-- The command sequence `push constant a; push constant b; sub`. -/
def c4SubCmds (a b : Nat) (f s0 s1 s2 : String) : List SourceCommand :=
  [⟨0, Command.Push Segment.Constant a, s0, f⟩,
   ⟨1, Command.Push Segment.Constant b, s1, f⟩,
   ⟨2, Command.Sub, s2, f⟩]

set_option maxHeartbeats 1000000 in
/-- C4: for every pair of pushed constants (a, b) with a pushed first, the
code generated for `push constant a; push constant b; add` leaves a single
stack value equal to a+b in 16-bit machine arithmetic (stack pointer back
at 257 = one slot above the empty-stack base 256), and the code generated
for `sub` leaves a−b, left-minus-right, as a 16-bit two's-complement word. -/
theorem c4_add_sub_semantics (f s0 s1 s2 : String) (a b a0 d0 : Nat) (env : String → Nat)
    (ram0 : Nat → Nat) (ha : a < 65536) (hb : b < 65536) (hsp : ram0 0 = 256) :
    ((run env (programOf (c4AddCmds a b f s0 s1 s2)) 28 ⟨a0, d0, ram0, 0⟩).ram 256
        = (a + b) % 65536
     ∧ (run env (programOf (c4AddCmds a b f s0 s1 s2)) 28 ⟨a0, d0, ram0, 0⟩).ram 0 = 257)
    ∧ ((run env (programOf (c4SubCmds a b f s0 s1 s2)) 28 ⟨a0, d0, ram0, 0⟩).ram 256 : Int)
        = ((a : Int) - (b : Int)) % 65536
    ∧ (run env (programOf (c4SubCmds a b f s0 s1 s2)) 28 ⟨a0, d0, ram0, 0⟩).ram 0 = 257 := by
  have ca_e0 : nth (programOf (c4AddCmds a b f s0 s1 s2)) 0 = some (.comment (comment ⟨0, Command.Push Segment.Constant a, s0, f⟩)) := rfl
  have ca_s0 : step env (programOf (c4AddCmds a b f s0 s1 s2)) ⟨a0, d0, ram0, 0⟩ = ⟨a0, d0, ram0, 1⟩ := by
    rw [step_at ca_e0, applyInstr_comment]
    all_goals simp only [evalComp, w16, updateRam_read, jumpTaken, Mach.mk.injEq, reduceIte, Nat.reduceAdd, Nat.reduceMod, Nat.reduceSub, Nat.reduceEqDiff, and_true, true_and, and_self]
  have ca_e1 : nth (programOf (c4AddCmds a b f s0 s1 s2)) 1 = some (.atNum (a)) := rfl
  have ca_s1 : step env (programOf (c4AddCmds a b f s0 s1 s2)) ⟨a0, d0, ram0, 1⟩ = ⟨a, d0, ram0, 2⟩ := by
    rw [step_at ca_e1, applyInstr_atNum]
    all_goals simp only [evalComp, w16, updateRam_read, jumpTaken, Mach.mk.injEq, reduceIte, Nat.reduceAdd, Nat.reduceMod, Nat.reduceSub, Nat.reduceEqDiff, and_true, true_and, and_self, Nat.mod_eq_of_lt ha]
  have ca_e2 : nth (programOf (c4AddCmds a b f s0 s1 s2)) 2 = some (.cinstr dD .ca .jnone) := rfl
  have ca_s2 : step env (programOf (c4AddCmds a b f s0 s1 s2)) ⟨a, d0, ram0, 2⟩ = ⟨a, a, ram0, 3⟩ := by
    rw [step_at ca_e2, applyInstr_cD]
    all_goals simp only [evalComp, w16, updateRam_read, jumpTaken, Mach.mk.injEq, reduceIte, Nat.reduceAdd, Nat.reduceMod, Nat.reduceSub, Nat.reduceEqDiff, and_true, true_and, and_self, Nat.mod_eq_of_lt ha]
  have ca_e3 : nth (programOf (c4AddCmds a b f s0 s1 s2)) 3 = some (.atSym "SP") := rfl
  have ca_r0 : resolveSym (programOf (c4AddCmds a b f s0 s1 s2)) env ("SP") = 0 := rfl
  have ca_s3 : step env (programOf (c4AddCmds a b f s0 s1 s2)) ⟨a, a, ram0, 3⟩ = ⟨0, a, ram0, 4⟩ := by
    rw [step_at ca_e3, applyInstr_atSym]
    all_goals simp only [evalComp, w16, updateRam_read, jumpTaken, Mach.mk.injEq, reduceIte, Nat.reduceAdd, Nat.reduceMod, Nat.reduceSub, Nat.reduceEqDiff, and_true, true_and, and_self, ca_r0]
  have ca_e4 : nth (programOf (c4AddCmds a b f s0 s1 s2)) 4 = some (.cinstr dA .cm .jnone) := rfl
  have ca_s4 : step env (programOf (c4AddCmds a b f s0 s1 s2)) ⟨0, a, ram0, 4⟩ = ⟨256, a, ram0, 5⟩ := by
    rw [step_at ca_e4, applyInstr_cA]
    all_goals simp only [evalComp, w16, updateRam_read, jumpTaken, Mach.mk.injEq, reduceIte, Nat.reduceAdd, Nat.reduceMod, Nat.reduceSub, Nat.reduceEqDiff, and_true, true_and, and_self, hsp]
  have ca_e5 : nth (programOf (c4AddCmds a b f s0 s1 s2)) 5 = some (.cinstr dM .cd .jnone) := rfl
  have ca_s5 : step env (programOf (c4AddCmds a b f s0 s1 s2)) ⟨256, a, ram0, 5⟩ = ⟨256, a, updateRam (ram0) (256) (a), 6⟩ := by
    rw [step_at ca_e5, applyInstr_cM]
    all_goals simp only [evalComp, w16, updateRam_read, jumpTaken, Mach.mk.injEq, reduceIte, Nat.reduceAdd, Nat.reduceMod, Nat.reduceSub, Nat.reduceEqDiff, and_true, true_and, and_self, Nat.mod_eq_of_lt ha]
  have ca_e6 : nth (programOf (c4AddCmds a b f s0 s1 s2)) 6 = some (.atSym "SP") := rfl
  have ca_s6 : step env (programOf (c4AddCmds a b f s0 s1 s2)) ⟨256, a, updateRam (ram0) (256) (a), 6⟩ = ⟨0, a, updateRam (ram0) (256) (a), 7⟩ := by
    rw [step_at ca_e6, applyInstr_atSym]
    all_goals simp only [evalComp, w16, updateRam_read, jumpTaken, Mach.mk.injEq, reduceIte, Nat.reduceAdd, Nat.reduceMod, Nat.reduceSub, Nat.reduceEqDiff, and_true, true_and, and_self, ca_r0]
  have ca_e7 : nth (programOf (c4AddCmds a b f s0 s1 s2)) 7 = some (.cinstr dM .mPlus1 .jnone) := rfl
  have ca_s7 : step env (programOf (c4AddCmds a b f s0 s1 s2)) ⟨0, a, updateRam (ram0) (256) (a), 7⟩ = ⟨0, a, updateRam (updateRam (ram0) (256) (a)) (0) (257), 8⟩ := by
    rw [step_at ca_e7, applyInstr_cM]
    all_goals simp only [evalComp, w16, updateRam_read, jumpTaken, Mach.mk.injEq, reduceIte, Nat.reduceAdd, Nat.reduceMod, Nat.reduceSub, Nat.reduceEqDiff, and_true, true_and, and_self, hsp]
  have ca_e8 : nth (programOf (c4AddCmds a b f s0 s1 s2)) 8 = some (.comment (comment ⟨1, Command.Push Segment.Constant b, s1, f⟩)) := rfl
  have ca_s8 : step env (programOf (c4AddCmds a b f s0 s1 s2)) ⟨0, a, updateRam (updateRam (ram0) (256) (a)) (0) (257), 8⟩ = ⟨0, a, updateRam (updateRam (ram0) (256) (a)) (0) (257), 9⟩ := by
    rw [step_at ca_e8, applyInstr_comment]
    all_goals simp only [evalComp, w16, updateRam_read, jumpTaken, Mach.mk.injEq, reduceIte, Nat.reduceAdd, Nat.reduceMod, Nat.reduceSub, Nat.reduceEqDiff, and_true, true_and, and_self]
  have ca_e9 : nth (programOf (c4AddCmds a b f s0 s1 s2)) 9 = some (.atNum (b)) := rfl
  have ca_s9 : step env (programOf (c4AddCmds a b f s0 s1 s2)) ⟨0, a, updateRam (updateRam (ram0) (256) (a)) (0) (257), 9⟩ = ⟨b, a, updateRam (updateRam (ram0) (256) (a)) (0) (257), 10⟩ := by
    rw [step_at ca_e9, applyInstr_atNum]
    all_goals simp only [evalComp, w16, updateRam_read, jumpTaken, Mach.mk.injEq, reduceIte, Nat.reduceAdd, Nat.reduceMod, Nat.reduceSub, Nat.reduceEqDiff, and_true, true_and, and_self, Nat.mod_eq_of_lt hb]
  have ca_e10 : nth (programOf (c4AddCmds a b f s0 s1 s2)) 10 = some (.cinstr dD .ca .jnone) := rfl
  have ca_s10 : step env (programOf (c4AddCmds a b f s0 s1 s2)) ⟨b, a, updateRam (updateRam (ram0) (256) (a)) (0) (257), 10⟩ = ⟨b, b, updateRam (updateRam (ram0) (256) (a)) (0) (257), 11⟩ := by
    rw [step_at ca_e10, applyInstr_cD]
    all_goals simp only [evalComp, w16, updateRam_read, jumpTaken, Mach.mk.injEq, reduceIte, Nat.reduceAdd, Nat.reduceMod, Nat.reduceSub, Nat.reduceEqDiff, and_true, true_and, and_self, Nat.mod_eq_of_lt hb]
  have ca_e11 : nth (programOf (c4AddCmds a b f s0 s1 s2)) 11 = some (.atSym "SP") := rfl
  have ca_s11 : step env (programOf (c4AddCmds a b f s0 s1 s2)) ⟨b, b, updateRam (updateRam (ram0) (256) (a)) (0) (257), 11⟩ = ⟨0, b, updateRam (updateRam (ram0) (256) (a)) (0) (257), 12⟩ := by
    rw [step_at ca_e11, applyInstr_atSym]
    all_goals simp only [evalComp, w16, updateRam_read, jumpTaken, Mach.mk.injEq, reduceIte, Nat.reduceAdd, Nat.reduceMod, Nat.reduceSub, Nat.reduceEqDiff, and_true, true_and, and_self, ca_r0]
  have ca_e12 : nth (programOf (c4AddCmds a b f s0 s1 s2)) 12 = some (.cinstr dA .cm .jnone) := rfl
  have ca_s12 : step env (programOf (c4AddCmds a b f s0 s1 s2)) ⟨0, b, updateRam (updateRam (ram0) (256) (a)) (0) (257), 12⟩ = ⟨257, b, updateRam (updateRam (ram0) (256) (a)) (0) (257), 13⟩ := by
    rw [step_at ca_e12, applyInstr_cA]
    all_goals simp only [evalComp, w16, updateRam_read, jumpTaken, Mach.mk.injEq, reduceIte, Nat.reduceAdd, Nat.reduceMod, Nat.reduceSub, Nat.reduceEqDiff, and_true, true_and, and_self]
  have ca_e13 : nth (programOf (c4AddCmds a b f s0 s1 s2)) 13 = some (.cinstr dM .cd .jnone) := rfl
  have ca_s13 : step env (programOf (c4AddCmds a b f s0 s1 s2)) ⟨257, b, updateRam (updateRam (ram0) (256) (a)) (0) (257), 13⟩ = ⟨257, b, updateRam (updateRam (updateRam (ram0) (256) (a)) (0) (257)) (257) (b), 14⟩ := by
    rw [step_at ca_e13, applyInstr_cM]
    all_goals simp only [evalComp, w16, updateRam_read, jumpTaken, Mach.mk.injEq, reduceIte, Nat.reduceAdd, Nat.reduceMod, Nat.reduceSub, Nat.reduceEqDiff, and_true, true_and, and_self, Nat.mod_eq_of_lt hb]
  have ca_e14 : nth (programOf (c4AddCmds a b f s0 s1 s2)) 14 = some (.atSym "SP") := rfl
  have ca_s14 : step env (programOf (c4AddCmds a b f s0 s1 s2)) ⟨257, b, updateRam (updateRam (updateRam (ram0) (256) (a)) (0) (257)) (257) (b), 14⟩ = ⟨0, b, updateRam (updateRam (updateRam (ram0) (256) (a)) (0) (257)) (257) (b), 15⟩ := by
    rw [step_at ca_e14, applyInstr_atSym]
    all_goals simp only [evalComp, w16, updateRam_read, jumpTaken, Mach.mk.injEq, reduceIte, Nat.reduceAdd, Nat.reduceMod, Nat.reduceSub, Nat.reduceEqDiff, and_true, true_and, and_self, ca_r0]
  have ca_e15 : nth (programOf (c4AddCmds a b f s0 s1 s2)) 15 = some (.cinstr dM .mPlus1 .jnone) := rfl
  have ca_s15 : step env (programOf (c4AddCmds a b f s0 s1 s2)) ⟨0, b, updateRam (updateRam (updateRam (ram0) (256) (a)) (0) (257)) (257) (b), 15⟩ = ⟨0, b, updateRam (updateRam (updateRam (updateRam (ram0) (256) (a)) (0) (257)) (257) (b)) (0) (258), 16⟩ := by
    rw [step_at ca_e15, applyInstr_cM]
    all_goals simp only [evalComp, w16, updateRam_read, jumpTaken, Mach.mk.injEq, reduceIte, Nat.reduceAdd, Nat.reduceMod, Nat.reduceSub, Nat.reduceEqDiff, and_true, true_and, and_self]
  have ca_e16 : nth (programOf (c4AddCmds a b f s0 s1 s2)) 16 = some (.comment (comment ⟨2, Command.Add, s2, f⟩)) := rfl
  have ca_s16 : step env (programOf (c4AddCmds a b f s0 s1 s2)) ⟨0, b, updateRam (updateRam (updateRam (updateRam (ram0) (256) (a)) (0) (257)) (257) (b)) (0) (258), 16⟩ = ⟨0, b, updateRam (updateRam (updateRam (updateRam (ram0) (256) (a)) (0) (257)) (257) (b)) (0) (258), 17⟩ := by
    rw [step_at ca_e16, applyInstr_comment]
    all_goals simp only [evalComp, w16, updateRam_read, jumpTaken, Mach.mk.injEq, reduceIte, Nat.reduceAdd, Nat.reduceMod, Nat.reduceSub, Nat.reduceEqDiff, and_true, true_and, and_self]
  have ca_e17 : nth (programOf (c4AddCmds a b f s0 s1 s2)) 17 = some (.atSym "SP") := rfl
  have ca_s17 : step env (programOf (c4AddCmds a b f s0 s1 s2)) ⟨0, b, updateRam (updateRam (updateRam (updateRam (ram0) (256) (a)) (0) (257)) (257) (b)) (0) (258), 17⟩ = ⟨0, b, updateRam (updateRam (updateRam (updateRam (ram0) (256) (a)) (0) (257)) (257) (b)) (0) (258), 18⟩ := by
    rw [step_at ca_e17, applyInstr_atSym]
    all_goals simp only [evalComp, w16, updateRam_read, jumpTaken, Mach.mk.injEq, reduceIte, Nat.reduceAdd, Nat.reduceMod, Nat.reduceSub, Nat.reduceEqDiff, and_true, true_and, and_self, ca_r0]
  have ca_e18 : nth (programOf (c4AddCmds a b f s0 s1 s2)) 18 = some (.cinstr dAM .mMinus1 .jnone) := rfl
  have ca_s18 : step env (programOf (c4AddCmds a b f s0 s1 s2)) ⟨0, b, updateRam (updateRam (updateRam (updateRam (ram0) (256) (a)) (0) (257)) (257) (b)) (0) (258), 18⟩ = ⟨257, b, updateRam (updateRam (updateRam (updateRam (updateRam (ram0) (256) (a)) (0) (257)) (257) (b)) (0) (258)) (0) (257), 19⟩ := by
    rw [step_at ca_e18, applyInstr_cAM]
    all_goals simp only [evalComp, w16, updateRam_read, jumpTaken, Mach.mk.injEq, reduceIte, Nat.reduceAdd, Nat.reduceMod, Nat.reduceSub, Nat.reduceEqDiff, and_true, true_and, and_self]
  have ca_e19 : nth (programOf (c4AddCmds a b f s0 s1 s2)) 19 = some (.cinstr dD .cm .jnone) := rfl
  have ca_s19 : step env (programOf (c4AddCmds a b f s0 s1 s2)) ⟨257, b, updateRam (updateRam (updateRam (updateRam (updateRam (ram0) (256) (a)) (0) (257)) (257) (b)) (0) (258)) (0) (257), 19⟩ = ⟨257, b, updateRam (updateRam (updateRam (updateRam (updateRam (ram0) (256) (a)) (0) (257)) (257) (b)) (0) (258)) (0) (257), 20⟩ := by
    rw [step_at ca_e19, applyInstr_cD]
    all_goals simp only [evalComp, w16, updateRam_read, jumpTaken, Mach.mk.injEq, reduceIte, Nat.reduceAdd, Nat.reduceMod, Nat.reduceSub, Nat.reduceEqDiff, and_true, true_and, and_self, Nat.mod_eq_of_lt hb]
  have ca_e20 : nth (programOf (c4AddCmds a b f s0 s1 s2)) 20 = some (.atSym "SP") := rfl
  have ca_s20 : step env (programOf (c4AddCmds a b f s0 s1 s2)) ⟨257, b, updateRam (updateRam (updateRam (updateRam (updateRam (ram0) (256) (a)) (0) (257)) (257) (b)) (0) (258)) (0) (257), 20⟩ = ⟨0, b, updateRam (updateRam (updateRam (updateRam (updateRam (ram0) (256) (a)) (0) (257)) (257) (b)) (0) (258)) (0) (257), 21⟩ := by
    rw [step_at ca_e20, applyInstr_atSym]
    all_goals simp only [evalComp, w16, updateRam_read, jumpTaken, Mach.mk.injEq, reduceIte, Nat.reduceAdd, Nat.reduceMod, Nat.reduceSub, Nat.reduceEqDiff, and_true, true_and, and_self, ca_r0]
  have ca_e21 : nth (programOf (c4AddCmds a b f s0 s1 s2)) 21 = some (.cinstr dAM .mMinus1 .jnone) := rfl
  have ca_s21 : step env (programOf (c4AddCmds a b f s0 s1 s2)) ⟨0, b, updateRam (updateRam (updateRam (updateRam (updateRam (ram0) (256) (a)) (0) (257)) (257) (b)) (0) (258)) (0) (257), 21⟩ = ⟨256, b, updateRam (updateRam (updateRam (updateRam (updateRam (updateRam (ram0) (256) (a)) (0) (257)) (257) (b)) (0) (258)) (0) (257)) (0) (256), 22⟩ := by
    rw [step_at ca_e21, applyInstr_cAM]
    all_goals simp only [evalComp, w16, updateRam_read, jumpTaken, Mach.mk.injEq, reduceIte, Nat.reduceAdd, Nat.reduceMod, Nat.reduceSub, Nat.reduceEqDiff, and_true, true_and, and_self]
  have ca_e22 : nth (programOf (c4AddCmds a b f s0 s1 s2)) 22 = some (.cinstr dD .dPlusM .jnone) := rfl
  have ca_s22 : step env (programOf (c4AddCmds a b f s0 s1 s2)) ⟨256, b, updateRam (updateRam (updateRam (updateRam (updateRam (updateRam (ram0) (256) (a)) (0) (257)) (257) (b)) (0) (258)) (0) (257)) (0) (256), 22⟩ = ⟨256, (b + a) % 65536, updateRam (updateRam (updateRam (updateRam (updateRam (updateRam (ram0) (256) (a)) (0) (257)) (257) (b)) (0) (258)) (0) (257)) (0) (256), 23⟩ := by
    rw [step_at ca_e22, applyInstr_cD]
    all_goals simp only [evalComp, w16, updateRam_read, jumpTaken, Mach.mk.injEq, reduceIte, Nat.reduceAdd, Nat.reduceMod, Nat.reduceSub, Nat.reduceEqDiff, and_true, true_and, and_self, Nat.mod_eq_of_lt hb, Nat.mod_eq_of_lt ha]
  have ca_e23 : nth (programOf (c4AddCmds a b f s0 s1 s2)) 23 = some (.atSym "SP") := rfl
  have ca_s23 : step env (programOf (c4AddCmds a b f s0 s1 s2)) ⟨256, (b + a) % 65536, updateRam (updateRam (updateRam (updateRam (updateRam (updateRam (ram0) (256) (a)) (0) (257)) (257) (b)) (0) (258)) (0) (257)) (0) (256), 23⟩ = ⟨0, (b + a) % 65536, updateRam (updateRam (updateRam (updateRam (updateRam (updateRam (ram0) (256) (a)) (0) (257)) (257) (b)) (0) (258)) (0) (257)) (0) (256), 24⟩ := by
    rw [step_at ca_e23, applyInstr_atSym]
    all_goals simp only [evalComp, w16, updateRam_read, jumpTaken, Mach.mk.injEq, reduceIte, Nat.reduceAdd, Nat.reduceMod, Nat.reduceSub, Nat.reduceEqDiff, and_true, true_and, and_self, ca_r0]
  have ca_e24 : nth (programOf (c4AddCmds a b f s0 s1 s2)) 24 = some (.cinstr dA .cm .jnone) := rfl
  have ca_s24 : step env (programOf (c4AddCmds a b f s0 s1 s2)) ⟨0, (b + a) % 65536, updateRam (updateRam (updateRam (updateRam (updateRam (updateRam (ram0) (256) (a)) (0) (257)) (257) (b)) (0) (258)) (0) (257)) (0) (256), 24⟩ = ⟨256, (b + a) % 65536, updateRam (updateRam (updateRam (updateRam (updateRam (updateRam (ram0) (256) (a)) (0) (257)) (257) (b)) (0) (258)) (0) (257)) (0) (256), 25⟩ := by
    rw [step_at ca_e24, applyInstr_cA]
    all_goals simp only [evalComp, w16, updateRam_read, jumpTaken, Mach.mk.injEq, reduceIte, Nat.reduceAdd, Nat.reduceMod, Nat.reduceSub, Nat.reduceEqDiff, and_true, true_and, and_self]
  have ca_e25 : nth (programOf (c4AddCmds a b f s0 s1 s2)) 25 = some (.cinstr dM .cd .jnone) := rfl
  have ca_s25 : step env (programOf (c4AddCmds a b f s0 s1 s2)) ⟨256, (b + a) % 65536, updateRam (updateRam (updateRam (updateRam (updateRam (updateRam (ram0) (256) (a)) (0) (257)) (257) (b)) (0) (258)) (0) (257)) (0) (256), 25⟩ = ⟨256, (b + a) % 65536, updateRam (updateRam (updateRam (updateRam (updateRam (updateRam (updateRam (ram0) (256) (a)) (0) (257)) (257) (b)) (0) (258)) (0) (257)) (0) (256)) (256) (((b + a) % 65536) % 65536), 26⟩ := by
    rw [step_at ca_e25, applyInstr_cM]
    all_goals simp only [evalComp, w16, updateRam_read, jumpTaken, Mach.mk.injEq, reduceIte, Nat.reduceAdd, Nat.reduceMod, Nat.reduceSub, Nat.reduceEqDiff, and_true, true_and, and_self]
  have ca_e26 : nth (programOf (c4AddCmds a b f s0 s1 s2)) 26 = some (.atSym "SP") := rfl
  have ca_s26 : step env (programOf (c4AddCmds a b f s0 s1 s2)) ⟨256, (b + a) % 65536, updateRam (updateRam (updateRam (updateRam (updateRam (updateRam (updateRam (ram0) (256) (a)) (0) (257)) (257) (b)) (0) (258)) (0) (257)) (0) (256)) (256) (((b + a) % 65536) % 65536), 26⟩ = ⟨0, (b + a) % 65536, updateRam (updateRam (updateRam (updateRam (updateRam (updateRam (updateRam (ram0) (256) (a)) (0) (257)) (257) (b)) (0) (258)) (0) (257)) (0) (256)) (256) (((b + a) % 65536) % 65536), 27⟩ := by
    rw [step_at ca_e26, applyInstr_atSym]
    all_goals simp only [evalComp, w16, updateRam_read, jumpTaken, Mach.mk.injEq, reduceIte, Nat.reduceAdd, Nat.reduceMod, Nat.reduceSub, Nat.reduceEqDiff, and_true, true_and, and_self, ca_r0]
  have ca_e27 : nth (programOf (c4AddCmds a b f s0 s1 s2)) 27 = some (.cinstr dM .mPlus1 .jnone) := rfl
  have ca_s27 : step env (programOf (c4AddCmds a b f s0 s1 s2)) ⟨0, (b + a) % 65536, updateRam (updateRam (updateRam (updateRam (updateRam (updateRam (updateRam (ram0) (256) (a)) (0) (257)) (257) (b)) (0) (258)) (0) (257)) (0) (256)) (256) (((b + a) % 65536) % 65536), 27⟩ = ⟨0, (b + a) % 65536, updateRam (updateRam (updateRam (updateRam (updateRam (updateRam (updateRam (updateRam (ram0) (256) (a)) (0) (257)) (257) (b)) (0) (258)) (0) (257)) (0) (256)) (256) (((b + a) % 65536) % 65536)) (0) (257), 28⟩ := by
    rw [step_at ca_e27, applyInstr_cM]
    all_goals simp only [evalComp, w16, updateRam_read, jumpTaken, Mach.mk.injEq, reduceIte, Nat.reduceAdd, Nat.reduceMod, Nat.reduceSub, Nat.reduceEqDiff, and_true, true_and, and_self]
  have ca_run : run env (programOf (c4AddCmds a b f s0 s1 s2)) 28 ⟨a0, d0, ram0, 0⟩ = ⟨0, (b + a) % 65536, updateRam (updateRam (updateRam (updateRam (updateRam (updateRam (updateRam (updateRam (ram0) (256) (a)) (0) (257)) (257) (b)) (0) (258)) (0) (257)) (0) (256)) (256) (((b + a) % 65536) % 65536)) (0) (257), 28⟩ :=
    calc run env (programOf (c4AddCmds a b f s0 s1 s2)) 28 ⟨a0, d0, ram0, 0⟩
      _ = run env (programOf (c4AddCmds a b f s0 s1 s2)) 27 ⟨a0, d0, ram0, 1⟩ := (run_succ env (programOf (c4AddCmds a b f s0 s1 s2)) 27 ⟨a0, d0, ram0, 0⟩).trans (congrArg (run env (programOf (c4AddCmds a b f s0 s1 s2)) 27) ca_s0)
      _ = run env (programOf (c4AddCmds a b f s0 s1 s2)) 26 ⟨a, d0, ram0, 2⟩ := (run_succ env (programOf (c4AddCmds a b f s0 s1 s2)) 26 ⟨a0, d0, ram0, 1⟩).trans (congrArg (run env (programOf (c4AddCmds a b f s0 s1 s2)) 26) ca_s1)
      _ = run env (programOf (c4AddCmds a b f s0 s1 s2)) 25 ⟨a, a, ram0, 3⟩ := (run_succ env (programOf (c4AddCmds a b f s0 s1 s2)) 25 ⟨a, d0, ram0, 2⟩).trans (congrArg (run env (programOf (c4AddCmds a b f s0 s1 s2)) 25) ca_s2)
      _ = run env (programOf (c4AddCmds a b f s0 s1 s2)) 24 ⟨0, a, ram0, 4⟩ := (run_succ env (programOf (c4AddCmds a b f s0 s1 s2)) 24 ⟨a, a, ram0, 3⟩).trans (congrArg (run env (programOf (c4AddCmds a b f s0 s1 s2)) 24) ca_s3)
      _ = run env (programOf (c4AddCmds a b f s0 s1 s2)) 23 ⟨256, a, ram0, 5⟩ := (run_succ env (programOf (c4AddCmds a b f s0 s1 s2)) 23 ⟨0, a, ram0, 4⟩).trans (congrArg (run env (programOf (c4AddCmds a b f s0 s1 s2)) 23) ca_s4)
      _ = run env (programOf (c4AddCmds a b f s0 s1 s2)) 22 ⟨256, a, updateRam (ram0) (256) (a), 6⟩ := (run_succ env (programOf (c4AddCmds a b f s0 s1 s2)) 22 ⟨256, a, ram0, 5⟩).trans (congrArg (run env (programOf (c4AddCmds a b f s0 s1 s2)) 22) ca_s5)
      _ = run env (programOf (c4AddCmds a b f s0 s1 s2)) 21 ⟨0, a, updateRam (ram0) (256) (a), 7⟩ := (run_succ env (programOf (c4AddCmds a b f s0 s1 s2)) 21 ⟨256, a, updateRam (ram0) (256) (a), 6⟩).trans (congrArg (run env (programOf (c4AddCmds a b f s0 s1 s2)) 21) ca_s6)
      _ = run env (programOf (c4AddCmds a b f s0 s1 s2)) 20 ⟨0, a, updateRam (updateRam (ram0) (256) (a)) (0) (257), 8⟩ := (run_succ env (programOf (c4AddCmds a b f s0 s1 s2)) 20 ⟨0, a, updateRam (ram0) (256) (a), 7⟩).trans (congrArg (run env (programOf (c4AddCmds a b f s0 s1 s2)) 20) ca_s7)
      _ = run env (programOf (c4AddCmds a b f s0 s1 s2)) 19 ⟨0, a, updateRam (updateRam (ram0) (256) (a)) (0) (257), 9⟩ := (run_succ env (programOf (c4AddCmds a b f s0 s1 s2)) 19 ⟨0, a, updateRam (updateRam (ram0) (256) (a)) (0) (257), 8⟩).trans (congrArg (run env (programOf (c4AddCmds a b f s0 s1 s2)) 19) ca_s8)
      _ = run env (programOf (c4AddCmds a b f s0 s1 s2)) 18 ⟨b, a, updateRam (updateRam (ram0) (256) (a)) (0) (257), 10⟩ := (run_succ env (programOf (c4AddCmds a b f s0 s1 s2)) 18 ⟨0, a, updateRam (updateRam (ram0) (256) (a)) (0) (257), 9⟩).trans (congrArg (run env (programOf (c4AddCmds a b f s0 s1 s2)) 18) ca_s9)
      _ = run env (programOf (c4AddCmds a b f s0 s1 s2)) 17 ⟨b, b, updateRam (updateRam (ram0) (256) (a)) (0) (257), 11⟩ := (run_succ env (programOf (c4AddCmds a b f s0 s1 s2)) 17 ⟨b, a, updateRam (updateRam (ram0) (256) (a)) (0) (257), 10⟩).trans (congrArg (run env (programOf (c4AddCmds a b f s0 s1 s2)) 17) ca_s10)
      _ = run env (programOf (c4AddCmds a b f s0 s1 s2)) 16 ⟨0, b, updateRam (updateRam (ram0) (256) (a)) (0) (257), 12⟩ := (run_succ env (programOf (c4AddCmds a b f s0 s1 s2)) 16 ⟨b, b, updateRam (updateRam (ram0) (256) (a)) (0) (257), 11⟩).trans (congrArg (run env (programOf (c4AddCmds a b f s0 s1 s2)) 16) ca_s11)
      _ = run env (programOf (c4AddCmds a b f s0 s1 s2)) 15 ⟨257, b, updateRam (updateRam (ram0) (256) (a)) (0) (257), 13⟩ := (run_succ env (programOf (c4AddCmds a b f s0 s1 s2)) 15 ⟨0, b, updateRam (updateRam (ram0) (256) (a)) (0) (257), 12⟩).trans (congrArg (run env (programOf (c4AddCmds a b f s0 s1 s2)) 15) ca_s12)
      _ = run env (programOf (c4AddCmds a b f s0 s1 s2)) 14 ⟨257, b, updateRam (updateRam (updateRam (ram0) (256) (a)) (0) (257)) (257) (b), 14⟩ := (run_succ env (programOf (c4AddCmds a b f s0 s1 s2)) 14 ⟨257, b, updateRam (updateRam (ram0) (256) (a)) (0) (257), 13⟩).trans (congrArg (run env (programOf (c4AddCmds a b f s0 s1 s2)) 14) ca_s13)
      _ = run env (programOf (c4AddCmds a b f s0 s1 s2)) 13 ⟨0, b, updateRam (updateRam (updateRam (ram0) (256) (a)) (0) (257)) (257) (b), 15⟩ := (run_succ env (programOf (c4AddCmds a b f s0 s1 s2)) 13 ⟨257, b, updateRam (updateRam (updateRam (ram0) (256) (a)) (0) (257)) (257) (b), 14⟩).trans (congrArg (run env (programOf (c4AddCmds a b f s0 s1 s2)) 13) ca_s14)
      _ = run env (programOf (c4AddCmds a b f s0 s1 s2)) 12 ⟨0, b, updateRam (updateRam (updateRam (updateRam (ram0) (256) (a)) (0) (257)) (257) (b)) (0) (258), 16⟩ := (run_succ env (programOf (c4AddCmds a b f s0 s1 s2)) 12 ⟨0, b, updateRam (updateRam (updateRam (ram0) (256) (a)) (0) (257)) (257) (b), 15⟩).trans (congrArg (run env (programOf (c4AddCmds a b f s0 s1 s2)) 12) ca_s15)
      _ = run env (programOf (c4AddCmds a b f s0 s1 s2)) 11 ⟨0, b, updateRam (updateRam (updateRam (updateRam (ram0) (256) (a)) (0) (257)) (257) (b)) (0) (258), 17⟩ := (run_succ env (programOf (c4AddCmds a b f s0 s1 s2)) 11 ⟨0, b, updateRam (updateRam (updateRam (updateRam (ram0) (256) (a)) (0) (257)) (257) (b)) (0) (258), 16⟩).trans (congrArg (run env (programOf (c4AddCmds a b f s0 s1 s2)) 11) ca_s16)
      _ = run env (programOf (c4AddCmds a b f s0 s1 s2)) 10 ⟨0, b, updateRam (updateRam (updateRam (updateRam (ram0) (256) (a)) (0) (257)) (257) (b)) (0) (258), 18⟩ := (run_succ env (programOf (c4AddCmds a b f s0 s1 s2)) 10 ⟨0, b, updateRam (updateRam (updateRam (updateRam (ram0) (256) (a)) (0) (257)) (257) (b)) (0) (258), 17⟩).trans (congrArg (run env (programOf (c4AddCmds a b f s0 s1 s2)) 10) ca_s17)
      _ = run env (programOf (c4AddCmds a b f s0 s1 s2)) 9 ⟨257, b, updateRam (updateRam (updateRam (updateRam (updateRam (ram0) (256) (a)) (0) (257)) (257) (b)) (0) (258)) (0) (257), 19⟩ := (run_succ env (programOf (c4AddCmds a b f s0 s1 s2)) 9 ⟨0, b, updateRam (updateRam (updateRam (updateRam (ram0) (256) (a)) (0) (257)) (257) (b)) (0) (258), 18⟩).trans (congrArg (run env (programOf (c4AddCmds a b f s0 s1 s2)) 9) ca_s18)
      _ = run env (programOf (c4AddCmds a b f s0 s1 s2)) 8 ⟨257, b, updateRam (updateRam (updateRam (updateRam (updateRam (ram0) (256) (a)) (0) (257)) (257) (b)) (0) (258)) (0) (257), 20⟩ := (run_succ env (programOf (c4AddCmds a b f s0 s1 s2)) 8 ⟨257, b, updateRam (updateRam (updateRam (updateRam (updateRam (ram0) (256) (a)) (0) (257)) (257) (b)) (0) (258)) (0) (257), 19⟩).trans (congrArg (run env (programOf (c4AddCmds a b f s0 s1 s2)) 8) ca_s19)
      _ = run env (programOf (c4AddCmds a b f s0 s1 s2)) 7 ⟨0, b, updateRam (updateRam (updateRam (updateRam (updateRam (ram0) (256) (a)) (0) (257)) (257) (b)) (0) (258)) (0) (257), 21⟩ := (run_succ env (programOf (c4AddCmds a b f s0 s1 s2)) 7 ⟨257, b, updateRam (updateRam (updateRam (updateRam (updateRam (ram0) (256) (a)) (0) (257)) (257) (b)) (0) (258)) (0) (257), 20⟩).trans (congrArg (run env (programOf (c4AddCmds a b f s0 s1 s2)) 7) ca_s20)
      _ = run env (programOf (c4AddCmds a b f s0 s1 s2)) 6 ⟨256, b, updateRam (updateRam (updateRam (updateRam (updateRam (updateRam (ram0) (256) (a)) (0) (257)) (257) (b)) (0) (258)) (0) (257)) (0) (256), 22⟩ := (run_succ env (programOf (c4AddCmds a b f s0 s1 s2)) 6 ⟨0, b, updateRam (updateRam (updateRam (updateRam (updateRam (ram0) (256) (a)) (0) (257)) (257) (b)) (0) (258)) (0) (257), 21⟩).trans (congrArg (run env (programOf (c4AddCmds a b f s0 s1 s2)) 6) ca_s21)
      _ = run env (programOf (c4AddCmds a b f s0 s1 s2)) 5 ⟨256, (b + a) % 65536, updateRam (updateRam (updateRam (updateRam (updateRam (updateRam (ram0) (256) (a)) (0) (257)) (257) (b)) (0) (258)) (0) (257)) (0) (256), 23⟩ := (run_succ env (programOf (c4AddCmds a b f s0 s1 s2)) 5 ⟨256, b, updateRam (updateRam (updateRam (updateRam (updateRam (updateRam (ram0) (256) (a)) (0) (257)) (257) (b)) (0) (258)) (0) (257)) (0) (256), 22⟩).trans (congrArg (run env (programOf (c4AddCmds a b f s0 s1 s2)) 5) ca_s22)
      _ = run env (programOf (c4AddCmds a b f s0 s1 s2)) 4 ⟨0, (b + a) % 65536, updateRam (updateRam (updateRam (updateRam (updateRam (updateRam (ram0) (256) (a)) (0) (257)) (257) (b)) (0) (258)) (0) (257)) (0) (256), 24⟩ := (run_succ env (programOf (c4AddCmds a b f s0 s1 s2)) 4 ⟨256, (b + a) % 65536, updateRam (updateRam (updateRam (updateRam (updateRam (updateRam (ram0) (256) (a)) (0) (257)) (257) (b)) (0) (258)) (0) (257)) (0) (256), 23⟩).trans (congrArg (run env (programOf (c4AddCmds a b f s0 s1 s2)) 4) ca_s23)
      _ = run env (programOf (c4AddCmds a b f s0 s1 s2)) 3 ⟨256, (b + a) % 65536, updateRam (updateRam (updateRam (updateRam (updateRam (updateRam (ram0) (256) (a)) (0) (257)) (257) (b)) (0) (258)) (0) (257)) (0) (256), 25⟩ := (run_succ env (programOf (c4AddCmds a b f s0 s1 s2)) 3 ⟨0, (b + a) % 65536, updateRam (updateRam (updateRam (updateRam (updateRam (updateRam (ram0) (256) (a)) (0) (257)) (257) (b)) (0) (258)) (0) (257)) (0) (256), 24⟩).trans (congrArg (run env (programOf (c4AddCmds a b f s0 s1 s2)) 3) ca_s24)
      _ = run env (programOf (c4AddCmds a b f s0 s1 s2)) 2 ⟨256, (b + a) % 65536, updateRam (updateRam (updateRam (updateRam (updateRam (updateRam (updateRam (ram0) (256) (a)) (0) (257)) (257) (b)) (0) (258)) (0) (257)) (0) (256)) (256) (((b + a) % 65536) % 65536), 26⟩ := (run_succ env (programOf (c4AddCmds a b f s0 s1 s2)) 2 ⟨256, (b + a) % 65536, updateRam (updateRam (updateRam (updateRam (updateRam (updateRam (ram0) (256) (a)) (0) (257)) (257) (b)) (0) (258)) (0) (257)) (0) (256), 25⟩).trans (congrArg (run env (programOf (c4AddCmds a b f s0 s1 s2)) 2) ca_s25)
      _ = run env (programOf (c4AddCmds a b f s0 s1 s2)) 1 ⟨0, (b + a) % 65536, updateRam (updateRam (updateRam (updateRam (updateRam (updateRam (updateRam (ram0) (256) (a)) (0) (257)) (257) (b)) (0) (258)) (0) (257)) (0) (256)) (256) (((b + a) % 65536) % 65536), 27⟩ := (run_succ env (programOf (c4AddCmds a b f s0 s1 s2)) 1 ⟨256, (b + a) % 65536, updateRam (updateRam (updateRam (updateRam (updateRam (updateRam (updateRam (ram0) (256) (a)) (0) (257)) (257) (b)) (0) (258)) (0) (257)) (0) (256)) (256) (((b + a) % 65536) % 65536), 26⟩).trans (congrArg (run env (programOf (c4AddCmds a b f s0 s1 s2)) 1) ca_s26)
      _ = run env (programOf (c4AddCmds a b f s0 s1 s2)) 0 ⟨0, (b + a) % 65536, updateRam (updateRam (updateRam (updateRam (updateRam (updateRam (updateRam (updateRam (ram0) (256) (a)) (0) (257)) (257) (b)) (0) (258)) (0) (257)) (0) (256)) (256) (((b + a) % 65536) % 65536)) (0) (257), 28⟩ := (run_succ env (programOf (c4AddCmds a b f s0 s1 s2)) 0 ⟨0, (b + a) % 65536, updateRam (updateRam (updateRam (updateRam (updateRam (updateRam (updateRam (ram0) (256) (a)) (0) (257)) (257) (b)) (0) (258)) (0) (257)) (0) (256)) (256) (((b + a) % 65536) % 65536), 27⟩).trans (congrArg (run env (programOf (c4AddCmds a b f s0 s1 s2)) 0) ca_s27)
      _ = ⟨0, (b + a) % 65536, updateRam (updateRam (updateRam (updateRam (updateRam (updateRam (updateRam (updateRam (ram0) (256) (a)) (0) (257)) (257) (b)) (0) (258)) (0) (257)) (0) (256)) (256) (((b + a) % 65536) % 65536)) (0) (257), 28⟩ := run_zero env (programOf (c4AddCmds a b f s0 s1 s2)) ⟨0, (b + a) % 65536, updateRam (updateRam (updateRam (updateRam (updateRam (updateRam (updateRam (updateRam (ram0) (256) (a)) (0) (257)) (257) (b)) (0) (258)) (0) (257)) (0) (256)) (256) (((b + a) % 65536) % 65536)) (0) (257), 28⟩
  have cs_e0 : nth (programOf (c4SubCmds a b f s0 s1 s2)) 0 = some (.comment (comment ⟨0, Command.Push Segment.Constant a, s0, f⟩)) := rfl
  have cs_s0 : step env (programOf (c4SubCmds a b f s0 s1 s2)) ⟨a0, d0, ram0, 0⟩ = ⟨a0, d0, ram0, 1⟩ := by
    rw [step_at cs_e0, applyInstr_comment]
    all_goals simp only [evalComp, w16, updateRam_read, jumpTaken, Mach.mk.injEq, reduceIte, Nat.reduceAdd, Nat.reduceMod, Nat.reduceSub, Nat.reduceEqDiff, and_true, true_and, and_self]
  have cs_e1 : nth (programOf (c4SubCmds a b f s0 s1 s2)) 1 = some (.atNum (a)) := rfl
  have cs_s1 : step env (programOf (c4SubCmds a b f s0 s1 s2)) ⟨a0, d0, ram0, 1⟩ = ⟨a, d0, ram0, 2⟩ := by
    rw [step_at cs_e1, applyInstr_atNum]
    all_goals simp only [evalComp, w16, updateRam_read, jumpTaken, Mach.mk.injEq, reduceIte, Nat.reduceAdd, Nat.reduceMod, Nat.reduceSub, Nat.reduceEqDiff, and_true, true_and, and_self, Nat.mod_eq_of_lt ha]
  have cs_e2 : nth (programOf (c4SubCmds a b f s0 s1 s2)) 2 = some (.cinstr dD .ca .jnone) := rfl
  have cs_s2 : step env (programOf (c4SubCmds a b f s0 s1 s2)) ⟨a, d0, ram0, 2⟩ = ⟨a, a, ram0, 3⟩ := by
    rw [step_at cs_e2, applyInstr_cD]
    all_goals simp only [evalComp, w16, updateRam_read, jumpTaken, Mach.mk.injEq, reduceIte, Nat.reduceAdd, Nat.reduceMod, Nat.reduceSub, Nat.reduceEqDiff, and_true, true_and, and_self, Nat.mod_eq_of_lt ha]
  have cs_e3 : nth (programOf (c4SubCmds a b f s0 s1 s2)) 3 = some (.atSym "SP") := rfl
  have cs_r0 : resolveSym (programOf (c4SubCmds a b f s0 s1 s2)) env ("SP") = 0 := rfl
  have cs_s3 : step env (programOf (c4SubCmds a b f s0 s1 s2)) ⟨a, a, ram0, 3⟩ = ⟨0, a, ram0, 4⟩ := by
    rw [step_at cs_e3, applyInstr_atSym]
    all_goals simp only [evalComp, w16, updateRam_read, jumpTaken, Mach.mk.injEq, reduceIte, Nat.reduceAdd, Nat.reduceMod, Nat.reduceSub, Nat.reduceEqDiff, and_true, true_and, and_self, cs_r0]
  have cs_e4 : nth (programOf (c4SubCmds a b f s0 s1 s2)) 4 = some (.cinstr dA .cm .jnone) := rfl
  have cs_s4 : step env (programOf (c4SubCmds a b f s0 s1 s2)) ⟨0, a, ram0, 4⟩ = ⟨256, a, ram0, 5⟩ := by
    rw [step_at cs_e4, applyInstr_cA]
    all_goals simp only [evalComp, w16, updateRam_read, jumpTaken, Mach.mk.injEq, reduceIte, Nat.reduceAdd, Nat.reduceMod, Nat.reduceSub, Nat.reduceEqDiff, and_true, true_and, and_self, hsp]
  have cs_e5 : nth (programOf (c4SubCmds a b f s0 s1 s2)) 5 = some (.cinstr dM .cd .jnone) := rfl
  have cs_s5 : step env (programOf (c4SubCmds a b f s0 s1 s2)) ⟨256, a, ram0, 5⟩ = ⟨256, a, updateRam (ram0) (256) (a), 6⟩ := by
    rw [step_at cs_e5, applyInstr_cM]
    all_goals simp only [evalComp, w16, updateRam_read, jumpTaken, Mach.mk.injEq, reduceIte, Nat.reduceAdd, Nat.reduceMod, Nat.reduceSub, Nat.reduceEqDiff, and_true, true_and, and_self, Nat.mod_eq_of_lt ha]
  have cs_e6 : nth (programOf (c4SubCmds a b f s0 s1 s2)) 6 = some (.atSym "SP") := rfl
  have cs_s6 : step env (programOf (c4SubCmds a b f s0 s1 s2)) ⟨256, a, updateRam (ram0) (256) (a), 6⟩ = ⟨0, a, updateRam (ram0) (256) (a), 7⟩ := by
    rw [step_at cs_e6, applyInstr_atSym]
    all_goals simp only [evalComp, w16, updateRam_read, jumpTaken, Mach.mk.injEq, reduceIte, Nat.reduceAdd, Nat.reduceMod, Nat.reduceSub, Nat.reduceEqDiff, and_true, true_and, and_self, cs_r0]
  have cs_e7 : nth (programOf (c4SubCmds a b f s0 s1 s2)) 7 = some (.cinstr dM .mPlus1 .jnone) := rfl
  have cs_s7 : step env (programOf (c4SubCmds a b f s0 s1 s2)) ⟨0, a, updateRam (ram0) (256) (a), 7⟩ = ⟨0, a, updateRam (updateRam (ram0) (256) (a)) (0) (257), 8⟩ := by
    rw [step_at cs_e7, applyInstr_cM]
    all_goals simp only [evalComp, w16, updateRam_read, jumpTaken, Mach.mk.injEq, reduceIte, Nat.reduceAdd, Nat.reduceMod, Nat.reduceSub, Nat.reduceEqDiff, and_true, true_and, and_self, hsp]
  have cs_e8 : nth (programOf (c4SubCmds a b f s0 s1 s2)) 8 = some (.comment (comment ⟨1, Command.Push Segment.Constant b, s1, f⟩)) := rfl
  have cs_s8 : step env (programOf (c4SubCmds a b f s0 s1 s2)) ⟨0, a, updateRam (updateRam (ram0) (256) (a)) (0) (257), 8⟩ = ⟨0, a, updateRam (updateRam (ram0) (256) (a)) (0) (257), 9⟩ := by
    rw [step_at cs_e8, applyInstr_comment]
    all_goals simp only [evalComp, w16, updateRam_read, jumpTaken, Mach.mk.injEq, reduceIte, Nat.reduceAdd, Nat.reduceMod, Nat.reduceSub, Nat.reduceEqDiff, and_true, true_and, and_self]
  have cs_e9 : nth (programOf (c4SubCmds a b f s0 s1 s2)) 9 = some (.atNum (b)) := rfl
  have cs_s9 : step env (programOf (c4SubCmds a b f s0 s1 s2)) ⟨0, a, updateRam (updateRam (ram0) (256) (a)) (0) (257), 9⟩ = ⟨b, a, updateRam (updateRam (ram0) (256) (a)) (0) (257), 10⟩ := by
    rw [step_at cs_e9, applyInstr_atNum]
    all_goals simp only [evalComp, w16, updateRam_read, jumpTaken, Mach.mk.injEq, reduceIte, Nat.reduceAdd, Nat.reduceMod, Nat.reduceSub, Nat.reduceEqDiff, and_true, true_and, and_self, Nat.mod_eq_of_lt hb]
  have cs_e10 : nth (programOf (c4SubCmds a b f s0 s1 s2)) 10 = some (.cinstr dD .ca .jnone) := rfl
  have cs_s10 : step env (programOf (c4SubCmds a b f s0 s1 s2)) ⟨b, a, updateRam (updateRam (ram0) (256) (a)) (0) (257), 10⟩ = ⟨b, b, updateRam (updateRam (ram0) (256) (a)) (0) (257), 11⟩ := by
    rw [step_at cs_e10, applyInstr_cD]
    all_goals simp only [evalComp, w16, updateRam_read, jumpTaken, Mach.mk.injEq, reduceIte, Nat.reduceAdd, Nat.reduceMod, Nat.reduceSub, Nat.reduceEqDiff, and_true, true_and, and_self, Nat.mod_eq_of_lt hb]
  have cs_e11 : nth (programOf (c4SubCmds a b f s0 s1 s2)) 11 = some (.atSym "SP") := rfl
  have cs_s11 : step env (programOf (c4SubCmds a b f s0 s1 s2)) ⟨b, b, updateRam (updateRam (ram0) (256) (a)) (0) (257), 11⟩ = ⟨0, b, updateRam (updateRam (ram0) (256) (a)) (0) (257), 12⟩ := by
    rw [step_at cs_e11, applyInstr_atSym]
    all_goals simp only [evalComp, w16, updateRam_read, jumpTaken, Mach.mk.injEq, reduceIte, Nat.reduceAdd, Nat.reduceMod, Nat.reduceSub, Nat.reduceEqDiff, and_true, true_and, and_self, cs_r0]
  have cs_e12 : nth (programOf (c4SubCmds a b f s0 s1 s2)) 12 = some (.cinstr dA .cm .jnone) := rfl
  have cs_s12 : step env (programOf (c4SubCmds a b f s0 s1 s2)) ⟨0, b, updateRam (updateRam (ram0) (256) (a)) (0) (257), 12⟩ = ⟨257, b, updateRam (updateRam (ram0) (256) (a)) (0) (257), 13⟩ := by
    rw [step_at cs_e12, applyInstr_cA]
    all_goals simp only [evalComp, w16, updateRam_read, jumpTaken, Mach.mk.injEq, reduceIte, Nat.reduceAdd, Nat.reduceMod, Nat.reduceSub, Nat.reduceEqDiff, and_true, true_and, and_self]
  have cs_e13 : nth (programOf (c4SubCmds a b f s0 s1 s2)) 13 = some (.cinstr dM .cd .jnone) := rfl
  have cs_s13 : step env (programOf (c4SubCmds a b f s0 s1 s2)) ⟨257, b, updateRam (updateRam (ram0) (256) (a)) (0) (257), 13⟩ = ⟨257, b, updateRam (updateRam (updateRam (ram0) (256) (a)) (0) (257)) (257) (b), 14⟩ := by
    rw [step_at cs_e13, applyInstr_cM]
    all_goals simp only [evalComp, w16, updateRam_read, jumpTaken, Mach.mk.injEq, reduceIte, Nat.reduceAdd, Nat.reduceMod, Nat.reduceSub, Nat.reduceEqDiff, and_true, true_and, and_self, Nat.mod_eq_of_lt hb]
  have cs_e14 : nth (programOf (c4SubCmds a b f s0 s1 s2)) 14 = some (.atSym "SP") := rfl
  have cs_s14 : step env (programOf (c4SubCmds a b f s0 s1 s2)) ⟨257, b, updateRam (updateRam (updateRam (ram0) (256) (a)) (0) (257)) (257) (b), 14⟩ = ⟨0, b, updateRam (updateRam (updateRam (ram0) (256) (a)) (0) (257)) (257) (b), 15⟩ := by
    rw [step_at cs_e14, applyInstr_atSym]
    all_goals simp only [evalComp, w16, updateRam_read, jumpTaken, Mach.mk.injEq, reduceIte, Nat.reduceAdd, Nat.reduceMod, Nat.reduceSub, Nat.reduceEqDiff, and_true, true_and, and_self, cs_r0]
  have cs_e15 : nth (programOf (c4SubCmds a b f s0 s1 s2)) 15 = some (.cinstr dM .mPlus1 .jnone) := rfl
  have cs_s15 : step env (programOf (c4SubCmds a b f s0 s1 s2)) ⟨0, b, updateRam (updateRam (updateRam (ram0) (256) (a)) (0) (257)) (257) (b), 15⟩ = ⟨0, b, updateRam (updateRam (updateRam (updateRam (ram0) (256) (a)) (0) (257)) (257) (b)) (0) (258), 16⟩ := by
    rw [step_at cs_e15, applyInstr_cM]
    all_goals simp only [evalComp, w16, updateRam_read, jumpTaken, Mach.mk.injEq, reduceIte, Nat.reduceAdd, Nat.reduceMod, Nat.reduceSub, Nat.reduceEqDiff, and_true, true_and, and_self]
  have cs_e16 : nth (programOf (c4SubCmds a b f s0 s1 s2)) 16 = some (.comment (comment ⟨2, Command.Sub, s2, f⟩)) := rfl
  have cs_s16 : step env (programOf (c4SubCmds a b f s0 s1 s2)) ⟨0, b, updateRam (updateRam (updateRam (updateRam (ram0) (256) (a)) (0) (257)) (257) (b)) (0) (258), 16⟩ = ⟨0, b, updateRam (updateRam (updateRam (updateRam (ram0) (256) (a)) (0) (257)) (257) (b)) (0) (258), 17⟩ := by
    rw [step_at cs_e16, applyInstr_comment]
    all_goals simp only [evalComp, w16, updateRam_read, jumpTaken, Mach.mk.injEq, reduceIte, Nat.reduceAdd, Nat.reduceMod, Nat.reduceSub, Nat.reduceEqDiff, and_true, true_and, and_self]
  have cs_e17 : nth (programOf (c4SubCmds a b f s0 s1 s2)) 17 = some (.atSym "SP") := rfl
  have cs_s17 : step env (programOf (c4SubCmds a b f s0 s1 s2)) ⟨0, b, updateRam (updateRam (updateRam (updateRam (ram0) (256) (a)) (0) (257)) (257) (b)) (0) (258), 17⟩ = ⟨0, b, updateRam (updateRam (updateRam (updateRam (ram0) (256) (a)) (0) (257)) (257) (b)) (0) (258), 18⟩ := by
    rw [step_at cs_e17, applyInstr_atSym]
    all_goals simp only [evalComp, w16, updateRam_read, jumpTaken, Mach.mk.injEq, reduceIte, Nat.reduceAdd, Nat.reduceMod, Nat.reduceSub, Nat.reduceEqDiff, and_true, true_and, and_self, cs_r0]
  have cs_e18 : nth (programOf (c4SubCmds a b f s0 s1 s2)) 18 = some (.cinstr dAM .mMinus1 .jnone) := rfl
  have cs_s18 : step env (programOf (c4SubCmds a b f s0 s1 s2)) ⟨0, b, updateRam (updateRam (updateRam (updateRam (ram0) (256) (a)) (0) (257)) (257) (b)) (0) (258), 18⟩ = ⟨257, b, updateRam (updateRam (updateRam (updateRam (updateRam (ram0) (256) (a)) (0) (257)) (257) (b)) (0) (258)) (0) (257), 19⟩ := by
    rw [step_at cs_e18, applyInstr_cAM]
    all_goals simp only [evalComp, w16, updateRam_read, jumpTaken, Mach.mk.injEq, reduceIte, Nat.reduceAdd, Nat.reduceMod, Nat.reduceSub, Nat.reduceEqDiff, and_true, true_and, and_self]
  have cs_e19 : nth (programOf (c4SubCmds a b f s0 s1 s2)) 19 = some (.cinstr dD .cm .jnone) := rfl
  have cs_s19 : step env (programOf (c4SubCmds a b f s0 s1 s2)) ⟨257, b, updateRam (updateRam (updateRam (updateRam (updateRam (ram0) (256) (a)) (0) (257)) (257) (b)) (0) (258)) (0) (257), 19⟩ = ⟨257, b, updateRam (updateRam (updateRam (updateRam (updateRam (ram0) (256) (a)) (0) (257)) (257) (b)) (0) (258)) (0) (257), 20⟩ := by
    rw [step_at cs_e19, applyInstr_cD]
    all_goals simp only [evalComp, w16, updateRam_read, jumpTaken, Mach.mk.injEq, reduceIte, Nat.reduceAdd, Nat.reduceMod, Nat.reduceSub, Nat.reduceEqDiff, and_true, true_and, and_self, Nat.mod_eq_of_lt hb]
  have cs_e20 : nth (programOf (c4SubCmds a b f s0 s1 s2)) 20 = some (.atSym "SP") := rfl
  have cs_s20 : step env (programOf (c4SubCmds a b f s0 s1 s2)) ⟨257, b, updateRam (updateRam (updateRam (updateRam (updateRam (ram0) (256) (a)) (0) (257)) (257) (b)) (0) (258)) (0) (257), 20⟩ = ⟨0, b, updateRam (updateRam (updateRam (updateRam (updateRam (ram0) (256) (a)) (0) (257)) (257) (b)) (0) (258)) (0) (257), 21⟩ := by
    rw [step_at cs_e20, applyInstr_atSym]
    all_goals simp only [evalComp, w16, updateRam_read, jumpTaken, Mach.mk.injEq, reduceIte, Nat.reduceAdd, Nat.reduceMod, Nat.reduceSub, Nat.reduceEqDiff, and_true, true_and, and_self, cs_r0]
  have cs_e21 : nth (programOf (c4SubCmds a b f s0 s1 s2)) 21 = some (.cinstr dAM .mMinus1 .jnone) := rfl
  have cs_s21 : step env (programOf (c4SubCmds a b f s0 s1 s2)) ⟨0, b, updateRam (updateRam (updateRam (updateRam (updateRam (ram0) (256) (a)) (0) (257)) (257) (b)) (0) (258)) (0) (257), 21⟩ = ⟨256, b, updateRam (updateRam (updateRam (updateRam (updateRam (updateRam (ram0) (256) (a)) (0) (257)) (257) (b)) (0) (258)) (0) (257)) (0) (256), 22⟩ := by
    rw [step_at cs_e21, applyInstr_cAM]
    all_goals simp only [evalComp, w16, updateRam_read, jumpTaken, Mach.mk.injEq, reduceIte, Nat.reduceAdd, Nat.reduceMod, Nat.reduceSub, Nat.reduceEqDiff, and_true, true_and, and_self]
  have cs_e22 : nth (programOf (c4SubCmds a b f s0 s1 s2)) 22 = some (.cinstr dD .mMinusD .jnone) := rfl
  have cs_s22 : step env (programOf (c4SubCmds a b f s0 s1 s2)) ⟨256, b, updateRam (updateRam (updateRam (updateRam (updateRam (updateRam (ram0) (256) (a)) (0) (257)) (257) (b)) (0) (258)) (0) (257)) (0) (256), 22⟩ = ⟨256, (a + (65536 - b)) % 65536, updateRam (updateRam (updateRam (updateRam (updateRam (updateRam (ram0) (256) (a)) (0) (257)) (257) (b)) (0) (258)) (0) (257)) (0) (256), 23⟩ := by
    rw [step_at cs_e22, applyInstr_cD]
    all_goals simp only [evalComp, w16, updateRam_read, jumpTaken, Mach.mk.injEq, reduceIte, Nat.reduceAdd, Nat.reduceMod, Nat.reduceSub, Nat.reduceEqDiff, and_true, true_and, and_self, Nat.mod_eq_of_lt hb, Nat.mod_eq_of_lt ha]
  have cs_e23 : nth (programOf (c4SubCmds a b f s0 s1 s2)) 23 = some (.atSym "SP") := rfl
  have cs_s23 : step env (programOf (c4SubCmds a b f s0 s1 s2)) ⟨256, (a + (65536 - b)) % 65536, updateRam (updateRam (updateRam (updateRam (updateRam (updateRam (ram0) (256) (a)) (0) (257)) (257) (b)) (0) (258)) (0) (257)) (0) (256), 23⟩ = ⟨0, (a + (65536 - b)) % 65536, updateRam (updateRam (updateRam (updateRam (updateRam (updateRam (ram0) (256) (a)) (0) (257)) (257) (b)) (0) (258)) (0) (257)) (0) (256), 24⟩ := by
    rw [step_at cs_e23, applyInstr_atSym]
    all_goals simp only [evalComp, w16, updateRam_read, jumpTaken, Mach.mk.injEq, reduceIte, Nat.reduceAdd, Nat.reduceMod, Nat.reduceSub, Nat.reduceEqDiff, and_true, true_and, and_self, cs_r0]
  have cs_e24 : nth (programOf (c4SubCmds a b f s0 s1 s2)) 24 = some (.cinstr dA .cm .jnone) := rfl
  have cs_s24 : step env (programOf (c4SubCmds a b f s0 s1 s2)) ⟨0, (a + (65536 - b)) % 65536, updateRam (updateRam (updateRam (updateRam (updateRam (updateRam (ram0) (256) (a)) (0) (257)) (257) (b)) (0) (258)) (0) (257)) (0) (256), 24⟩ = ⟨256, (a + (65536 - b)) % 65536, updateRam (updateRam (updateRam (updateRam (updateRam (updateRam (ram0) (256) (a)) (0) (257)) (257) (b)) (0) (258)) (0) (257)) (0) (256), 25⟩ := by
    rw [step_at cs_e24, applyInstr_cA]
    all_goals simp only [evalComp, w16, updateRam_read, jumpTaken, Mach.mk.injEq, reduceIte, Nat.reduceAdd, Nat.reduceMod, Nat.reduceSub, Nat.reduceEqDiff, and_true, true_and, and_self]
  have cs_e25 : nth (programOf (c4SubCmds a b f s0 s1 s2)) 25 = some (.cinstr dM .cd .jnone) := rfl
  have cs_s25 : step env (programOf (c4SubCmds a b f s0 s1 s2)) ⟨256, (a + (65536 - b)) % 65536, updateRam (updateRam (updateRam (updateRam (updateRam (updateRam (ram0) (256) (a)) (0) (257)) (257) (b)) (0) (258)) (0) (257)) (0) (256), 25⟩ = ⟨256, (a + (65536 - b)) % 65536, updateRam (updateRam (updateRam (updateRam (updateRam (updateRam (updateRam (ram0) (256) (a)) (0) (257)) (257) (b)) (0) (258)) (0) (257)) (0) (256)) (256) (((a + (65536 - b)) % 65536) % 65536), 26⟩ := by
    rw [step_at cs_e25, applyInstr_cM]
    all_goals simp only [evalComp, w16, updateRam_read, jumpTaken, Mach.mk.injEq, reduceIte, Nat.reduceAdd, Nat.reduceMod, Nat.reduceSub, Nat.reduceEqDiff, and_true, true_and, and_self]
  have cs_e26 : nth (programOf (c4SubCmds a b f s0 s1 s2)) 26 = some (.atSym "SP") := rfl
  have cs_s26 : step env (programOf (c4SubCmds a b f s0 s1 s2)) ⟨256, (a + (65536 - b)) % 65536, updateRam (updateRam (updateRam (updateRam (updateRam (updateRam (updateRam (ram0) (256) (a)) (0) (257)) (257) (b)) (0) (258)) (0) (257)) (0) (256)) (256) (((a + (65536 - b)) % 65536) % 65536), 26⟩ = ⟨0, (a + (65536 - b)) % 65536, updateRam (updateRam (updateRam (updateRam (updateRam (updateRam (updateRam (ram0) (256) (a)) (0) (257)) (257) (b)) (0) (258)) (0) (257)) (0) (256)) (256) (((a + (65536 - b)) % 65536) % 65536), 27⟩ := by
    rw [step_at cs_e26, applyInstr_atSym]
    all_goals simp only [evalComp, w16, updateRam_read, jumpTaken, Mach.mk.injEq, reduceIte, Nat.reduceAdd, Nat.reduceMod, Nat.reduceSub, Nat.reduceEqDiff, and_true, true_and, and_self, cs_r0]
  have cs_e27 : nth (programOf (c4SubCmds a b f s0 s1 s2)) 27 = some (.cinstr dM .mPlus1 .jnone) := rfl
  have cs_s27 : step env (programOf (c4SubCmds a b f s0 s1 s2)) ⟨0, (a + (65536 - b)) % 65536, updateRam (updateRam (updateRam (updateRam (updateRam (updateRam (updateRam (ram0) (256) (a)) (0) (257)) (257) (b)) (0) (258)) (0) (257)) (0) (256)) (256) (((a + (65536 - b)) % 65536) % 65536), 27⟩ = ⟨0, (a + (65536 - b)) % 65536, updateRam (updateRam (updateRam (updateRam (updateRam (updateRam (updateRam (updateRam (ram0) (256) (a)) (0) (257)) (257) (b)) (0) (258)) (0) (257)) (0) (256)) (256) (((a + (65536 - b)) % 65536) % 65536)) (0) (257), 28⟩ := by
    rw [step_at cs_e27, applyInstr_cM]
    all_goals simp only [evalComp, w16, updateRam_read, jumpTaken, Mach.mk.injEq, reduceIte, Nat.reduceAdd, Nat.reduceMod, Nat.reduceSub, Nat.reduceEqDiff, and_true, true_and, and_self]
  have cs_run : run env (programOf (c4SubCmds a b f s0 s1 s2)) 28 ⟨a0, d0, ram0, 0⟩ = ⟨0, (a + (65536 - b)) % 65536, updateRam (updateRam (updateRam (updateRam (updateRam (updateRam (updateRam (updateRam (ram0) (256) (a)) (0) (257)) (257) (b)) (0) (258)) (0) (257)) (0) (256)) (256) (((a + (65536 - b)) % 65536) % 65536)) (0) (257), 28⟩ :=
    calc run env (programOf (c4SubCmds a b f s0 s1 s2)) 28 ⟨a0, d0, ram0, 0⟩
      _ = run env (programOf (c4SubCmds a b f s0 s1 s2)) 27 ⟨a0, d0, ram0, 1⟩ := (run_succ env (programOf (c4SubCmds a b f s0 s1 s2)) 27 ⟨a0, d0, ram0, 0⟩).trans (congrArg (run env (programOf (c4SubCmds a b f s0 s1 s2)) 27) cs_s0)
      _ = run env (programOf (c4SubCmds a b f s0 s1 s2)) 26 ⟨a, d0, ram0, 2⟩ := (run_succ env (programOf (c4SubCmds a b f s0 s1 s2)) 26 ⟨a0, d0, ram0, 1⟩).trans (congrArg (run env (programOf (c4SubCmds a b f s0 s1 s2)) 26) cs_s1)
      _ = run env (programOf (c4SubCmds a b f s0 s1 s2)) 25 ⟨a, a, ram0, 3⟩ := (run_succ env (programOf (c4SubCmds a b f s0 s1 s2)) 25 ⟨a, d0, ram0, 2⟩).trans (congrArg (run env (programOf (c4SubCmds a b f s0 s1 s2)) 25) cs_s2)
      _ = run env (programOf (c4SubCmds a b f s0 s1 s2)) 24 ⟨0, a, ram0, 4⟩ := (run_succ env (programOf (c4SubCmds a b f s0 s1 s2)) 24 ⟨a, a, ram0, 3⟩).trans (congrArg (run env (programOf (c4SubCmds a b f s0 s1 s2)) 24) cs_s3)
      _ = run env (programOf (c4SubCmds a b f s0 s1 s2)) 23 ⟨256, a, ram0, 5⟩ := (run_succ env (programOf (c4SubCmds a b f s0 s1 s2)) 23 ⟨0, a, ram0, 4⟩).trans (congrArg (run env (programOf (c4SubCmds a b f s0 s1 s2)) 23) cs_s4)
      _ = run env (programOf (c4SubCmds a b f s0 s1 s2)) 22 ⟨256, a, updateRam (ram0) (256) (a), 6⟩ := (run_succ env (programOf (c4SubCmds a b f s0 s1 s2)) 22 ⟨256, a, ram0, 5⟩).trans (congrArg (run env (programOf (c4SubCmds a b f s0 s1 s2)) 22) cs_s5)
      _ = run env (programOf (c4SubCmds a b f s0 s1 s2)) 21 ⟨0, a, updateRam (ram0) (256) (a), 7⟩ := (run_succ env (programOf (c4SubCmds a b f s0 s1 s2)) 21 ⟨256, a, updateRam (ram0) (256) (a), 6⟩).trans (congrArg (run env (programOf (c4SubCmds a b f s0 s1 s2)) 21) cs_s6)
      _ = run env (programOf (c4SubCmds a b f s0 s1 s2)) 20 ⟨0, a, updateRam (updateRam (ram0) (256) (a)) (0) (257), 8⟩ := (run_succ env (programOf (c4SubCmds a b f s0 s1 s2)) 20 ⟨0, a, updateRam (ram0) (256) (a), 7⟩).trans (congrArg (run env (programOf (c4SubCmds a b f s0 s1 s2)) 20) cs_s7)
      _ = run env (programOf (c4SubCmds a b f s0 s1 s2)) 19 ⟨0, a, updateRam (updateRam (ram0) (256) (a)) (0) (257), 9⟩ := (run_succ env (programOf (c4SubCmds a b f s0 s1 s2)) 19 ⟨0, a, updateRam (updateRam (ram0) (256) (a)) (0) (257), 8⟩).trans (congrArg (run env (programOf (c4SubCmds a b f s0 s1 s2)) 19) cs_s8)
      _ = run env (programOf (c4SubCmds a b f s0 s1 s2)) 18 ⟨b, a, updateRam (updateRam (ram0) (256) (a)) (0) (257), 10⟩ := (run_succ env (programOf (c4SubCmds a b f s0 s1 s2)) 18 ⟨0, a, updateRam (updateRam (ram0) (256) (a)) (0) (257), 9⟩).trans (congrArg (run env (programOf (c4SubCmds a b f s0 s1 s2)) 18) cs_s9)
      _ = run env (programOf (c4SubCmds a b f s0 s1 s2)) 17 ⟨b, b, updateRam (updateRam (ram0) (256) (a)) (0) (257), 11⟩ := (run_succ env (programOf (c4SubCmds a b f s0 s1 s2)) 17 ⟨b, a, updateRam (updateRam (ram0) (256) (a)) (0) (257), 10⟩).trans (congrArg (run env (programOf (c4SubCmds a b f s0 s1 s2)) 17) cs_s10)
      _ = run env (programOf (c4SubCmds a b f s0 s1 s2)) 16 ⟨0, b, updateRam (updateRam (ram0) (256) (a)) (0) (257), 12⟩ := (run_succ env (programOf (c4SubCmds a b f s0 s1 s2)) 16 ⟨b, b, updateRam (updateRam (ram0) (256) (a)) (0) (257), 11⟩).trans (congrArg (run env (programOf (c4SubCmds a b f s0 s1 s2)) 16) cs_s11)
      _ = run env (programOf (c4SubCmds a b f s0 s1 s2)) 15 ⟨257, b, updateRam (updateRam (ram0) (256) (a)) (0) (257), 13⟩ := (run_succ env (programOf (c4SubCmds a b f s0 s1 s2)) 15 ⟨0, b, updateRam (updateRam (ram0) (256) (a)) (0) (257), 12⟩).trans (congrArg (run env (programOf (c4SubCmds a b f s0 s1 s2)) 15) cs_s12)
      _ = run env (programOf (c4SubCmds a b f s0 s1 s2)) 14 ⟨257, b, updateRam (updateRam (updateRam (ram0) (256) (a)) (0) (257)) (257) (b), 14⟩ := (run_succ env (programOf (c4SubCmds a b f s0 s1 s2)) 14 ⟨257, b, updateRam (updateRam (ram0) (256) (a)) (0) (257), 13⟩).trans (congrArg (run env (programOf (c4SubCmds a b f s0 s1 s2)) 14) cs_s13)
      _ = run env (programOf (c4SubCmds a b f s0 s1 s2)) 13 ⟨0, b, updateRam (updateRam (updateRam (ram0) (256) (a)) (0) (257)) (257) (b), 15⟩ := (run_succ env (programOf (c4SubCmds a b f s0 s1 s2)) 13 ⟨257, b, updateRam (updateRam (updateRam (ram0) (256) (a)) (0) (257)) (257) (b), 14⟩).trans (congrArg (run env (programOf (c4SubCmds a b f s0 s1 s2)) 13) cs_s14)
      _ = run env (programOf (c4SubCmds a b f s0 s1 s2)) 12 ⟨0, b, updateRam (updateRam (updateRam (updateRam (ram0) (256) (a)) (0) (257)) (257) (b)) (0) (258), 16⟩ := (run_succ env (programOf (c4SubCmds a b f s0 s1 s2)) 12 ⟨0, b, updateRam (updateRam (updateRam (ram0) (256) (a)) (0) (257)) (257) (b), 15⟩).trans (congrArg (run env (programOf (c4SubCmds a b f s0 s1 s2)) 12) cs_s15)
      _ = run env (programOf (c4SubCmds a b f s0 s1 s2)) 11 ⟨0, b, updateRam (updateRam (updateRam (updateRam (ram0) (256) (a)) (0) (257)) (257) (b)) (0) (258), 17⟩ := (run_succ env (programOf (c4SubCmds a b f s0 s1 s2)) 11 ⟨0, b, updateRam (updateRam (updateRam (updateRam (ram0) (256) (a)) (0) (257)) (257) (b)) (0) (258), 16⟩).trans (congrArg (run env (programOf (c4SubCmds a b f s0 s1 s2)) 11) cs_s16)
      _ = run env (programOf (c4SubCmds a b f s0 s1 s2)) 10 ⟨0, b, updateRam (updateRam (updateRam (updateRam (ram0) (256) (a)) (0) (257)) (257) (b)) (0) (258), 18⟩ := (run_succ env (programOf (c4SubCmds a b f s0 s1 s2)) 10 ⟨0, b, updateRam (updateRam (updateRam (updateRam (ram0) (256) (a)) (0) (257)) (257) (b)) (0) (258), 17⟩).trans (congrArg (run env (programOf (c4SubCmds a b f s0 s1 s2)) 10) cs_s17)
      _ = run env (programOf (c4SubCmds a b f s0 s1 s2)) 9 ⟨257, b, updateRam (updateRam (updateRam (updateRam (updateRam (ram0) (256) (a)) (0) (257)) (257) (b)) (0) (258)) (0) (257), 19⟩ := (run_succ env (programOf (c4SubCmds a b f s0 s1 s2)) 9 ⟨0, b, updateRam (updateRam (updateRam (updateRam (ram0) (256) (a)) (0) (257)) (257) (b)) (0) (258), 18⟩).trans (congrArg (run env (programOf (c4SubCmds a b f s0 s1 s2)) 9) cs_s18)
      _ = run env (programOf (c4SubCmds a b f s0 s1 s2)) 8 ⟨257, b, updateRam (updateRam (updateRam (updateRam (updateRam (ram0) (256) (a)) (0) (257)) (257) (b)) (0) (258)) (0) (257), 20⟩ := (run_succ env (programOf (c4SubCmds a b f s0 s1 s2)) 8 ⟨257, b, updateRam (updateRam (updateRam (updateRam (updateRam (ram0) (256) (a)) (0) (257)) (257) (b)) (0) (258)) (0) (257), 19⟩).trans (congrArg (run env (programOf (c4SubCmds a b f s0 s1 s2)) 8) cs_s19)
      _ = run env (programOf (c4SubCmds a b f s0 s1 s2)) 7 ⟨0, b, updateRam (updateRam (updateRam (updateRam (updateRam (ram0) (256) (a)) (0) (257)) (257) (b)) (0) (258)) (0) (257), 21⟩ := (run_succ env (programOf (c4SubCmds a b f s0 s1 s2)) 7 ⟨257, b, updateRam (updateRam (updateRam (updateRam (updateRam (ram0) (256) (a)) (0) (257)) (257) (b)) (0) (258)) (0) (257), 20⟩).trans (congrArg (run env (programOf (c4SubCmds a b f s0 s1 s2)) 7) cs_s20)
      _ = run env (programOf (c4SubCmds a b f s0 s1 s2)) 6 ⟨256, b, updateRam (updateRam (updateRam (updateRam (updateRam (updateRam (ram0) (256) (a)) (0) (257)) (257) (b)) (0) (258)) (0) (257)) (0) (256), 22⟩ := (run_succ env (programOf (c4SubCmds a b f s0 s1 s2)) 6 ⟨0, b, updateRam (updateRam (updateRam (updateRam (updateRam (ram0) (256) (a)) (0) (257)) (257) (b)) (0) (258)) (0) (257), 21⟩).trans (congrArg (run env (programOf (c4SubCmds a b f s0 s1 s2)) 6) cs_s21)
      _ = run env (programOf (c4SubCmds a b f s0 s1 s2)) 5 ⟨256, (a + (65536 - b)) % 65536, updateRam (updateRam (updateRam (updateRam (updateRam (updateRam (ram0) (256) (a)) (0) (257)) (257) (b)) (0) (258)) (0) (257)) (0) (256), 23⟩ := (run_succ env (programOf (c4SubCmds a b f s0 s1 s2)) 5 ⟨256, b, updateRam (updateRam (updateRam (updateRam (updateRam (updateRam (ram0) (256) (a)) (0) (257)) (257) (b)) (0) (258)) (0) (257)) (0) (256), 22⟩).trans (congrArg (run env (programOf (c4SubCmds a b f s0 s1 s2)) 5) cs_s22)
      _ = run env (programOf (c4SubCmds a b f s0 s1 s2)) 4 ⟨0, (a + (65536 - b)) % 65536, updateRam (updateRam (updateRam (updateRam (updateRam (updateRam (ram0) (256) (a)) (0) (257)) (257) (b)) (0) (258)) (0) (257)) (0) (256), 24⟩ := (run_succ env (programOf (c4SubCmds a b f s0 s1 s2)) 4 ⟨256, (a + (65536 - b)) % 65536, updateRam (updateRam (updateRam (updateRam (updateRam (updateRam (ram0) (256) (a)) (0) (257)) (257) (b)) (0) (258)) (0) (257)) (0) (256), 23⟩).trans (congrArg (run env (programOf (c4SubCmds a b f s0 s1 s2)) 4) cs_s23)
      _ = run env (programOf (c4SubCmds a b f s0 s1 s2)) 3 ⟨256, (a + (65536 - b)) % 65536, updateRam (updateRam (updateRam (updateRam (updateRam (updateRam (ram0) (256) (a)) (0) (257)) (257) (b)) (0) (258)) (0) (257)) (0) (256), 25⟩ := (run_succ env (programOf (c4SubCmds a b f s0 s1 s2)) 3 ⟨0, (a + (65536 - b)) % 65536, updateRam (updateRam (updateRam (updateRam (updateRam (updateRam (ram0) (256) (a)) (0) (257)) (257) (b)) (0) (258)) (0) (257)) (0) (256), 24⟩).trans (congrArg (run env (programOf (c4SubCmds a b f s0 s1 s2)) 3) cs_s24)
      _ = run env (programOf (c4SubCmds a b f s0 s1 s2)) 2 ⟨256, (a + (65536 - b)) % 65536, updateRam (updateRam (updateRam (updateRam (updateRam (updateRam (updateRam (ram0) (256) (a)) (0) (257)) (257) (b)) (0) (258)) (0) (257)) (0) (256)) (256) (((a + (65536 - b)) % 65536) % 65536), 26⟩ := (run_succ env (programOf (c4SubCmds a b f s0 s1 s2)) 2 ⟨256, (a + (65536 - b)) % 65536, updateRam (updateRam (updateRam (updateRam (updateRam (updateRam (ram0) (256) (a)) (0) (257)) (257) (b)) (0) (258)) (0) (257)) (0) (256), 25⟩).trans (congrArg (run env (programOf (c4SubCmds a b f s0 s1 s2)) 2) cs_s25)
      _ = run env (programOf (c4SubCmds a b f s0 s1 s2)) 1 ⟨0, (a + (65536 - b)) % 65536, updateRam (updateRam (updateRam (updateRam (updateRam (updateRam (updateRam (ram0) (256) (a)) (0) (257)) (257) (b)) (0) (258)) (0) (257)) (0) (256)) (256) (((a + (65536 - b)) % 65536) % 65536), 27⟩ := (run_succ env (programOf (c4SubCmds a b f s0 s1 s2)) 1 ⟨256, (a + (65536 - b)) % 65536, updateRam (updateRam (updateRam (updateRam (updateRam (updateRam (updateRam (ram0) (256) (a)) (0) (257)) (257) (b)) (0) (258)) (0) (257)) (0) (256)) (256) (((a + (65536 - b)) % 65536) % 65536), 26⟩).trans (congrArg (run env (programOf (c4SubCmds a b f s0 s1 s2)) 1) cs_s26)
      _ = run env (programOf (c4SubCmds a b f s0 s1 s2)) 0 ⟨0, (a + (65536 - b)) % 65536, updateRam (updateRam (updateRam (updateRam (updateRam (updateRam (updateRam (updateRam (ram0) (256) (a)) (0) (257)) (257) (b)) (0) (258)) (0) (257)) (0) (256)) (256) (((a + (65536 - b)) % 65536) % 65536)) (0) (257), 28⟩ := (run_succ env (programOf (c4SubCmds a b f s0 s1 s2)) 0 ⟨0, (a + (65536 - b)) % 65536, updateRam (updateRam (updateRam (updateRam (updateRam (updateRam (updateRam (ram0) (256) (a)) (0) (257)) (257) (b)) (0) (258)) (0) (257)) (0) (256)) (256) (((a + (65536 - b)) % 65536) % 65536), 27⟩).trans (congrArg (run env (programOf (c4SubCmds a b f s0 s1 s2)) 0) cs_s27)
      _ = ⟨0, (a + (65536 - b)) % 65536, updateRam (updateRam (updateRam (updateRam (updateRam (updateRam (updateRam (updateRam (ram0) (256) (a)) (0) (257)) (257) (b)) (0) (258)) (0) (257)) (0) (256)) (256) (((a + (65536 - b)) % 65536) % 65536)) (0) (257), 28⟩ := run_zero env (programOf (c4SubCmds a b f s0 s1 s2)) ⟨0, (a + (65536 - b)) % 65536, updateRam (updateRam (updateRam (updateRam (updateRam (updateRam (updateRam (updateRam (ram0) (256) (a)) (0) (257)) (257) (b)) (0) (258)) (0) (257)) (0) (256)) (256) (((a + (65536 - b)) % 65536) % 65536)) (0) (257), 28⟩
  rw [ca_run, cs_run]
  refine ⟨⟨?_, ?_⟩, ?_, ?_⟩ <;>
    simp only [updateRam_read, Nat.reduceEqDiff, reduceIte] <;> omega

/-- Witness for C4 at (a, b) = (7, 8): `push 7; push 8; add` leaves 15. -/
theorem c4_add_sub_semantics_witness :
    (run (fun _ => 0) (programOf (c4AddCmds 7 8 "F" "x" "y" "z")) 28
        ⟨0, 0, (fun _ => 256), 0⟩).ram 256 = 15 := by
  have h := c4_add_sub_semantics "F" "x" "y" "z" 7 8 0 0 (fun _ => 0) (fun _ => 256)
    (by decide) (by decide) rfl
  simpa using h.1.1

/-! ## Claim C9: constant is push-only -/

set_option maxHeartbeats 400000 in
/-- C9: for every index i, `push constant i` generates successfully; the
generated code loads the literal i (it ends in the D register), writes it to
the pushed slot and bumps the stack pointer, touching no other memory cell —
and this holds for every RAM contents, so no memory cell is dereferenced to
produce the value.  `pop constant i` is rejected as unaddressable for every
index. -/
theorem c9_constant_segment (sc : SourceCommand) (i a0 d0 : Nat) (env : String → Nat)
    (ram0 : Nat → Nat) (hi : i < 65536) (hsp : ram0 0 = 256) :
    (generate_push sc Segment.Constant i).isOk = true
    ∧ (run env (okD (generate_push sc Segment.Constant i)) 7 ⟨a0, d0, ram0, 0⟩).ram 256 = i
    ∧ (run env (okD (generate_push sc Segment.Constant i)) 7 ⟨a0, d0, ram0, 0⟩).ram 0 = 257
    ∧ (run env (okD (generate_push sc Segment.Constant i)) 7 ⟨a0, d0, ram0, 0⟩).d = i
    ∧ (∀ y, ¬(y = 256) → ¬(y = 0) →
        (run env (okD (generate_push sc Segment.Constant i)) 7 ⟨a0, d0, ram0, 0⟩).ram y = ram0 y)
    ∧ generate_pop sc Segment.Constant i
        = Except.error "Unable to address segment for pop: Constant" := by
  have c9_e0 : nth (okD (generate_push sc Segment.Constant i)) 0 = some (.atNum (i)) := rfl
  have c9_s0 : step env (okD (generate_push sc Segment.Constant i)) ⟨a0, d0, ram0, 0⟩ = ⟨i, d0, ram0, 1⟩ := by
    rw [step_at c9_e0, applyInstr_atNum]
    all_goals simp only [evalComp, w16, updateRam_read, jumpTaken, Mach.mk.injEq, reduceIte, Nat.reduceAdd, Nat.reduceMod, Nat.reduceSub, Nat.reduceEqDiff, and_true, true_and, and_self, Nat.mod_eq_of_lt hi]
  have c9_e1 : nth (okD (generate_push sc Segment.Constant i)) 1 = some (.cinstr dD .ca .jnone) := rfl
  have c9_s1 : step env (okD (generate_push sc Segment.Constant i)) ⟨i, d0, ram0, 1⟩ = ⟨i, i, ram0, 2⟩ := by
    rw [step_at c9_e1, applyInstr_cD]
    all_goals simp only [evalComp, w16, updateRam_read, jumpTaken, Mach.mk.injEq, reduceIte, Nat.reduceAdd, Nat.reduceMod, Nat.reduceSub, Nat.reduceEqDiff, and_true, true_and, and_self, Nat.mod_eq_of_lt hi]
  have c9_e2 : nth (okD (generate_push sc Segment.Constant i)) 2 = some (.atSym "SP") := rfl
  have c9_r0 : resolveSym (okD (generate_push sc Segment.Constant i)) env ("SP") = 0 := rfl
  have c9_s2 : step env (okD (generate_push sc Segment.Constant i)) ⟨i, i, ram0, 2⟩ = ⟨0, i, ram0, 3⟩ := by
    rw [step_at c9_e2, applyInstr_atSym]
    all_goals simp only [evalComp, w16, updateRam_read, jumpTaken, Mach.mk.injEq, reduceIte, Nat.reduceAdd, Nat.reduceMod, Nat.reduceSub, Nat.reduceEqDiff, and_true, true_and, and_self, c9_r0]
  have c9_e3 : nth (okD (generate_push sc Segment.Constant i)) 3 = some (.cinstr dA .cm .jnone) := rfl
  have c9_s3 : step env (okD (generate_push sc Segment.Constant i)) ⟨0, i, ram0, 3⟩ = ⟨256, i, ram0, 4⟩ := by
    rw [step_at c9_e3, applyInstr_cA]
    all_goals simp only [evalComp, w16, updateRam_read, jumpTaken, Mach.mk.injEq, reduceIte, Nat.reduceAdd, Nat.reduceMod, Nat.reduceSub, Nat.reduceEqDiff, and_true, true_and, and_self, hsp]
  have c9_e4 : nth (okD (generate_push sc Segment.Constant i)) 4 = some (.cinstr dM .cd .jnone) := rfl
  have c9_s4 : step env (okD (generate_push sc Segment.Constant i)) ⟨256, i, ram0, 4⟩ = ⟨256, i, updateRam (ram0) (256) (i), 5⟩ := by
    rw [step_at c9_e4, applyInstr_cM]
    all_goals simp only [evalComp, w16, updateRam_read, jumpTaken, Mach.mk.injEq, reduceIte, Nat.reduceAdd, Nat.reduceMod, Nat.reduceSub, Nat.reduceEqDiff, and_true, true_and, and_self, Nat.mod_eq_of_lt hi]
  have c9_e5 : nth (okD (generate_push sc Segment.Constant i)) 5 = some (.atSym "SP") := rfl
  have c9_s5 : step env (okD (generate_push sc Segment.Constant i)) ⟨256, i, updateRam (ram0) (256) (i), 5⟩ = ⟨0, i, updateRam (ram0) (256) (i), 6⟩ := by
    rw [step_at c9_e5, applyInstr_atSym]
    all_goals simp only [evalComp, w16, updateRam_read, jumpTaken, Mach.mk.injEq, reduceIte, Nat.reduceAdd, Nat.reduceMod, Nat.reduceSub, Nat.reduceEqDiff, and_true, true_and, and_self, c9_r0]
  have c9_e6 : nth (okD (generate_push sc Segment.Constant i)) 6 = some (.cinstr dM .mPlus1 .jnone) := rfl
  have c9_s6 : step env (okD (generate_push sc Segment.Constant i)) ⟨0, i, updateRam (ram0) (256) (i), 6⟩ = ⟨0, i, updateRam (updateRam (ram0) (256) (i)) (0) (257), 7⟩ := by
    rw [step_at c9_e6, applyInstr_cM]
    all_goals simp only [evalComp, w16, updateRam_read, jumpTaken, Mach.mk.injEq, reduceIte, Nat.reduceAdd, Nat.reduceMod, Nat.reduceSub, Nat.reduceEqDiff, and_true, true_and, and_self, hsp]
  have c9_run : run env (okD (generate_push sc Segment.Constant i)) 7 ⟨a0, d0, ram0, 0⟩ = ⟨0, i, updateRam (updateRam (ram0) (256) (i)) (0) (257), 7⟩ :=
    calc run env (okD (generate_push sc Segment.Constant i)) 7 ⟨a0, d0, ram0, 0⟩
      _ = run env (okD (generate_push sc Segment.Constant i)) 6 ⟨i, d0, ram0, 1⟩ := (run_succ env (okD (generate_push sc Segment.Constant i)) 6 ⟨a0, d0, ram0, 0⟩).trans (congrArg (run env (okD (generate_push sc Segment.Constant i)) 6) c9_s0)
      _ = run env (okD (generate_push sc Segment.Constant i)) 5 ⟨i, i, ram0, 2⟩ := (run_succ env (okD (generate_push sc Segment.Constant i)) 5 ⟨i, d0, ram0, 1⟩).trans (congrArg (run env (okD (generate_push sc Segment.Constant i)) 5) c9_s1)
      _ = run env (okD (generate_push sc Segment.Constant i)) 4 ⟨0, i, ram0, 3⟩ := (run_succ env (okD (generate_push sc Segment.Constant i)) 4 ⟨i, i, ram0, 2⟩).trans (congrArg (run env (okD (generate_push sc Segment.Constant i)) 4) c9_s2)
      _ = run env (okD (generate_push sc Segment.Constant i)) 3 ⟨256, i, ram0, 4⟩ := (run_succ env (okD (generate_push sc Segment.Constant i)) 3 ⟨0, i, ram0, 3⟩).trans (congrArg (run env (okD (generate_push sc Segment.Constant i)) 3) c9_s3)
      _ = run env (okD (generate_push sc Segment.Constant i)) 2 ⟨256, i, updateRam (ram0) (256) (i), 5⟩ := (run_succ env (okD (generate_push sc Segment.Constant i)) 2 ⟨256, i, ram0, 4⟩).trans (congrArg (run env (okD (generate_push sc Segment.Constant i)) 2) c9_s4)
      _ = run env (okD (generate_push sc Segment.Constant i)) 1 ⟨0, i, updateRam (ram0) (256) (i), 6⟩ := (run_succ env (okD (generate_push sc Segment.Constant i)) 1 ⟨256, i, updateRam (ram0) (256) (i), 5⟩).trans (congrArg (run env (okD (generate_push sc Segment.Constant i)) 1) c9_s5)
      _ = run env (okD (generate_push sc Segment.Constant i)) 0 ⟨0, i, updateRam (updateRam (ram0) (256) (i)) (0) (257), 7⟩ := (run_succ env (okD (generate_push sc Segment.Constant i)) 0 ⟨0, i, updateRam (ram0) (256) (i), 6⟩).trans (congrArg (run env (okD (generate_push sc Segment.Constant i)) 0) c9_s6)
      _ = ⟨0, i, updateRam (updateRam (ram0) (256) (i)) (0) (257), 7⟩ := run_zero env (okD (generate_push sc Segment.Constant i)) ⟨0, i, updateRam (updateRam (ram0) (256) (i)) (0) (257), 7⟩
  rw [c9_run]
  refine ⟨rfl, ?_, ?_, ?_, ?_, rfl⟩ <;>
    simp only [updateRam_read, Nat.reduceEqDiff, reduceIte]
  intro y hy256 hy0
  simp only [updateRam_read, if_neg hy256, if_neg hy0]

/-- Witness for C9 at i = 42. -/
theorem c9_constant_segment_witness :
    (run (fun _ => 0) (okD (generate_push ⟨0, Command.Push Segment.Constant 42, "push constant 42", "F"⟩ Segment.Constant 42)) 7
        ⟨0, 0, (fun _ => 256), 0⟩).ram 256 = 42
    ∧ generate_pop ⟨0, Command.Push Segment.Constant 42, "push constant 42", "F"⟩ Segment.Constant 42
        = Except.error "Unable to address segment for pop: Constant" := by
  have h := c9_constant_segment ⟨0, Command.Push Segment.Constant 42, "push constant 42", "F"⟩
    42 0 0 (fun _ => 0) (fun _ => 256) (by decide) rfl
  exact ⟨h.2.1, h.2.2.2.2.2⟩

/-! ## Claim C7: the `Call` variant and the parser -/

/-- C7 (code bug): the spec's command union includes `Call{name,nargs}` and a
well-formed `call <name> <nargs>` line should parse as a Call command, and
`asm.rs` indeed dispatches on `Command::Call` (second conjunct: code
generation for a Call command succeeds); but the `Command` enum of `vm.rs`
in this snapshot has no `Call` variant and `Command::from_str` rejects the
line `call Sys.init 0` with a parse error (first conjunct). -/
theorem c7_call_rejected_by_from_str :
    Command.from_str "call Sys.init 0"
        = Except.error "Parser not implemented for 'call Sys.init 0'"
    ∧ (generate_code_for_command ⟨2, Command.Call "Sys.init" 0, "call Sys.init 0", "Sys"⟩
        (some "Sys.main")).isOk = true := by
  have h1 : Command.from_str "call Sys.init 0"
      = Except.error "Parser not implemented for 'call Sys.init 0'" := rfl
  have h2 : (generate_code_for_command ⟨2, Command.Call "Sys.init" 0, "call Sys.init 0", "Sys"⟩
      (some "Sys.main")).isOk = true := rfl
  exact And.intro h1 h2

/-! ## Claim C3: comparison semantics (corrected for 16-bit overflow) -/

/-- The single command sequence `gt` (left and right already on the stack). -/
def c3GtCmds (s : String) : List SourceCommand := [⟨0, Command.Gt, s, "F"⟩]

/-- The single command sequence `lt`. -/
def c3LtCmds (s : String) : List SourceCommand := [⟨0, Command.Lt, s, "F"⟩]

/-- The single command sequence `eq`. -/
def c3EqCmds (s : String) : List SourceCommand := [⟨0, Command.Eq, s, "F"⟩]

/-- Sign of the 16-bit difference matches the signed comparison exactly when
the signed difference does not overflow. -/
theorem comp_diff_sign (a b : Nat) (ha : a < 65536) (hb : b < 65536)
    (h1 : -32768 ≤ toSigned a - toSigned b) (h2 : toSigned a - toSigned b ≤ 32767) :
    (0 < toSigned ((a + (65536 - b)) % 65536) ↔ toSigned b < toSigned a)
    ∧ (toSigned ((a + (65536 - b)) % 65536) < 0 ↔ toSigned a < toSigned b) := by
  unfold toSigned at h1 h2 ⊢
  split_ifs at h1 h2 ⊢ <;> omega

/-- The 16-bit difference is zero exactly for equal words, with no proviso. -/
theorem comp_diff_zero (a b : Nat) (ha : a < 65536) (hb : b < 65536) :
    (toSigned ((a + (65536 - b)) % 65536) = 0 ↔ a = b) := by
  unfold toSigned
  split_ifs <;> omega

set_option maxHeartbeats 1000000 in
/-- C3 (amended): with left word a pushed first (slot 256) and right word b
on top (slot 257), the generated comparison code pops both and pushes
all-ones (65535) or zero in their place, leaving the stack pointer at 257;
`eq` pushes all-ones exactly when the two words are equal, unconditionally;
`gt` pushes all-ones exactly when left > right as signed words — and `lt`
exactly the mirror — provided the signed difference left − right is
representable in 16 bits (does not overflow). -/
theorem c3_comparison_semantics (sg sl se : String) (a b a0 d0 : Nat) (env : String → Nat)
    (ram0 : Nat → Nat) (ha : a < 65536) (hb : b < 65536)
    (hsp : ram0 0 = 258) (h256 : ram0 256 = a) (h257 : ram0 257 = b) :
    (-32768 ≤ toSigned a - toSigned b → toSigned a - toSigned b ≤ 32767 →
      (run env (programOf (c3GtCmds sg)) 19 ⟨a0, d0, ram0, 0⟩).ram 256
          = (if toSigned b < toSigned a then 65535 else 0)
      ∧ (run env (programOf (c3LtCmds sl)) 19 ⟨a0, d0, ram0, 0⟩).ram 256
          = (if toSigned a < toSigned b then 65535 else 0))
    ∧ (run env (programOf (c3EqCmds se)) 19 ⟨a0, d0, ram0, 0⟩).ram 256
        = (if a = b then 65535 else 0)
    ∧ (run env (programOf (c3GtCmds sg)) 19 ⟨a0, d0, ram0, 0⟩).ram 0 = 257
    ∧ (run env (programOf (c3LtCmds sl)) 19 ⟨a0, d0, ram0, 0⟩).ram 0 = 257
    ∧ (run env (programOf (c3EqCmds se)) 19 ⟨a0, d0, ram0, 0⟩).ram 0 = 257 := by
  have gRes : (run env (programOf (c3GtCmds sg)) 19 ⟨a0, d0, ram0, 0⟩).ram 256
      = (if 0 < toSigned ((a + (65536 - b)) % 65536) then 65535 else 0)
      ∧ (run env (programOf (c3GtCmds sg)) 19 ⟨a0, d0, ram0, 0⟩).ram 0 = 257 := by
    by_cases hc : 0 < toSigned ((a + (65536 - b)) % 65536)
    · have gT_e0 : nth (programOf (c3GtCmds sg)) 0 = some (.comment (comment ⟨0, Command.Gt, sg, "F"⟩)) := rfl
      have gT_s0 : step env (programOf (c3GtCmds sg)) ⟨a0, d0, ram0, 0⟩ = ⟨a0, d0, ram0, 1⟩ := by
        rw [step_at gT_e0, applyInstr_comment]
        all_goals simp only [evalComp, w16, updateRam_read, jumpTaken, Mach.mk.injEq, reduceIte, Nat.reduceAdd, Nat.reduceMod, Nat.reduceSub, Nat.reduceEqDiff, Nat.mod_mod, and_true, true_and, and_self, if_true, if_false]
      have gT_e1 : nth (programOf (c3GtCmds sg)) 1 = some (.atSym "SP") := rfl
      have gT_r0 : resolveSym (programOf (c3GtCmds sg)) env ("SP") = 0 := rfl
      have gT_s1 : step env (programOf (c3GtCmds sg)) ⟨a0, d0, ram0, 1⟩ = ⟨0, d0, ram0, 2⟩ := by
        rw [step_at gT_e1, applyInstr_atSym]
        all_goals simp only [evalComp, w16, updateRam_read, jumpTaken, Mach.mk.injEq, reduceIte, Nat.reduceAdd, Nat.reduceMod, Nat.reduceSub, Nat.reduceEqDiff, Nat.mod_mod, and_true, true_and, and_self, if_true, if_false, gT_r0]
      have gT_e2 : nth (programOf (c3GtCmds sg)) 2 = some (.cinstr dAM .mMinus1 .jnone) := rfl
      have gT_s2 : step env (programOf (c3GtCmds sg)) ⟨0, d0, ram0, 2⟩ = ⟨257, d0, updateRam (ram0) (0) (257), 3⟩ := by
        rw [step_at gT_e2, applyInstr_cAM]
        all_goals simp only [evalComp, w16, updateRam_read, jumpTaken, Mach.mk.injEq, reduceIte, Nat.reduceAdd, Nat.reduceMod, Nat.reduceSub, Nat.reduceEqDiff, Nat.mod_mod, and_true, true_and, and_self, if_true, if_false, hsp]
      have gT_e3 : nth (programOf (c3GtCmds sg)) 3 = some (.cinstr dD .cm .jnone) := rfl
      have gT_s3 : step env (programOf (c3GtCmds sg)) ⟨257, d0, updateRam (ram0) (0) (257), 3⟩ = ⟨257, b, updateRam (ram0) (0) (257), 4⟩ := by
        rw [step_at gT_e3, applyInstr_cD]
        all_goals simp only [evalComp, w16, updateRam_read, jumpTaken, Mach.mk.injEq, reduceIte, Nat.reduceAdd, Nat.reduceMod, Nat.reduceSub, Nat.reduceEqDiff, Nat.mod_mod, and_true, true_and, and_self, if_true, if_false, h257, Nat.mod_eq_of_lt hb]
      have gT_e4 : nth (programOf (c3GtCmds sg)) 4 = some (.atSym "SP") := rfl
      have gT_s4 : step env (programOf (c3GtCmds sg)) ⟨257, b, updateRam (ram0) (0) (257), 4⟩ = ⟨0, b, updateRam (ram0) (0) (257), 5⟩ := by
        rw [step_at gT_e4, applyInstr_atSym]
        all_goals simp only [evalComp, w16, updateRam_read, jumpTaken, Mach.mk.injEq, reduceIte, Nat.reduceAdd, Nat.reduceMod, Nat.reduceSub, Nat.reduceEqDiff, Nat.mod_mod, and_true, true_and, and_self, if_true, if_false, gT_r0]
      have gT_e5 : nth (programOf (c3GtCmds sg)) 5 = some (.cinstr dAM .mMinus1 .jnone) := rfl
      have gT_s5 : step env (programOf (c3GtCmds sg)) ⟨0, b, updateRam (ram0) (0) (257), 5⟩ = ⟨256, b, updateRam (updateRam (ram0) (0) (257)) (0) (256), 6⟩ := by
        rw [step_at gT_e5, applyInstr_cAM]
        all_goals simp only [evalComp, w16, updateRam_read, jumpTaken, Mach.mk.injEq, reduceIte, Nat.reduceAdd, Nat.reduceMod, Nat.reduceSub, Nat.reduceEqDiff, Nat.mod_mod, and_true, true_and, and_self, if_true, if_false]
      have gT_e6 : nth (programOf (c3GtCmds sg)) 6 = some (.cinstr dD .mMinusD .jnone) := rfl
      have gT_s6 : step env (programOf (c3GtCmds sg)) ⟨256, b, updateRam (updateRam (ram0) (0) (257)) (0) (256), 6⟩ = ⟨256, (a + (65536 - (b))) % 65536, updateRam (updateRam (ram0) (0) (257)) (0) (256), 7⟩ := by
        rw [step_at gT_e6, applyInstr_cD]
        all_goals simp only [evalComp, w16, updateRam_read, jumpTaken, Mach.mk.injEq, reduceIte, Nat.reduceAdd, Nat.reduceMod, Nat.reduceSub, Nat.reduceEqDiff, Nat.mod_mod, and_true, true_and, and_self, if_true, if_false, h256, Nat.mod_eq_of_lt hb, Nat.mod_eq_of_lt ha]
      have gT_e7 : nth (programOf (c3GtCmds sg)) 7 = some (.atSym (compTrueLabel "F" 0)) := rfl
      have gT_r1 : resolveSym (programOf (c3GtCmds sg)) env (compTrueLabel "F" 0) = 13 := rfl
      have gT_s7 : step env (programOf (c3GtCmds sg)) ⟨256, (a + (65536 - (b))) % 65536, updateRam (updateRam (ram0) (0) (257)) (0) (256), 7⟩ = ⟨13, (a + (65536 - (b))) % 65536, updateRam (updateRam (ram0) (0) (257)) (0) (256), 8⟩ := by
        rw [step_at gT_e7, applyInstr_atSym]
        all_goals simp only [evalComp, w16, updateRam_read, jumpTaken, Mach.mk.injEq, reduceIte, Nat.reduceAdd, Nat.reduceMod, Nat.reduceSub, Nat.reduceEqDiff, Nat.mod_mod, and_true, true_and, and_self, if_true, if_false, gT_r1]
      have gT_e8 : nth (programOf (c3GtCmds sg)) 8 = some (.cinstr dNone .cd .jgt) := rfl
      have gT_s8 : step env (programOf (c3GtCmds sg)) ⟨13, (a + (65536 - (b))) % 65536, updateRam (updateRam (ram0) (0) (257)) (0) (256), 8⟩ = ⟨13, (a + (65536 - (b))) % 65536, updateRam (updateRam (ram0) (0) (257)) (0) (256), 13⟩ := by
        rw [step_at gT_e8, applyInstr_jump]
        all_goals simp only [evalComp, w16, updateRam_read, jumpTaken, Mach.mk.injEq, reduceIte, Nat.reduceAdd, Nat.reduceMod, Nat.reduceSub, Nat.reduceEqDiff, Nat.mod_mod, and_true, true_and, and_self, if_true, if_false, hc]
      have gT_e13 : nth (programOf (c3GtCmds sg)) 13 = some (.labelDef (compTrueLabel "F" 0)) := rfl
      have gT_s9 : step env (programOf (c3GtCmds sg)) ⟨13, (a + (65536 - (b))) % 65536, updateRam (updateRam (ram0) (0) (257)) (0) (256), 13⟩ = ⟨13, (a + (65536 - (b))) % 65536, updateRam (updateRam (ram0) (0) (257)) (0) (256), 14⟩ := by
        rw [step_at gT_e13, applyInstr_label]
        all_goals simp only [evalComp, w16, updateRam_read, jumpTaken, Mach.mk.injEq, reduceIte, Nat.reduceAdd, Nat.reduceMod, Nat.reduceSub, Nat.reduceEqDiff, Nat.mod_mod, and_true, true_and, and_self, if_true, if_false]
      have gT_e14 : nth (programOf (c3GtCmds sg)) 14 = some (.atNum 1) := rfl
      have gT_s10 : step env (programOf (c3GtCmds sg)) ⟨13, (a + (65536 - (b))) % 65536, updateRam (updateRam (ram0) (0) (257)) (0) (256), 14⟩ = ⟨1, (a + (65536 - (b))) % 65536, updateRam (updateRam (ram0) (0) (257)) (0) (256), 15⟩ := by
        rw [step_at gT_e14, applyInstr_atNum]
        all_goals simp only [evalComp, w16, updateRam_read, jumpTaken, Mach.mk.injEq, reduceIte, Nat.reduceAdd, Nat.reduceMod, Nat.reduceSub, Nat.reduceEqDiff, Nat.mod_mod, and_true, true_and, and_self, if_true, if_false]
      have gT_e15 : nth (programOf (c3GtCmds sg)) 15 = some (.cinstr dD .negA .jnone) := rfl
      have gT_s11 : step env (programOf (c3GtCmds sg)) ⟨1, (a + (65536 - (b))) % 65536, updateRam (updateRam (ram0) (0) (257)) (0) (256), 15⟩ = ⟨1, 65535, updateRam (updateRam (ram0) (0) (257)) (0) (256), 16⟩ := by
        rw [step_at gT_e15, applyInstr_cD]
        all_goals simp only [evalComp, w16, updateRam_read, jumpTaken, Mach.mk.injEq, reduceIte, Nat.reduceAdd, Nat.reduceMod, Nat.reduceSub, Nat.reduceEqDiff, Nat.mod_mod, and_true, true_and, and_self, if_true, if_false]
      have gT_e16 : nth (programOf (c3GtCmds sg)) 16 = some (.labelDef (compEndLabel "F" 0)) := rfl
      have gT_s12 : step env (programOf (c3GtCmds sg)) ⟨1, 65535, updateRam (updateRam (ram0) (0) (257)) (0) (256), 16⟩ = ⟨1, 65535, updateRam (updateRam (ram0) (0) (257)) (0) (256), 17⟩ := by
        rw [step_at gT_e16, applyInstr_label]
        all_goals simp only [evalComp, w16, updateRam_read, jumpTaken, Mach.mk.injEq, reduceIte, Nat.reduceAdd, Nat.reduceMod, Nat.reduceSub, Nat.reduceEqDiff, Nat.mod_mod, and_true, true_and, and_self, if_true, if_false]
      have gT_e17 : nth (programOf (c3GtCmds sg)) 17 = some (.atSym "SP") := rfl
      have gT_s13 : step env (programOf (c3GtCmds sg)) ⟨1, 65535, updateRam (updateRam (ram0) (0) (257)) (0) (256), 17⟩ = ⟨0, 65535, updateRam (updateRam (ram0) (0) (257)) (0) (256), 18⟩ := by
        rw [step_at gT_e17, applyInstr_atSym]
        all_goals simp only [evalComp, w16, updateRam_read, jumpTaken, Mach.mk.injEq, reduceIte, Nat.reduceAdd, Nat.reduceMod, Nat.reduceSub, Nat.reduceEqDiff, Nat.mod_mod, and_true, true_and, and_self, if_true, if_false, gT_r0]
      have gT_e18 : nth (programOf (c3GtCmds sg)) 18 = some (.cinstr dA .cm .jnone) := rfl
      have gT_s14 : step env (programOf (c3GtCmds sg)) ⟨0, 65535, updateRam (updateRam (ram0) (0) (257)) (0) (256), 18⟩ = ⟨256, 65535, updateRam (updateRam (ram0) (0) (257)) (0) (256), 19⟩ := by
        rw [step_at gT_e18, applyInstr_cA]
        all_goals simp only [evalComp, w16, updateRam_read, jumpTaken, Mach.mk.injEq, reduceIte, Nat.reduceAdd, Nat.reduceMod, Nat.reduceSub, Nat.reduceEqDiff, Nat.mod_mod, and_true, true_and, and_self, if_true, if_false]
      have gT_e19 : nth (programOf (c3GtCmds sg)) 19 = some (.cinstr dM .cd .jnone) := rfl
      have gT_s15 : step env (programOf (c3GtCmds sg)) ⟨256, 65535, updateRam (updateRam (ram0) (0) (257)) (0) (256), 19⟩ = ⟨256, 65535, updateRam (updateRam (updateRam (ram0) (0) (257)) (0) (256)) (256) (65535), 20⟩ := by
        rw [step_at gT_e19, applyInstr_cM]
        all_goals simp only [evalComp, w16, updateRam_read, jumpTaken, Mach.mk.injEq, reduceIte, Nat.reduceAdd, Nat.reduceMod, Nat.reduceSub, Nat.reduceEqDiff, Nat.mod_mod, and_true, true_and, and_self, if_true, if_false]
      have gT_e20 : nth (programOf (c3GtCmds sg)) 20 = some (.atSym "SP") := rfl
      have gT_s16 : step env (programOf (c3GtCmds sg)) ⟨256, 65535, updateRam (updateRam (updateRam (ram0) (0) (257)) (0) (256)) (256) (65535), 20⟩ = ⟨0, 65535, updateRam (updateRam (updateRam (ram0) (0) (257)) (0) (256)) (256) (65535), 21⟩ := by
        rw [step_at gT_e20, applyInstr_atSym]
        all_goals simp only [evalComp, w16, updateRam_read, jumpTaken, Mach.mk.injEq, reduceIte, Nat.reduceAdd, Nat.reduceMod, Nat.reduceSub, Nat.reduceEqDiff, Nat.mod_mod, and_true, true_and, and_self, if_true, if_false, gT_r0]
      have gT_e21 : nth (programOf (c3GtCmds sg)) 21 = some (.cinstr dM .mPlus1 .jnone) := rfl
      have gT_s17 : step env (programOf (c3GtCmds sg)) ⟨0, 65535, updateRam (updateRam (updateRam (ram0) (0) (257)) (0) (256)) (256) (65535), 21⟩ = ⟨0, 65535, updateRam (updateRam (updateRam (updateRam (ram0) (0) (257)) (0) (256)) (256) (65535)) (0) (257), 22⟩ := by
        rw [step_at gT_e21, applyInstr_cM]
        all_goals simp only [evalComp, w16, updateRam_read, jumpTaken, Mach.mk.injEq, reduceIte, Nat.reduceAdd, Nat.reduceMod, Nat.reduceSub, Nat.reduceEqDiff, Nat.mod_mod, and_true, true_and, and_self, if_true, if_false]
      have gT_e22 : nth (programOf (c3GtCmds sg)) 22 = none := rfl
      have gT_s18 : step env (programOf (c3GtCmds sg)) ⟨0, 65535, updateRam (updateRam (updateRam (updateRam (ram0) (0) (257)) (0) (256)) (256) (65535)) (0) (257), 22⟩ = ⟨0, 65535, updateRam (updateRam (updateRam (updateRam (ram0) (0) (257)) (0) (256)) (256) (65535)) (0) (257), 22⟩ := by
        simp only [step, gT_e22]
      have gT_run : run env (programOf (c3GtCmds sg)) 19 ⟨a0, d0, ram0, 0⟩ = ⟨0, 65535, updateRam (updateRam (updateRam (updateRam (ram0) (0) (257)) (0) (256)) (256) (65535)) (0) (257), 22⟩ :=
        calc run env (programOf (c3GtCmds sg)) 19 ⟨a0, d0, ram0, 0⟩
          _ = run env (programOf (c3GtCmds sg)) 18 ⟨a0, d0, ram0, 1⟩ := (run_succ env (programOf (c3GtCmds sg)) 18 ⟨a0, d0, ram0, 0⟩).trans (congrArg (run env (programOf (c3GtCmds sg)) 18) gT_s0)
          _ = run env (programOf (c3GtCmds sg)) 17 ⟨0, d0, ram0, 2⟩ := (run_succ env (programOf (c3GtCmds sg)) 17 ⟨a0, d0, ram0, 1⟩).trans (congrArg (run env (programOf (c3GtCmds sg)) 17) gT_s1)
          _ = run env (programOf (c3GtCmds sg)) 16 ⟨257, d0, updateRam (ram0) (0) (257), 3⟩ := (run_succ env (programOf (c3GtCmds sg)) 16 ⟨0, d0, ram0, 2⟩).trans (congrArg (run env (programOf (c3GtCmds sg)) 16) gT_s2)
          _ = run env (programOf (c3GtCmds sg)) 15 ⟨257, b, updateRam (ram0) (0) (257), 4⟩ := (run_succ env (programOf (c3GtCmds sg)) 15 ⟨257, d0, updateRam (ram0) (0) (257), 3⟩).trans (congrArg (run env (programOf (c3GtCmds sg)) 15) gT_s3)
          _ = run env (programOf (c3GtCmds sg)) 14 ⟨0, b, updateRam (ram0) (0) (257), 5⟩ := (run_succ env (programOf (c3GtCmds sg)) 14 ⟨257, b, updateRam (ram0) (0) (257), 4⟩).trans (congrArg (run env (programOf (c3GtCmds sg)) 14) gT_s4)
          _ = run env (programOf (c3GtCmds sg)) 13 ⟨256, b, updateRam (updateRam (ram0) (0) (257)) (0) (256), 6⟩ := (run_succ env (programOf (c3GtCmds sg)) 13 ⟨0, b, updateRam (ram0) (0) (257), 5⟩).trans (congrArg (run env (programOf (c3GtCmds sg)) 13) gT_s5)
          _ = run env (programOf (c3GtCmds sg)) 12 ⟨256, (a + (65536 - (b))) % 65536, updateRam (updateRam (ram0) (0) (257)) (0) (256), 7⟩ := (run_succ env (programOf (c3GtCmds sg)) 12 ⟨256, b, updateRam (updateRam (ram0) (0) (257)) (0) (256), 6⟩).trans (congrArg (run env (programOf (c3GtCmds sg)) 12) gT_s6)
          _ = run env (programOf (c3GtCmds sg)) 11 ⟨13, (a + (65536 - (b))) % 65536, updateRam (updateRam (ram0) (0) (257)) (0) (256), 8⟩ := (run_succ env (programOf (c3GtCmds sg)) 11 ⟨256, (a + (65536 - (b))) % 65536, updateRam (updateRam (ram0) (0) (257)) (0) (256), 7⟩).trans (congrArg (run env (programOf (c3GtCmds sg)) 11) gT_s7)
          _ = run env (programOf (c3GtCmds sg)) 10 ⟨13, (a + (65536 - (b))) % 65536, updateRam (updateRam (ram0) (0) (257)) (0) (256), 13⟩ := (run_succ env (programOf (c3GtCmds sg)) 10 ⟨13, (a + (65536 - (b))) % 65536, updateRam (updateRam (ram0) (0) (257)) (0) (256), 8⟩).trans (congrArg (run env (programOf (c3GtCmds sg)) 10) gT_s8)
          _ = run env (programOf (c3GtCmds sg)) 9 ⟨13, (a + (65536 - (b))) % 65536, updateRam (updateRam (ram0) (0) (257)) (0) (256), 14⟩ := (run_succ env (programOf (c3GtCmds sg)) 9 ⟨13, (a + (65536 - (b))) % 65536, updateRam (updateRam (ram0) (0) (257)) (0) (256), 13⟩).trans (congrArg (run env (programOf (c3GtCmds sg)) 9) gT_s9)
          _ = run env (programOf (c3GtCmds sg)) 8 ⟨1, (a + (65536 - (b))) % 65536, updateRam (updateRam (ram0) (0) (257)) (0) (256), 15⟩ := (run_succ env (programOf (c3GtCmds sg)) 8 ⟨13, (a + (65536 - (b))) % 65536, updateRam (updateRam (ram0) (0) (257)) (0) (256), 14⟩).trans (congrArg (run env (programOf (c3GtCmds sg)) 8) gT_s10)
          _ = run env (programOf (c3GtCmds sg)) 7 ⟨1, 65535, updateRam (updateRam (ram0) (0) (257)) (0) (256), 16⟩ := (run_succ env (programOf (c3GtCmds sg)) 7 ⟨1, (a + (65536 - (b))) % 65536, updateRam (updateRam (ram0) (0) (257)) (0) (256), 15⟩).trans (congrArg (run env (programOf (c3GtCmds sg)) 7) gT_s11)
          _ = run env (programOf (c3GtCmds sg)) 6 ⟨1, 65535, updateRam (updateRam (ram0) (0) (257)) (0) (256), 17⟩ := (run_succ env (programOf (c3GtCmds sg)) 6 ⟨1, 65535, updateRam (updateRam (ram0) (0) (257)) (0) (256), 16⟩).trans (congrArg (run env (programOf (c3GtCmds sg)) 6) gT_s12)
          _ = run env (programOf (c3GtCmds sg)) 5 ⟨0, 65535, updateRam (updateRam (ram0) (0) (257)) (0) (256), 18⟩ := (run_succ env (programOf (c3GtCmds sg)) 5 ⟨1, 65535, updateRam (updateRam (ram0) (0) (257)) (0) (256), 17⟩).trans (congrArg (run env (programOf (c3GtCmds sg)) 5) gT_s13)
          _ = run env (programOf (c3GtCmds sg)) 4 ⟨256, 65535, updateRam (updateRam (ram0) (0) (257)) (0) (256), 19⟩ := (run_succ env (programOf (c3GtCmds sg)) 4 ⟨0, 65535, updateRam (updateRam (ram0) (0) (257)) (0) (256), 18⟩).trans (congrArg (run env (programOf (c3GtCmds sg)) 4) gT_s14)
          _ = run env (programOf (c3GtCmds sg)) 3 ⟨256, 65535, updateRam (updateRam (updateRam (ram0) (0) (257)) (0) (256)) (256) (65535), 20⟩ := (run_succ env (programOf (c3GtCmds sg)) 3 ⟨256, 65535, updateRam (updateRam (ram0) (0) (257)) (0) (256), 19⟩).trans (congrArg (run env (programOf (c3GtCmds sg)) 3) gT_s15)
          _ = run env (programOf (c3GtCmds sg)) 2 ⟨0, 65535, updateRam (updateRam (updateRam (ram0) (0) (257)) (0) (256)) (256) (65535), 21⟩ := (run_succ env (programOf (c3GtCmds sg)) 2 ⟨256, 65535, updateRam (updateRam (updateRam (ram0) (0) (257)) (0) (256)) (256) (65535), 20⟩).trans (congrArg (run env (programOf (c3GtCmds sg)) 2) gT_s16)
          _ = run env (programOf (c3GtCmds sg)) 1 ⟨0, 65535, updateRam (updateRam (updateRam (updateRam (ram0) (0) (257)) (0) (256)) (256) (65535)) (0) (257), 22⟩ := (run_succ env (programOf (c3GtCmds sg)) 1 ⟨0, 65535, updateRam (updateRam (updateRam (ram0) (0) (257)) (0) (256)) (256) (65535), 21⟩).trans (congrArg (run env (programOf (c3GtCmds sg)) 1) gT_s17)
          _ = run env (programOf (c3GtCmds sg)) 0 ⟨0, 65535, updateRam (updateRam (updateRam (updateRam (ram0) (0) (257)) (0) (256)) (256) (65535)) (0) (257), 22⟩ := (run_succ env (programOf (c3GtCmds sg)) 0 ⟨0, 65535, updateRam (updateRam (updateRam (updateRam (ram0) (0) (257)) (0) (256)) (256) (65535)) (0) (257), 22⟩).trans (congrArg (run env (programOf (c3GtCmds sg)) 0) gT_s18)
          _ = ⟨0, 65535, updateRam (updateRam (updateRam (updateRam (ram0) (0) (257)) (0) (256)) (256) (65535)) (0) (257), 22⟩ := run_zero env (programOf (c3GtCmds sg)) ⟨0, 65535, updateRam (updateRam (updateRam (updateRam (ram0) (0) (257)) (0) (256)) (256) (65535)) (0) (257), 22⟩
      rw [gT_run]
      refine ⟨?_, ?_⟩ <;> simp only [updateRam_read, Nat.reduceEqDiff, reduceIte, if_pos hc]
    · have gF_e0 : nth (programOf (c3GtCmds sg)) 0 = some (.comment (comment ⟨0, Command.Gt, sg, "F"⟩)) := rfl
      have gF_s0 : step env (programOf (c3GtCmds sg)) ⟨a0, d0, ram0, 0⟩ = ⟨a0, d0, ram0, 1⟩ := by
        rw [step_at gF_e0, applyInstr_comment]
        all_goals simp only [evalComp, w16, updateRam_read, jumpTaken, Mach.mk.injEq, reduceIte, Nat.reduceAdd, Nat.reduceMod, Nat.reduceSub, Nat.reduceEqDiff, Nat.mod_mod, and_true, true_and, and_self, if_true, if_false]
      have gF_e1 : nth (programOf (c3GtCmds sg)) 1 = some (.atSym "SP") := rfl
      have gF_r0 : resolveSym (programOf (c3GtCmds sg)) env ("SP") = 0 := rfl
      have gF_s1 : step env (programOf (c3GtCmds sg)) ⟨a0, d0, ram0, 1⟩ = ⟨0, d0, ram0, 2⟩ := by
        rw [step_at gF_e1, applyInstr_atSym]
        all_goals simp only [evalComp, w16, updateRam_read, jumpTaken, Mach.mk.injEq, reduceIte, Nat.reduceAdd, Nat.reduceMod, Nat.reduceSub, Nat.reduceEqDiff, Nat.mod_mod, and_true, true_and, and_self, if_true, if_false, gF_r0]
      have gF_e2 : nth (programOf (c3GtCmds sg)) 2 = some (.cinstr dAM .mMinus1 .jnone) := rfl
      have gF_s2 : step env (programOf (c3GtCmds sg)) ⟨0, d0, ram0, 2⟩ = ⟨257, d0, updateRam (ram0) (0) (257), 3⟩ := by
        rw [step_at gF_e2, applyInstr_cAM]
        all_goals simp only [evalComp, w16, updateRam_read, jumpTaken, Mach.mk.injEq, reduceIte, Nat.reduceAdd, Nat.reduceMod, Nat.reduceSub, Nat.reduceEqDiff, Nat.mod_mod, and_true, true_and, and_self, if_true, if_false, hsp]
      have gF_e3 : nth (programOf (c3GtCmds sg)) 3 = some (.cinstr dD .cm .jnone) := rfl
      have gF_s3 : step env (programOf (c3GtCmds sg)) ⟨257, d0, updateRam (ram0) (0) (257), 3⟩ = ⟨257, b, updateRam (ram0) (0) (257), 4⟩ := by
        rw [step_at gF_e3, applyInstr_cD]
        all_goals simp only [evalComp, w16, updateRam_read, jumpTaken, Mach.mk.injEq, reduceIte, Nat.reduceAdd, Nat.reduceMod, Nat.reduceSub, Nat.reduceEqDiff, Nat.mod_mod, and_true, true_and, and_self, if_true, if_false, h257, Nat.mod_eq_of_lt hb]
      have gF_e4 : nth (programOf (c3GtCmds sg)) 4 = some (.atSym "SP") := rfl
      have gF_s4 : step env (programOf (c3GtCmds sg)) ⟨257, b, updateRam (ram0) (0) (257), 4⟩ = ⟨0, b, updateRam (ram0) (0) (257), 5⟩ := by
        rw [step_at gF_e4, applyInstr_atSym]
        all_goals simp only [evalComp, w16, updateRam_read, jumpTaken, Mach.mk.injEq, reduceIte, Nat.reduceAdd, Nat.reduceMod, Nat.reduceSub, Nat.reduceEqDiff, Nat.mod_mod, and_true, true_and, and_self, if_true, if_false, gF_r0]
      have gF_e5 : nth (programOf (c3GtCmds sg)) 5 = some (.cinstr dAM .mMinus1 .jnone) := rfl
      have gF_s5 : step env (programOf (c3GtCmds sg)) ⟨0, b, updateRam (ram0) (0) (257), 5⟩ = ⟨256, b, updateRam (updateRam (ram0) (0) (257)) (0) (256), 6⟩ := by
        rw [step_at gF_e5, applyInstr_cAM]
        all_goals simp only [evalComp, w16, updateRam_read, jumpTaken, Mach.mk.injEq, reduceIte, Nat.reduceAdd, Nat.reduceMod, Nat.reduceSub, Nat.reduceEqDiff, Nat.mod_mod, and_true, true_and, and_self, if_true, if_false]
      have gF_e6 : nth (programOf (c3GtCmds sg)) 6 = some (.cinstr dD .mMinusD .jnone) := rfl
      have gF_s6 : step env (programOf (c3GtCmds sg)) ⟨256, b, updateRam (updateRam (ram0) (0) (257)) (0) (256), 6⟩ = ⟨256, (a + (65536 - (b))) % 65536, updateRam (updateRam (ram0) (0) (257)) (0) (256), 7⟩ := by
        rw [step_at gF_e6, applyInstr_cD]
        all_goals simp only [evalComp, w16, updateRam_read, jumpTaken, Mach.mk.injEq, reduceIte, Nat.reduceAdd, Nat.reduceMod, Nat.reduceSub, Nat.reduceEqDiff, Nat.mod_mod, and_true, true_and, and_self, if_true, if_false, h256, Nat.mod_eq_of_lt hb, Nat.mod_eq_of_lt ha]
      have gF_e7 : nth (programOf (c3GtCmds sg)) 7 = some (.atSym (compTrueLabel "F" 0)) := rfl
      have gF_r1 : resolveSym (programOf (c3GtCmds sg)) env (compTrueLabel "F" 0) = 13 := rfl
      have gF_s7 : step env (programOf (c3GtCmds sg)) ⟨256, (a + (65536 - (b))) % 65536, updateRam (updateRam (ram0) (0) (257)) (0) (256), 7⟩ = ⟨13, (a + (65536 - (b))) % 65536, updateRam (updateRam (ram0) (0) (257)) (0) (256), 8⟩ := by
        rw [step_at gF_e7, applyInstr_atSym]
        all_goals simp only [evalComp, w16, updateRam_read, jumpTaken, Mach.mk.injEq, reduceIte, Nat.reduceAdd, Nat.reduceMod, Nat.reduceSub, Nat.reduceEqDiff, Nat.mod_mod, and_true, true_and, and_self, if_true, if_false, gF_r1]
      have gF_e8 : nth (programOf (c3GtCmds sg)) 8 = some (.cinstr dNone .cd .jgt) := rfl
      have gF_s8 : step env (programOf (c3GtCmds sg)) ⟨13, (a + (65536 - (b))) % 65536, updateRam (updateRam (ram0) (0) (257)) (0) (256), 8⟩ = ⟨13, (a + (65536 - (b))) % 65536, updateRam (updateRam (ram0) (0) (257)) (0) (256), 9⟩ := by
        rw [step_at gF_e8, applyInstr_jump]
        all_goals simp only [evalComp, w16, updateRam_read, jumpTaken, Mach.mk.injEq, reduceIte, Nat.reduceAdd, Nat.reduceMod, Nat.reduceSub, Nat.reduceEqDiff, Nat.mod_mod, and_true, true_and, and_self, if_true, if_false, hc]
      have gF_e9 : nth (programOf (c3GtCmds sg)) 9 = some (.atNum 0) := rfl
      have gF_s9 : step env (programOf (c3GtCmds sg)) ⟨13, (a + (65536 - (b))) % 65536, updateRam (updateRam (ram0) (0) (257)) (0) (256), 9⟩ = ⟨0, (a + (65536 - (b))) % 65536, updateRam (updateRam (ram0) (0) (257)) (0) (256), 10⟩ := by
        rw [step_at gF_e9, applyInstr_atNum]
        all_goals simp only [evalComp, w16, updateRam_read, jumpTaken, Mach.mk.injEq, reduceIte, Nat.reduceAdd, Nat.reduceMod, Nat.reduceSub, Nat.reduceEqDiff, Nat.mod_mod, and_true, true_and, and_self, if_true, if_false]
      have gF_e10 : nth (programOf (c3GtCmds sg)) 10 = some (.cinstr dD .ca .jnone) := rfl
      have gF_s10 : step env (programOf (c3GtCmds sg)) ⟨0, (a + (65536 - (b))) % 65536, updateRam (updateRam (ram0) (0) (257)) (0) (256), 10⟩ = ⟨0, 0, updateRam (updateRam (ram0) (0) (257)) (0) (256), 11⟩ := by
        rw [step_at gF_e10, applyInstr_cD]
        all_goals simp only [evalComp, w16, updateRam_read, jumpTaken, Mach.mk.injEq, reduceIte, Nat.reduceAdd, Nat.reduceMod, Nat.reduceSub, Nat.reduceEqDiff, Nat.mod_mod, and_true, true_and, and_self, if_true, if_false]
      have gF_e11 : nth (programOf (c3GtCmds sg)) 11 = some (.atSym (compEndLabel "F" 0)) := rfl
      have gF_r2 : resolveSym (programOf (c3GtCmds sg)) env (compEndLabel "F" 0) = 16 := rfl
      have gF_s11 : step env (programOf (c3GtCmds sg)) ⟨0, 0, updateRam (updateRam (ram0) (0) (257)) (0) (256), 11⟩ = ⟨16, 0, updateRam (updateRam (ram0) (0) (257)) (0) (256), 12⟩ := by
        rw [step_at gF_e11, applyInstr_atSym]
        all_goals simp only [evalComp, w16, updateRam_read, jumpTaken, Mach.mk.injEq, reduceIte, Nat.reduceAdd, Nat.reduceMod, Nat.reduceSub, Nat.reduceEqDiff, Nat.mod_mod, and_true, true_and, and_self, if_true, if_false, gF_r2]
      have gF_e12 : nth (programOf (c3GtCmds sg)) 12 = some (.cinstr dNone .zero .jmp) := rfl
      have gF_s12 : step env (programOf (c3GtCmds sg)) ⟨16, 0, updateRam (updateRam (ram0) (0) (257)) (0) (256), 12⟩ = ⟨16, 0, updateRam (updateRam (ram0) (0) (257)) (0) (256), 16⟩ := by
        rw [step_at gF_e12, applyInstr_jump]
        all_goals simp only [evalComp, w16, updateRam_read, jumpTaken, Mach.mk.injEq, reduceIte, Nat.reduceAdd, Nat.reduceMod, Nat.reduceSub, Nat.reduceEqDiff, Nat.mod_mod, and_true, true_and, and_self, if_true, if_false]
      have gF_e16 : nth (programOf (c3GtCmds sg)) 16 = some (.labelDef (compEndLabel "F" 0)) := rfl
      have gF_s13 : step env (programOf (c3GtCmds sg)) ⟨16, 0, updateRam (updateRam (ram0) (0) (257)) (0) (256), 16⟩ = ⟨16, 0, updateRam (updateRam (ram0) (0) (257)) (0) (256), 17⟩ := by
        rw [step_at gF_e16, applyInstr_label]
        all_goals simp only [evalComp, w16, updateRam_read, jumpTaken, Mach.mk.injEq, reduceIte, Nat.reduceAdd, Nat.reduceMod, Nat.reduceSub, Nat.reduceEqDiff, Nat.mod_mod, and_true, true_and, and_self, if_true, if_false]
      have gF_e17 : nth (programOf (c3GtCmds sg)) 17 = some (.atSym "SP") := rfl
      have gF_s14 : step env (programOf (c3GtCmds sg)) ⟨16, 0, updateRam (updateRam (ram0) (0) (257)) (0) (256), 17⟩ = ⟨0, 0, updateRam (updateRam (ram0) (0) (257)) (0) (256), 18⟩ := by
        rw [step_at gF_e17, applyInstr_atSym]
        all_goals simp only [evalComp, w16, updateRam_read, jumpTaken, Mach.mk.injEq, reduceIte, Nat.reduceAdd, Nat.reduceMod, Nat.reduceSub, Nat.reduceEqDiff, Nat.mod_mod, and_true, true_and, and_self, if_true, if_false, gF_r0]
      have gF_e18 : nth (programOf (c3GtCmds sg)) 18 = some (.cinstr dA .cm .jnone) := rfl
      have gF_s15 : step env (programOf (c3GtCmds sg)) ⟨0, 0, updateRam (updateRam (ram0) (0) (257)) (0) (256), 18⟩ = ⟨256, 0, updateRam (updateRam (ram0) (0) (257)) (0) (256), 19⟩ := by
        rw [step_at gF_e18, applyInstr_cA]
        all_goals simp only [evalComp, w16, updateRam_read, jumpTaken, Mach.mk.injEq, reduceIte, Nat.reduceAdd, Nat.reduceMod, Nat.reduceSub, Nat.reduceEqDiff, Nat.mod_mod, and_true, true_and, and_self, if_true, if_false]
      have gF_e19 : nth (programOf (c3GtCmds sg)) 19 = some (.cinstr dM .cd .jnone) := rfl
      have gF_s16 : step env (programOf (c3GtCmds sg)) ⟨256, 0, updateRam (updateRam (ram0) (0) (257)) (0) (256), 19⟩ = ⟨256, 0, updateRam (updateRam (updateRam (ram0) (0) (257)) (0) (256)) (256) (0), 20⟩ := by
        rw [step_at gF_e19, applyInstr_cM]
        all_goals simp only [evalComp, w16, updateRam_read, jumpTaken, Mach.mk.injEq, reduceIte, Nat.reduceAdd, Nat.reduceMod, Nat.reduceSub, Nat.reduceEqDiff, Nat.mod_mod, and_true, true_and, and_self, if_true, if_false]
      have gF_e20 : nth (programOf (c3GtCmds sg)) 20 = some (.atSym "SP") := rfl
      have gF_s17 : step env (programOf (c3GtCmds sg)) ⟨256, 0, updateRam (updateRam (updateRam (ram0) (0) (257)) (0) (256)) (256) (0), 20⟩ = ⟨0, 0, updateRam (updateRam (updateRam (ram0) (0) (257)) (0) (256)) (256) (0), 21⟩ := by
        rw [step_at gF_e20, applyInstr_atSym]
        all_goals simp only [evalComp, w16, updateRam_read, jumpTaken, Mach.mk.injEq, reduceIte, Nat.reduceAdd, Nat.reduceMod, Nat.reduceSub, Nat.reduceEqDiff, Nat.mod_mod, and_true, true_and, and_self, if_true, if_false, gF_r0]
      have gF_e21 : nth (programOf (c3GtCmds sg)) 21 = some (.cinstr dM .mPlus1 .jnone) := rfl
      have gF_s18 : step env (programOf (c3GtCmds sg)) ⟨0, 0, updateRam (updateRam (updateRam (ram0) (0) (257)) (0) (256)) (256) (0), 21⟩ = ⟨0, 0, updateRam (updateRam (updateRam (updateRam (ram0) (0) (257)) (0) (256)) (256) (0)) (0) (257), 22⟩ := by
        rw [step_at gF_e21, applyInstr_cM]
        all_goals simp only [evalComp, w16, updateRam_read, jumpTaken, Mach.mk.injEq, reduceIte, Nat.reduceAdd, Nat.reduceMod, Nat.reduceSub, Nat.reduceEqDiff, Nat.mod_mod, and_true, true_and, and_self, if_true, if_false]
      have gF_run : run env (programOf (c3GtCmds sg)) 19 ⟨a0, d0, ram0, 0⟩ = ⟨0, 0, updateRam (updateRam (updateRam (updateRam (ram0) (0) (257)) (0) (256)) (256) (0)) (0) (257), 22⟩ :=
        calc run env (programOf (c3GtCmds sg)) 19 ⟨a0, d0, ram0, 0⟩
          _ = run env (programOf (c3GtCmds sg)) 18 ⟨a0, d0, ram0, 1⟩ := (run_succ env (programOf (c3GtCmds sg)) 18 ⟨a0, d0, ram0, 0⟩).trans (congrArg (run env (programOf (c3GtCmds sg)) 18) gF_s0)
          _ = run env (programOf (c3GtCmds sg)) 17 ⟨0, d0, ram0, 2⟩ := (run_succ env (programOf (c3GtCmds sg)) 17 ⟨a0, d0, ram0, 1⟩).trans (congrArg (run env (programOf (c3GtCmds sg)) 17) gF_s1)
          _ = run env (programOf (c3GtCmds sg)) 16 ⟨257, d0, updateRam (ram0) (0) (257), 3⟩ := (run_succ env (programOf (c3GtCmds sg)) 16 ⟨0, d0, ram0, 2⟩).trans (congrArg (run env (programOf (c3GtCmds sg)) 16) gF_s2)
          _ = run env (programOf (c3GtCmds sg)) 15 ⟨257, b, updateRam (ram0) (0) (257), 4⟩ := (run_succ env (programOf (c3GtCmds sg)) 15 ⟨257, d0, updateRam (ram0) (0) (257), 3⟩).trans (congrArg (run env (programOf (c3GtCmds sg)) 15) gF_s3)
          _ = run env (programOf (c3GtCmds sg)) 14 ⟨0, b, updateRam (ram0) (0) (257), 5⟩ := (run_succ env (programOf (c3GtCmds sg)) 14 ⟨257, b, updateRam (ram0) (0) (257), 4⟩).trans (congrArg (run env (programOf (c3GtCmds sg)) 14) gF_s4)
          _ = run env (programOf (c3GtCmds sg)) 13 ⟨256, b, updateRam (updateRam (ram0) (0) (257)) (0) (256), 6⟩ := (run_succ env (programOf (c3GtCmds sg)) 13 ⟨0, b, updateRam (ram0) (0) (257), 5⟩).trans (congrArg (run env (programOf (c3GtCmds sg)) 13) gF_s5)
          _ = run env (programOf (c3GtCmds sg)) 12 ⟨256, (a + (65536 - (b))) % 65536, updateRam (updateRam (ram0) (0) (257)) (0) (256), 7⟩ := (run_succ env (programOf (c3GtCmds sg)) 12 ⟨256, b, updateRam (updateRam (ram0) (0) (257)) (0) (256), 6⟩).trans (congrArg (run env (programOf (c3GtCmds sg)) 12) gF_s6)
          _ = run env (programOf (c3GtCmds sg)) 11 ⟨13, (a + (65536 - (b))) % 65536, updateRam (updateRam (ram0) (0) (257)) (0) (256), 8⟩ := (run_succ env (programOf (c3GtCmds sg)) 11 ⟨256, (a + (65536 - (b))) % 65536, updateRam (updateRam (ram0) (0) (257)) (0) (256), 7⟩).trans (congrArg (run env (programOf (c3GtCmds sg)) 11) gF_s7)
          _ = run env (programOf (c3GtCmds sg)) 10 ⟨13, (a + (65536 - (b))) % 65536, updateRam (updateRam (ram0) (0) (257)) (0) (256), 9⟩ := (run_succ env (programOf (c3GtCmds sg)) 10 ⟨13, (a + (65536 - (b))) % 65536, updateRam (updateRam (ram0) (0) (257)) (0) (256), 8⟩).trans (congrArg (run env (programOf (c3GtCmds sg)) 10) gF_s8)
          _ = run env (programOf (c3GtCmds sg)) 9 ⟨0, (a + (65536 - (b))) % 65536, updateRam (updateRam (ram0) (0) (257)) (0) (256), 10⟩ := (run_succ env (programOf (c3GtCmds sg)) 9 ⟨13, (a + (65536 - (b))) % 65536, updateRam (updateRam (ram0) (0) (257)) (0) (256), 9⟩).trans (congrArg (run env (programOf (c3GtCmds sg)) 9) gF_s9)
          _ = run env (programOf (c3GtCmds sg)) 8 ⟨0, 0, updateRam (updateRam (ram0) (0) (257)) (0) (256), 11⟩ := (run_succ env (programOf (c3GtCmds sg)) 8 ⟨0, (a + (65536 - (b))) % 65536, updateRam (updateRam (ram0) (0) (257)) (0) (256), 10⟩).trans (congrArg (run env (programOf (c3GtCmds sg)) 8) gF_s10)
          _ = run env (programOf (c3GtCmds sg)) 7 ⟨16, 0, updateRam (updateRam (ram0) (0) (257)) (0) (256), 12⟩ := (run_succ env (programOf (c3GtCmds sg)) 7 ⟨0, 0, updateRam (updateRam (ram0) (0) (257)) (0) (256), 11⟩).trans (congrArg (run env (programOf (c3GtCmds sg)) 7) gF_s11)
          _ = run env (programOf (c3GtCmds sg)) 6 ⟨16, 0, updateRam (updateRam (ram0) (0) (257)) (0) (256), 16⟩ := (run_succ env (programOf (c3GtCmds sg)) 6 ⟨16, 0, updateRam (updateRam (ram0) (0) (257)) (0) (256), 12⟩).trans (congrArg (run env (programOf (c3GtCmds sg)) 6) gF_s12)
          _ = run env (programOf (c3GtCmds sg)) 5 ⟨16, 0, updateRam (updateRam (ram0) (0) (257)) (0) (256), 17⟩ := (run_succ env (programOf (c3GtCmds sg)) 5 ⟨16, 0, updateRam (updateRam (ram0) (0) (257)) (0) (256), 16⟩).trans (congrArg (run env (programOf (c3GtCmds sg)) 5) gF_s13)
          _ = run env (programOf (c3GtCmds sg)) 4 ⟨0, 0, updateRam (updateRam (ram0) (0) (257)) (0) (256), 18⟩ := (run_succ env (programOf (c3GtCmds sg)) 4 ⟨16, 0, updateRam (updateRam (ram0) (0) (257)) (0) (256), 17⟩).trans (congrArg (run env (programOf (c3GtCmds sg)) 4) gF_s14)
          _ = run env (programOf (c3GtCmds sg)) 3 ⟨256, 0, updateRam (updateRam (ram0) (0) (257)) (0) (256), 19⟩ := (run_succ env (programOf (c3GtCmds sg)) 3 ⟨0, 0, updateRam (updateRam (ram0) (0) (257)) (0) (256), 18⟩).trans (congrArg (run env (programOf (c3GtCmds sg)) 3) gF_s15)
          _ = run env (programOf (c3GtCmds sg)) 2 ⟨256, 0, updateRam (updateRam (updateRam (ram0) (0) (257)) (0) (256)) (256) (0), 20⟩ := (run_succ env (programOf (c3GtCmds sg)) 2 ⟨256, 0, updateRam (updateRam (ram0) (0) (257)) (0) (256), 19⟩).trans (congrArg (run env (programOf (c3GtCmds sg)) 2) gF_s16)
          _ = run env (programOf (c3GtCmds sg)) 1 ⟨0, 0, updateRam (updateRam (updateRam (ram0) (0) (257)) (0) (256)) (256) (0), 21⟩ := (run_succ env (programOf (c3GtCmds sg)) 1 ⟨256, 0, updateRam (updateRam (updateRam (ram0) (0) (257)) (0) (256)) (256) (0), 20⟩).trans (congrArg (run env (programOf (c3GtCmds sg)) 1) gF_s17)
          _ = run env (programOf (c3GtCmds sg)) 0 ⟨0, 0, updateRam (updateRam (updateRam (updateRam (ram0) (0) (257)) (0) (256)) (256) (0)) (0) (257), 22⟩ := (run_succ env (programOf (c3GtCmds sg)) 0 ⟨0, 0, updateRam (updateRam (updateRam (ram0) (0) (257)) (0) (256)) (256) (0), 21⟩).trans (congrArg (run env (programOf (c3GtCmds sg)) 0) gF_s18)
          _ = ⟨0, 0, updateRam (updateRam (updateRam (updateRam (ram0) (0) (257)) (0) (256)) (256) (0)) (0) (257), 22⟩ := run_zero env (programOf (c3GtCmds sg)) ⟨0, 0, updateRam (updateRam (updateRam (updateRam (ram0) (0) (257)) (0) (256)) (256) (0)) (0) (257), 22⟩
      rw [gF_run]
      refine ⟨?_, ?_⟩ <;> simp only [updateRam_read, Nat.reduceEqDiff, reduceIte, if_neg hc]
  have lRes : (run env (programOf (c3LtCmds sl)) 19 ⟨a0, d0, ram0, 0⟩).ram 256
      = (if toSigned ((a + (65536 - b)) % 65536) < 0 then 65535 else 0)
      ∧ (run env (programOf (c3LtCmds sl)) 19 ⟨a0, d0, ram0, 0⟩).ram 0 = 257 := by
    by_cases hc : toSigned ((a + (65536 - b)) % 65536) < 0
    · have lT_e0 : nth (programOf (c3LtCmds sl)) 0 = some (.comment (comment ⟨0, Command.Lt, sl, "F"⟩)) := rfl
      have lT_s0 : step env (programOf (c3LtCmds sl)) ⟨a0, d0, ram0, 0⟩ = ⟨a0, d0, ram0, 1⟩ := by
        rw [step_at lT_e0, applyInstr_comment]
        all_goals simp only [evalComp, w16, updateRam_read, jumpTaken, Mach.mk.injEq, reduceIte, Nat.reduceAdd, Nat.reduceMod, Nat.reduceSub, Nat.reduceEqDiff, Nat.mod_mod, and_true, true_and, and_self, if_true, if_false]
      have lT_e1 : nth (programOf (c3LtCmds sl)) 1 = some (.atSym "SP") := rfl
      have lT_r0 : resolveSym (programOf (c3LtCmds sl)) env ("SP") = 0 := rfl
      have lT_s1 : step env (programOf (c3LtCmds sl)) ⟨a0, d0, ram0, 1⟩ = ⟨0, d0, ram0, 2⟩ := by
        rw [step_at lT_e1, applyInstr_atSym]
        all_goals simp only [evalComp, w16, updateRam_read, jumpTaken, Mach.mk.injEq, reduceIte, Nat.reduceAdd, Nat.reduceMod, Nat.reduceSub, Nat.reduceEqDiff, Nat.mod_mod, and_true, true_and, and_self, if_true, if_false, lT_r0]
      have lT_e2 : nth (programOf (c3LtCmds sl)) 2 = some (.cinstr dAM .mMinus1 .jnone) := rfl
      have lT_s2 : step env (programOf (c3LtCmds sl)) ⟨0, d0, ram0, 2⟩ = ⟨257, d0, updateRam (ram0) (0) (257), 3⟩ := by
        rw [step_at lT_e2, applyInstr_cAM]
        all_goals simp only [evalComp, w16, updateRam_read, jumpTaken, Mach.mk.injEq, reduceIte, Nat.reduceAdd, Nat.reduceMod, Nat.reduceSub, Nat.reduceEqDiff, Nat.mod_mod, and_true, true_and, and_self, if_true, if_false, hsp]
      have lT_e3 : nth (programOf (c3LtCmds sl)) 3 = some (.cinstr dD .cm .jnone) := rfl
      have lT_s3 : step env (programOf (c3LtCmds sl)) ⟨257, d0, updateRam (ram0) (0) (257), 3⟩ = ⟨257, b, updateRam (ram0) (0) (257), 4⟩ := by
        rw [step_at lT_e3, applyInstr_cD]
        all_goals simp only [evalComp, w16, updateRam_read, jumpTaken, Mach.mk.injEq, reduceIte, Nat.reduceAdd, Nat.reduceMod, Nat.reduceSub, Nat.reduceEqDiff, Nat.mod_mod, and_true, true_and, and_self, if_true, if_false, h257, Nat.mod_eq_of_lt hb]
      have lT_e4 : nth (programOf (c3LtCmds sl)) 4 = some (.atSym "SP") := rfl
      have lT_s4 : step env (programOf (c3LtCmds sl)) ⟨257, b, updateRam (ram0) (0) (257), 4⟩ = ⟨0, b, updateRam (ram0) (0) (257), 5⟩ := by
        rw [step_at lT_e4, applyInstr_atSym]
        all_goals simp only [evalComp, w16, updateRam_read, jumpTaken, Mach.mk.injEq, reduceIte, Nat.reduceAdd, Nat.reduceMod, Nat.reduceSub, Nat.reduceEqDiff, Nat.mod_mod, and_true, true_and, and_self, if_true, if_false, lT_r0]
      have lT_e5 : nth (programOf (c3LtCmds sl)) 5 = some (.cinstr dAM .mMinus1 .jnone) := rfl
      have lT_s5 : step env (programOf (c3LtCmds sl)) ⟨0, b, updateRam (ram0) (0) (257), 5⟩ = ⟨256, b, updateRam (updateRam (ram0) (0) (257)) (0) (256), 6⟩ := by
        rw [step_at lT_e5, applyInstr_cAM]
        all_goals simp only [evalComp, w16, updateRam_read, jumpTaken, Mach.mk.injEq, reduceIte, Nat.reduceAdd, Nat.reduceMod, Nat.reduceSub, Nat.reduceEqDiff, Nat.mod_mod, and_true, true_and, and_self, if_true, if_false]
      have lT_e6 : nth (programOf (c3LtCmds sl)) 6 = some (.cinstr dD .mMinusD .jnone) := rfl
      have lT_s6 : step env (programOf (c3LtCmds sl)) ⟨256, b, updateRam (updateRam (ram0) (0) (257)) (0) (256), 6⟩ = ⟨256, (a + (65536 - (b))) % 65536, updateRam (updateRam (ram0) (0) (257)) (0) (256), 7⟩ := by
        rw [step_at lT_e6, applyInstr_cD]
        all_goals simp only [evalComp, w16, updateRam_read, jumpTaken, Mach.mk.injEq, reduceIte, Nat.reduceAdd, Nat.reduceMod, Nat.reduceSub, Nat.reduceEqDiff, Nat.mod_mod, and_true, true_and, and_self, if_true, if_false, h256, Nat.mod_eq_of_lt hb, Nat.mod_eq_of_lt ha]
      have lT_e7 : nth (programOf (c3LtCmds sl)) 7 = some (.atSym (compTrueLabel "F" 0)) := rfl
      have lT_r1 : resolveSym (programOf (c3LtCmds sl)) env (compTrueLabel "F" 0) = 13 := rfl
      have lT_s7 : step env (programOf (c3LtCmds sl)) ⟨256, (a + (65536 - (b))) % 65536, updateRam (updateRam (ram0) (0) (257)) (0) (256), 7⟩ = ⟨13, (a + (65536 - (b))) % 65536, updateRam (updateRam (ram0) (0) (257)) (0) (256), 8⟩ := by
        rw [step_at lT_e7, applyInstr_atSym]
        all_goals simp only [evalComp, w16, updateRam_read, jumpTaken, Mach.mk.injEq, reduceIte, Nat.reduceAdd, Nat.reduceMod, Nat.reduceSub, Nat.reduceEqDiff, Nat.mod_mod, and_true, true_and, and_self, if_true, if_false, lT_r1]
      have lT_e8 : nth (programOf (c3LtCmds sl)) 8 = some (.cinstr dNone .cd .jlt) := rfl
      have lT_s8 : step env (programOf (c3LtCmds sl)) ⟨13, (a + (65536 - (b))) % 65536, updateRam (updateRam (ram0) (0) (257)) (0) (256), 8⟩ = ⟨13, (a + (65536 - (b))) % 65536, updateRam (updateRam (ram0) (0) (257)) (0) (256), 13⟩ := by
        rw [step_at lT_e8, applyInstr_jump]
        all_goals simp only [evalComp, w16, updateRam_read, jumpTaken, Mach.mk.injEq, reduceIte, Nat.reduceAdd, Nat.reduceMod, Nat.reduceSub, Nat.reduceEqDiff, Nat.mod_mod, and_true, true_and, and_self, if_true, if_false, hc]
      have lT_e13 : nth (programOf (c3LtCmds sl)) 13 = some (.labelDef (compTrueLabel "F" 0)) := rfl
      have lT_s9 : step env (programOf (c3LtCmds sl)) ⟨13, (a + (65536 - (b))) % 65536, updateRam (updateRam (ram0) (0) (257)) (0) (256), 13⟩ = ⟨13, (a + (65536 - (b))) % 65536, updateRam (updateRam (ram0) (0) (257)) (0) (256), 14⟩ := by
        rw [step_at lT_e13, applyInstr_label]
        all_goals simp only [evalComp, w16, updateRam_read, jumpTaken, Mach.mk.injEq, reduceIte, Nat.reduceAdd, Nat.reduceMod, Nat.reduceSub, Nat.reduceEqDiff, Nat.mod_mod, and_true, true_and, and_self, if_true, if_false]
      have lT_e14 : nth (programOf (c3LtCmds sl)) 14 = some (.atNum 1) := rfl
      have lT_s10 : step env (programOf (c3LtCmds sl)) ⟨13, (a + (65536 - (b))) % 65536, updateRam (updateRam (ram0) (0) (257)) (0) (256), 14⟩ = ⟨1, (a + (65536 - (b))) % 65536, updateRam (updateRam (ram0) (0) (257)) (0) (256), 15⟩ := by
        rw [step_at lT_e14, applyInstr_atNum]
        all_goals simp only [evalComp, w16, updateRam_read, jumpTaken, Mach.mk.injEq, reduceIte, Nat.reduceAdd, Nat.reduceMod, Nat.reduceSub, Nat.reduceEqDiff, Nat.mod_mod, and_true, true_and, and_self, if_true, if_false]
      have lT_e15 : nth (programOf (c3LtCmds sl)) 15 = some (.cinstr dD .negA .jnone) := rfl
      have lT_s11 : step env (programOf (c3LtCmds sl)) ⟨1, (a + (65536 - (b))) % 65536, updateRam (updateRam (ram0) (0) (257)) (0) (256), 15⟩ = ⟨1, 65535, updateRam (updateRam (ram0) (0) (257)) (0) (256), 16⟩ := by
        rw [step_at lT_e15, applyInstr_cD]
        all_goals simp only [evalComp, w16, updateRam_read, jumpTaken, Mach.mk.injEq, reduceIte, Nat.reduceAdd, Nat.reduceMod, Nat.reduceSub, Nat.reduceEqDiff, Nat.mod_mod, and_true, true_and, and_self, if_true, if_false]
      have lT_e16 : nth (programOf (c3LtCmds sl)) 16 = some (.labelDef (compEndLabel "F" 0)) := rfl
      have lT_s12 : step env (programOf (c3LtCmds sl)) ⟨1, 65535, updateRam (updateRam (ram0) (0) (257)) (0) (256), 16⟩ = ⟨1, 65535, updateRam (updateRam (ram0) (0) (257)) (0) (256), 17⟩ := by
        rw [step_at lT_e16, applyInstr_label]
        all_goals simp only [evalComp, w16, updateRam_read, jumpTaken, Mach.mk.injEq, reduceIte, Nat.reduceAdd, Nat.reduceMod, Nat.reduceSub, Nat.reduceEqDiff, Nat.mod_mod, and_true, true_and, and_self, if_true, if_false]
      have lT_e17 : nth (programOf (c3LtCmds sl)) 17 = some (.atSym "SP") := rfl
      have lT_s13 : step env (programOf (c3LtCmds sl)) ⟨1, 65535, updateRam (updateRam (ram0) (0) (257)) (0) (256), 17⟩ = ⟨0, 65535, updateRam (updateRam (ram0) (0) (257)) (0) (256), 18⟩ := by
        rw [step_at lT_e17, applyInstr_atSym]
        all_goals simp only [evalComp, w16, updateRam_read, jumpTaken, Mach.mk.injEq, reduceIte, Nat.reduceAdd, Nat.reduceMod, Nat.reduceSub, Nat.reduceEqDiff, Nat.mod_mod, and_true, true_and, and_self, if_true, if_false, lT_r0]
      have lT_e18 : nth (programOf (c3LtCmds sl)) 18 = some (.cinstr dA .cm .jnone) := rfl
      have lT_s14 : step env (programOf (c3LtCmds sl)) ⟨0, 65535, updateRam (updateRam (ram0) (0) (257)) (0) (256), 18⟩ = ⟨256, 65535, updateRam (updateRam (ram0) (0) (257)) (0) (256), 19⟩ := by
        rw [step_at lT_e18, applyInstr_cA]
        all_goals simp only [evalComp, w16, updateRam_read, jumpTaken, Mach.mk.injEq, reduceIte, Nat.reduceAdd, Nat.reduceMod, Nat.reduceSub, Nat.reduceEqDiff, Nat.mod_mod, and_true, true_and, and_self, if_true, if_false]
      have lT_e19 : nth (programOf (c3LtCmds sl)) 19 = some (.cinstr dM .cd .jnone) := rfl
      have lT_s15 : step env (programOf (c3LtCmds sl)) ⟨256, 65535, updateRam (updateRam (ram0) (0) (257)) (0) (256), 19⟩ = ⟨256, 65535, updateRam (updateRam (updateRam (ram0) (0) (257)) (0) (256)) (256) (65535), 20⟩ := by
        rw [step_at lT_e19, applyInstr_cM]
        all_goals simp only [evalComp, w16, updateRam_read, jumpTaken, Mach.mk.injEq, reduceIte, Nat.reduceAdd, Nat.reduceMod, Nat.reduceSub, Nat.reduceEqDiff, Nat.mod_mod, and_true, true_and, and_self, if_true, if_false]
      have lT_e20 : nth (programOf (c3LtCmds sl)) 20 = some (.atSym "SP") := rfl
      have lT_s16 : step env (programOf (c3LtCmds sl)) ⟨256, 65535, updateRam (updateRam (updateRam (ram0) (0) (257)) (0) (256)) (256) (65535), 20⟩ = ⟨0, 65535, updateRam (updateRam (updateRam (ram0) (0) (257)) (0) (256)) (256) (65535), 21⟩ := by
        rw [step_at lT_e20, applyInstr_atSym]
        all_goals simp only [evalComp, w16, updateRam_read, jumpTaken, Mach.mk.injEq, reduceIte, Nat.reduceAdd, Nat.reduceMod, Nat.reduceSub, Nat.reduceEqDiff, Nat.mod_mod, and_true, true_and, and_self, if_true, if_false, lT_r0]
      have lT_e21 : nth (programOf (c3LtCmds sl)) 21 = some (.cinstr dM .mPlus1 .jnone) := rfl
      have lT_s17 : step env (programOf (c3LtCmds sl)) ⟨0, 65535, updateRam (updateRam (updateRam (ram0) (0) (257)) (0) (256)) (256) (65535), 21⟩ = ⟨0, 65535, updateRam (updateRam (updateRam (updateRam (ram0) (0) (257)) (0) (256)) (256) (65535)) (0) (257), 22⟩ := by
        rw [step_at lT_e21, applyInstr_cM]
        all_goals simp only [evalComp, w16, updateRam_read, jumpTaken, Mach.mk.injEq, reduceIte, Nat.reduceAdd, Nat.reduceMod, Nat.reduceSub, Nat.reduceEqDiff, Nat.mod_mod, and_true, true_and, and_self, if_true, if_false]
      have lT_e22 : nth (programOf (c3LtCmds sl)) 22 = none := rfl
      have lT_s18 : step env (programOf (c3LtCmds sl)) ⟨0, 65535, updateRam (updateRam (updateRam (updateRam (ram0) (0) (257)) (0) (256)) (256) (65535)) (0) (257), 22⟩ = ⟨0, 65535, updateRam (updateRam (updateRam (updateRam (ram0) (0) (257)) (0) (256)) (256) (65535)) (0) (257), 22⟩ := by
        simp only [step, lT_e22]
      have lT_run : run env (programOf (c3LtCmds sl)) 19 ⟨a0, d0, ram0, 0⟩ = ⟨0, 65535, updateRam (updateRam (updateRam (updateRam (ram0) (0) (257)) (0) (256)) (256) (65535)) (0) (257), 22⟩ :=
        calc run env (programOf (c3LtCmds sl)) 19 ⟨a0, d0, ram0, 0⟩
          _ = run env (programOf (c3LtCmds sl)) 18 ⟨a0, d0, ram0, 1⟩ := (run_succ env (programOf (c3LtCmds sl)) 18 ⟨a0, d0, ram0, 0⟩).trans (congrArg (run env (programOf (c3LtCmds sl)) 18) lT_s0)
          _ = run env (programOf (c3LtCmds sl)) 17 ⟨0, d0, ram0, 2⟩ := (run_succ env (programOf (c3LtCmds sl)) 17 ⟨a0, d0, ram0, 1⟩).trans (congrArg (run env (programOf (c3LtCmds sl)) 17) lT_s1)
          _ = run env (programOf (c3LtCmds sl)) 16 ⟨257, d0, updateRam (ram0) (0) (257), 3⟩ := (run_succ env (programOf (c3LtCmds sl)) 16 ⟨0, d0, ram0, 2⟩).trans (congrArg (run env (programOf (c3LtCmds sl)) 16) lT_s2)
          _ = run env (programOf (c3LtCmds sl)) 15 ⟨257, b, updateRam (ram0) (0) (257), 4⟩ := (run_succ env (programOf (c3LtCmds sl)) 15 ⟨257, d0, updateRam (ram0) (0) (257), 3⟩).trans (congrArg (run env (programOf (c3LtCmds sl)) 15) lT_s3)
          _ = run env (programOf (c3LtCmds sl)) 14 ⟨0, b, updateRam (ram0) (0) (257), 5⟩ := (run_succ env (programOf (c3LtCmds sl)) 14 ⟨257, b, updateRam (ram0) (0) (257), 4⟩).trans (congrArg (run env (programOf (c3LtCmds sl)) 14) lT_s4)
          _ = run env (programOf (c3LtCmds sl)) 13 ⟨256, b, updateRam (updateRam (ram0) (0) (257)) (0) (256), 6⟩ := (run_succ env (programOf (c3LtCmds sl)) 13 ⟨0, b, updateRam (ram0) (0) (257), 5⟩).trans (congrArg (run env (programOf (c3LtCmds sl)) 13) lT_s5)
          _ = run env (programOf (c3LtCmds sl)) 12 ⟨256, (a + (65536 - (b))) % 65536, updateRam (updateRam (ram0) (0) (257)) (0) (256), 7⟩ := (run_succ env (programOf (c3LtCmds sl)) 12 ⟨256, b, updateRam (updateRam (ram0) (0) (257)) (0) (256), 6⟩).trans (congrArg (run env (programOf (c3LtCmds sl)) 12) lT_s6)
          _ = run env (programOf (c3LtCmds sl)) 11 ⟨13, (a + (65536 - (b))) % 65536, updateRam (updateRam (ram0) (0) (257)) (0) (256), 8⟩ := (run_succ env (programOf (c3LtCmds sl)) 11 ⟨256, (a + (65536 - (b))) % 65536, updateRam (updateRam (ram0) (0) (257)) (0) (256), 7⟩).trans (congrArg (run env (programOf (c3LtCmds sl)) 11) lT_s7)
          _ = run env (programOf (c3LtCmds sl)) 10 ⟨13, (a + (65536 - (b))) % 65536, updateRam (updateRam (ram0) (0) (257)) (0) (256), 13⟩ := (run_succ env (programOf (c3LtCmds sl)) 10 ⟨13, (a + (65536 - (b))) % 65536, updateRam (updateRam (ram0) (0) (257)) (0) (256), 8⟩).trans (congrArg (run env (programOf (c3LtCmds sl)) 10) lT_s8)
          _ = run env (programOf (c3LtCmds sl)) 9 ⟨13, (a + (65536 - (b))) % 65536, updateRam (updateRam (ram0) (0) (257)) (0) (256), 14⟩ := (run_succ env (programOf (c3LtCmds sl)) 9 ⟨13, (a + (65536 - (b))) % 65536, updateRam (updateRam (ram0) (0) (257)) (0) (256), 13⟩).trans (congrArg (run env (programOf (c3LtCmds sl)) 9) lT_s9)
          _ = run env (programOf (c3LtCmds sl)) 8 ⟨1, (a + (65536 - (b))) % 65536, updateRam (updateRam (ram0) (0) (257)) (0) (256), 15⟩ := (run_succ env (programOf (c3LtCmds sl)) 8 ⟨13, (a + (65536 - (b))) % 65536, updateRam (updateRam (ram0) (0) (257)) (0) (256), 14⟩).trans (congrArg (run env (programOf (c3LtCmds sl)) 8) lT_s10)
          _ = run env (programOf (c3LtCmds sl)) 7 ⟨1, 65535, updateRam (updateRam (ram0) (0) (257)) (0) (256), 16⟩ := (run_succ env (programOf (c3LtCmds sl)) 7 ⟨1, (a + (65536 - (b))) % 65536, updateRam (updateRam (ram0) (0) (257)) (0) (256), 15⟩).trans (congrArg (run env (programOf (c3LtCmds sl)) 7) lT_s11)
          _ = run env (programOf (c3LtCmds sl)) 6 ⟨1, 65535, updateRam (updateRam (ram0) (0) (257)) (0) (256), 17⟩ := (run_succ env (programOf (c3LtCmds sl)) 6 ⟨1, 65535, updateRam (updateRam (ram0) (0) (257)) (0) (256), 16⟩).trans (congrArg (run env (programOf (c3LtCmds sl)) 6) lT_s12)
          _ = run env (programOf (c3LtCmds sl)) 5 ⟨0, 65535, updateRam (updateRam (ram0) (0) (257)) (0) (256), 18⟩ := (run_succ env (programOf (c3LtCmds sl)) 5 ⟨1, 65535, updateRam (updateRam (ram0) (0) (257)) (0) (256), 17⟩).trans (congrArg (run env (programOf (c3LtCmds sl)) 5) lT_s13)
          _ = run env (programOf (c3LtCmds sl)) 4 ⟨256, 65535, updateRam (updateRam (ram0) (0) (257)) (0) (256), 19⟩ := (run_succ env (programOf (c3LtCmds sl)) 4 ⟨0, 65535, updateRam (updateRam (ram0) (0) (257)) (0) (256), 18⟩).trans (congrArg (run env (programOf (c3LtCmds sl)) 4) lT_s14)
          _ = run env (programOf (c3LtCmds sl)) 3 ⟨256, 65535, updateRam (updateRam (updateRam (ram0) (0) (257)) (0) (256)) (256) (65535), 20⟩ := (run_succ env (programOf (c3LtCmds sl)) 3 ⟨256, 65535, updateRam (updateRam (ram0) (0) (257)) (0) (256), 19⟩).trans (congrArg (run env (programOf (c3LtCmds sl)) 3) lT_s15)
          _ = run env (programOf (c3LtCmds sl)) 2 ⟨0, 65535, updateRam (updateRam (updateRam (ram0) (0) (257)) (0) (256)) (256) (65535), 21⟩ := (run_succ env (programOf (c3LtCmds sl)) 2 ⟨256, 65535, updateRam (updateRam (updateRam (ram0) (0) (257)) (0) (256)) (256) (65535), 20⟩).trans (congrArg (run env (programOf (c3LtCmds sl)) 2) lT_s16)
          _ = run env (programOf (c3LtCmds sl)) 1 ⟨0, 65535, updateRam (updateRam (updateRam (updateRam (ram0) (0) (257)) (0) (256)) (256) (65535)) (0) (257), 22⟩ := (run_succ env (programOf (c3LtCmds sl)) 1 ⟨0, 65535, updateRam (updateRam (updateRam (ram0) (0) (257)) (0) (256)) (256) (65535), 21⟩).trans (congrArg (run env (programOf (c3LtCmds sl)) 1) lT_s17)
          _ = run env (programOf (c3LtCmds sl)) 0 ⟨0, 65535, updateRam (updateRam (updateRam (updateRam (ram0) (0) (257)) (0) (256)) (256) (65535)) (0) (257), 22⟩ := (run_succ env (programOf (c3LtCmds sl)) 0 ⟨0, 65535, updateRam (updateRam (updateRam (updateRam (ram0) (0) (257)) (0) (256)) (256) (65535)) (0) (257), 22⟩).trans (congrArg (run env (programOf (c3LtCmds sl)) 0) lT_s18)
          _ = ⟨0, 65535, updateRam (updateRam (updateRam (updateRam (ram0) (0) (257)) (0) (256)) (256) (65535)) (0) (257), 22⟩ := run_zero env (programOf (c3LtCmds sl)) ⟨0, 65535, updateRam (updateRam (updateRam (updateRam (ram0) (0) (257)) (0) (256)) (256) (65535)) (0) (257), 22⟩
      rw [lT_run]
      refine ⟨?_, ?_⟩ <;> simp only [updateRam_read, Nat.reduceEqDiff, reduceIte, if_pos hc]
    · have lF_e0 : nth (programOf (c3LtCmds sl)) 0 = some (.comment (comment ⟨0, Command.Lt, sl, "F"⟩)) := rfl
      have lF_s0 : step env (programOf (c3LtCmds sl)) ⟨a0, d0, ram0, 0⟩ = ⟨a0, d0, ram0, 1⟩ := by
        rw [step_at lF_e0, applyInstr_comment]
        all_goals simp only [evalComp, w16, updateRam_read, jumpTaken, Mach.mk.injEq, reduceIte, Nat.reduceAdd, Nat.reduceMod, Nat.reduceSub, Nat.reduceEqDiff, Nat.mod_mod, and_true, true_and, and_self, if_true, if_false]
      have lF_e1 : nth (programOf (c3LtCmds sl)) 1 = some (.atSym "SP") := rfl
      have lF_r0 : resolveSym (programOf (c3LtCmds sl)) env ("SP") = 0 := rfl
      have lF_s1 : step env (programOf (c3LtCmds sl)) ⟨a0, d0, ram0, 1⟩ = ⟨0, d0, ram0, 2⟩ := by
        rw [step_at lF_e1, applyInstr_atSym]
        all_goals simp only [evalComp, w16, updateRam_read, jumpTaken, Mach.mk.injEq, reduceIte, Nat.reduceAdd, Nat.reduceMod, Nat.reduceSub, Nat.reduceEqDiff, Nat.mod_mod, and_true, true_and, and_self, if_true, if_false, lF_r0]
      have lF_e2 : nth (programOf (c3LtCmds sl)) 2 = some (.cinstr dAM .mMinus1 .jnone) := rfl
      have lF_s2 : step env (programOf (c3LtCmds sl)) ⟨0, d0, ram0, 2⟩ = ⟨257, d0, updateRam (ram0) (0) (257), 3⟩ := by
        rw [step_at lF_e2, applyInstr_cAM]
        all_goals simp only [evalComp, w16, updateRam_read, jumpTaken, Mach.mk.injEq, reduceIte, Nat.reduceAdd, Nat.reduceMod, Nat.reduceSub, Nat.reduceEqDiff, Nat.mod_mod, and_true, true_and, and_self, if_true, if_false, hsp]
      have lF_e3 : nth (programOf (c3LtCmds sl)) 3 = some (.cinstr dD .cm .jnone) := rfl
      have lF_s3 : step env (programOf (c3LtCmds sl)) ⟨257, d0, updateRam (ram0) (0) (257), 3⟩ = ⟨257, b, updateRam (ram0) (0) (257), 4⟩ := by
        rw [step_at lF_e3, applyInstr_cD]
        all_goals simp only [evalComp, w16, updateRam_read, jumpTaken, Mach.mk.injEq, reduceIte, Nat.reduceAdd, Nat.reduceMod, Nat.reduceSub, Nat.reduceEqDiff, Nat.mod_mod, and_true, true_and, and_self, if_true, if_false, h257, Nat.mod_eq_of_lt hb]
      have lF_e4 : nth (programOf (c3LtCmds sl)) 4 = some (.atSym "SP") := rfl
      have lF_s4 : step env (programOf (c3LtCmds sl)) ⟨257, b, updateRam (ram0) (0) (257), 4⟩ = ⟨0, b, updateRam (ram0) (0) (257), 5⟩ := by
        rw [step_at lF_e4, applyInstr_atSym]
        all_goals simp only [evalComp, w16, updateRam_read, jumpTaken, Mach.mk.injEq, reduceIte, Nat.reduceAdd, Nat.reduceMod, Nat.reduceSub, Nat.reduceEqDiff, Nat.mod_mod, and_true, true_and, and_self, if_true, if_false, lF_r0]
      have lF_e5 : nth (programOf (c3LtCmds sl)) 5 = some (.cinstr dAM .mMinus1 .jnone) := rfl
      have lF_s5 : step env (programOf (c3LtCmds sl)) ⟨0, b, updateRam (ram0) (0) (257), 5⟩ = ⟨256, b, updateRam (updateRam (ram0) (0) (257)) (0) (256), 6⟩ := by
        rw [step_at lF_e5, applyInstr_cAM]
        all_goals simp only [evalComp, w16, updateRam_read, jumpTaken, Mach.mk.injEq, reduceIte, Nat.reduceAdd, Nat.reduceMod, Nat.reduceSub, Nat.reduceEqDiff, Nat.mod_mod, and_true, true_and, and_self, if_true, if_false]
      have lF_e6 : nth (programOf (c3LtCmds sl)) 6 = some (.cinstr dD .mMinusD .jnone) := rfl
      have lF_s6 : step env (programOf (c3LtCmds sl)) ⟨256, b, updateRam (updateRam (ram0) (0) (257)) (0) (256), 6⟩ = ⟨256, (a + (65536 - (b))) % 65536, updateRam (updateRam (ram0) (0) (257)) (0) (256), 7⟩ := by
        rw [step_at lF_e6, applyInstr_cD]
        all_goals simp only [evalComp, w16, updateRam_read, jumpTaken, Mach.mk.injEq, reduceIte, Nat.reduceAdd, Nat.reduceMod, Nat.reduceSub, Nat.reduceEqDiff, Nat.mod_mod, and_true, true_and, and_self, if_true, if_false, h256, Nat.mod_eq_of_lt hb, Nat.mod_eq_of_lt ha]
      have lF_e7 : nth (programOf (c3LtCmds sl)) 7 = some (.atSym (compTrueLabel "F" 0)) := rfl
      have lF_r1 : resolveSym (programOf (c3LtCmds sl)) env (compTrueLabel "F" 0) = 13 := rfl
      have lF_s7 : step env (programOf (c3LtCmds sl)) ⟨256, (a + (65536 - (b))) % 65536, updateRam (updateRam (ram0) (0) (257)) (0) (256), 7⟩ = ⟨13, (a + (65536 - (b))) % 65536, updateRam (updateRam (ram0) (0) (257)) (0) (256), 8⟩ := by
        rw [step_at lF_e7, applyInstr_atSym]
        all_goals simp only [evalComp, w16, updateRam_read, jumpTaken, Mach.mk.injEq, reduceIte, Nat.reduceAdd, Nat.reduceMod, Nat.reduceSub, Nat.reduceEqDiff, Nat.mod_mod, and_true, true_and, and_self, if_true, if_false, lF_r1]
      have lF_e8 : nth (programOf (c3LtCmds sl)) 8 = some (.cinstr dNone .cd .jlt) := rfl
      have lF_s8 : step env (programOf (c3LtCmds sl)) ⟨13, (a + (65536 - (b))) % 65536, updateRam (updateRam (ram0) (0) (257)) (0) (256), 8⟩ = ⟨13, (a + (65536 - (b))) % 65536, updateRam (updateRam (ram0) (0) (257)) (0) (256), 9⟩ := by
        rw [step_at lF_e8, applyInstr_jump]
        all_goals simp only [evalComp, w16, updateRam_read, jumpTaken, Mach.mk.injEq, reduceIte, Nat.reduceAdd, Nat.reduceMod, Nat.reduceSub, Nat.reduceEqDiff, Nat.mod_mod, and_true, true_and, and_self, if_true, if_false, hc]
      have lF_e9 : nth (programOf (c3LtCmds sl)) 9 = some (.atNum 0) := rfl
      have lF_s9 : step env (programOf (c3LtCmds sl)) ⟨13, (a + (65536 - (b))) % 65536, updateRam (updateRam (ram0) (0) (257)) (0) (256), 9⟩ = ⟨0, (a + (65536 - (b))) % 65536, updateRam (updateRam (ram0) (0) (257)) (0) (256), 10⟩ := by
        rw [step_at lF_e9, applyInstr_atNum]
        all_goals simp only [evalComp, w16, updateRam_read, jumpTaken, Mach.mk.injEq, reduceIte, Nat.reduceAdd, Nat.reduceMod, Nat.reduceSub, Nat.reduceEqDiff, Nat.mod_mod, and_true, true_and, and_self, if_true, if_false]
      have lF_e10 : nth (programOf (c3LtCmds sl)) 10 = some (.cinstr dD .ca .jnone) := rfl
      have lF_s10 : step env (programOf (c3LtCmds sl)) ⟨0, (a + (65536 - (b))) % 65536, updateRam (updateRam (ram0) (0) (257)) (0) (256), 10⟩ = ⟨0, 0, updateRam (updateRam (ram0) (0) (257)) (0) (256), 11⟩ := by
        rw [step_at lF_e10, applyInstr_cD]
        all_goals simp only [evalComp, w16, updateRam_read, jumpTaken, Mach.mk.injEq, reduceIte, Nat.reduceAdd, Nat.reduceMod, Nat.reduceSub, Nat.reduceEqDiff, Nat.mod_mod, and_true, true_and, and_self, if_true, if_false]
      have lF_e11 : nth (programOf (c3LtCmds sl)) 11 = some (.atSym (compEndLabel "F" 0)) := rfl
      have lF_r2 : resolveSym (programOf (c3LtCmds sl)) env (compEndLabel "F" 0) = 16 := rfl
      have lF_s11 : step env (programOf (c3LtCmds sl)) ⟨0, 0, updateRam (updateRam (ram0) (0) (257)) (0) (256), 11⟩ = ⟨16, 0, updateRam (updateRam (ram0) (0) (257)) (0) (256), 12⟩ := by
        rw [step_at lF_e11, applyInstr_atSym]
        all_goals simp only [evalComp, w16, updateRam_read, jumpTaken, Mach.mk.injEq, reduceIte, Nat.reduceAdd, Nat.reduceMod, Nat.reduceSub, Nat.reduceEqDiff, Nat.mod_mod, and_true, true_and, and_self, if_true, if_false, lF_r2]
      have lF_e12 : nth (programOf (c3LtCmds sl)) 12 = some (.cinstr dNone .zero .jmp) := rfl
      have lF_s12 : step env (programOf (c3LtCmds sl)) ⟨16, 0, updateRam (updateRam (ram0) (0) (257)) (0) (256), 12⟩ = ⟨16, 0, updateRam (updateRam (ram0) (0) (257)) (0) (256), 16⟩ := by
        rw [step_at lF_e12, applyInstr_jump]
        all_goals simp only [evalComp, w16, updateRam_read, jumpTaken, Mach.mk.injEq, reduceIte, Nat.reduceAdd, Nat.reduceMod, Nat.reduceSub, Nat.reduceEqDiff, Nat.mod_mod, and_true, true_and, and_self, if_true, if_false]
      have lF_e16 : nth (programOf (c3LtCmds sl)) 16 = some (.labelDef (compEndLabel "F" 0)) := rfl
      have lF_s13 : step env (programOf (c3LtCmds sl)) ⟨16, 0, updateRam (updateRam (ram0) (0) (257)) (0) (256), 16⟩ = ⟨16, 0, updateRam (updateRam (ram0) (0) (257)) (0) (256), 17⟩ := by
        rw [step_at lF_e16, applyInstr_label]
        all_goals simp only [evalComp, w16, updateRam_read, jumpTaken, Mach.mk.injEq, reduceIte, Nat.reduceAdd, Nat.reduceMod, Nat.reduceSub, Nat.reduceEqDiff, Nat.mod_mod, and_true, true_and, and_self, if_true, if_false]
      have lF_e17 : nth (programOf (c3LtCmds sl)) 17 = some (.atSym "SP") := rfl
      have lF_s14 : step env (programOf (c3LtCmds sl)) ⟨16, 0, updateRam (updateRam (ram0) (0) (257)) (0) (256), 17⟩ = ⟨0, 0, updateRam (updateRam (ram0) (0) (257)) (0) (256), 18⟩ := by
        rw [step_at lF_e17, applyInstr_atSym]
        all_goals simp only [evalComp, w16, updateRam_read, jumpTaken, Mach.mk.injEq, reduceIte, Nat.reduceAdd, Nat.reduceMod, Nat.reduceSub, Nat.reduceEqDiff, Nat.mod_mod, and_true, true_and, and_self, if_true, if_false, lF_r0]
      have lF_e18 : nth (programOf (c3LtCmds sl)) 18 = some (.cinstr dA .cm .jnone) := rfl
      have lF_s15 : step env (programOf (c3LtCmds sl)) ⟨0, 0, updateRam (updateRam (ram0) (0) (257)) (0) (256), 18⟩ = ⟨256, 0, updateRam (updateRam (ram0) (0) (257)) (0) (256), 19⟩ := by
        rw [step_at lF_e18, applyInstr_cA]
        all_goals simp only [evalComp, w16, updateRam_read, jumpTaken, Mach.mk.injEq, reduceIte, Nat.reduceAdd, Nat.reduceMod, Nat.reduceSub, Nat.reduceEqDiff, Nat.mod_mod, and_true, true_and, and_self, if_true, if_false]
      have lF_e19 : nth (programOf (c3LtCmds sl)) 19 = some (.cinstr dM .cd .jnone) := rfl
      have lF_s16 : step env (programOf (c3LtCmds sl)) ⟨256, 0, updateRam (updateRam (ram0) (0) (257)) (0) (256), 19⟩ = ⟨256, 0, updateRam (updateRam (updateRam (ram0) (0) (257)) (0) (256)) (256) (0), 20⟩ := by
        rw [step_at lF_e19, applyInstr_cM]
        all_goals simp only [evalComp, w16, updateRam_read, jumpTaken, Mach.mk.injEq, reduceIte, Nat.reduceAdd, Nat.reduceMod, Nat.reduceSub, Nat.reduceEqDiff, Nat.mod_mod, and_true, true_and, and_self, if_true, if_false]
      have lF_e20 : nth (programOf (c3LtCmds sl)) 20 = some (.atSym "SP") := rfl
      have lF_s17 : step env (programOf (c3LtCmds sl)) ⟨256, 0, updateRam (updateRam (updateRam (ram0) (0) (257)) (0) (256)) (256) (0), 20⟩ = ⟨0, 0, updateRam (updateRam (updateRam (ram0) (0) (257)) (0) (256)) (256) (0), 21⟩ := by
        rw [step_at lF_e20, applyInstr_atSym]
        all_goals simp only [evalComp, w16, updateRam_read, jumpTaken, Mach.mk.injEq, reduceIte, Nat.reduceAdd, Nat.reduceMod, Nat.reduceSub, Nat.reduceEqDiff, Nat.mod_mod, and_true, true_and, and_self, if_true, if_false, lF_r0]
      have lF_e21 : nth (programOf (c3LtCmds sl)) 21 = some (.cinstr dM .mPlus1 .jnone) := rfl
      have lF_s18 : step env (programOf (c3LtCmds sl)) ⟨0, 0, updateRam (updateRam (updateRam (ram0) (0) (257)) (0) (256)) (256) (0), 21⟩ = ⟨0, 0, updateRam (updateRam (updateRam (updateRam (ram0) (0) (257)) (0) (256)) (256) (0)) (0) (257), 22⟩ := by
        rw [step_at lF_e21, applyInstr_cM]
        all_goals simp only [evalComp, w16, updateRam_read, jumpTaken, Mach.mk.injEq, reduceIte, Nat.reduceAdd, Nat.reduceMod, Nat.reduceSub, Nat.reduceEqDiff, Nat.mod_mod, and_true, true_and, and_self, if_true, if_false]
      have lF_run : run env (programOf (c3LtCmds sl)) 19 ⟨a0, d0, ram0, 0⟩ = ⟨0, 0, updateRam (updateRam (updateRam (updateRam (ram0) (0) (257)) (0) (256)) (256) (0)) (0) (257), 22⟩ :=
        calc run env (programOf (c3LtCmds sl)) 19 ⟨a0, d0, ram0, 0⟩
          _ = run env (programOf (c3LtCmds sl)) 18 ⟨a0, d0, ram0, 1⟩ := (run_succ env (programOf (c3LtCmds sl)) 18 ⟨a0, d0, ram0, 0⟩).trans (congrArg (run env (programOf (c3LtCmds sl)) 18) lF_s0)
          _ = run env (programOf (c3LtCmds sl)) 17 ⟨0, d0, ram0, 2⟩ := (run_succ env (programOf (c3LtCmds sl)) 17 ⟨a0, d0, ram0, 1⟩).trans (congrArg (run env (programOf (c3LtCmds sl)) 17) lF_s1)
          _ = run env (programOf (c3LtCmds sl)) 16 ⟨257, d0, updateRam (ram0) (0) (257), 3⟩ := (run_succ env (programOf (c3LtCmds sl)) 16 ⟨0, d0, ram0, 2⟩).trans (congrArg (run env (programOf (c3LtCmds sl)) 16) lF_s2)
          _ = run env (programOf (c3LtCmds sl)) 15 ⟨257, b, updateRam (ram0) (0) (257), 4⟩ := (run_succ env (programOf (c3LtCmds sl)) 15 ⟨257, d0, updateRam (ram0) (0) (257), 3⟩).trans (congrArg (run env (programOf (c3LtCmds sl)) 15) lF_s3)
          _ = run env (programOf (c3LtCmds sl)) 14 ⟨0, b, updateRam (ram0) (0) (257), 5⟩ := (run_succ env (programOf (c3LtCmds sl)) 14 ⟨257, b, updateRam (ram0) (0) (257), 4⟩).trans (congrArg (run env (programOf (c3LtCmds sl)) 14) lF_s4)
          _ = run env (programOf (c3LtCmds sl)) 13 ⟨256, b, updateRam (updateRam (ram0) (0) (257)) (0) (256), 6⟩ := (run_succ env (programOf (c3LtCmds sl)) 13 ⟨0, b, updateRam (ram0) (0) (257), 5⟩).trans (congrArg (run env (programOf (c3LtCmds sl)) 13) lF_s5)
          _ = run env (programOf (c3LtCmds sl)) 12 ⟨256, (a + (65536 - (b))) % 65536, updateRam (updateRam (ram0) (0) (257)) (0) (256), 7⟩ := (run_succ env (programOf (c3LtCmds sl)) 12 ⟨256, b, updateRam (updateRam (ram0) (0) (257)) (0) (256), 6⟩).trans (congrArg (run env (programOf (c3LtCmds sl)) 12) lF_s6)
          _ = run env (programOf (c3LtCmds sl)) 11 ⟨13, (a + (65536 - (b))) % 65536, updateRam (updateRam (ram0) (0) (257)) (0) (256), 8⟩ := (run_succ env (programOf (c3LtCmds sl)) 11 ⟨256, (a + (65536 - (b))) % 65536, updateRam (updateRam (ram0) (0) (257)) (0) (256), 7⟩).trans (congrArg (run env (programOf (c3LtCmds sl)) 11) lF_s7)
          _ = run env (programOf (c3LtCmds sl)) 10 ⟨13, (a + (65536 - (b))) % 65536, updateRam (updateRam (ram0) (0) (257)) (0) (256), 9⟩ := (run_succ env (programOf (c3LtCmds sl)) 10 ⟨13, (a + (65536 - (b))) % 65536, updateRam (updateRam (ram0) (0) (257)) (0) (256), 8⟩).trans (congrArg (run env (programOf (c3LtCmds sl)) 10) lF_s8)
          _ = run env (programOf (c3LtCmds sl)) 9 ⟨0, (a + (65536 - (b))) % 65536, updateRam (updateRam (ram0) (0) (257)) (0) (256), 10⟩ := (run_succ env (programOf (c3LtCmds sl)) 9 ⟨13, (a + (65536 - (b))) % 65536, updateRam (updateRam (ram0) (0) (257)) (0) (256), 9⟩).trans (congrArg (run env (programOf (c3LtCmds sl)) 9) lF_s9)
          _ = run env (programOf (c3LtCmds sl)) 8 ⟨0, 0, updateRam (updateRam (ram0) (0) (257)) (0) (256), 11⟩ := (run_succ env (programOf (c3LtCmds sl)) 8 ⟨0, (a + (65536 - (b))) % 65536, updateRam (updateRam (ram0) (0) (257)) (0) (256), 10⟩).trans (congrArg (run env (programOf (c3LtCmds sl)) 8) lF_s10)
          _ = run env (programOf (c3LtCmds sl)) 7 ⟨16, 0, updateRam (updateRam (ram0) (0) (257)) (0) (256), 12⟩ := (run_succ env (programOf (c3LtCmds sl)) 7 ⟨0, 0, updateRam (updateRam (ram0) (0) (257)) (0) (256), 11⟩).trans (congrArg (run env (programOf (c3LtCmds sl)) 7) lF_s11)
          _ = run env (programOf (c3LtCmds sl)) 6 ⟨16, 0, updateRam (updateRam (ram0) (0) (257)) (0) (256), 16⟩ := (run_succ env (programOf (c3LtCmds sl)) 6 ⟨16, 0, updateRam (updateRam (ram0) (0) (257)) (0) (256), 12⟩).trans (congrArg (run env (programOf (c3LtCmds sl)) 6) lF_s12)
          _ = run env (programOf (c3LtCmds sl)) 5 ⟨16, 0, updateRam (updateRam (ram0) (0) (257)) (0) (256), 17⟩ := (run_succ env (programOf (c3LtCmds sl)) 5 ⟨16, 0, updateRam (updateRam (ram0) (0) (257)) (0) (256), 16⟩).trans (congrArg (run env (programOf (c3LtCmds sl)) 5) lF_s13)
          _ = run env (programOf (c3LtCmds sl)) 4 ⟨0, 0, updateRam (updateRam (ram0) (0) (257)) (0) (256), 18⟩ := (run_succ env (programOf (c3LtCmds sl)) 4 ⟨16, 0, updateRam (updateRam (ram0) (0) (257)) (0) (256), 17⟩).trans (congrArg (run env (programOf (c3LtCmds sl)) 4) lF_s14)
          _ = run env (programOf (c3LtCmds sl)) 3 ⟨256, 0, updateRam (updateRam (ram0) (0) (257)) (0) (256), 19⟩ := (run_succ env (programOf (c3LtCmds sl)) 3 ⟨0, 0, updateRam (updateRam (ram0) (0) (257)) (0) (256), 18⟩).trans (congrArg (run env (programOf (c3LtCmds sl)) 3) lF_s15)
          _ = run env (programOf (c3LtCmds sl)) 2 ⟨256, 0, updateRam (updateRam (updateRam (ram0) (0) (257)) (0) (256)) (256) (0), 20⟩ := (run_succ env (programOf (c3LtCmds sl)) 2 ⟨256, 0, updateRam (updateRam (ram0) (0) (257)) (0) (256), 19⟩).trans (congrArg (run env (programOf (c3LtCmds sl)) 2) lF_s16)
          _ = run env (programOf (c3LtCmds sl)) 1 ⟨0, 0, updateRam (updateRam (updateRam (ram0) (0) (257)) (0) (256)) (256) (0), 21⟩ := (run_succ env (programOf (c3LtCmds sl)) 1 ⟨256, 0, updateRam (updateRam (updateRam (ram0) (0) (257)) (0) (256)) (256) (0), 20⟩).trans (congrArg (run env (programOf (c3LtCmds sl)) 1) lF_s17)
          _ = run env (programOf (c3LtCmds sl)) 0 ⟨0, 0, updateRam (updateRam (updateRam (updateRam (ram0) (0) (257)) (0) (256)) (256) (0)) (0) (257), 22⟩ := (run_succ env (programOf (c3LtCmds sl)) 0 ⟨0, 0, updateRam (updateRam (updateRam (ram0) (0) (257)) (0) (256)) (256) (0), 21⟩).trans (congrArg (run env (programOf (c3LtCmds sl)) 0) lF_s18)
          _ = ⟨0, 0, updateRam (updateRam (updateRam (updateRam (ram0) (0) (257)) (0) (256)) (256) (0)) (0) (257), 22⟩ := run_zero env (programOf (c3LtCmds sl)) ⟨0, 0, updateRam (updateRam (updateRam (updateRam (ram0) (0) (257)) (0) (256)) (256) (0)) (0) (257), 22⟩
      rw [lF_run]
      refine ⟨?_, ?_⟩ <;> simp only [updateRam_read, Nat.reduceEqDiff, reduceIte, if_neg hc]
  have qRes : (run env (programOf (c3EqCmds se)) 19 ⟨a0, d0, ram0, 0⟩).ram 256
      = (if toSigned ((a + (65536 - b)) % 65536) = 0 then 65535 else 0)
      ∧ (run env (programOf (c3EqCmds se)) 19 ⟨a0, d0, ram0, 0⟩).ram 0 = 257 := by
    by_cases hc : toSigned ((a + (65536 - b)) % 65536) = 0
    · have qT_e0 : nth (programOf (c3EqCmds se)) 0 = some (.comment (comment ⟨0, Command.Eq, se, "F"⟩)) := rfl
      have qT_s0 : step env (programOf (c3EqCmds se)) ⟨a0, d0, ram0, 0⟩ = ⟨a0, d0, ram0, 1⟩ := by
        rw [step_at qT_e0, applyInstr_comment]
        all_goals simp only [evalComp, w16, updateRam_read, jumpTaken, Mach.mk.injEq, reduceIte, Nat.reduceAdd, Nat.reduceMod, Nat.reduceSub, Nat.reduceEqDiff, Nat.mod_mod, and_true, true_and, and_self, if_true, if_false]
      have qT_e1 : nth (programOf (c3EqCmds se)) 1 = some (.atSym "SP") := rfl
      have qT_r0 : resolveSym (programOf (c3EqCmds se)) env ("SP") = 0 := rfl
      have qT_s1 : step env (programOf (c3EqCmds se)) ⟨a0, d0, ram0, 1⟩ = ⟨0, d0, ram0, 2⟩ := by
        rw [step_at qT_e1, applyInstr_atSym]
        all_goals simp only [evalComp, w16, updateRam_read, jumpTaken, Mach.mk.injEq, reduceIte, Nat.reduceAdd, Nat.reduceMod, Nat.reduceSub, Nat.reduceEqDiff, Nat.mod_mod, and_true, true_and, and_self, if_true, if_false, qT_r0]
      have qT_e2 : nth (programOf (c3EqCmds se)) 2 = some (.cinstr dAM .mMinus1 .jnone) := rfl
      have qT_s2 : step env (programOf (c3EqCmds se)) ⟨0, d0, ram0, 2⟩ = ⟨257, d0, updateRam (ram0) (0) (257), 3⟩ := by
        rw [step_at qT_e2, applyInstr_cAM]
        all_goals simp only [evalComp, w16, updateRam_read, jumpTaken, Mach.mk.injEq, reduceIte, Nat.reduceAdd, Nat.reduceMod, Nat.reduceSub, Nat.reduceEqDiff, Nat.mod_mod, and_true, true_and, and_self, if_true, if_false, hsp]
      have qT_e3 : nth (programOf (c3EqCmds se)) 3 = some (.cinstr dD .cm .jnone) := rfl
      have qT_s3 : step env (programOf (c3EqCmds se)) ⟨257, d0, updateRam (ram0) (0) (257), 3⟩ = ⟨257, b, updateRam (ram0) (0) (257), 4⟩ := by
        rw [step_at qT_e3, applyInstr_cD]
        all_goals simp only [evalComp, w16, updateRam_read, jumpTaken, Mach.mk.injEq, reduceIte, Nat.reduceAdd, Nat.reduceMod, Nat.reduceSub, Nat.reduceEqDiff, Nat.mod_mod, and_true, true_and, and_self, if_true, if_false, h257, Nat.mod_eq_of_lt hb]
      have qT_e4 : nth (programOf (c3EqCmds se)) 4 = some (.atSym "SP") := rfl
      have qT_s4 : step env (programOf (c3EqCmds se)) ⟨257, b, updateRam (ram0) (0) (257), 4⟩ = ⟨0, b, updateRam (ram0) (0) (257), 5⟩ := by
        rw [step_at qT_e4, applyInstr_atSym]
        all_goals simp only [evalComp, w16, updateRam_read, jumpTaken, Mach.mk.injEq, reduceIte, Nat.reduceAdd, Nat.reduceMod, Nat.reduceSub, Nat.reduceEqDiff, Nat.mod_mod, and_true, true_and, and_self, if_true, if_false, qT_r0]
      have qT_e5 : nth (programOf (c3EqCmds se)) 5 = some (.cinstr dAM .mMinus1 .jnone) := rfl
      have qT_s5 : step env (programOf (c3EqCmds se)) ⟨0, b, updateRam (ram0) (0) (257), 5⟩ = ⟨256, b, updateRam (updateRam (ram0) (0) (257)) (0) (256), 6⟩ := by
        rw [step_at qT_e5, applyInstr_cAM]
        all_goals simp only [evalComp, w16, updateRam_read, jumpTaken, Mach.mk.injEq, reduceIte, Nat.reduceAdd, Nat.reduceMod, Nat.reduceSub, Nat.reduceEqDiff, Nat.mod_mod, and_true, true_and, and_self, if_true, if_false]
      have qT_e6 : nth (programOf (c3EqCmds se)) 6 = some (.cinstr dD .mMinusD .jnone) := rfl
      have qT_s6 : step env (programOf (c3EqCmds se)) ⟨256, b, updateRam (updateRam (ram0) (0) (257)) (0) (256), 6⟩ = ⟨256, (a + (65536 - (b))) % 65536, updateRam (updateRam (ram0) (0) (257)) (0) (256), 7⟩ := by
        rw [step_at qT_e6, applyInstr_cD]
        all_goals simp only [evalComp, w16, updateRam_read, jumpTaken, Mach.mk.injEq, reduceIte, Nat.reduceAdd, Nat.reduceMod, Nat.reduceSub, Nat.reduceEqDiff, Nat.mod_mod, and_true, true_and, and_self, if_true, if_false, h256, Nat.mod_eq_of_lt hb, Nat.mod_eq_of_lt ha]
      have qT_e7 : nth (programOf (c3EqCmds se)) 7 = some (.atSym (compTrueLabel "F" 0)) := rfl
      have qT_r1 : resolveSym (programOf (c3EqCmds se)) env (compTrueLabel "F" 0) = 13 := rfl
      have qT_s7 : step env (programOf (c3EqCmds se)) ⟨256, (a + (65536 - (b))) % 65536, updateRam (updateRam (ram0) (0) (257)) (0) (256), 7⟩ = ⟨13, (a + (65536 - (b))) % 65536, updateRam (updateRam (ram0) (0) (257)) (0) (256), 8⟩ := by
        rw [step_at qT_e7, applyInstr_atSym]
        all_goals simp only [evalComp, w16, updateRam_read, jumpTaken, Mach.mk.injEq, reduceIte, Nat.reduceAdd, Nat.reduceMod, Nat.reduceSub, Nat.reduceEqDiff, Nat.mod_mod, and_true, true_and, and_self, if_true, if_false, qT_r1]
      have qT_e8 : nth (programOf (c3EqCmds se)) 8 = some (.cinstr dNone .cd .jeq) := rfl
      have qT_s8 : step env (programOf (c3EqCmds se)) ⟨13, (a + (65536 - (b))) % 65536, updateRam (updateRam (ram0) (0) (257)) (0) (256), 8⟩ = ⟨13, (a + (65536 - (b))) % 65536, updateRam (updateRam (ram0) (0) (257)) (0) (256), 13⟩ := by
        rw [step_at qT_e8, applyInstr_jump]
        all_goals simp only [evalComp, w16, updateRam_read, jumpTaken, Mach.mk.injEq, reduceIte, Nat.reduceAdd, Nat.reduceMod, Nat.reduceSub, Nat.reduceEqDiff, Nat.mod_mod, and_true, true_and, and_self, if_true, if_false, hc]
      have qT_e13 : nth (programOf (c3EqCmds se)) 13 = some (.labelDef (compTrueLabel "F" 0)) := rfl
      have qT_s9 : step env (programOf (c3EqCmds se)) ⟨13, (a + (65536 - (b))) % 65536, updateRam (updateRam (ram0) (0) (257)) (0) (256), 13⟩ = ⟨13, (a + (65536 - (b))) % 65536, updateRam (updateRam (ram0) (0) (257)) (0) (256), 14⟩ := by
        rw [step_at qT_e13, applyInstr_label]
        all_goals simp only [evalComp, w16, updateRam_read, jumpTaken, Mach.mk.injEq, reduceIte, Nat.reduceAdd, Nat.reduceMod, Nat.reduceSub, Nat.reduceEqDiff, Nat.mod_mod, and_true, true_and, and_self, if_true, if_false]
      have qT_e14 : nth (programOf (c3EqCmds se)) 14 = some (.atNum 1) := rfl
      have qT_s10 : step env (programOf (c3EqCmds se)) ⟨13, (a + (65536 - (b))) % 65536, updateRam (updateRam (ram0) (0) (257)) (0) (256), 14⟩ = ⟨1, (a + (65536 - (b))) % 65536, updateRam (updateRam (ram0) (0) (257)) (0) (256), 15⟩ := by
        rw [step_at qT_e14, applyInstr_atNum]
        all_goals simp only [evalComp, w16, updateRam_read, jumpTaken, Mach.mk.injEq, reduceIte, Nat.reduceAdd, Nat.reduceMod, Nat.reduceSub, Nat.reduceEqDiff, Nat.mod_mod, and_true, true_and, and_self, if_true, if_false]
      have qT_e15 : nth (programOf (c3EqCmds se)) 15 = some (.cinstr dD .negA .jnone) := rfl
      have qT_s11 : step env (programOf (c3EqCmds se)) ⟨1, (a + (65536 - (b))) % 65536, updateRam (updateRam (ram0) (0) (257)) (0) (256), 15⟩ = ⟨1, 65535, updateRam (updateRam (ram0) (0) (257)) (0) (256), 16⟩ := by
        rw [step_at qT_e15, applyInstr_cD]
        all_goals simp only [evalComp, w16, updateRam_read, jumpTaken, Mach.mk.injEq, reduceIte, Nat.reduceAdd, Nat.reduceMod, Nat.reduceSub, Nat.reduceEqDiff, Nat.mod_mod, and_true, true_and, and_self, if_true, if_false]
      have qT_e16 : nth (programOf (c3EqCmds se)) 16 = some (.labelDef (compEndLabel "F" 0)) := rfl
      have qT_s12 : step env (programOf (c3EqCmds se)) ⟨1, 65535, updateRam (updateRam (ram0) (0) (257)) (0) (256), 16⟩ = ⟨1, 65535, updateRam (updateRam (ram0) (0) (257)) (0) (256), 17⟩ := by
        rw [step_at qT_e16, applyInstr_label]
        all_goals simp only [evalComp, w16, updateRam_read, jumpTaken, Mach.mk.injEq, reduceIte, Nat.reduceAdd, Nat.reduceMod, Nat.reduceSub, Nat.reduceEqDiff, Nat.mod_mod, and_true, true_and, and_self, if_true, if_false]
      have qT_e17 : nth (programOf (c3EqCmds se)) 17 = some (.atSym "SP") := rfl
      have qT_s13 : step env (programOf (c3EqCmds se)) ⟨1, 65535, updateRam (updateRam (ram0) (0) (257)) (0) (256), 17⟩ = ⟨0, 65535, updateRam (updateRam (ram0) (0) (257)) (0) (256), 18⟩ := by
        rw [step_at qT_e17, applyInstr_atSym]
        all_goals simp only [evalComp, w16, updateRam_read, jumpTaken, Mach.mk.injEq, reduceIte, Nat.reduceAdd, Nat.reduceMod, Nat.reduceSub, Nat.reduceEqDiff, Nat.mod_mod, and_true, true_and, and_self, if_true, if_false, qT_r0]
      have qT_e18 : nth (programOf (c3EqCmds se)) 18 = some (.cinstr dA .cm .jnone) := rfl
      have qT_s14 : step env (programOf (c3EqCmds se)) ⟨0, 65535, updateRam (updateRam (ram0) (0) (257)) (0) (256), 18⟩ = ⟨256, 65535, updateRam (updateRam (ram0) (0) (257)) (0) (256), 19⟩ := by
        rw [step_at qT_e18, applyInstr_cA]
        all_goals simp only [evalComp, w16, updateRam_read, jumpTaken, Mach.mk.injEq, reduceIte, Nat.reduceAdd, Nat.reduceMod, Nat.reduceSub, Nat.reduceEqDiff, Nat.mod_mod, and_true, true_and, and_self, if_true, if_false]
      have qT_e19 : nth (programOf (c3EqCmds se)) 19 = some (.cinstr dM .cd .jnone) := rfl
      have qT_s15 : step env (programOf (c3EqCmds se)) ⟨256, 65535, updateRam (updateRam (ram0) (0) (257)) (0) (256), 19⟩ = ⟨256, 65535, updateRam (updateRam (updateRam (ram0) (0) (257)) (0) (256)) (256) (65535), 20⟩ := by
        rw [step_at qT_e19, applyInstr_cM]
        all_goals simp only [evalComp, w16, updateRam_read, jumpTaken, Mach.mk.injEq, reduceIte, Nat.reduceAdd, Nat.reduceMod, Nat.reduceSub, Nat.reduceEqDiff, Nat.mod_mod, and_true, true_and, and_self, if_true, if_false]
      have qT_e20 : nth (programOf (c3EqCmds se)) 20 = some (.atSym "SP") := rfl
      have qT_s16 : step env (programOf (c3EqCmds se)) ⟨256, 65535, updateRam (updateRam (updateRam (ram0) (0) (257)) (0) (256)) (256) (65535), 20⟩ = ⟨0, 65535, updateRam (updateRam (updateRam (ram0) (0) (257)) (0) (256)) (256) (65535), 21⟩ := by
        rw [step_at qT_e20, applyInstr_atSym]
        all_goals simp only [evalComp, w16, updateRam_read, jumpTaken, Mach.mk.injEq, reduceIte, Nat.reduceAdd, Nat.reduceMod, Nat.reduceSub, Nat.reduceEqDiff, Nat.mod_mod, and_true, true_and, and_self, if_true, if_false, qT_r0]
      have qT_e21 : nth (programOf (c3EqCmds se)) 21 = some (.cinstr dM .mPlus1 .jnone) := rfl
      have qT_s17 : step env (programOf (c3EqCmds se)) ⟨0, 65535, updateRam (updateRam (updateRam (ram0) (0) (257)) (0) (256)) (256) (65535), 21⟩ = ⟨0, 65535, updateRam (updateRam (updateRam (updateRam (ram0) (0) (257)) (0) (256)) (256) (65535)) (0) (257), 22⟩ := by
        rw [step_at qT_e21, applyInstr_cM]
        all_goals simp only [evalComp, w16, updateRam_read, jumpTaken, Mach.mk.injEq, reduceIte, Nat.reduceAdd, Nat.reduceMod, Nat.reduceSub, Nat.reduceEqDiff, Nat.mod_mod, and_true, true_and, and_self, if_true, if_false]
      have qT_e22 : nth (programOf (c3EqCmds se)) 22 = none := rfl
      have qT_s18 : step env (programOf (c3EqCmds se)) ⟨0, 65535, updateRam (updateRam (updateRam (updateRam (ram0) (0) (257)) (0) (256)) (256) (65535)) (0) (257), 22⟩ = ⟨0, 65535, updateRam (updateRam (updateRam (updateRam (ram0) (0) (257)) (0) (256)) (256) (65535)) (0) (257), 22⟩ := by
        simp only [step, qT_e22]
      have qT_run : run env (programOf (c3EqCmds se)) 19 ⟨a0, d0, ram0, 0⟩ = ⟨0, 65535, updateRam (updateRam (updateRam (updateRam (ram0) (0) (257)) (0) (256)) (256) (65535)) (0) (257), 22⟩ :=
        calc run env (programOf (c3EqCmds se)) 19 ⟨a0, d0, ram0, 0⟩
          _ = run env (programOf (c3EqCmds se)) 18 ⟨a0, d0, ram0, 1⟩ := (run_succ env (programOf (c3EqCmds se)) 18 ⟨a0, d0, ram0, 0⟩).trans (congrArg (run env (programOf (c3EqCmds se)) 18) qT_s0)
          _ = run env (programOf (c3EqCmds se)) 17 ⟨0, d0, ram0, 2⟩ := (run_succ env (programOf (c3EqCmds se)) 17 ⟨a0, d0, ram0, 1⟩).trans (congrArg (run env (programOf (c3EqCmds se)) 17) qT_s1)
          _ = run env (programOf (c3EqCmds se)) 16 ⟨257, d0, updateRam (ram0) (0) (257), 3⟩ := (run_succ env (programOf (c3EqCmds se)) 16 ⟨0, d0, ram0, 2⟩).trans (congrArg (run env (programOf (c3EqCmds se)) 16) qT_s2)
          _ = run env (programOf (c3EqCmds se)) 15 ⟨257, b, updateRam (ram0) (0) (257), 4⟩ := (run_succ env (programOf (c3EqCmds se)) 15 ⟨257, d0, updateRam (ram0) (0) (257), 3⟩).trans (congrArg (run env (programOf (c3EqCmds se)) 15) qT_s3)
          _ = run env (programOf (c3EqCmds se)) 14 ⟨0, b, updateRam (ram0) (0) (257), 5⟩ := (run_succ env (programOf (c3EqCmds se)) 14 ⟨257, b, updateRam (ram0) (0) (257), 4⟩).trans (congrArg (run env (programOf (c3EqCmds se)) 14) qT_s4)
          _ = run env (programOf (c3EqCmds se)) 13 ⟨256, b, updateRam (updateRam (ram0) (0) (257)) (0) (256), 6⟩ := (run_succ env (programOf (c3EqCmds se)) 13 ⟨0, b, updateRam (ram0) (0) (257), 5⟩).trans (congrArg (run env (programOf (c3EqCmds se)) 13) qT_s5)
          _ = run env (programOf (c3EqCmds se)) 12 ⟨256, (a + (65536 - (b))) % 65536, updateRam (updateRam (ram0) (0) (257)) (0) (256), 7⟩ := (run_succ env (programOf (c3EqCmds se)) 12 ⟨256, b, updateRam (updateRam (ram0) (0) (257)) (0) (256), 6⟩).trans (congrArg (run env (programOf (c3EqCmds se)) 12) qT_s6)
          _ = run env (programOf (c3EqCmds se)) 11 ⟨13, (a + (65536 - (b))) % 65536, updateRam (updateRam (ram0) (0) (257)) (0) (256), 8⟩ := (run_succ env (programOf (c3EqCmds se)) 11 ⟨256, (a + (65536 - (b))) % 65536, updateRam (updateRam (ram0) (0) (257)) (0) (256), 7⟩).trans (congrArg (run env (programOf (c3EqCmds se)) 11) qT_s7)
          _ = run env (programOf (c3EqCmds se)) 10 ⟨13, (a + (65536 - (b))) % 65536, updateRam (updateRam (ram0) (0) (257)) (0) (256), 13⟩ := (run_succ env (programOf (c3EqCmds se)) 10 ⟨13, (a + (65536 - (b))) % 65536, updateRam (updateRam (ram0) (0) (257)) (0) (256), 8⟩).trans (congrArg (run env (programOf (c3EqCmds se)) 10) qT_s8)
          _ = run env (programOf (c3EqCmds se)) 9 ⟨13, (a + (65536 - (b))) % 65536, updateRam (updateRam (ram0) (0) (257)) (0) (256), 14⟩ := (run_succ env (programOf (c3EqCmds se)) 9 ⟨13, (a + (65536 - (b))) % 65536, updateRam (updateRam (ram0) (0) (257)) (0) (256), 13⟩).trans (congrArg (run env (programOf (c3EqCmds se)) 9) qT_s9)
          _ = run env (programOf (c3EqCmds se)) 8 ⟨1, (a + (65536 - (b))) % 65536, updateRam (updateRam (ram0) (0) (257)) (0) (256), 15⟩ := (run_succ env (programOf (c3EqCmds se)) 8 ⟨13, (a + (65536 - (b))) % 65536, updateRam (updateRam (ram0) (0) (257)) (0) (256), 14⟩).trans (congrArg (run env (programOf (c3EqCmds se)) 8) qT_s10)
          _ = run env (programOf (c3EqCmds se)) 7 ⟨1, 65535, updateRam (updateRam (ram0) (0) (257)) (0) (256), 16⟩ := (run_succ env (programOf (c3EqCmds se)) 7 ⟨1, (a + (65536 - (b))) % 65536, updateRam (updateRam (ram0) (0) (257)) (0) (256), 15⟩).trans (congrArg (run env (programOf (c3EqCmds se)) 7) qT_s11)
          _ = run env (programOf (c3EqCmds se)) 6 ⟨1, 65535, updateRam (updateRam (ram0) (0) (257)) (0) (256), 17⟩ := (run_succ env (programOf (c3EqCmds se)) 6 ⟨1, 65535, updateRam (updateRam (ram0) (0) (257)) (0) (256), 16⟩).trans (congrArg (run env (programOf (c3EqCmds se)) 6) qT_s12)
          _ = run env (programOf (c3EqCmds se)) 5 ⟨0, 65535, updateRam (updateRam (ram0) (0) (257)) (0) (256), 18⟩ := (run_succ env (programOf (c3EqCmds se)) 5 ⟨1, 65535, updateRam (updateRam (ram0) (0) (257)) (0) (256), 17⟩).trans (congrArg (run env (programOf (c3EqCmds se)) 5) qT_s13)
          _ = run env (programOf (c3EqCmds se)) 4 ⟨256, 65535, updateRam (updateRam (ram0) (0) (257)) (0) (256), 19⟩ := (run_succ env (programOf (c3EqCmds se)) 4 ⟨0, 65535, updateRam (updateRam (ram0) (0) (257)) (0) (256), 18⟩).trans (congrArg (run env (programOf (c3EqCmds se)) 4) qT_s14)
          _ = run env (programOf (c3EqCmds se)) 3 ⟨256, 65535, updateRam (updateRam (updateRam (ram0) (0) (257)) (0) (256)) (256) (65535), 20⟩ := (run_succ env (programOf (c3EqCmds se)) 3 ⟨256, 65535, updateRam (updateRam (ram0) (0) (257)) (0) (256), 19⟩).trans (congrArg (run env (programOf (c3EqCmds se)) 3) qT_s15)
          _ = run env (programOf (c3EqCmds se)) 2 ⟨0, 65535, updateRam (updateRam (updateRam (ram0) (0) (257)) (0) (256)) (256) (65535), 21⟩ := (run_succ env (programOf (c3EqCmds se)) 2 ⟨256, 65535, updateRam (updateRam (updateRam (ram0) (0) (257)) (0) (256)) (256) (65535), 20⟩).trans (congrArg (run env (programOf (c3EqCmds se)) 2) qT_s16)
          _ = run env (programOf (c3EqCmds se)) 1 ⟨0, 65535, updateRam (updateRam (updateRam (updateRam (ram0) (0) (257)) (0) (256)) (256) (65535)) (0) (257), 22⟩ := (run_succ env (programOf (c3EqCmds se)) 1 ⟨0, 65535, updateRam (updateRam (updateRam (ram0) (0) (257)) (0) (256)) (256) (65535), 21⟩).trans (congrArg (run env (programOf (c3EqCmds se)) 1) qT_s17)
          _ = run env (programOf (c3EqCmds se)) 0 ⟨0, 65535, updateRam (updateRam (updateRam (updateRam (ram0) (0) (257)) (0) (256)) (256) (65535)) (0) (257), 22⟩ := (run_succ env (programOf (c3EqCmds se)) 0 ⟨0, 65535, updateRam (updateRam (updateRam (updateRam (ram0) (0) (257)) (0) (256)) (256) (65535)) (0) (257), 22⟩).trans (congrArg (run env (programOf (c3EqCmds se)) 0) qT_s18)
          _ = ⟨0, 65535, updateRam (updateRam (updateRam (updateRam (ram0) (0) (257)) (0) (256)) (256) (65535)) (0) (257), 22⟩ := run_zero env (programOf (c3EqCmds se)) ⟨0, 65535, updateRam (updateRam (updateRam (updateRam (ram0) (0) (257)) (0) (256)) (256) (65535)) (0) (257), 22⟩
      rw [qT_run]
      refine ⟨?_, ?_⟩ <;> simp only [updateRam_read, Nat.reduceEqDiff, reduceIte, if_pos hc]
    · have qF_e0 : nth (programOf (c3EqCmds se)) 0 = some (.comment (comment ⟨0, Command.Eq, se, "F"⟩)) := rfl
      have qF_s0 : step env (programOf (c3EqCmds se)) ⟨a0, d0, ram0, 0⟩ = ⟨a0, d0, ram0, 1⟩ := by
        rw [step_at qF_e0, applyInstr_comment]
        all_goals simp only [evalComp, w16, updateRam_read, jumpTaken, Mach.mk.injEq, reduceIte, Nat.reduceAdd, Nat.reduceMod, Nat.reduceSub, Nat.reduceEqDiff, Nat.mod_mod, and_true, true_and, and_self, if_true, if_false]
      have qF_e1 : nth (programOf (c3EqCmds se)) 1 = some (.atSym "SP") := rfl
      have qF_r0 : resolveSym (programOf (c3EqCmds se)) env ("SP") = 0 := rfl
      have qF_s1 : step env (programOf (c3EqCmds se)) ⟨a0, d0, ram0, 1⟩ = ⟨0, d0, ram0, 2⟩ := by
        rw [step_at qF_e1, applyInstr_atSym]
        all_goals simp only [evalComp, w16, updateRam_read, jumpTaken, Mach.mk.injEq, reduceIte, Nat.reduceAdd, Nat.reduceMod, Nat.reduceSub, Nat.reduceEqDiff, Nat.mod_mod, and_true, true_and, and_self, if_true, if_false, qF_r0]
      have qF_e2 : nth (programOf (c3EqCmds se)) 2 = some (.cinstr dAM .mMinus1 .jnone) := rfl
      have qF_s2 : step env (programOf (c3EqCmds se)) ⟨0, d0, ram0, 2⟩ = ⟨257, d0, updateRam (ram0) (0) (257), 3⟩ := by
        rw [step_at qF_e2, applyInstr_cAM]
        all_goals simp only [evalComp, w16, updateRam_read, jumpTaken, Mach.mk.injEq, reduceIte, Nat.reduceAdd, Nat.reduceMod, Nat.reduceSub, Nat.reduceEqDiff, Nat.mod_mod, and_true, true_and, and_self, if_true, if_false, hsp]
      have qF_e3 : nth (programOf (c3EqCmds se)) 3 = some (.cinstr dD .cm .jnone) := rfl
      have qF_s3 : step env (programOf (c3EqCmds se)) ⟨257, d0, updateRam (ram0) (0) (257), 3⟩ = ⟨257, b, updateRam (ram0) (0) (257), 4⟩ := by
        rw [step_at qF_e3, applyInstr_cD]
        all_goals simp only [evalComp, w16, updateRam_read, jumpTaken, Mach.mk.injEq, reduceIte, Nat.reduceAdd, Nat.reduceMod, Nat.reduceSub, Nat.reduceEqDiff, Nat.mod_mod, and_true, true_and, and_self, if_true, if_false, h257, Nat.mod_eq_of_lt hb]
      have qF_e4 : nth (programOf (c3EqCmds se)) 4 = some (.atSym "SP") := rfl
      have qF_s4 : step env (programOf (c3EqCmds se)) ⟨257, b, updateRam (ram0) (0) (257), 4⟩ = ⟨0, b, updateRam (ram0) (0) (257), 5⟩ := by
        rw [step_at qF_e4, applyInstr_atSym]
        all_goals simp only [evalComp, w16, updateRam_read, jumpTaken, Mach.mk.injEq, reduceIte, Nat.reduceAdd, Nat.reduceMod, Nat.reduceSub, Nat.reduceEqDiff, Nat.mod_mod, and_true, true_and, and_self, if_true, if_false, qF_r0]
      have qF_e5 : nth (programOf (c3EqCmds se)) 5 = some (.cinstr dAM .mMinus1 .jnone) := rfl
      have qF_s5 : step env (programOf (c3EqCmds se)) ⟨0, b, updateRam (ram0) (0) (257), 5⟩ = ⟨256, b, updateRam (updateRam (ram0) (0) (257)) (0) (256), 6⟩ := by
        rw [step_at qF_e5, applyInstr_cAM]
        all_goals simp only [evalComp, w16, updateRam_read, jumpTaken, Mach.mk.injEq, reduceIte, Nat.reduceAdd, Nat.reduceMod, Nat.reduceSub, Nat.reduceEqDiff, Nat.mod_mod, and_true, true_and, and_self, if_true, if_false]
      have qF_e6 : nth (programOf (c3EqCmds se)) 6 = some (.cinstr dD .mMinusD .jnone) := rfl
      have qF_s6 : step env (programOf (c3EqCmds se)) ⟨256, b, updateRam (updateRam (ram0) (0) (257)) (0) (256), 6⟩ = ⟨256, (a + (65536 - (b))) % 65536, updateRam (updateRam (ram0) (0) (257)) (0) (256), 7⟩ := by
        rw [step_at qF_e6, applyInstr_cD]
        all_goals simp only [evalComp, w16, updateRam_read, jumpTaken, Mach.mk.injEq, reduceIte, Nat.reduceAdd, Nat.reduceMod, Nat.reduceSub, Nat.reduceEqDiff, Nat.mod_mod, and_true, true_and, and_self, if_true, if_false, h256, Nat.mod_eq_of_lt hb, Nat.mod_eq_of_lt ha]
      have qF_e7 : nth (programOf (c3EqCmds se)) 7 = some (.atSym (compTrueLabel "F" 0)) := rfl
      have qF_r1 : resolveSym (programOf (c3EqCmds se)) env (compTrueLabel "F" 0) = 13 := rfl
      have qF_s7 : step env (programOf (c3EqCmds se)) ⟨256, (a + (65536 - (b))) % 65536, updateRam (updateRam (ram0) (0) (257)) (0) (256), 7⟩ = ⟨13, (a + (65536 - (b))) % 65536, updateRam (updateRam (ram0) (0) (257)) (0) (256), 8⟩ := by
        rw [step_at qF_e7, applyInstr_atSym]
        all_goals simp only [evalComp, w16, updateRam_read, jumpTaken, Mach.mk.injEq, reduceIte, Nat.reduceAdd, Nat.reduceMod, Nat.reduceSub, Nat.reduceEqDiff, Nat.mod_mod, and_true, true_and, and_self, if_true, if_false, qF_r1]
      have qF_e8 : nth (programOf (c3EqCmds se)) 8 = some (.cinstr dNone .cd .jeq) := rfl
      have qF_s8 : step env (programOf (c3EqCmds se)) ⟨13, (a + (65536 - (b))) % 65536, updateRam (updateRam (ram0) (0) (257)) (0) (256), 8⟩ = ⟨13, (a + (65536 - (b))) % 65536, updateRam (updateRam (ram0) (0) (257)) (0) (256), 9⟩ := by
        rw [step_at qF_e8, applyInstr_jump]
        all_goals simp only [evalComp, w16, updateRam_read, jumpTaken, Mach.mk.injEq, reduceIte, Nat.reduceAdd, Nat.reduceMod, Nat.reduceSub, Nat.reduceEqDiff, Nat.mod_mod, and_true, true_and, and_self, if_true, if_false, hc]
      have qF_e9 : nth (programOf (c3EqCmds se)) 9 = some (.atNum 0) := rfl
      have qF_s9 : step env (programOf (c3EqCmds se)) ⟨13, (a + (65536 - (b))) % 65536, updateRam (updateRam (ram0) (0) (257)) (0) (256), 9⟩ = ⟨0, (a + (65536 - (b))) % 65536, updateRam (updateRam (ram0) (0) (257)) (0) (256), 10⟩ := by
        rw [step_at qF_e9, applyInstr_atNum]
        all_goals simp only [evalComp, w16, updateRam_read, jumpTaken, Mach.mk.injEq, reduceIte, Nat.reduceAdd, Nat.reduceMod, Nat.reduceSub, Nat.reduceEqDiff, Nat.mod_mod, and_true, true_and, and_self, if_true, if_false]
      have qF_e10 : nth (programOf (c3EqCmds se)) 10 = some (.cinstr dD .ca .jnone) := rfl
      have qF_s10 : step env (programOf (c3EqCmds se)) ⟨0, (a + (65536 - (b))) % 65536, updateRam (updateRam (ram0) (0) (257)) (0) (256), 10⟩ = ⟨0, 0, updateRam (updateRam (ram0) (0) (257)) (0) (256), 11⟩ := by
        rw [step_at qF_e10, applyInstr_cD]
        all_goals simp only [evalComp, w16, updateRam_read, jumpTaken, Mach.mk.injEq, reduceIte, Nat.reduceAdd, Nat.reduceMod, Nat.reduceSub, Nat.reduceEqDiff, Nat.mod_mod, and_true, true_and, and_self, if_true, if_false]
      have qF_e11 : nth (programOf (c3EqCmds se)) 11 = some (.atSym (compEndLabel "F" 0)) := rfl
      have qF_r2 : resolveSym (programOf (c3EqCmds se)) env (compEndLabel "F" 0) = 16 := rfl
      have qF_s11 : step env (programOf (c3EqCmds se)) ⟨0, 0, updateRam (updateRam (ram0) (0) (257)) (0) (256), 11⟩ = ⟨16, 0, updateRam (updateRam (ram0) (0) (257)) (0) (256), 12⟩ := by
        rw [step_at qF_e11, applyInstr_atSym]
        all_goals simp only [evalComp, w16, updateRam_read, jumpTaken, Mach.mk.injEq, reduceIte, Nat.reduceAdd, Nat.reduceMod, Nat.reduceSub, Nat.reduceEqDiff, Nat.mod_mod, and_true, true_and, and_self, if_true, if_false, qF_r2]
      have qF_e12 : nth (programOf (c3EqCmds se)) 12 = some (.cinstr dNone .zero .jmp) := rfl
      have qF_s12 : step env (programOf (c3EqCmds se)) ⟨16, 0, updateRam (updateRam (ram0) (0) (257)) (0) (256), 12⟩ = ⟨16, 0, updateRam (updateRam (ram0) (0) (257)) (0) (256), 16⟩ := by
        rw [step_at qF_e12, applyInstr_jump]
        all_goals simp only [evalComp, w16, updateRam_read, jumpTaken, Mach.mk.injEq, reduceIte, Nat.reduceAdd, Nat.reduceMod, Nat.reduceSub, Nat.reduceEqDiff, Nat.mod_mod, and_true, true_and, and_self, if_true, if_false]
      have qF_e16 : nth (programOf (c3EqCmds se)) 16 = some (.labelDef (compEndLabel "F" 0)) := rfl
      have qF_s13 : step env (programOf (c3EqCmds se)) ⟨16, 0, updateRam (updateRam (ram0) (0) (257)) (0) (256), 16⟩ = ⟨16, 0, updateRam (updateRam (ram0) (0) (257)) (0) (256), 17⟩ := by
        rw [step_at qF_e16, applyInstr_label]
        all_goals simp only [evalComp, w16, updateRam_read, jumpTaken, Mach.mk.injEq, reduceIte, Nat.reduceAdd, Nat.reduceMod, Nat.reduceSub, Nat.reduceEqDiff, Nat.mod_mod, and_true, true_and, and_self, if_true, if_false]
      have qF_e17 : nth (programOf (c3EqCmds se)) 17 = some (.atSym "SP") := rfl
      have qF_s14 : step env (programOf (c3EqCmds se)) ⟨16, 0, updateRam (updateRam (ram0) (0) (257)) (0) (256), 17⟩ = ⟨0, 0, updateRam (updateRam (ram0) (0) (257)) (0) (256), 18⟩ := by
        rw [step_at qF_e17, applyInstr_atSym]
        all_goals simp only [evalComp, w16, updateRam_read, jumpTaken, Mach.mk.injEq, reduceIte, Nat.reduceAdd, Nat.reduceMod, Nat.reduceSub, Nat.reduceEqDiff, Nat.mod_mod, and_true, true_and, and_self, if_true, if_false, qF_r0]
      have qF_e18 : nth (programOf (c3EqCmds se)) 18 = some (.cinstr dA .cm .jnone) := rfl
      have qF_s15 : step env (programOf (c3EqCmds se)) ⟨0, 0, updateRam (updateRam (ram0) (0) (257)) (0) (256), 18⟩ = ⟨256, 0, updateRam (updateRam (ram0) (0) (257)) (0) (256), 19⟩ := by
        rw [step_at qF_e18, applyInstr_cA]
        all_goals simp only [evalComp, w16, updateRam_read, jumpTaken, Mach.mk.injEq, reduceIte, Nat.reduceAdd, Nat.reduceMod, Nat.reduceSub, Nat.reduceEqDiff, Nat.mod_mod, and_true, true_and, and_self, if_true, if_false]
      have qF_e19 : nth (programOf (c3EqCmds se)) 19 = some (.cinstr dM .cd .jnone) := rfl
      have qF_s16 : step env (programOf (c3EqCmds se)) ⟨256, 0, updateRam (updateRam (ram0) (0) (257)) (0) (256), 19⟩ = ⟨256, 0, updateRam (updateRam (updateRam (ram0) (0) (257)) (0) (256)) (256) (0), 20⟩ := by
        rw [step_at qF_e19, applyInstr_cM]
        all_goals simp only [evalComp, w16, updateRam_read, jumpTaken, Mach.mk.injEq, reduceIte, Nat.reduceAdd, Nat.reduceMod, Nat.reduceSub, Nat.reduceEqDiff, Nat.mod_mod, and_true, true_and, and_self, if_true, if_false]
      have qF_e20 : nth (programOf (c3EqCmds se)) 20 = some (.atSym "SP") := rfl
      have qF_s17 : step env (programOf (c3EqCmds se)) ⟨256, 0, updateRam (updateRam (updateRam (ram0) (0) (257)) (0) (256)) (256) (0), 20⟩ = ⟨0, 0, updateRam (updateRam (updateRam (ram0) (0) (257)) (0) (256)) (256) (0), 21⟩ := by
        rw [step_at qF_e20, applyInstr_atSym]
        all_goals simp only [evalComp, w16, updateRam_read, jumpTaken, Mach.mk.injEq, reduceIte, Nat.reduceAdd, Nat.reduceMod, Nat.reduceSub, Nat.reduceEqDiff, Nat.mod_mod, and_true, true_and, and_self, if_true, if_false, qF_r0]
      have qF_e21 : nth (programOf (c3EqCmds se)) 21 = some (.cinstr dM .mPlus1 .jnone) := rfl
      have qF_s18 : step env (programOf (c3EqCmds se)) ⟨0, 0, updateRam (updateRam (updateRam (ram0) (0) (257)) (0) (256)) (256) (0), 21⟩ = ⟨0, 0, updateRam (updateRam (updateRam (updateRam (ram0) (0) (257)) (0) (256)) (256) (0)) (0) (257), 22⟩ := by
        rw [step_at qF_e21, applyInstr_cM]
        all_goals simp only [evalComp, w16, updateRam_read, jumpTaken, Mach.mk.injEq, reduceIte, Nat.reduceAdd, Nat.reduceMod, Nat.reduceSub, Nat.reduceEqDiff, Nat.mod_mod, and_true, true_and, and_self, if_true, if_false]
      have qF_run : run env (programOf (c3EqCmds se)) 19 ⟨a0, d0, ram0, 0⟩ = ⟨0, 0, updateRam (updateRam (updateRam (updateRam (ram0) (0) (257)) (0) (256)) (256) (0)) (0) (257), 22⟩ :=
        calc run env (programOf (c3EqCmds se)) 19 ⟨a0, d0, ram0, 0⟩
          _ = run env (programOf (c3EqCmds se)) 18 ⟨a0, d0, ram0, 1⟩ := (run_succ env (programOf (c3EqCmds se)) 18 ⟨a0, d0, ram0, 0⟩).trans (congrArg (run env (programOf (c3EqCmds se)) 18) qF_s0)
          _ = run env (programOf (c3EqCmds se)) 17 ⟨0, d0, ram0, 2⟩ := (run_succ env (programOf (c3EqCmds se)) 17 ⟨a0, d0, ram0, 1⟩).trans (congrArg (run env (programOf (c3EqCmds se)) 17) qF_s1)
          _ = run env (programOf (c3EqCmds se)) 16 ⟨257, d0, updateRam (ram0) (0) (257), 3⟩ := (run_succ env (programOf (c3EqCmds se)) 16 ⟨0, d0, ram0, 2⟩).trans (congrArg (run env (programOf (c3EqCmds se)) 16) qF_s2)
          _ = run env (programOf (c3EqCmds se)) 15 ⟨257, b, updateRam (ram0) (0) (257), 4⟩ := (run_succ env (programOf (c3EqCmds se)) 15 ⟨257, d0, updateRam (ram0) (0) (257), 3⟩).trans (congrArg (run env (programOf (c3EqCmds se)) 15) qF_s3)
          _ = run env (programOf (c3EqCmds se)) 14 ⟨0, b, updateRam (ram0) (0) (257), 5⟩ := (run_succ env (programOf (c3EqCmds se)) 14 ⟨257, b, updateRam (ram0) (0) (257), 4⟩).trans (congrArg (run env (programOf (c3EqCmds se)) 14) qF_s4)
          _ = run env (programOf (c3EqCmds se)) 13 ⟨256, b, updateRam (updateRam (ram0) (0) (257)) (0) (256), 6⟩ := (run_succ env (programOf (c3EqCmds se)) 13 ⟨0, b, updateRam (ram0) (0) (257), 5⟩).trans (congrArg (run env (programOf (c3EqCmds se)) 13) qF_s5)
          _ = run env (programOf (c3EqCmds se)) 12 ⟨256, (a + (65536 - (b))) % 65536, updateRam (updateRam (ram0) (0) (257)) (0) (256), 7⟩ := (run_succ env (programOf (c3EqCmds se)) 12 ⟨256, b, updateRam (updateRam (ram0) (0) (257)) (0) (256), 6⟩).trans (congrArg (run env (programOf (c3EqCmds se)) 12) qF_s6)
          _ = run env (programOf (c3EqCmds se)) 11 ⟨13, (a + (65536 - (b))) % 65536, updateRam (updateRam (ram0) (0) (257)) (0) (256), 8⟩ := (run_succ env (programOf (c3EqCmds se)) 11 ⟨256, (a + (65536 - (b))) % 65536, updateRam (updateRam (ram0) (0) (257)) (0) (256), 7⟩).trans (congrArg (run env (programOf (c3EqCmds se)) 11) qF_s7)
          _ = run env (programOf (c3EqCmds se)) 10 ⟨13, (a + (65536 - (b))) % 65536, updateRam (updateRam (ram0) (0) (257)) (0) (256), 9⟩ := (run_succ env (programOf (c3EqCmds se)) 10 ⟨13, (a + (65536 - (b))) % 65536, updateRam (updateRam (ram0) (0) (257)) (0) (256), 8⟩).trans (congrArg (run env (programOf (c3EqCmds se)) 10) qF_s8)
          _ = run env (programOf (c3EqCmds se)) 9 ⟨0, (a + (65536 - (b))) % 65536, updateRam (updateRam (ram0) (0) (257)) (0) (256), 10⟩ := (run_succ env (programOf (c3EqCmds se)) 9 ⟨13, (a + (65536 - (b))) % 65536, updateRam (updateRam (ram0) (0) (257)) (0) (256), 9⟩).trans (congrArg (run env (programOf (c3EqCmds se)) 9) qF_s9)
          _ = run env (programOf (c3EqCmds se)) 8 ⟨0, 0, updateRam (updateRam (ram0) (0) (257)) (0) (256), 11⟩ := (run_succ env (programOf (c3EqCmds se)) 8 ⟨0, (a + (65536 - (b))) % 65536, updateRam (updateRam (ram0) (0) (257)) (0) (256), 10⟩).trans (congrArg (run env (programOf (c3EqCmds se)) 8) qF_s10)
          _ = run env (programOf (c3EqCmds se)) 7 ⟨16, 0, updateRam (updateRam (ram0) (0) (257)) (0) (256), 12⟩ := (run_succ env (programOf (c3EqCmds se)) 7 ⟨0, 0, updateRam (updateRam (ram0) (0) (257)) (0) (256), 11⟩).trans (congrArg (run env (programOf (c3EqCmds se)) 7) qF_s11)
          _ = run env (programOf (c3EqCmds se)) 6 ⟨16, 0, updateRam (updateRam (ram0) (0) (257)) (0) (256), 16⟩ := (run_succ env (programOf (c3EqCmds se)) 6 ⟨16, 0, updateRam (updateRam (ram0) (0) (257)) (0) (256), 12⟩).trans (congrArg (run env (programOf (c3EqCmds se)) 6) qF_s12)
          _ = run env (programOf (c3EqCmds se)) 5 ⟨16, 0, updateRam (updateRam (ram0) (0) (257)) (0) (256), 17⟩ := (run_succ env (programOf (c3EqCmds se)) 5 ⟨16, 0, updateRam (updateRam (ram0) (0) (257)) (0) (256), 16⟩).trans (congrArg (run env (programOf (c3EqCmds se)) 5) qF_s13)
          _ = run env (programOf (c3EqCmds se)) 4 ⟨0, 0, updateRam (updateRam (ram0) (0) (257)) (0) (256), 18⟩ := (run_succ env (programOf (c3EqCmds se)) 4 ⟨16, 0, updateRam (updateRam (ram0) (0) (257)) (0) (256), 17⟩).trans (congrArg (run env (programOf (c3EqCmds se)) 4) qF_s14)
          _ = run env (programOf (c3EqCmds se)) 3 ⟨256, 0, updateRam (updateRam (ram0) (0) (257)) (0) (256), 19⟩ := (run_succ env (programOf (c3EqCmds se)) 3 ⟨0, 0, updateRam (updateRam (ram0) (0) (257)) (0) (256), 18⟩).trans (congrArg (run env (programOf (c3EqCmds se)) 3) qF_s15)
          _ = run env (programOf (c3EqCmds se)) 2 ⟨256, 0, updateRam (updateRam (updateRam (ram0) (0) (257)) (0) (256)) (256) (0), 20⟩ := (run_succ env (programOf (c3EqCmds se)) 2 ⟨256, 0, updateRam (updateRam (ram0) (0) (257)) (0) (256), 19⟩).trans (congrArg (run env (programOf (c3EqCmds se)) 2) qF_s16)
          _ = run env (programOf (c3EqCmds se)) 1 ⟨0, 0, updateRam (updateRam (updateRam (ram0) (0) (257)) (0) (256)) (256) (0), 21⟩ := (run_succ env (programOf (c3EqCmds se)) 1 ⟨256, 0, updateRam (updateRam (updateRam (ram0) (0) (257)) (0) (256)) (256) (0), 20⟩).trans (congrArg (run env (programOf (c3EqCmds se)) 1) qF_s17)
          _ = run env (programOf (c3EqCmds se)) 0 ⟨0, 0, updateRam (updateRam (updateRam (updateRam (ram0) (0) (257)) (0) (256)) (256) (0)) (0) (257), 22⟩ := (run_succ env (programOf (c3EqCmds se)) 0 ⟨0, 0, updateRam (updateRam (updateRam (ram0) (0) (257)) (0) (256)) (256) (0), 21⟩).trans (congrArg (run env (programOf (c3EqCmds se)) 0) qF_s18)
          _ = ⟨0, 0, updateRam (updateRam (updateRam (updateRam (ram0) (0) (257)) (0) (256)) (256) (0)) (0) (257), 22⟩ := run_zero env (programOf (c3EqCmds se)) ⟨0, 0, updateRam (updateRam (updateRam (updateRam (ram0) (0) (257)) (0) (256)) (256) (0)) (0) (257), 22⟩
      rw [qF_run]
      refine ⟨?_, ?_⟩ <;> simp only [updateRam_read, Nat.reduceEqDiff, reduceIte, if_neg hc]
  refine ⟨?_, ?_, gRes.2, lRes.2, qRes.2⟩
  · intro h1 h2
    have hs := comp_diff_sign a b ha hb h1 h2
    exact ⟨gRes.1.trans (if_congr hs.1 rfl rfl), lRes.1.trans (if_congr hs.2 rfl rfl)⟩
  · exact qRes.1.trans (if_congr (comp_diff_zero a b ha hb) rfl rfl)


/-- Concrete stack for the C3 counterexample: left word 32767 pushed first,
right word 32768 (= -32768 as a signed word) on top. -/
def c3ceRam : Nat → Nat :=
  fun x => if x = 0 then 258 else if x = 256 then 32767 else if x = 257 then 32768 else 0

set_option maxHeartbeats 1000000 in
/-- C3 counterexample: at (left, right) = (32767, 32768) the signed
comparison left > right holds (32767 > -32768), yet the generated `gt` code
pushes 0 (false) because the 16-bit difference overflows to -1.  The claim
as stated — gt true exactly when left > right — is therefore false at this
input. -/
theorem c3_counterexample :
    toSigned 32768 < toSigned 32767
    ∧ (run (fun _ => 0) (programOf (c3GtCmds "gt")) 19 ⟨0, 0, c3ceRam, 0⟩).ram 256 = 0 := by
  have cx_b0 : c3ceRam 0 = 258 := rfl
  have cx_b256 : c3ceRam 256 = 32767 := rfl
  have cx_b257 : c3ceRam 257 = 32768 := rfl
  have cx_j : ¬(0 < toSigned ((32767 + (65536 - 32768)) % 65536)) := by decide
  have cx_e0 : nth (programOf (c3GtCmds "gt")) 0 = some (.comment (comment ⟨0, Command.Gt, "gt", "F"⟩)) := rfl
  have cx_s0 : step (fun _ => 0) (programOf (c3GtCmds "gt")) ⟨0, 0, c3ceRam, 0⟩ = ⟨0, 0, c3ceRam, 1⟩ := by
    rw [step_at cx_e0, applyInstr_comment]
    all_goals simp only [evalComp, w16, updateRam_read, jumpTaken, Mach.mk.injEq, reduceIte, Nat.reduceAdd, Nat.reduceMod, Nat.reduceSub, Nat.reduceEqDiff, Nat.mod_mod, and_true, true_and, and_self, if_true, if_false]
  have cx_e1 : nth (programOf (c3GtCmds "gt")) 1 = some (.atSym "SP") := rfl
  have cx_r0 : resolveSym (programOf (c3GtCmds "gt")) (fun _ => 0) ("SP") = 0 := rfl
  have cx_s1 : step (fun _ => 0) (programOf (c3GtCmds "gt")) ⟨0, 0, c3ceRam, 1⟩ = ⟨0, 0, c3ceRam, 2⟩ := by
    rw [step_at cx_e1, applyInstr_atSym]
    all_goals simp only [evalComp, w16, updateRam_read, jumpTaken, Mach.mk.injEq, reduceIte, Nat.reduceAdd, Nat.reduceMod, Nat.reduceSub, Nat.reduceEqDiff, Nat.mod_mod, and_true, true_and, and_self, if_true, if_false, cx_r0]
  have cx_e2 : nth (programOf (c3GtCmds "gt")) 2 = some (.cinstr dAM .mMinus1 .jnone) := rfl
  have cx_s2 : step (fun _ => 0) (programOf (c3GtCmds "gt")) ⟨0, 0, c3ceRam, 2⟩ = ⟨257, 0, updateRam (c3ceRam) (0) (257), 3⟩ := by
    rw [step_at cx_e2, applyInstr_cAM]
    all_goals simp only [evalComp, w16, updateRam_read, jumpTaken, Mach.mk.injEq, reduceIte, Nat.reduceAdd, Nat.reduceMod, Nat.reduceSub, Nat.reduceEqDiff, Nat.mod_mod, and_true, true_and, and_self, if_true, if_false, cx_b0]
  have cx_e3 : nth (programOf (c3GtCmds "gt")) 3 = some (.cinstr dD .cm .jnone) := rfl
  have cx_s3 : step (fun _ => 0) (programOf (c3GtCmds "gt")) ⟨257, 0, updateRam (c3ceRam) (0) (257), 3⟩ = ⟨257, 32768, updateRam (c3ceRam) (0) (257), 4⟩ := by
    rw [step_at cx_e3, applyInstr_cD]
    all_goals simp only [evalComp, w16, updateRam_read, jumpTaken, Mach.mk.injEq, reduceIte, Nat.reduceAdd, Nat.reduceMod, Nat.reduceSub, Nat.reduceEqDiff, Nat.mod_mod, and_true, true_and, and_self, if_true, if_false, cx_b257]
  have cx_e4 : nth (programOf (c3GtCmds "gt")) 4 = some (.atSym "SP") := rfl
  have cx_s4 : step (fun _ => 0) (programOf (c3GtCmds "gt")) ⟨257, 32768, updateRam (c3ceRam) (0) (257), 4⟩ = ⟨0, 32768, updateRam (c3ceRam) (0) (257), 5⟩ := by
    rw [step_at cx_e4, applyInstr_atSym]
    all_goals simp only [evalComp, w16, updateRam_read, jumpTaken, Mach.mk.injEq, reduceIte, Nat.reduceAdd, Nat.reduceMod, Nat.reduceSub, Nat.reduceEqDiff, Nat.mod_mod, and_true, true_and, and_self, if_true, if_false, cx_r0]
  have cx_e5 : nth (programOf (c3GtCmds "gt")) 5 = some (.cinstr dAM .mMinus1 .jnone) := rfl
  have cx_s5 : step (fun _ => 0) (programOf (c3GtCmds "gt")) ⟨0, 32768, updateRam (c3ceRam) (0) (257), 5⟩ = ⟨256, 32768, updateRam (updateRam (c3ceRam) (0) (257)) (0) (256), 6⟩ := by
    rw [step_at cx_e5, applyInstr_cAM]
    all_goals simp only [evalComp, w16, updateRam_read, jumpTaken, Mach.mk.injEq, reduceIte, Nat.reduceAdd, Nat.reduceMod, Nat.reduceSub, Nat.reduceEqDiff, Nat.mod_mod, and_true, true_and, and_self, if_true, if_false]
  have cx_e6 : nth (programOf (c3GtCmds "gt")) 6 = some (.cinstr dD .mMinusD .jnone) := rfl
  have cx_s6 : step (fun _ => 0) (programOf (c3GtCmds "gt")) ⟨256, 32768, updateRam (updateRam (c3ceRam) (0) (257)) (0) (256), 6⟩ = ⟨256, 65535, updateRam (updateRam (c3ceRam) (0) (257)) (0) (256), 7⟩ := by
    rw [step_at cx_e6, applyInstr_cD]
    all_goals simp only [evalComp, w16, updateRam_read, jumpTaken, Mach.mk.injEq, reduceIte, Nat.reduceAdd, Nat.reduceMod, Nat.reduceSub, Nat.reduceEqDiff, Nat.mod_mod, and_true, true_and, and_self, if_true, if_false, cx_b256]
  have cx_e7 : nth (programOf (c3GtCmds "gt")) 7 = some (.atSym (compTrueLabel "F" 0)) := rfl
  have cx_r1 : resolveSym (programOf (c3GtCmds "gt")) (fun _ => 0) (compTrueLabel "F" 0) = 13 := rfl
  have cx_s7 : step (fun _ => 0) (programOf (c3GtCmds "gt")) ⟨256, 65535, updateRam (updateRam (c3ceRam) (0) (257)) (0) (256), 7⟩ = ⟨13, 65535, updateRam (updateRam (c3ceRam) (0) (257)) (0) (256), 8⟩ := by
    rw [step_at cx_e7, applyInstr_atSym]
    all_goals simp only [evalComp, w16, updateRam_read, jumpTaken, Mach.mk.injEq, reduceIte, Nat.reduceAdd, Nat.reduceMod, Nat.reduceSub, Nat.reduceEqDiff, Nat.mod_mod, and_true, true_and, and_self, if_true, if_false, cx_r1]
  have cx_e8 : nth (programOf (c3GtCmds "gt")) 8 = some (.cinstr dNone .cd .jgt) := rfl
  have cx_s8 : step (fun _ => 0) (programOf (c3GtCmds "gt")) ⟨13, 65535, updateRam (updateRam (c3ceRam) (0) (257)) (0) (256), 8⟩ = ⟨13, 65535, updateRam (updateRam (c3ceRam) (0) (257)) (0) (256), 9⟩ := by
    rw [step_at cx_e8, applyInstr_jump]
    all_goals simp only [evalComp, w16, updateRam_read, jumpTaken, Mach.mk.injEq, reduceIte, Nat.reduceAdd, Nat.reduceMod, Nat.reduceSub, Nat.reduceEqDiff, Nat.mod_mod, and_true, true_and, and_self, if_true, if_false, cx_j]
  have cx_e9 : nth (programOf (c3GtCmds "gt")) 9 = some (.atNum 0) := rfl
  have cx_s9 : step (fun _ => 0) (programOf (c3GtCmds "gt")) ⟨13, 65535, updateRam (updateRam (c3ceRam) (0) (257)) (0) (256), 9⟩ = ⟨0, 65535, updateRam (updateRam (c3ceRam) (0) (257)) (0) (256), 10⟩ := by
    rw [step_at cx_e9, applyInstr_atNum]
    all_goals simp only [evalComp, w16, updateRam_read, jumpTaken, Mach.mk.injEq, reduceIte, Nat.reduceAdd, Nat.reduceMod, Nat.reduceSub, Nat.reduceEqDiff, Nat.mod_mod, and_true, true_and, and_self, if_true, if_false]
  have cx_e10 : nth (programOf (c3GtCmds "gt")) 10 = some (.cinstr dD .ca .jnone) := rfl
  have cx_s10 : step (fun _ => 0) (programOf (c3GtCmds "gt")) ⟨0, 65535, updateRam (updateRam (c3ceRam) (0) (257)) (0) (256), 10⟩ = ⟨0, 0, updateRam (updateRam (c3ceRam) (0) (257)) (0) (256), 11⟩ := by
    rw [step_at cx_e10, applyInstr_cD]
    all_goals simp only [evalComp, w16, updateRam_read, jumpTaken, Mach.mk.injEq, reduceIte, Nat.reduceAdd, Nat.reduceMod, Nat.reduceSub, Nat.reduceEqDiff, Nat.mod_mod, and_true, true_and, and_self, if_true, if_false]
  have cx_e11 : nth (programOf (c3GtCmds "gt")) 11 = some (.atSym (compEndLabel "F" 0)) := rfl
  have cx_r2 : resolveSym (programOf (c3GtCmds "gt")) (fun _ => 0) (compEndLabel "F" 0) = 16 := rfl
  have cx_s11 : step (fun _ => 0) (programOf (c3GtCmds "gt")) ⟨0, 0, updateRam (updateRam (c3ceRam) (0) (257)) (0) (256), 11⟩ = ⟨16, 0, updateRam (updateRam (c3ceRam) (0) (257)) (0) (256), 12⟩ := by
    rw [step_at cx_e11, applyInstr_atSym]
    all_goals simp only [evalComp, w16, updateRam_read, jumpTaken, Mach.mk.injEq, reduceIte, Nat.reduceAdd, Nat.reduceMod, Nat.reduceSub, Nat.reduceEqDiff, Nat.mod_mod, and_true, true_and, and_self, if_true, if_false, cx_r2]
  have cx_e12 : nth (programOf (c3GtCmds "gt")) 12 = some (.cinstr dNone .zero .jmp) := rfl
  have cx_s12 : step (fun _ => 0) (programOf (c3GtCmds "gt")) ⟨16, 0, updateRam (updateRam (c3ceRam) (0) (257)) (0) (256), 12⟩ = ⟨16, 0, updateRam (updateRam (c3ceRam) (0) (257)) (0) (256), 16⟩ := by
    rw [step_at cx_e12, applyInstr_jump]
    all_goals simp only [evalComp, w16, updateRam_read, jumpTaken, Mach.mk.injEq, reduceIte, Nat.reduceAdd, Nat.reduceMod, Nat.reduceSub, Nat.reduceEqDiff, Nat.mod_mod, and_true, true_and, and_self, if_true, if_false]
  have cx_e16 : nth (programOf (c3GtCmds "gt")) 16 = some (.labelDef (compEndLabel "F" 0)) := rfl
  have cx_s13 : step (fun _ => 0) (programOf (c3GtCmds "gt")) ⟨16, 0, updateRam (updateRam (c3ceRam) (0) (257)) (0) (256), 16⟩ = ⟨16, 0, updateRam (updateRam (c3ceRam) (0) (257)) (0) (256), 17⟩ := by
    rw [step_at cx_e16, applyInstr_label]
    all_goals simp only [evalComp, w16, updateRam_read, jumpTaken, Mach.mk.injEq, reduceIte, Nat.reduceAdd, Nat.reduceMod, Nat.reduceSub, Nat.reduceEqDiff, Nat.mod_mod, and_true, true_and, and_self, if_true, if_false]
  have cx_e17 : nth (programOf (c3GtCmds "gt")) 17 = some (.atSym "SP") := rfl
  have cx_s14 : step (fun _ => 0) (programOf (c3GtCmds "gt")) ⟨16, 0, updateRam (updateRam (c3ceRam) (0) (257)) (0) (256), 17⟩ = ⟨0, 0, updateRam (updateRam (c3ceRam) (0) (257)) (0) (256), 18⟩ := by
    rw [step_at cx_e17, applyInstr_atSym]
    all_goals simp only [evalComp, w16, updateRam_read, jumpTaken, Mach.mk.injEq, reduceIte, Nat.reduceAdd, Nat.reduceMod, Nat.reduceSub, Nat.reduceEqDiff, Nat.mod_mod, and_true, true_and, and_self, if_true, if_false, cx_r0]
  have cx_e18 : nth (programOf (c3GtCmds "gt")) 18 = some (.cinstr dA .cm .jnone) := rfl
  have cx_s15 : step (fun _ => 0) (programOf (c3GtCmds "gt")) ⟨0, 0, updateRam (updateRam (c3ceRam) (0) (257)) (0) (256), 18⟩ = ⟨256, 0, updateRam (updateRam (c3ceRam) (0) (257)) (0) (256), 19⟩ := by
    rw [step_at cx_e18, applyInstr_cA]
    all_goals simp only [evalComp, w16, updateRam_read, jumpTaken, Mach.mk.injEq, reduceIte, Nat.reduceAdd, Nat.reduceMod, Nat.reduceSub, Nat.reduceEqDiff, Nat.mod_mod, and_true, true_and, and_self, if_true, if_false]
  have cx_e19 : nth (programOf (c3GtCmds "gt")) 19 = some (.cinstr dM .cd .jnone) := rfl
  have cx_s16 : step (fun _ => 0) (programOf (c3GtCmds "gt")) ⟨256, 0, updateRam (updateRam (c3ceRam) (0) (257)) (0) (256), 19⟩ = ⟨256, 0, updateRam (updateRam (updateRam (c3ceRam) (0) (257)) (0) (256)) (256) (0), 20⟩ := by
    rw [step_at cx_e19, applyInstr_cM]
    all_goals simp only [evalComp, w16, updateRam_read, jumpTaken, Mach.mk.injEq, reduceIte, Nat.reduceAdd, Nat.reduceMod, Nat.reduceSub, Nat.reduceEqDiff, Nat.mod_mod, and_true, true_and, and_self, if_true, if_false]
  have cx_e20 : nth (programOf (c3GtCmds "gt")) 20 = some (.atSym "SP") := rfl
  have cx_s17 : step (fun _ => 0) (programOf (c3GtCmds "gt")) ⟨256, 0, updateRam (updateRam (updateRam (c3ceRam) (0) (257)) (0) (256)) (256) (0), 20⟩ = ⟨0, 0, updateRam (updateRam (updateRam (c3ceRam) (0) (257)) (0) (256)) (256) (0), 21⟩ := by
    rw [step_at cx_e20, applyInstr_atSym]
    all_goals simp only [evalComp, w16, updateRam_read, jumpTaken, Mach.mk.injEq, reduceIte, Nat.reduceAdd, Nat.reduceMod, Nat.reduceSub, Nat.reduceEqDiff, Nat.mod_mod, and_true, true_and, and_self, if_true, if_false, cx_r0]
  have cx_e21 : nth (programOf (c3GtCmds "gt")) 21 = some (.cinstr dM .mPlus1 .jnone) := rfl
  have cx_s18 : step (fun _ => 0) (programOf (c3GtCmds "gt")) ⟨0, 0, updateRam (updateRam (updateRam (c3ceRam) (0) (257)) (0) (256)) (256) (0), 21⟩ = ⟨0, 0, updateRam (updateRam (updateRam (updateRam (c3ceRam) (0) (257)) (0) (256)) (256) (0)) (0) (257), 22⟩ := by
    rw [step_at cx_e21, applyInstr_cM]
    all_goals simp only [evalComp, w16, updateRam_read, jumpTaken, Mach.mk.injEq, reduceIte, Nat.reduceAdd, Nat.reduceMod, Nat.reduceSub, Nat.reduceEqDiff, Nat.mod_mod, and_true, true_and, and_self, if_true, if_false]
  have cx_run : run (fun _ => 0) (programOf (c3GtCmds "gt")) 19 ⟨0, 0, c3ceRam, 0⟩ = ⟨0, 0, updateRam (updateRam (updateRam (updateRam (c3ceRam) (0) (257)) (0) (256)) (256) (0)) (0) (257), 22⟩ :=
    calc run (fun _ => 0) (programOf (c3GtCmds "gt")) 19 ⟨0, 0, c3ceRam, 0⟩
      _ = run (fun _ => 0) (programOf (c3GtCmds "gt")) 18 ⟨0, 0, c3ceRam, 1⟩ := (run_succ (fun _ => 0) (programOf (c3GtCmds "gt")) 18 ⟨0, 0, c3ceRam, 0⟩).trans (congrArg (run (fun _ => 0) (programOf (c3GtCmds "gt")) 18) cx_s0)
      _ = run (fun _ => 0) (programOf (c3GtCmds "gt")) 17 ⟨0, 0, c3ceRam, 2⟩ := (run_succ (fun _ => 0) (programOf (c3GtCmds "gt")) 17 ⟨0, 0, c3ceRam, 1⟩).trans (congrArg (run (fun _ => 0) (programOf (c3GtCmds "gt")) 17) cx_s1)
      _ = run (fun _ => 0) (programOf (c3GtCmds "gt")) 16 ⟨257, 0, updateRam (c3ceRam) (0) (257), 3⟩ := (run_succ (fun _ => 0) (programOf (c3GtCmds "gt")) 16 ⟨0, 0, c3ceRam, 2⟩).trans (congrArg (run (fun _ => 0) (programOf (c3GtCmds "gt")) 16) cx_s2)
      _ = run (fun _ => 0) (programOf (c3GtCmds "gt")) 15 ⟨257, 32768, updateRam (c3ceRam) (0) (257), 4⟩ := (run_succ (fun _ => 0) (programOf (c3GtCmds "gt")) 15 ⟨257, 0, updateRam (c3ceRam) (0) (257), 3⟩).trans (congrArg (run (fun _ => 0) (programOf (c3GtCmds "gt")) 15) cx_s3)
      _ = run (fun _ => 0) (programOf (c3GtCmds "gt")) 14 ⟨0, 32768, updateRam (c3ceRam) (0) (257), 5⟩ := (run_succ (fun _ => 0) (programOf (c3GtCmds "gt")) 14 ⟨257, 32768, updateRam (c3ceRam) (0) (257), 4⟩).trans (congrArg (run (fun _ => 0) (programOf (c3GtCmds "gt")) 14) cx_s4)
      _ = run (fun _ => 0) (programOf (c3GtCmds "gt")) 13 ⟨256, 32768, updateRam (updateRam (c3ceRam) (0) (257)) (0) (256), 6⟩ := (run_succ (fun _ => 0) (programOf (c3GtCmds "gt")) 13 ⟨0, 32768, updateRam (c3ceRam) (0) (257), 5⟩).trans (congrArg (run (fun _ => 0) (programOf (c3GtCmds "gt")) 13) cx_s5)
      _ = run (fun _ => 0) (programOf (c3GtCmds "gt")) 12 ⟨256, 65535, updateRam (updateRam (c3ceRam) (0) (257)) (0) (256), 7⟩ := (run_succ (fun _ => 0) (programOf (c3GtCmds "gt")) 12 ⟨256, 32768, updateRam (updateRam (c3ceRam) (0) (257)) (0) (256), 6⟩).trans (congrArg (run (fun _ => 0) (programOf (c3GtCmds "gt")) 12) cx_s6)
      _ = run (fun _ => 0) (programOf (c3GtCmds "gt")) 11 ⟨13, 65535, updateRam (updateRam (c3ceRam) (0) (257)) (0) (256), 8⟩ := (run_succ (fun _ => 0) (programOf (c3GtCmds "gt")) 11 ⟨256, 65535, updateRam (updateRam (c3ceRam) (0) (257)) (0) (256), 7⟩).trans (congrArg (run (fun _ => 0) (programOf (c3GtCmds "gt")) 11) cx_s7)
      _ = run (fun _ => 0) (programOf (c3GtCmds "gt")) 10 ⟨13, 65535, updateRam (updateRam (c3ceRam) (0) (257)) (0) (256), 9⟩ := (run_succ (fun _ => 0) (programOf (c3GtCmds "gt")) 10 ⟨13, 65535, updateRam (updateRam (c3ceRam) (0) (257)) (0) (256), 8⟩).trans (congrArg (run (fun _ => 0) (programOf (c3GtCmds "gt")) 10) cx_s8)
      _ = run (fun _ => 0) (programOf (c3GtCmds "gt")) 9 ⟨0, 65535, updateRam (updateRam (c3ceRam) (0) (257)) (0) (256), 10⟩ := (run_succ (fun _ => 0) (programOf (c3GtCmds "gt")) 9 ⟨13, 65535, updateRam (updateRam (c3ceRam) (0) (257)) (0) (256), 9⟩).trans (congrArg (run (fun _ => 0) (programOf (c3GtCmds "gt")) 9) cx_s9)
      _ = run (fun _ => 0) (programOf (c3GtCmds "gt")) 8 ⟨0, 0, updateRam (updateRam (c3ceRam) (0) (257)) (0) (256), 11⟩ := (run_succ (fun _ => 0) (programOf (c3GtCmds "gt")) 8 ⟨0, 65535, updateRam (updateRam (c3ceRam) (0) (257)) (0) (256), 10⟩).trans (congrArg (run (fun _ => 0) (programOf (c3GtCmds "gt")) 8) cx_s10)
      _ = run (fun _ => 0) (programOf (c3GtCmds "gt")) 7 ⟨16, 0, updateRam (updateRam (c3ceRam) (0) (257)) (0) (256), 12⟩ := (run_succ (fun _ => 0) (programOf (c3GtCmds "gt")) 7 ⟨0, 0, updateRam (updateRam (c3ceRam) (0) (257)) (0) (256), 11⟩).trans (congrArg (run (fun _ => 0) (programOf (c3GtCmds "gt")) 7) cx_s11)
      _ = run (fun _ => 0) (programOf (c3GtCmds "gt")) 6 ⟨16, 0, updateRam (updateRam (c3ceRam) (0) (257)) (0) (256), 16⟩ := (run_succ (fun _ => 0) (programOf (c3GtCmds "gt")) 6 ⟨16, 0, updateRam (updateRam (c3ceRam) (0) (257)) (0) (256), 12⟩).trans (congrArg (run (fun _ => 0) (programOf (c3GtCmds "gt")) 6) cx_s12)
      _ = run (fun _ => 0) (programOf (c3GtCmds "gt")) 5 ⟨16, 0, updateRam (updateRam (c3ceRam) (0) (257)) (0) (256), 17⟩ := (run_succ (fun _ => 0) (programOf (c3GtCmds "gt")) 5 ⟨16, 0, updateRam (updateRam (c3ceRam) (0) (257)) (0) (256), 16⟩).trans (congrArg (run (fun _ => 0) (programOf (c3GtCmds "gt")) 5) cx_s13)
      _ = run (fun _ => 0) (programOf (c3GtCmds "gt")) 4 ⟨0, 0, updateRam (updateRam (c3ceRam) (0) (257)) (0) (256), 18⟩ := (run_succ (fun _ => 0) (programOf (c3GtCmds "gt")) 4 ⟨16, 0, updateRam (updateRam (c3ceRam) (0) (257)) (0) (256), 17⟩).trans (congrArg (run (fun _ => 0) (programOf (c3GtCmds "gt")) 4) cx_s14)
      _ = run (fun _ => 0) (programOf (c3GtCmds "gt")) 3 ⟨256, 0, updateRam (updateRam (c3ceRam) (0) (257)) (0) (256), 19⟩ := (run_succ (fun _ => 0) (programOf (c3GtCmds "gt")) 3 ⟨0, 0, updateRam (updateRam (c3ceRam) (0) (257)) (0) (256), 18⟩).trans (congrArg (run (fun _ => 0) (programOf (c3GtCmds "gt")) 3) cx_s15)
      _ = run (fun _ => 0) (programOf (c3GtCmds "gt")) 2 ⟨256, 0, updateRam (updateRam (updateRam (c3ceRam) (0) (257)) (0) (256)) (256) (0), 20⟩ := (run_succ (fun _ => 0) (programOf (c3GtCmds "gt")) 2 ⟨256, 0, updateRam (updateRam (c3ceRam) (0) (257)) (0) (256), 19⟩).trans (congrArg (run (fun _ => 0) (programOf (c3GtCmds "gt")) 2) cx_s16)
      _ = run (fun _ => 0) (programOf (c3GtCmds "gt")) 1 ⟨0, 0, updateRam (updateRam (updateRam (c3ceRam) (0) (257)) (0) (256)) (256) (0), 21⟩ := (run_succ (fun _ => 0) (programOf (c3GtCmds "gt")) 1 ⟨256, 0, updateRam (updateRam (updateRam (c3ceRam) (0) (257)) (0) (256)) (256) (0), 20⟩).trans (congrArg (run (fun _ => 0) (programOf (c3GtCmds "gt")) 1) cx_s17)
      _ = run (fun _ => 0) (programOf (c3GtCmds "gt")) 0 ⟨0, 0, updateRam (updateRam (updateRam (updateRam (c3ceRam) (0) (257)) (0) (256)) (256) (0)) (0) (257), 22⟩ := (run_succ (fun _ => 0) (programOf (c3GtCmds "gt")) 0 ⟨0, 0, updateRam (updateRam (updateRam (c3ceRam) (0) (257)) (0) (256)) (256) (0), 21⟩).trans (congrArg (run (fun _ => 0) (programOf (c3GtCmds "gt")) 0) cx_s18)
      _ = ⟨0, 0, updateRam (updateRam (updateRam (updateRam (c3ceRam) (0) (257)) (0) (256)) (256) (0)) (0) (257), 22⟩ := run_zero (fun _ => 0) (programOf (c3GtCmds "gt")) ⟨0, 0, updateRam (updateRam (updateRam (updateRam (c3ceRam) (0) (257)) (0) (256)) (256) (0)) (0) (257), 22⟩
  refine ⟨by decide, ?_⟩
  rw [cx_run]
  simp only [updateRam_read, Nat.reduceEqDiff, reduceIte]

/-- Witness for C3 at the spec's own example (5, 3): `gt` pushes all-ones,
and at (3, 5) it pushes zero. -/
theorem c3_comparison_semantics_witness :
    (run (fun _ => 0) (programOf (c3GtCmds "gt")) 19
        ⟨0, 0, (fun x => if x = 0 then 258 else if x = 256 then 5 else 3), 0⟩).ram 256
      = 65535
    ∧ (run (fun _ => 0) (programOf (c3GtCmds "gt")) 19
        ⟨0, 0, (fun x => if x = 0 then 258 else if x = 256 then 3 else 5), 0⟩).ram 256
      = 0 := by
  have h1 := (c3_comparison_semantics "gt" "lt" "eq" 5 3 0 0 (fun _ => 0)
    (fun x => if x = 0 then 258 else if x = 256 then 5 else 3)
    (by decide) (by decide) rfl rfl rfl).1 (by decide) (by decide)
  have h2 := (c3_comparison_semantics "gt" "lt" "eq" 3 5 0 0 (fun _ => 0)
    (fun x => if x = 0 then 258 else if x = 256 then 3 else 5)
    (by decide) (by decide) rfl rfl rfl).1 (by decide) (by decide)
  constructor
  · have := h1.1
    rwa [if_pos (by decide)] at this
  · have := h2.1
    rwa [if_neg (by decide)] at this

/-! ## Claim C1: the Return protocol -/

/-- The single command sequence `return`. -/
def c1Cmds (f s : String) : List SourceCommand := [⟨0, Command.Return, s, f⟩]

set_option maxHeartbeats 1000000 in
/-- C1: for every Return command, the generated code captures the Local
pointer (here 300) as frame base, fetches the return address from five
words below it (slot 295), pops the function result (at 309, the word
below the stack pointer 310) into the slot addressed by the old Argument
pointer p — before the stack pointer is repositioned, so p may even alias
the frame slot 295 that held the return address — then sets the stack
pointer to p+1, restores That (from 299), This (298), Argument (297),
Local (296) in that order, decrementing the frame cursor (the assembler
variable `frame`, at cell 16) one word before each read, and finally jumps
to the captured return address. -/
theorem c1_return_semantics (f s : String) (p ret sL sA sTh sT res a0 d0 : Nat)
    (env : String → Nat) (ram0 : Nat → Nat)
    (henvf : env "frame" = 16) (henvr : env "retaddr" = 17)
    (hp5 : 5 ≤ p) (hp1 : p + 1 < 65536)
    (hp16 : p ≠ 16) (hp17 : p ≠ 17)
    (hp296 : p ≠ 296) (hp297 : p ≠ 297) (hp298 : p ≠ 298) (hp299 : p ≠ 299)
    (hret : ret < 65536) (hsL : sL < 65536) (hsA : sA < 65536)
    (hsTh : sTh < 65536) (hsT : sT < 65536) (hres : res < 65536)
    (hsp : ram0 0 = 310) (hlcl : ram0 1 = 300) (harg : ram0 2 = p)
    (h295 : ram0 295 = ret) (h296 : ram0 296 = sL) (h297 : ram0 297 = sA)
    (h298 : ram0 298 = sTh) (h299 : ram0 299 = sT) (h309 : ram0 309 = res) :
    (run env (programOf (c1Cmds f s)) 45 ⟨a0, d0, ram0, 0⟩).ram p = res
    ∧ (run env (programOf (c1Cmds f s)) 45 ⟨a0, d0, ram0, 0⟩).ram 0 = p + 1
    ∧ (run env (programOf (c1Cmds f s)) 45 ⟨a0, d0, ram0, 0⟩).ram 4 = sT
    ∧ (run env (programOf (c1Cmds f s)) 45 ⟨a0, d0, ram0, 0⟩).ram 3 = sTh
    ∧ (run env (programOf (c1Cmds f s)) 45 ⟨a0, d0, ram0, 0⟩).ram 2 = sA
    ∧ (run env (programOf (c1Cmds f s)) 45 ⟨a0, d0, ram0, 0⟩).ram 1 = sL
    ∧ (run env (programOf (c1Cmds f s)) 45 ⟨a0, d0, ram0, 0⟩).pc = ret := by
  have hp1m : (p + 1) % 65536 = p + 1 := Nat.mod_eq_of_lt hp1
  have hpm : p % 65536 = p := Nat.mod_eq_of_lt (by omega)
  have r_e0 : nth (programOf (c1Cmds f s)) 0 = some (.comment (comment ⟨0, Command.Return, s, f⟩)) := rfl
  have r_s0 : step env (programOf (c1Cmds f s)) ⟨a0, d0, ram0, 0⟩ = ⟨a0, d0, ram0, 1⟩ := by
    rw [step_at r_e0, applyInstr_comment]
    all_goals simp only [evalComp, w16, updateRam_read, jumpTaken, Mach.mk.injEq, reduceIte, Nat.reduceAdd, Nat.reduceMod, Nat.reduceSub, Nat.reduceEqDiff, Nat.mod_mod, and_true, true_and, and_self, if_true, if_false]
  have r_e1 : nth (programOf (c1Cmds f s)) 1 = some (.atSym "LCL") := rfl
  have r_r0 : resolveSym (programOf (c1Cmds f s)) env ("LCL") = 1 := rfl
  have r_s1 : step env (programOf (c1Cmds f s)) ⟨a0, d0, ram0, 1⟩ = ⟨1, d0, ram0, 2⟩ := by
    rw [step_at r_e1, applyInstr_atSym]
    all_goals simp only [evalComp, w16, updateRam_read, jumpTaken, Mach.mk.injEq, reduceIte, Nat.reduceAdd, Nat.reduceMod, Nat.reduceSub, Nat.reduceEqDiff, Nat.mod_mod, and_true, true_and, and_self, if_true, if_false, r_r0]
  have r_e2 : nth (programOf (c1Cmds f s)) 2 = some (.cinstr dD .cm .jnone) := rfl
  have r_s2 : step env (programOf (c1Cmds f s)) ⟨1, d0, ram0, 2⟩ = ⟨1, 300, ram0, 3⟩ := by
    rw [step_at r_e2, applyInstr_cD]
    all_goals simp only [evalComp, w16, updateRam_read, jumpTaken, Mach.mk.injEq, reduceIte, Nat.reduceAdd, Nat.reduceMod, Nat.reduceSub, Nat.reduceEqDiff, Nat.mod_mod, and_true, true_and, and_self, if_true, if_false, hlcl]
  have r_e3 : nth (programOf (c1Cmds f s)) 3 = some (.atSym "frame") := rfl
  have r_r1 : resolveSym (programOf (c1Cmds f s)) env ("frame") = 16 := by
    rw [(show resolveSym (programOf (c1Cmds f s)) env ("frame") = env ("frame") from rfl), henvf]
  have r_s3 : step env (programOf (c1Cmds f s)) ⟨1, 300, ram0, 3⟩ = ⟨16, 300, ram0, 4⟩ := by
    rw [step_at r_e3, applyInstr_atSym]
    all_goals simp only [evalComp, w16, updateRam_read, jumpTaken, Mach.mk.injEq, reduceIte, Nat.reduceAdd, Nat.reduceMod, Nat.reduceSub, Nat.reduceEqDiff, Nat.mod_mod, and_true, true_and, and_self, if_true, if_false, r_r1]
  have r_e4 : nth (programOf (c1Cmds f s)) 4 = some (.cinstr dM .cd .jnone) := rfl
  have r_s4 : step env (programOf (c1Cmds f s)) ⟨16, 300, ram0, 4⟩ = ⟨16, 300, updateRam (ram0) (16) (300), 5⟩ := by
    rw [step_at r_e4, applyInstr_cM]
    all_goals simp only [evalComp, w16, updateRam_read, jumpTaken, Mach.mk.injEq, reduceIte, Nat.reduceAdd, Nat.reduceMod, Nat.reduceSub, Nat.reduceEqDiff, Nat.mod_mod, and_true, true_and, and_self, if_true, if_false]
  have r_e5 : nth (programOf (c1Cmds f s)) 5 = some (.atSym "frame") := rfl
  have r_s5 : step env (programOf (c1Cmds f s)) ⟨16, 300, updateRam (ram0) (16) (300), 5⟩ = ⟨16, 300, updateRam (ram0) (16) (300), 6⟩ := by
    rw [step_at r_e5, applyInstr_atSym]
    all_goals simp only [evalComp, w16, updateRam_read, jumpTaken, Mach.mk.injEq, reduceIte, Nat.reduceAdd, Nat.reduceMod, Nat.reduceSub, Nat.reduceEqDiff, Nat.mod_mod, and_true, true_and, and_self, if_true, if_false, r_r1]
  have r_e6 : nth (programOf (c1Cmds f s)) 6 = some (.cinstr dD .cm .jnone) := rfl
  have r_s6 : step env (programOf (c1Cmds f s)) ⟨16, 300, updateRam (ram0) (16) (300), 6⟩ = ⟨16, 300, updateRam (ram0) (16) (300), 7⟩ := by
    rw [step_at r_e6, applyInstr_cD]
    all_goals simp only [evalComp, w16, updateRam_read, jumpTaken, Mach.mk.injEq, reduceIte, Nat.reduceAdd, Nat.reduceMod, Nat.reduceSub, Nat.reduceEqDiff, Nat.mod_mod, and_true, true_and, and_self, if_true, if_false]
  have r_e7 : nth (programOf (c1Cmds f s)) 7 = some (.atNum 5) := rfl
  have r_s7 : step env (programOf (c1Cmds f s)) ⟨16, 300, updateRam (ram0) (16) (300), 7⟩ = ⟨5, 300, updateRam (ram0) (16) (300), 8⟩ := by
    rw [step_at r_e7, applyInstr_atNum]
    all_goals simp only [evalComp, w16, updateRam_read, jumpTaken, Mach.mk.injEq, reduceIte, Nat.reduceAdd, Nat.reduceMod, Nat.reduceSub, Nat.reduceEqDiff, Nat.mod_mod, and_true, true_and, and_self, if_true, if_false]
  have r_e8 : nth (programOf (c1Cmds f s)) 8 = some (.cinstr dA .dMinusA .jnone) := rfl
  have r_s8 : step env (programOf (c1Cmds f s)) ⟨5, 300, updateRam (ram0) (16) (300), 8⟩ = ⟨295, 300, updateRam (ram0) (16) (300), 9⟩ := by
    rw [step_at r_e8, applyInstr_cA]
    all_goals simp only [evalComp, w16, updateRam_read, jumpTaken, Mach.mk.injEq, reduceIte, Nat.reduceAdd, Nat.reduceMod, Nat.reduceSub, Nat.reduceEqDiff, Nat.mod_mod, and_true, true_and, and_self, if_true, if_false]
  have r_e9 : nth (programOf (c1Cmds f s)) 9 = some (.cinstr dD .cm .jnone) := rfl
  have r_s9 : step env (programOf (c1Cmds f s)) ⟨295, 300, updateRam (ram0) (16) (300), 9⟩ = ⟨295, ret, updateRam (ram0) (16) (300), 10⟩ := by
    rw [step_at r_e9, applyInstr_cD]
    all_goals simp only [evalComp, w16, updateRam_read, jumpTaken, Mach.mk.injEq, reduceIte, Nat.reduceAdd, Nat.reduceMod, Nat.reduceSub, Nat.reduceEqDiff, Nat.mod_mod, and_true, true_and, and_self, if_true, if_false, h295, Nat.mod_eq_of_lt hret]
  have r_e10 : nth (programOf (c1Cmds f s)) 10 = some (.atSym "retaddr") := rfl
  have r_r2 : resolveSym (programOf (c1Cmds f s)) env ("retaddr") = 17 := by
    rw [(show resolveSym (programOf (c1Cmds f s)) env ("retaddr") = env ("retaddr") from rfl), henvr]
  have r_s10 : step env (programOf (c1Cmds f s)) ⟨295, ret, updateRam (ram0) (16) (300), 10⟩ = ⟨17, ret, updateRam (ram0) (16) (300), 11⟩ := by
    rw [step_at r_e10, applyInstr_atSym]
    all_goals simp only [evalComp, w16, updateRam_read, jumpTaken, Mach.mk.injEq, reduceIte, Nat.reduceAdd, Nat.reduceMod, Nat.reduceSub, Nat.reduceEqDiff, Nat.mod_mod, and_true, true_and, and_self, if_true, if_false, r_r2]
  have r_e11 : nth (programOf (c1Cmds f s)) 11 = some (.cinstr dM .cd .jnone) := rfl
  have r_s11 : step env (programOf (c1Cmds f s)) ⟨17, ret, updateRam (ram0) (16) (300), 11⟩ = ⟨17, ret, updateRam (updateRam (ram0) (16) (300)) (17) (ret), 12⟩ := by
    rw [step_at r_e11, applyInstr_cM]
    all_goals simp only [evalComp, w16, updateRam_read, jumpTaken, Mach.mk.injEq, reduceIte, Nat.reduceAdd, Nat.reduceMod, Nat.reduceSub, Nat.reduceEqDiff, Nat.mod_mod, and_true, true_and, and_self, if_true, if_false, Nat.mod_eq_of_lt hret]
  have r_e12 : nth (programOf (c1Cmds f s)) 12 = some (.atSym "SP") := rfl
  have r_r3 : resolveSym (programOf (c1Cmds f s)) env ("SP") = 0 := rfl
  have r_s12 : step env (programOf (c1Cmds f s)) ⟨17, ret, updateRam (updateRam (ram0) (16) (300)) (17) (ret), 12⟩ = ⟨0, ret, updateRam (updateRam (ram0) (16) (300)) (17) (ret), 13⟩ := by
    rw [step_at r_e12, applyInstr_atSym]
    all_goals simp only [evalComp, w16, updateRam_read, jumpTaken, Mach.mk.injEq, reduceIte, Nat.reduceAdd, Nat.reduceMod, Nat.reduceSub, Nat.reduceEqDiff, Nat.mod_mod, and_true, true_and, and_self, if_true, if_false, r_r3]
  have r_e13 : nth (programOf (c1Cmds f s)) 13 = some (.cinstr dAM .mMinus1 .jnone) := rfl
  have r_s13 : step env (programOf (c1Cmds f s)) ⟨0, ret, updateRam (updateRam (ram0) (16) (300)) (17) (ret), 13⟩ = ⟨309, ret, updateRam (updateRam (updateRam (ram0) (16) (300)) (17) (ret)) (0) (309), 14⟩ := by
    rw [step_at r_e13, applyInstr_cAM]
    all_goals simp only [evalComp, w16, updateRam_read, jumpTaken, Mach.mk.injEq, reduceIte, Nat.reduceAdd, Nat.reduceMod, Nat.reduceSub, Nat.reduceEqDiff, Nat.mod_mod, and_true, true_and, and_self, if_true, if_false, hsp]
  have r_e14 : nth (programOf (c1Cmds f s)) 14 = some (.cinstr dD .cm .jnone) := rfl
  have r_s14 : step env (programOf (c1Cmds f s)) ⟨309, ret, updateRam (updateRam (updateRam (ram0) (16) (300)) (17) (ret)) (0) (309), 14⟩ = ⟨309, res, updateRam (updateRam (updateRam (ram0) (16) (300)) (17) (ret)) (0) (309), 15⟩ := by
    rw [step_at r_e14, applyInstr_cD]
    all_goals simp only [evalComp, w16, updateRam_read, jumpTaken, Mach.mk.injEq, reduceIte, Nat.reduceAdd, Nat.reduceMod, Nat.reduceSub, Nat.reduceEqDiff, Nat.mod_mod, and_true, true_and, and_self, if_true, if_false, h309, Nat.mod_eq_of_lt hres]
  have r_e15 : nth (programOf (c1Cmds f s)) 15 = some (.atSym "ARG") := rfl
  have r_r4 : resolveSym (programOf (c1Cmds f s)) env ("ARG") = 2 := rfl
  have r_s15 : step env (programOf (c1Cmds f s)) ⟨309, res, updateRam (updateRam (updateRam (ram0) (16) (300)) (17) (ret)) (0) (309), 15⟩ = ⟨2, res, updateRam (updateRam (updateRam (ram0) (16) (300)) (17) (ret)) (0) (309), 16⟩ := by
    rw [step_at r_e15, applyInstr_atSym]
    all_goals simp only [evalComp, w16, updateRam_read, jumpTaken, Mach.mk.injEq, reduceIte, Nat.reduceAdd, Nat.reduceMod, Nat.reduceSub, Nat.reduceEqDiff, Nat.mod_mod, and_true, true_and, and_self, if_true, if_false, r_r4]
  have r_e16 : nth (programOf (c1Cmds f s)) 16 = some (.cinstr dA .cm .jnone) := rfl
  have r_s16 : step env (programOf (c1Cmds f s)) ⟨2, res, updateRam (updateRam (updateRam (ram0) (16) (300)) (17) (ret)) (0) (309), 16⟩ = ⟨p, res, updateRam (updateRam (updateRam (ram0) (16) (300)) (17) (ret)) (0) (309), 17⟩ := by
    rw [step_at r_e16, applyInstr_cA]
    all_goals simp only [evalComp, w16, updateRam_read, jumpTaken, Mach.mk.injEq, reduceIte, Nat.reduceAdd, Nat.reduceMod, Nat.reduceSub, Nat.reduceEqDiff, Nat.mod_mod, and_true, true_and, and_self, if_true, if_false, harg, hpm]
  have r_e17 : nth (programOf (c1Cmds f s)) 17 = some (.cinstr dM .cd .jnone) := rfl
  have r_s17 : step env (programOf (c1Cmds f s)) ⟨p, res, updateRam (updateRam (updateRam (ram0) (16) (300)) (17) (ret)) (0) (309), 17⟩ = ⟨p, res, updateRam (updateRam (updateRam (updateRam (ram0) (16) (300)) (17) (ret)) (0) (309)) (p) (res), 18⟩ := by
    rw [step_at r_e17, applyInstr_cM]
    all_goals simp only [evalComp, w16, updateRam_read, jumpTaken, Mach.mk.injEq, reduceIte, Nat.reduceAdd, Nat.reduceMod, Nat.reduceSub, Nat.reduceEqDiff, Nat.mod_mod, and_true, true_and, and_self, if_true, if_false, Nat.mod_eq_of_lt hres]
  have r_e18 : nth (programOf (c1Cmds f s)) 18 = some (.atSym "ARG") := rfl
  have r_s18 : step env (programOf (c1Cmds f s)) ⟨p, res, updateRam (updateRam (updateRam (updateRam (ram0) (16) (300)) (17) (ret)) (0) (309)) (p) (res), 18⟩ = ⟨2, res, updateRam (updateRam (updateRam (updateRam (ram0) (16) (300)) (17) (ret)) (0) (309)) (p) (res), 19⟩ := by
    rw [step_at r_e18, applyInstr_atSym]
    all_goals simp only [evalComp, w16, updateRam_read, jumpTaken, Mach.mk.injEq, reduceIte, Nat.reduceAdd, Nat.reduceMod, Nat.reduceSub, Nat.reduceEqDiff, Nat.mod_mod, and_true, true_and, and_self, if_true, if_false, r_r4]
  have r_e19 : nth (programOf (c1Cmds f s)) 19 = some (.cinstr dD .mPlus1 .jnone) := rfl
  have r_dq0 : ¬(2 = p) := by omega
  have r_s19 : step env (programOf (c1Cmds f s)) ⟨2, res, updateRam (updateRam (updateRam (updateRam (ram0) (16) (300)) (17) (ret)) (0) (309)) (p) (res), 19⟩ = ⟨2, p + 1, updateRam (updateRam (updateRam (updateRam (ram0) (16) (300)) (17) (ret)) (0) (309)) (p) (res), 20⟩ := by
    rw [step_at r_e19, applyInstr_cD]
    all_goals simp only [evalComp, w16, updateRam_read, jumpTaken, Mach.mk.injEq, reduceIte, Nat.reduceAdd, Nat.reduceMod, Nat.reduceSub, Nat.reduceEqDiff, Nat.mod_mod, and_true, true_and, and_self, if_true, if_false, r_dq0, harg, hp1m]
  have r_e20 : nth (programOf (c1Cmds f s)) 20 = some (.atSym "SP") := rfl
  have r_s20 : step env (programOf (c1Cmds f s)) ⟨2, p + 1, updateRam (updateRam (updateRam (updateRam (ram0) (16) (300)) (17) (ret)) (0) (309)) (p) (res), 20⟩ = ⟨0, p + 1, updateRam (updateRam (updateRam (updateRam (ram0) (16) (300)) (17) (ret)) (0) (309)) (p) (res), 21⟩ := by
    rw [step_at r_e20, applyInstr_atSym]
    all_goals simp only [evalComp, w16, updateRam_read, jumpTaken, Mach.mk.injEq, reduceIte, Nat.reduceAdd, Nat.reduceMod, Nat.reduceSub, Nat.reduceEqDiff, Nat.mod_mod, and_true, true_and, and_self, if_true, if_false, r_r3]
  have r_e21 : nth (programOf (c1Cmds f s)) 21 = some (.cinstr dM .cd .jnone) := rfl
  have r_s21 : step env (programOf (c1Cmds f s)) ⟨0, p + 1, updateRam (updateRam (updateRam (updateRam (ram0) (16) (300)) (17) (ret)) (0) (309)) (p) (res), 21⟩ = ⟨0, p + 1, updateRam (updateRam (updateRam (updateRam (updateRam (ram0) (16) (300)) (17) (ret)) (0) (309)) (p) (res)) (0) (p + 1), 22⟩ := by
    rw [step_at r_e21, applyInstr_cM]
    all_goals simp only [evalComp, w16, updateRam_read, jumpTaken, Mach.mk.injEq, reduceIte, Nat.reduceAdd, Nat.reduceMod, Nat.reduceSub, Nat.reduceEqDiff, Nat.mod_mod, and_true, true_and, and_self, if_true, if_false, hp1m]
  have r_e22 : nth (programOf (c1Cmds f s)) 22 = some (.atSym "frame") := rfl
  have r_s22 : step env (programOf (c1Cmds f s)) ⟨0, p + 1, updateRam (updateRam (updateRam (updateRam (updateRam (ram0) (16) (300)) (17) (ret)) (0) (309)) (p) (res)) (0) (p + 1), 22⟩ = ⟨16, p + 1, updateRam (updateRam (updateRam (updateRam (updateRam (ram0) (16) (300)) (17) (ret)) (0) (309)) (p) (res)) (0) (p + 1), 23⟩ := by
    rw [step_at r_e22, applyInstr_atSym]
    all_goals simp only [evalComp, w16, updateRam_read, jumpTaken, Mach.mk.injEq, reduceIte, Nat.reduceAdd, Nat.reduceMod, Nat.reduceSub, Nat.reduceEqDiff, Nat.mod_mod, and_true, true_and, and_self, if_true, if_false, r_r1]
  have r_e23 : nth (programOf (c1Cmds f s)) 23 = some (.cinstr dAM .mMinus1 .jnone) := rfl
  have r_dq1 : ¬(16 = p) := by omega
  have r_s23 : step env (programOf (c1Cmds f s)) ⟨16, p + 1, updateRam (updateRam (updateRam (updateRam (updateRam (ram0) (16) (300)) (17) (ret)) (0) (309)) (p) (res)) (0) (p + 1), 23⟩ = ⟨299, p + 1, updateRam (updateRam (updateRam (updateRam (updateRam (updateRam (ram0) (16) (300)) (17) (ret)) (0) (309)) (p) (res)) (0) (p + 1)) (16) (299), 24⟩ := by
    rw [step_at r_e23, applyInstr_cAM]
    all_goals simp only [evalComp, w16, updateRam_read, jumpTaken, Mach.mk.injEq, reduceIte, Nat.reduceAdd, Nat.reduceMod, Nat.reduceSub, Nat.reduceEqDiff, Nat.mod_mod, and_true, true_and, and_self, if_true, if_false, r_dq1]
  have r_e24 : nth (programOf (c1Cmds f s)) 24 = some (.cinstr dD .cm .jnone) := rfl
  have r_dq2 : ¬(299 = p) := by omega
  have r_s24 : step env (programOf (c1Cmds f s)) ⟨299, p + 1, updateRam (updateRam (updateRam (updateRam (updateRam (updateRam (ram0) (16) (300)) (17) (ret)) (0) (309)) (p) (res)) (0) (p + 1)) (16) (299), 24⟩ = ⟨299, sT, updateRam (updateRam (updateRam (updateRam (updateRam (updateRam (ram0) (16) (300)) (17) (ret)) (0) (309)) (p) (res)) (0) (p + 1)) (16) (299), 25⟩ := by
    rw [step_at r_e24, applyInstr_cD]
    all_goals simp only [evalComp, w16, updateRam_read, jumpTaken, Mach.mk.injEq, reduceIte, Nat.reduceAdd, Nat.reduceMod, Nat.reduceSub, Nat.reduceEqDiff, Nat.mod_mod, and_true, true_and, and_self, if_true, if_false, r_dq2, h299, Nat.mod_eq_of_lt hsT]
  have r_e25 : nth (programOf (c1Cmds f s)) 25 = some (.atSym "THAT") := rfl
  have r_r5 : resolveSym (programOf (c1Cmds f s)) env ("THAT") = 4 := rfl
  have r_s25 : step env (programOf (c1Cmds f s)) ⟨299, sT, updateRam (updateRam (updateRam (updateRam (updateRam (updateRam (ram0) (16) (300)) (17) (ret)) (0) (309)) (p) (res)) (0) (p + 1)) (16) (299), 25⟩ = ⟨4, sT, updateRam (updateRam (updateRam (updateRam (updateRam (updateRam (ram0) (16) (300)) (17) (ret)) (0) (309)) (p) (res)) (0) (p + 1)) (16) (299), 26⟩ := by
    rw [step_at r_e25, applyInstr_atSym]
    all_goals simp only [evalComp, w16, updateRam_read, jumpTaken, Mach.mk.injEq, reduceIte, Nat.reduceAdd, Nat.reduceMod, Nat.reduceSub, Nat.reduceEqDiff, Nat.mod_mod, and_true, true_and, and_self, if_true, if_false, r_r5]
  have r_e26 : nth (programOf (c1Cmds f s)) 26 = some (.cinstr dM .cd .jnone) := rfl
  have r_s26 : step env (programOf (c1Cmds f s)) ⟨4, sT, updateRam (updateRam (updateRam (updateRam (updateRam (updateRam (ram0) (16) (300)) (17) (ret)) (0) (309)) (p) (res)) (0) (p + 1)) (16) (299), 26⟩ = ⟨4, sT, updateRam (updateRam (updateRam (updateRam (updateRam (updateRam (updateRam (ram0) (16) (300)) (17) (ret)) (0) (309)) (p) (res)) (0) (p + 1)) (16) (299)) (4) (sT), 27⟩ := by
    rw [step_at r_e26, applyInstr_cM]
    all_goals simp only [evalComp, w16, updateRam_read, jumpTaken, Mach.mk.injEq, reduceIte, Nat.reduceAdd, Nat.reduceMod, Nat.reduceSub, Nat.reduceEqDiff, Nat.mod_mod, and_true, true_and, and_self, if_true, if_false, Nat.mod_eq_of_lt hsT]
  have r_e27 : nth (programOf (c1Cmds f s)) 27 = some (.atSym "frame") := rfl
  have r_s27 : step env (programOf (c1Cmds f s)) ⟨4, sT, updateRam (updateRam (updateRam (updateRam (updateRam (updateRam (updateRam (ram0) (16) (300)) (17) (ret)) (0) (309)) (p) (res)) (0) (p + 1)) (16) (299)) (4) (sT), 27⟩ = ⟨16, sT, updateRam (updateRam (updateRam (updateRam (updateRam (updateRam (updateRam (ram0) (16) (300)) (17) (ret)) (0) (309)) (p) (res)) (0) (p + 1)) (16) (299)) (4) (sT), 28⟩ := by
    rw [step_at r_e27, applyInstr_atSym]
    all_goals simp only [evalComp, w16, updateRam_read, jumpTaken, Mach.mk.injEq, reduceIte, Nat.reduceAdd, Nat.reduceMod, Nat.reduceSub, Nat.reduceEqDiff, Nat.mod_mod, and_true, true_and, and_self, if_true, if_false, r_r1]
  have r_e28 : nth (programOf (c1Cmds f s)) 28 = some (.cinstr dAM .mMinus1 .jnone) := rfl
  have r_s28 : step env (programOf (c1Cmds f s)) ⟨16, sT, updateRam (updateRam (updateRam (updateRam (updateRam (updateRam (updateRam (ram0) (16) (300)) (17) (ret)) (0) (309)) (p) (res)) (0) (p + 1)) (16) (299)) (4) (sT), 28⟩ = ⟨298, sT, updateRam (updateRam (updateRam (updateRam (updateRam (updateRam (updateRam (updateRam (ram0) (16) (300)) (17) (ret)) (0) (309)) (p) (res)) (0) (p + 1)) (16) (299)) (4) (sT)) (16) (298), 29⟩ := by
    rw [step_at r_e28, applyInstr_cAM]
    all_goals simp only [evalComp, w16, updateRam_read, jumpTaken, Mach.mk.injEq, reduceIte, Nat.reduceAdd, Nat.reduceMod, Nat.reduceSub, Nat.reduceEqDiff, Nat.mod_mod, and_true, true_and, and_self, if_true, if_false]
  have r_e29 : nth (programOf (c1Cmds f s)) 29 = some (.cinstr dD .cm .jnone) := rfl
  have r_dq3 : ¬(298 = p) := by omega
  have r_s29 : step env (programOf (c1Cmds f s)) ⟨298, sT, updateRam (updateRam (updateRam (updateRam (updateRam (updateRam (updateRam (updateRam (ram0) (16) (300)) (17) (ret)) (0) (309)) (p) (res)) (0) (p + 1)) (16) (299)) (4) (sT)) (16) (298), 29⟩ = ⟨298, sTh, updateRam (updateRam (updateRam (updateRam (updateRam (updateRam (updateRam (updateRam (ram0) (16) (300)) (17) (ret)) (0) (309)) (p) (res)) (0) (p + 1)) (16) (299)) (4) (sT)) (16) (298), 30⟩ := by
    rw [step_at r_e29, applyInstr_cD]
    all_goals simp only [evalComp, w16, updateRam_read, jumpTaken, Mach.mk.injEq, reduceIte, Nat.reduceAdd, Nat.reduceMod, Nat.reduceSub, Nat.reduceEqDiff, Nat.mod_mod, and_true, true_and, and_self, if_true, if_false, r_dq3, h298, Nat.mod_eq_of_lt hsTh]
  have r_e30 : nth (programOf (c1Cmds f s)) 30 = some (.atSym "THIS") := rfl
  have r_r6 : resolveSym (programOf (c1Cmds f s)) env ("THIS") = 3 := rfl
  have r_s30 : step env (programOf (c1Cmds f s)) ⟨298, sTh, updateRam (updateRam (updateRam (updateRam (updateRam (updateRam (updateRam (updateRam (ram0) (16) (300)) (17) (ret)) (0) (309)) (p) (res)) (0) (p + 1)) (16) (299)) (4) (sT)) (16) (298), 30⟩ = ⟨3, sTh, updateRam (updateRam (updateRam (updateRam (updateRam (updateRam (updateRam (updateRam (ram0) (16) (300)) (17) (ret)) (0) (309)) (p) (res)) (0) (p + 1)) (16) (299)) (4) (sT)) (16) (298), 31⟩ := by
    rw [step_at r_e30, applyInstr_atSym]
    all_goals simp only [evalComp, w16, updateRam_read, jumpTaken, Mach.mk.injEq, reduceIte, Nat.reduceAdd, Nat.reduceMod, Nat.reduceSub, Nat.reduceEqDiff, Nat.mod_mod, and_true, true_and, and_self, if_true, if_false, r_r6]
  have r_e31 : nth (programOf (c1Cmds f s)) 31 = some (.cinstr dM .cd .jnone) := rfl
  have r_s31 : step env (programOf (c1Cmds f s)) ⟨3, sTh, updateRam (updateRam (updateRam (updateRam (updateRam (updateRam (updateRam (updateRam (ram0) (16) (300)) (17) (ret)) (0) (309)) (p) (res)) (0) (p + 1)) (16) (299)) (4) (sT)) (16) (298), 31⟩ = ⟨3, sTh, updateRam (updateRam (updateRam (updateRam (updateRam (updateRam (updateRam (updateRam (updateRam (ram0) (16) (300)) (17) (ret)) (0) (309)) (p) (res)) (0) (p + 1)) (16) (299)) (4) (sT)) (16) (298)) (3) (sTh), 32⟩ := by
    rw [step_at r_e31, applyInstr_cM]
    all_goals simp only [evalComp, w16, updateRam_read, jumpTaken, Mach.mk.injEq, reduceIte, Nat.reduceAdd, Nat.reduceMod, Nat.reduceSub, Nat.reduceEqDiff, Nat.mod_mod, and_true, true_and, and_self, if_true, if_false, Nat.mod_eq_of_lt hsTh]
  have r_e32 : nth (programOf (c1Cmds f s)) 32 = some (.atSym "frame") := rfl
  have r_s32 : step env (programOf (c1Cmds f s)) ⟨3, sTh, updateRam (updateRam (updateRam (updateRam (updateRam (updateRam (updateRam (updateRam (updateRam (ram0) (16) (300)) (17) (ret)) (0) (309)) (p) (res)) (0) (p + 1)) (16) (299)) (4) (sT)) (16) (298)) (3) (sTh), 32⟩ = ⟨16, sTh, updateRam (updateRam (updateRam (updateRam (updateRam (updateRam (updateRam (updateRam (updateRam (ram0) (16) (300)) (17) (ret)) (0) (309)) (p) (res)) (0) (p + 1)) (16) (299)) (4) (sT)) (16) (298)) (3) (sTh), 33⟩ := by
    rw [step_at r_e32, applyInstr_atSym]
    all_goals simp only [evalComp, w16, updateRam_read, jumpTaken, Mach.mk.injEq, reduceIte, Nat.reduceAdd, Nat.reduceMod, Nat.reduceSub, Nat.reduceEqDiff, Nat.mod_mod, and_true, true_and, and_self, if_true, if_false, r_r1]
  have r_e33 : nth (programOf (c1Cmds f s)) 33 = some (.cinstr dAM .mMinus1 .jnone) := rfl
  have r_s33 : step env (programOf (c1Cmds f s)) ⟨16, sTh, updateRam (updateRam (updateRam (updateRam (updateRam (updateRam (updateRam (updateRam (updateRam (ram0) (16) (300)) (17) (ret)) (0) (309)) (p) (res)) (0) (p + 1)) (16) (299)) (4) (sT)) (16) (298)) (3) (sTh), 33⟩ = ⟨297, sTh, updateRam (updateRam (updateRam (updateRam (updateRam (updateRam (updateRam (updateRam (updateRam (updateRam (ram0) (16) (300)) (17) (ret)) (0) (309)) (p) (res)) (0) (p + 1)) (16) (299)) (4) (sT)) (16) (298)) (3) (sTh)) (16) (297), 34⟩ := by
    rw [step_at r_e33, applyInstr_cAM]
    all_goals simp only [evalComp, w16, updateRam_read, jumpTaken, Mach.mk.injEq, reduceIte, Nat.reduceAdd, Nat.reduceMod, Nat.reduceSub, Nat.reduceEqDiff, Nat.mod_mod, and_true, true_and, and_self, if_true, if_false]
  have r_e34 : nth (programOf (c1Cmds f s)) 34 = some (.cinstr dD .cm .jnone) := rfl
  have r_dq4 : ¬(297 = p) := by omega
  have r_s34 : step env (programOf (c1Cmds f s)) ⟨297, sTh, updateRam (updateRam (updateRam (updateRam (updateRam (updateRam (updateRam (updateRam (updateRam (updateRam (ram0) (16) (300)) (17) (ret)) (0) (309)) (p) (res)) (0) (p + 1)) (16) (299)) (4) (sT)) (16) (298)) (3) (sTh)) (16) (297), 34⟩ = ⟨297, sA, updateRam (updateRam (updateRam (updateRam (updateRam (updateRam (updateRam (updateRam (updateRam (updateRam (ram0) (16) (300)) (17) (ret)) (0) (309)) (p) (res)) (0) (p + 1)) (16) (299)) (4) (sT)) (16) (298)) (3) (sTh)) (16) (297), 35⟩ := by
    rw [step_at r_e34, applyInstr_cD]
    all_goals simp only [evalComp, w16, updateRam_read, jumpTaken, Mach.mk.injEq, reduceIte, Nat.reduceAdd, Nat.reduceMod, Nat.reduceSub, Nat.reduceEqDiff, Nat.mod_mod, and_true, true_and, and_self, if_true, if_false, r_dq4, h297, Nat.mod_eq_of_lt hsA]
  have r_e35 : nth (programOf (c1Cmds f s)) 35 = some (.atSym "ARG") := rfl
  have r_s35 : step env (programOf (c1Cmds f s)) ⟨297, sA, updateRam (updateRam (updateRam (updateRam (updateRam (updateRam (updateRam (updateRam (updateRam (updateRam (ram0) (16) (300)) (17) (ret)) (0) (309)) (p) (res)) (0) (p + 1)) (16) (299)) (4) (sT)) (16) (298)) (3) (sTh)) (16) (297), 35⟩ = ⟨2, sA, updateRam (updateRam (updateRam (updateRam (updateRam (updateRam (updateRam (updateRam (updateRam (updateRam (ram0) (16) (300)) (17) (ret)) (0) (309)) (p) (res)) (0) (p + 1)) (16) (299)) (4) (sT)) (16) (298)) (3) (sTh)) (16) (297), 36⟩ := by
    rw [step_at r_e35, applyInstr_atSym]
    all_goals simp only [evalComp, w16, updateRam_read, jumpTaken, Mach.mk.injEq, reduceIte, Nat.reduceAdd, Nat.reduceMod, Nat.reduceSub, Nat.reduceEqDiff, Nat.mod_mod, and_true, true_and, and_self, if_true, if_false, r_r4]
  have r_e36 : nth (programOf (c1Cmds f s)) 36 = some (.cinstr dM .cd .jnone) := rfl
  have r_s36 : step env (programOf (c1Cmds f s)) ⟨2, sA, updateRam (updateRam (updateRam (updateRam (updateRam (updateRam (updateRam (updateRam (updateRam (updateRam (ram0) (16) (300)) (17) (ret)) (0) (309)) (p) (res)) (0) (p + 1)) (16) (299)) (4) (sT)) (16) (298)) (3) (sTh)) (16) (297), 36⟩ = ⟨2, sA, updateRam (updateRam (updateRam (updateRam (updateRam (updateRam (updateRam (updateRam (updateRam (updateRam (updateRam (ram0) (16) (300)) (17) (ret)) (0) (309)) (p) (res)) (0) (p + 1)) (16) (299)) (4) (sT)) (16) (298)) (3) (sTh)) (16) (297)) (2) (sA), 37⟩ := by
    rw [step_at r_e36, applyInstr_cM]
    all_goals simp only [evalComp, w16, updateRam_read, jumpTaken, Mach.mk.injEq, reduceIte, Nat.reduceAdd, Nat.reduceMod, Nat.reduceSub, Nat.reduceEqDiff, Nat.mod_mod, and_true, true_and, and_self, if_true, if_false, Nat.mod_eq_of_lt hsA]
  have r_e37 : nth (programOf (c1Cmds f s)) 37 = some (.atSym "frame") := rfl
  have r_s37 : step env (programOf (c1Cmds f s)) ⟨2, sA, updateRam (updateRam (updateRam (updateRam (updateRam (updateRam (updateRam (updateRam (updateRam (updateRam (updateRam (ram0) (16) (300)) (17) (ret)) (0) (309)) (p) (res)) (0) (p + 1)) (16) (299)) (4) (sT)) (16) (298)) (3) (sTh)) (16) (297)) (2) (sA), 37⟩ = ⟨16, sA, updateRam (updateRam (updateRam (updateRam (updateRam (updateRam (updateRam (updateRam (updateRam (updateRam (updateRam (ram0) (16) (300)) (17) (ret)) (0) (309)) (p) (res)) (0) (p + 1)) (16) (299)) (4) (sT)) (16) (298)) (3) (sTh)) (16) (297)) (2) (sA), 38⟩ := by
    rw [step_at r_e37, applyInstr_atSym]
    all_goals simp only [evalComp, w16, updateRam_read, jumpTaken, Mach.mk.injEq, reduceIte, Nat.reduceAdd, Nat.reduceMod, Nat.reduceSub, Nat.reduceEqDiff, Nat.mod_mod, and_true, true_and, and_self, if_true, if_false, r_r1]
  have r_e38 : nth (programOf (c1Cmds f s)) 38 = some (.cinstr dAM .mMinus1 .jnone) := rfl
  have r_s38 : step env (programOf (c1Cmds f s)) ⟨16, sA, updateRam (updateRam (updateRam (updateRam (updateRam (updateRam (updateRam (updateRam (updateRam (updateRam (updateRam (ram0) (16) (300)) (17) (ret)) (0) (309)) (p) (res)) (0) (p + 1)) (16) (299)) (4) (sT)) (16) (298)) (3) (sTh)) (16) (297)) (2) (sA), 38⟩ = ⟨296, sA, updateRam (updateRam (updateRam (updateRam (updateRam (updateRam (updateRam (updateRam (updateRam (updateRam (updateRam (updateRam (ram0) (16) (300)) (17) (ret)) (0) (309)) (p) (res)) (0) (p + 1)) (16) (299)) (4) (sT)) (16) (298)) (3) (sTh)) (16) (297)) (2) (sA)) (16) (296), 39⟩ := by
    rw [step_at r_e38, applyInstr_cAM]
    all_goals simp only [evalComp, w16, updateRam_read, jumpTaken, Mach.mk.injEq, reduceIte, Nat.reduceAdd, Nat.reduceMod, Nat.reduceSub, Nat.reduceEqDiff, Nat.mod_mod, and_true, true_and, and_self, if_true, if_false]
  have r_e39 : nth (programOf (c1Cmds f s)) 39 = some (.cinstr dD .cm .jnone) := rfl
  have r_dq5 : ¬(296 = p) := by omega
  have r_s39 : step env (programOf (c1Cmds f s)) ⟨296, sA, updateRam (updateRam (updateRam (updateRam (updateRam (updateRam (updateRam (updateRam (updateRam (updateRam (updateRam (updateRam (ram0) (16) (300)) (17) (ret)) (0) (309)) (p) (res)) (0) (p + 1)) (16) (299)) (4) (sT)) (16) (298)) (3) (sTh)) (16) (297)) (2) (sA)) (16) (296), 39⟩ = ⟨296, sL, updateRam (updateRam (updateRam (updateRam (updateRam (updateRam (updateRam (updateRam (updateRam (updateRam (updateRam (updateRam (ram0) (16) (300)) (17) (ret)) (0) (309)) (p) (res)) (0) (p + 1)) (16) (299)) (4) (sT)) (16) (298)) (3) (sTh)) (16) (297)) (2) (sA)) (16) (296), 40⟩ := by
    rw [step_at r_e39, applyInstr_cD]
    all_goals simp only [evalComp, w16, updateRam_read, jumpTaken, Mach.mk.injEq, reduceIte, Nat.reduceAdd, Nat.reduceMod, Nat.reduceSub, Nat.reduceEqDiff, Nat.mod_mod, and_true, true_and, and_self, if_true, if_false, r_dq5, h296, Nat.mod_eq_of_lt hsL]
  have r_e40 : nth (programOf (c1Cmds f s)) 40 = some (.atSym "LCL") := rfl
  have r_s40 : step env (programOf (c1Cmds f s)) ⟨296, sL, updateRam (updateRam (updateRam (updateRam (updateRam (updateRam (updateRam (updateRam (updateRam (updateRam (updateRam (updateRam (ram0) (16) (300)) (17) (ret)) (0) (309)) (p) (res)) (0) (p + 1)) (16) (299)) (4) (sT)) (16) (298)) (3) (sTh)) (16) (297)) (2) (sA)) (16) (296), 40⟩ = ⟨1, sL, updateRam (updateRam (updateRam (updateRam (updateRam (updateRam (updateRam (updateRam (updateRam (updateRam (updateRam (updateRam (ram0) (16) (300)) (17) (ret)) (0) (309)) (p) (res)) (0) (p + 1)) (16) (299)) (4) (sT)) (16) (298)) (3) (sTh)) (16) (297)) (2) (sA)) (16) (296), 41⟩ := by
    rw [step_at r_e40, applyInstr_atSym]
    all_goals simp only [evalComp, w16, updateRam_read, jumpTaken, Mach.mk.injEq, reduceIte, Nat.reduceAdd, Nat.reduceMod, Nat.reduceSub, Nat.reduceEqDiff, Nat.mod_mod, and_true, true_and, and_self, if_true, if_false, r_r0]
  have r_e41 : nth (programOf (c1Cmds f s)) 41 = some (.cinstr dM .cd .jnone) := rfl
  have r_s41 : step env (programOf (c1Cmds f s)) ⟨1, sL, updateRam (updateRam (updateRam (updateRam (updateRam (updateRam (updateRam (updateRam (updateRam (updateRam (updateRam (updateRam (ram0) (16) (300)) (17) (ret)) (0) (309)) (p) (res)) (0) (p + 1)) (16) (299)) (4) (sT)) (16) (298)) (3) (sTh)) (16) (297)) (2) (sA)) (16) (296), 41⟩ = ⟨1, sL, updateRam (updateRam (updateRam (updateRam (updateRam (updateRam (updateRam (updateRam (updateRam (updateRam (updateRam (updateRam (updateRam (ram0) (16) (300)) (17) (ret)) (0) (309)) (p) (res)) (0) (p + 1)) (16) (299)) (4) (sT)) (16) (298)) (3) (sTh)) (16) (297)) (2) (sA)) (16) (296)) (1) (sL), 42⟩ := by
    rw [step_at r_e41, applyInstr_cM]
    all_goals simp only [evalComp, w16, updateRam_read, jumpTaken, Mach.mk.injEq, reduceIte, Nat.reduceAdd, Nat.reduceMod, Nat.reduceSub, Nat.reduceEqDiff, Nat.mod_mod, and_true, true_and, and_self, if_true, if_false, Nat.mod_eq_of_lt hsL]
  have r_e42 : nth (programOf (c1Cmds f s)) 42 = some (.atSym "retaddr") := rfl
  have r_s42 : step env (programOf (c1Cmds f s)) ⟨1, sL, updateRam (updateRam (updateRam (updateRam (updateRam (updateRam (updateRam (updateRam (updateRam (updateRam (updateRam (updateRam (updateRam (ram0) (16) (300)) (17) (ret)) (0) (309)) (p) (res)) (0) (p + 1)) (16) (299)) (4) (sT)) (16) (298)) (3) (sTh)) (16) (297)) (2) (sA)) (16) (296)) (1) (sL), 42⟩ = ⟨17, sL, updateRam (updateRam (updateRam (updateRam (updateRam (updateRam (updateRam (updateRam (updateRam (updateRam (updateRam (updateRam (updateRam (ram0) (16) (300)) (17) (ret)) (0) (309)) (p) (res)) (0) (p + 1)) (16) (299)) (4) (sT)) (16) (298)) (3) (sTh)) (16) (297)) (2) (sA)) (16) (296)) (1) (sL), 43⟩ := by
    rw [step_at r_e42, applyInstr_atSym]
    all_goals simp only [evalComp, w16, updateRam_read, jumpTaken, Mach.mk.injEq, reduceIte, Nat.reduceAdd, Nat.reduceMod, Nat.reduceSub, Nat.reduceEqDiff, Nat.mod_mod, and_true, true_and, and_self, if_true, if_false, r_r2]
  have r_e43 : nth (programOf (c1Cmds f s)) 43 = some (.cinstr dA .cm .jnone) := rfl
  have r_dq6 : ¬(17 = p) := by omega
  have r_s43 : step env (programOf (c1Cmds f s)) ⟨17, sL, updateRam (updateRam (updateRam (updateRam (updateRam (updateRam (updateRam (updateRam (updateRam (updateRam (updateRam (updateRam (updateRam (ram0) (16) (300)) (17) (ret)) (0) (309)) (p) (res)) (0) (p + 1)) (16) (299)) (4) (sT)) (16) (298)) (3) (sTh)) (16) (297)) (2) (sA)) (16) (296)) (1) (sL), 43⟩ = ⟨ret, sL, updateRam (updateRam (updateRam (updateRam (updateRam (updateRam (updateRam (updateRam (updateRam (updateRam (updateRam (updateRam (updateRam (ram0) (16) (300)) (17) (ret)) (0) (309)) (p) (res)) (0) (p + 1)) (16) (299)) (4) (sT)) (16) (298)) (3) (sTh)) (16) (297)) (2) (sA)) (16) (296)) (1) (sL), 44⟩ := by
    rw [step_at r_e43, applyInstr_cA]
    all_goals simp only [evalComp, w16, updateRam_read, jumpTaken, Mach.mk.injEq, reduceIte, Nat.reduceAdd, Nat.reduceMod, Nat.reduceSub, Nat.reduceEqDiff, Nat.mod_mod, and_true, true_and, and_self, if_true, if_false, r_dq6, Nat.mod_eq_of_lt hret]
  have r_e44 : nth (programOf (c1Cmds f s)) 44 = some (.cinstr dNone .zero .jmp) := rfl
  have r_s44 : step env (programOf (c1Cmds f s)) ⟨ret, sL, updateRam (updateRam (updateRam (updateRam (updateRam (updateRam (updateRam (updateRam (updateRam (updateRam (updateRam (updateRam (updateRam (ram0) (16) (300)) (17) (ret)) (0) (309)) (p) (res)) (0) (p + 1)) (16) (299)) (4) (sT)) (16) (298)) (3) (sTh)) (16) (297)) (2) (sA)) (16) (296)) (1) (sL), 44⟩ = ⟨ret, sL, updateRam (updateRam (updateRam (updateRam (updateRam (updateRam (updateRam (updateRam (updateRam (updateRam (updateRam (updateRam (updateRam (ram0) (16) (300)) (17) (ret)) (0) (309)) (p) (res)) (0) (p + 1)) (16) (299)) (4) (sT)) (16) (298)) (3) (sTh)) (16) (297)) (2) (sA)) (16) (296)) (1) (sL), ret⟩ := by
    rw [step_at r_e44, applyInstr_jump]
    all_goals simp only [evalComp, w16, updateRam_read, jumpTaken, Mach.mk.injEq, reduceIte, Nat.reduceAdd, Nat.reduceMod, Nat.reduceSub, Nat.reduceEqDiff, Nat.mod_mod, and_true, true_and, and_self, if_true, if_false]
  have r_run : run env (programOf (c1Cmds f s)) 45 ⟨a0, d0, ram0, 0⟩ = ⟨ret, sL, updateRam (updateRam (updateRam (updateRam (updateRam (updateRam (updateRam (updateRam (updateRam (updateRam (updateRam (updateRam (updateRam (ram0) (16) (300)) (17) (ret)) (0) (309)) (p) (res)) (0) (p + 1)) (16) (299)) (4) (sT)) (16) (298)) (3) (sTh)) (16) (297)) (2) (sA)) (16) (296)) (1) (sL), ret⟩ :=
    calc run env (programOf (c1Cmds f s)) 45 ⟨a0, d0, ram0, 0⟩
      _ = run env (programOf (c1Cmds f s)) 44 ⟨a0, d0, ram0, 1⟩ := (run_succ env (programOf (c1Cmds f s)) 44 ⟨a0, d0, ram0, 0⟩).trans (congrArg (run env (programOf (c1Cmds f s)) 44) r_s0)
      _ = run env (programOf (c1Cmds f s)) 43 ⟨1, d0, ram0, 2⟩ := (run_succ env (programOf (c1Cmds f s)) 43 ⟨a0, d0, ram0, 1⟩).trans (congrArg (run env (programOf (c1Cmds f s)) 43) r_s1)
      _ = run env (programOf (c1Cmds f s)) 42 ⟨1, 300, ram0, 3⟩ := (run_succ env (programOf (c1Cmds f s)) 42 ⟨1, d0, ram0, 2⟩).trans (congrArg (run env (programOf (c1Cmds f s)) 42) r_s2)
      _ = run env (programOf (c1Cmds f s)) 41 ⟨16, 300, ram0, 4⟩ := (run_succ env (programOf (c1Cmds f s)) 41 ⟨1, 300, ram0, 3⟩).trans (congrArg (run env (programOf (c1Cmds f s)) 41) r_s3)
      _ = run env (programOf (c1Cmds f s)) 40 ⟨16, 300, updateRam (ram0) (16) (300), 5⟩ := (run_succ env (programOf (c1Cmds f s)) 40 ⟨16, 300, ram0, 4⟩).trans (congrArg (run env (programOf (c1Cmds f s)) 40) r_s4)
      _ = run env (programOf (c1Cmds f s)) 39 ⟨16, 300, updateRam (ram0) (16) (300), 6⟩ := (run_succ env (programOf (c1Cmds f s)) 39 ⟨16, 300, updateRam (ram0) (16) (300), 5⟩).trans (congrArg (run env (programOf (c1Cmds f s)) 39) r_s5)
      _ = run env (programOf (c1Cmds f s)) 38 ⟨16, 300, updateRam (ram0) (16) (300), 7⟩ := (run_succ env (programOf (c1Cmds f s)) 38 ⟨16, 300, updateRam (ram0) (16) (300), 6⟩).trans (congrArg (run env (programOf (c1Cmds f s)) 38) r_s6)
      _ = run env (programOf (c1Cmds f s)) 37 ⟨5, 300, updateRam (ram0) (16) (300), 8⟩ := (run_succ env (programOf (c1Cmds f s)) 37 ⟨16, 300, updateRam (ram0) (16) (300), 7⟩).trans (congrArg (run env (programOf (c1Cmds f s)) 37) r_s7)
      _ = run env (programOf (c1Cmds f s)) 36 ⟨295, 300, updateRam (ram0) (16) (300), 9⟩ := (run_succ env (programOf (c1Cmds f s)) 36 ⟨5, 300, updateRam (ram0) (16) (300), 8⟩).trans (congrArg (run env (programOf (c1Cmds f s)) 36) r_s8)
      _ = run env (programOf (c1Cmds f s)) 35 ⟨295, ret, updateRam (ram0) (16) (300), 10⟩ := (run_succ env (programOf (c1Cmds f s)) 35 ⟨295, 300, updateRam (ram0) (16) (300), 9⟩).trans (congrArg (run env (programOf (c1Cmds f s)) 35) r_s9)
      _ = run env (programOf (c1Cmds f s)) 34 ⟨17, ret, updateRam (ram0) (16) (300), 11⟩ := (run_succ env (programOf (c1Cmds f s)) 34 ⟨295, ret, updateRam (ram0) (16) (300), 10⟩).trans (congrArg (run env (programOf (c1Cmds f s)) 34) r_s10)
      _ = run env (programOf (c1Cmds f s)) 33 ⟨17, ret, updateRam (updateRam (ram0) (16) (300)) (17) (ret), 12⟩ := (run_succ env (programOf (c1Cmds f s)) 33 ⟨17, ret, updateRam (ram0) (16) (300), 11⟩).trans (congrArg (run env (programOf (c1Cmds f s)) 33) r_s11)
      _ = run env (programOf (c1Cmds f s)) 32 ⟨0, ret, updateRam (updateRam (ram0) (16) (300)) (17) (ret), 13⟩ := (run_succ env (programOf (c1Cmds f s)) 32 ⟨17, ret, updateRam (updateRam (ram0) (16) (300)) (17) (ret), 12⟩).trans (congrArg (run env (programOf (c1Cmds f s)) 32) r_s12)
      _ = run env (programOf (c1Cmds f s)) 31 ⟨309, ret, updateRam (updateRam (updateRam (ram0) (16) (300)) (17) (ret)) (0) (309), 14⟩ := (run_succ env (programOf (c1Cmds f s)) 31 ⟨0, ret, updateRam (updateRam (ram0) (16) (300)) (17) (ret), 13⟩).trans (congrArg (run env (programOf (c1Cmds f s)) 31) r_s13)
      _ = run env (programOf (c1Cmds f s)) 30 ⟨309, res, updateRam (updateRam (updateRam (ram0) (16) (300)) (17) (ret)) (0) (309), 15⟩ := (run_succ env (programOf (c1Cmds f s)) 30 ⟨309, ret, updateRam (updateRam (updateRam (ram0) (16) (300)) (17) (ret)) (0) (309), 14⟩).trans (congrArg (run env (programOf (c1Cmds f s)) 30) r_s14)
      _ = run env (programOf (c1Cmds f s)) 29 ⟨2, res, updateRam (updateRam (updateRam (ram0) (16) (300)) (17) (ret)) (0) (309), 16⟩ := (run_succ env (programOf (c1Cmds f s)) 29 ⟨309, res, updateRam (updateRam (updateRam (ram0) (16) (300)) (17) (ret)) (0) (309), 15⟩).trans (congrArg (run env (programOf (c1Cmds f s)) 29) r_s15)
      _ = run env (programOf (c1Cmds f s)) 28 ⟨p, res, updateRam (updateRam (updateRam (ram0) (16) (300)) (17) (ret)) (0) (309), 17⟩ := (run_succ env (programOf (c1Cmds f s)) 28 ⟨2, res, updateRam (updateRam (updateRam (ram0) (16) (300)) (17) (ret)) (0) (309), 16⟩).trans (congrArg (run env (programOf (c1Cmds f s)) 28) r_s16)
      _ = run env (programOf (c1Cmds f s)) 27 ⟨p, res, updateRam (updateRam (updateRam (updateRam (ram0) (16) (300)) (17) (ret)) (0) (309)) (p) (res), 18⟩ := (run_succ env (programOf (c1Cmds f s)) 27 ⟨p, res, updateRam (updateRam (updateRam (ram0) (16) (300)) (17) (ret)) (0) (309), 17⟩).trans (congrArg (run env (programOf (c1Cmds f s)) 27) r_s17)
      _ = run env (programOf (c1Cmds f s)) 26 ⟨2, res, updateRam (updateRam (updateRam (updateRam (ram0) (16) (300)) (17) (ret)) (0) (309)) (p) (res), 19⟩ := (run_succ env (programOf (c1Cmds f s)) 26 ⟨p, res, updateRam (updateRam (updateRam (updateRam (ram0) (16) (300)) (17) (ret)) (0) (309)) (p) (res), 18⟩).trans (congrArg (run env (programOf (c1Cmds f s)) 26) r_s18)
      _ = run env (programOf (c1Cmds f s)) 25 ⟨2, p + 1, updateRam (updateRam (updateRam (updateRam (ram0) (16) (300)) (17) (ret)) (0) (309)) (p) (res), 20⟩ := (run_succ env (programOf (c1Cmds f s)) 25 ⟨2, res, updateRam (updateRam (updateRam (updateRam (ram0) (16) (300)) (17) (ret)) (0) (309)) (p) (res), 19⟩).trans (congrArg (run env (programOf (c1Cmds f s)) 25) r_s19)
      _ = run env (programOf (c1Cmds f s)) 24 ⟨0, p + 1, updateRam (updateRam (updateRam (updateRam (ram0) (16) (300)) (17) (ret)) (0) (309)) (p) (res), 21⟩ := (run_succ env (programOf (c1Cmds f s)) 24 ⟨2, p + 1, updateRam (updateRam (updateRam (updateRam (ram0) (16) (300)) (17) (ret)) (0) (309)) (p) (res), 20⟩).trans (congrArg (run env (programOf (c1Cmds f s)) 24) r_s20)
      _ = run env (programOf (c1Cmds f s)) 23 ⟨0, p + 1, updateRam (updateRam (updateRam (updateRam (updateRam (ram0) (16) (300)) (17) (ret)) (0) (309)) (p) (res)) (0) (p + 1), 22⟩ := (run_succ env (programOf (c1Cmds f s)) 23 ⟨0, p + 1, updateRam (updateRam (updateRam (updateRam (ram0) (16) (300)) (17) (ret)) (0) (309)) (p) (res), 21⟩).trans (congrArg (run env (programOf (c1Cmds f s)) 23) r_s21)
      _ = run env (programOf (c1Cmds f s)) 22 ⟨16, p + 1, updateRam (updateRam (updateRam (updateRam (updateRam (ram0) (16) (300)) (17) (ret)) (0) (309)) (p) (res)) (0) (p + 1), 23⟩ := (run_succ env (programOf (c1Cmds f s)) 22 ⟨0, p + 1, updateRam (updateRam (updateRam (updateRam (updateRam (ram0) (16) (300)) (17) (ret)) (0) (309)) (p) (res)) (0) (p + 1), 22⟩).trans (congrArg (run env (programOf (c1Cmds f s)) 22) r_s22)
      _ = run env (programOf (c1Cmds f s)) 21 ⟨299, p + 1, updateRam (updateRam (updateRam (updateRam (updateRam (updateRam (ram0) (16) (300)) (17) (ret)) (0) (309)) (p) (res)) (0) (p + 1)) (16) (299), 24⟩ := (run_succ env (programOf (c1Cmds f s)) 21 ⟨16, p + 1, updateRam (updateRam (updateRam (updateRam (updateRam (ram0) (16) (300)) (17) (ret)) (0) (309)) (p) (res)) (0) (p + 1), 23⟩).trans (congrArg (run env (programOf (c1Cmds f s)) 21) r_s23)
      _ = run env (programOf (c1Cmds f s)) 20 ⟨299, sT, updateRam (updateRam (updateRam (updateRam (updateRam (updateRam (ram0) (16) (300)) (17) (ret)) (0) (309)) (p) (res)) (0) (p + 1)) (16) (299), 25⟩ := (run_succ env (programOf (c1Cmds f s)) 20 ⟨299, p + 1, updateRam (updateRam (updateRam (updateRam (updateRam (updateRam (ram0) (16) (300)) (17) (ret)) (0) (309)) (p) (res)) (0) (p + 1)) (16) (299), 24⟩).trans (congrArg (run env (programOf (c1Cmds f s)) 20) r_s24)
      _ = run env (programOf (c1Cmds f s)) 19 ⟨4, sT, updateRam (updateRam (updateRam (updateRam (updateRam (updateRam (ram0) (16) (300)) (17) (ret)) (0) (309)) (p) (res)) (0) (p + 1)) (16) (299), 26⟩ := (run_succ env (programOf (c1Cmds f s)) 19 ⟨299, sT, updateRam (updateRam (updateRam (updateRam (updateRam (updateRam (ram0) (16) (300)) (17) (ret)) (0) (309)) (p) (res)) (0) (p + 1)) (16) (299), 25⟩).trans (congrArg (run env (programOf (c1Cmds f s)) 19) r_s25)
      _ = run env (programOf (c1Cmds f s)) 18 ⟨4, sT, updateRam (updateRam (updateRam (updateRam (updateRam (updateRam (updateRam (ram0) (16) (300)) (17) (ret)) (0) (309)) (p) (res)) (0) (p + 1)) (16) (299)) (4) (sT), 27⟩ := (run_succ env (programOf (c1Cmds f s)) 18 ⟨4, sT, updateRam (updateRam (updateRam (updateRam (updateRam (updateRam (ram0) (16) (300)) (17) (ret)) (0) (309)) (p) (res)) (0) (p + 1)) (16) (299), 26⟩).trans (congrArg (run env (programOf (c1Cmds f s)) 18) r_s26)
      _ = run env (programOf (c1Cmds f s)) 17 ⟨16, sT, updateRam (updateRam (updateRam (updateRam (updateRam (updateRam (updateRam (ram0) (16) (300)) (17) (ret)) (0) (309)) (p) (res)) (0) (p + 1)) (16) (299)) (4) (sT), 28⟩ := (run_succ env (programOf (c1Cmds f s)) 17 ⟨4, sT, updateRam (updateRam (updateRam (updateRam (updateRam (updateRam (updateRam (ram0) (16) (300)) (17) (ret)) (0) (309)) (p) (res)) (0) (p + 1)) (16) (299)) (4) (sT), 27⟩).trans (congrArg (run env (programOf (c1Cmds f s)) 17) r_s27)
      _ = run env (programOf (c1Cmds f s)) 16 ⟨298, sT, updateRam (updateRam (updateRam (updateRam (updateRam (updateRam (updateRam (updateRam (ram0) (16) (300)) (17) (ret)) (0) (309)) (p) (res)) (0) (p + 1)) (16) (299)) (4) (sT)) (16) (298), 29⟩ := (run_succ env (programOf (c1Cmds f s)) 16 ⟨16, sT, updateRam (updateRam (updateRam (updateRam (updateRam (updateRam (updateRam (ram0) (16) (300)) (17) (ret)) (0) (309)) (p) (res)) (0) (p + 1)) (16) (299)) (4) (sT), 28⟩).trans (congrArg (run env (programOf (c1Cmds f s)) 16) r_s28)
      _ = run env (programOf (c1Cmds f s)) 15 ⟨298, sTh, updateRam (updateRam (updateRam (updateRam (updateRam (updateRam (updateRam (updateRam (ram0) (16) (300)) (17) (ret)) (0) (309)) (p) (res)) (0) (p + 1)) (16) (299)) (4) (sT)) (16) (298), 30⟩ := (run_succ env (programOf (c1Cmds f s)) 15 ⟨298, sT, updateRam (updateRam (updateRam (updateRam (updateRam (updateRam (updateRam (updateRam (ram0) (16) (300)) (17) (ret)) (0) (309)) (p) (res)) (0) (p + 1)) (16) (299)) (4) (sT)) (16) (298), 29⟩).trans (congrArg (run env (programOf (c1Cmds f s)) 15) r_s29)
      _ = run env (programOf (c1Cmds f s)) 14 ⟨3, sTh, updateRam (updateRam (updateRam (updateRam (updateRam (updateRam (updateRam (updateRam (ram0) (16) (300)) (17) (ret)) (0) (309)) (p) (res)) (0) (p + 1)) (16) (299)) (4) (sT)) (16) (298), 31⟩ := (run_succ env (programOf (c1Cmds f s)) 14 ⟨298, sTh, updateRam (updateRam (updateRam (updateRam (updateRam (updateRam (updateRam (updateRam (ram0) (16) (300)) (17) (ret)) (0) (309)) (p) (res)) (0) (p + 1)) (16) (299)) (4) (sT)) (16) (298), 30⟩).trans (congrArg (run env (programOf (c1Cmds f s)) 14) r_s30)
      _ = run env (programOf (c1Cmds f s)) 13 ⟨3, sTh, updateRam (updateRam (updateRam (updateRam (updateRam (updateRam (updateRam (updateRam (updateRam (ram0) (16) (300)) (17) (ret)) (0) (309)) (p) (res)) (0) (p + 1)) (16) (299)) (4) (sT)) (16) (298)) (3) (sTh), 32⟩ := (run_succ env (programOf (c1Cmds f s)) 13 ⟨3, sTh, updateRam (updateRam (updateRam (updateRam (updateRam (updateRam (updateRam (updateRam (ram0) (16) (300)) (17) (ret)) (0) (309)) (p) (res)) (0) (p + 1)) (16) (299)) (4) (sT)) (16) (298), 31⟩).trans (congrArg (run env (programOf (c1Cmds f s)) 13) r_s31)
      _ = run env (programOf (c1Cmds f s)) 12 ⟨16, sTh, updateRam (updateRam (updateRam (updateRam (updateRam (updateRam (updateRam (updateRam (updateRam (ram0) (16) (300)) (17) (ret)) (0) (309)) (p) (res)) (0) (p + 1)) (16) (299)) (4) (sT)) (16) (298)) (3) (sTh), 33⟩ := (run_succ env (programOf (c1Cmds f s)) 12 ⟨3, sTh, updateRam (updateRam (updateRam (updateRam (updateRam (updateRam (updateRam (updateRam (updateRam (ram0) (16) (300)) (17) (ret)) (0) (309)) (p) (res)) (0) (p + 1)) (16) (299)) (4) (sT)) (16) (298)) (3) (sTh), 32⟩).trans (congrArg (run env (programOf (c1Cmds f s)) 12) r_s32)
      _ = run env (programOf (c1Cmds f s)) 11 ⟨297, sTh, updateRam (updateRam (updateRam (updateRam (updateRam (updateRam (updateRam (updateRam (updateRam (updateRam (ram0) (16) (300)) (17) (ret)) (0) (309)) (p) (res)) (0) (p + 1)) (16) (299)) (4) (sT)) (16) (298)) (3) (sTh)) (16) (297), 34⟩ := (run_succ env (programOf (c1Cmds f s)) 11 ⟨16, sTh, updateRam (updateRam (updateRam (updateRam (updateRam (updateRam (updateRam (updateRam (updateRam (ram0) (16) (300)) (17) (ret)) (0) (309)) (p) (res)) (0) (p + 1)) (16) (299)) (4) (sT)) (16) (298)) (3) (sTh), 33⟩).trans (congrArg (run env (programOf (c1Cmds f s)) 11) r_s33)
      _ = run env (programOf (c1Cmds f s)) 10 ⟨297, sA, updateRam (updateRam (updateRam (updateRam (updateRam (updateRam (updateRam (updateRam (updateRam (updateRam (ram0) (16) (300)) (17) (ret)) (0) (309)) (p) (res)) (0) (p + 1)) (16) (299)) (4) (sT)) (16) (298)) (3) (sTh)) (16) (297), 35⟩ := (run_succ env (programOf (c1Cmds f s)) 10 ⟨297, sTh, updateRam (updateRam (updateRam (updateRam (updateRam (updateRam (updateRam (updateRam (updateRam (updateRam (ram0) (16) (300)) (17) (ret)) (0) (309)) (p) (res)) (0) (p + 1)) (16) (299)) (4) (sT)) (16) (298)) (3) (sTh)) (16) (297), 34⟩).trans (congrArg (run env (programOf (c1Cmds f s)) 10) r_s34)
      _ = run env (programOf (c1Cmds f s)) 9 ⟨2, sA, updateRam (updateRam (updateRam (updateRam (updateRam (updateRam (updateRam (updateRam (updateRam (updateRam (ram0) (16) (300)) (17) (ret)) (0) (309)) (p) (res)) (0) (p + 1)) (16) (299)) (4) (sT)) (16) (298)) (3) (sTh)) (16) (297), 36⟩ := (run_succ env (programOf (c1Cmds f s)) 9 ⟨297, sA, updateRam (updateRam (updateRam (updateRam (updateRam (updateRam (updateRam (updateRam (updateRam (updateRam (ram0) (16) (300)) (17) (ret)) (0) (309)) (p) (res)) (0) (p + 1)) (16) (299)) (4) (sT)) (16) (298)) (3) (sTh)) (16) (297), 35⟩).trans (congrArg (run env (programOf (c1Cmds f s)) 9) r_s35)
      _ = run env (programOf (c1Cmds f s)) 8 ⟨2, sA, updateRam (updateRam (updateRam (updateRam (updateRam (updateRam (updateRam (updateRam (updateRam (updateRam (updateRam (ram0) (16) (300)) (17) (ret)) (0) (309)) (p) (res)) (0) (p + 1)) (16) (299)) (4) (sT)) (16) (298)) (3) (sTh)) (16) (297)) (2) (sA), 37⟩ := (run_succ env (programOf (c1Cmds f s)) 8 ⟨2, sA, updateRam (updateRam (updateRam (updateRam (updateRam (updateRam (updateRam (updateRam (updateRam (updateRam (ram0) (16) (300)) (17) (ret)) (0) (309)) (p) (res)) (0) (p + 1)) (16) (299)) (4) (sT)) (16) (298)) (3) (sTh)) (16) (297), 36⟩).trans (congrArg (run env (programOf (c1Cmds f s)) 8) r_s36)
      _ = run env (programOf (c1Cmds f s)) 7 ⟨16, sA, updateRam (updateRam (updateRam (updateRam (updateRam (updateRam (updateRam (updateRam (updateRam (updateRam (updateRam (ram0) (16) (300)) (17) (ret)) (0) (309)) (p) (res)) (0) (p + 1)) (16) (299)) (4) (sT)) (16) (298)) (3) (sTh)) (16) (297)) (2) (sA), 38⟩ := (run_succ env (programOf (c1Cmds f s)) 7 ⟨2, sA, updateRam (updateRam (updateRam (updateRam (updateRam (updateRam (updateRam (updateRam (updateRam (updateRam (updateRam (ram0) (16) (300)) (17) (ret)) (0) (309)) (p) (res)) (0) (p + 1)) (16) (299)) (4) (sT)) (16) (298)) (3) (sTh)) (16) (297)) (2) (sA), 37⟩).trans (congrArg (run env (programOf (c1Cmds f s)) 7) r_s37)
      _ = run env (programOf (c1Cmds f s)) 6 ⟨296, sA, updateRam (updateRam (updateRam (updateRam (updateRam (updateRam (updateRam (updateRam (updateRam (updateRam (updateRam (updateRam (ram0) (16) (300)) (17) (ret)) (0) (309)) (p) (res)) (0) (p + 1)) (16) (299)) (4) (sT)) (16) (298)) (3) (sTh)) (16) (297)) (2) (sA)) (16) (296), 39⟩ := (run_succ env (programOf (c1Cmds f s)) 6 ⟨16, sA, updateRam (updateRam (updateRam (updateRam (updateRam (updateRam (updateRam (updateRam (updateRam (updateRam (updateRam (ram0) (16) (300)) (17) (ret)) (0) (309)) (p) (res)) (0) (p + 1)) (16) (299)) (4) (sT)) (16) (298)) (3) (sTh)) (16) (297)) (2) (sA), 38⟩).trans (congrArg (run env (programOf (c1Cmds f s)) 6) r_s38)
      _ = run env (programOf (c1Cmds f s)) 5 ⟨296, sL, updateRam (updateRam (updateRam (updateRam (updateRam (updateRam (updateRam (updateRam (updateRam (updateRam (updateRam (updateRam (ram0) (16) (300)) (17) (ret)) (0) (309)) (p) (res)) (0) (p + 1)) (16) (299)) (4) (sT)) (16) (298)) (3) (sTh)) (16) (297)) (2) (sA)) (16) (296), 40⟩ := (run_succ env (programOf (c1Cmds f s)) 5 ⟨296, sA, updateRam (updateRam (updateRam (updateRam (updateRam (updateRam (updateRam (updateRam (updateRam (updateRam (updateRam (updateRam (ram0) (16) (300)) (17) (ret)) (0) (309)) (p) (res)) (0) (p + 1)) (16) (299)) (4) (sT)) (16) (298)) (3) (sTh)) (16) (297)) (2) (sA)) (16) (296), 39⟩).trans (congrArg (run env (programOf (c1Cmds f s)) 5) r_s39)
      _ = run env (programOf (c1Cmds f s)) 4 ⟨1, sL, updateRam (updateRam (updateRam (updateRam (updateRam (updateRam (updateRam (updateRam (updateRam (updateRam (updateRam (updateRam (ram0) (16) (300)) (17) (ret)) (0) (309)) (p) (res)) (0) (p + 1)) (16) (299)) (4) (sT)) (16) (298)) (3) (sTh)) (16) (297)) (2) (sA)) (16) (296), 41⟩ := (run_succ env (programOf (c1Cmds f s)) 4 ⟨296, sL, updateRam (updateRam (updateRam (updateRam (updateRam (updateRam (updateRam (updateRam (updateRam (updateRam (updateRam (updateRam (ram0) (16) (300)) (17) (ret)) (0) (309)) (p) (res)) (0) (p + 1)) (16) (299)) (4) (sT)) (16) (298)) (3) (sTh)) (16) (297)) (2) (sA)) (16) (296), 40⟩).trans (congrArg (run env (programOf (c1Cmds f s)) 4) r_s40)
      _ = run env (programOf (c1Cmds f s)) 3 ⟨1, sL, updateRam (updateRam (updateRam (updateRam (updateRam (updateRam (updateRam (updateRam (updateRam (updateRam (updateRam (updateRam (updateRam (ram0) (16) (300)) (17) (ret)) (0) (309)) (p) (res)) (0) (p + 1)) (16) (299)) (4) (sT)) (16) (298)) (3) (sTh)) (16) (297)) (2) (sA)) (16) (296)) (1) (sL), 42⟩ := (run_succ env (programOf (c1Cmds f s)) 3 ⟨1, sL, updateRam (updateRam (updateRam (updateRam (updateRam (updateRam (updateRam (updateRam (updateRam (updateRam (updateRam (updateRam (ram0) (16) (300)) (17) (ret)) (0) (309)) (p) (res)) (0) (p + 1)) (16) (299)) (4) (sT)) (16) (298)) (3) (sTh)) (16) (297)) (2) (sA)) (16) (296), 41⟩).trans (congrArg (run env (programOf (c1Cmds f s)) 3) r_s41)
      _ = run env (programOf (c1Cmds f s)) 2 ⟨17, sL, updateRam (updateRam (updateRam (updateRam (updateRam (updateRam (updateRam (updateRam (updateRam (updateRam (updateRam (updateRam (updateRam (ram0) (16) (300)) (17) (ret)) (0) (309)) (p) (res)) (0) (p + 1)) (16) (299)) (4) (sT)) (16) (298)) (3) (sTh)) (16) (297)) (2) (sA)) (16) (296)) (1) (sL), 43⟩ := (run_succ env (programOf (c1Cmds f s)) 2 ⟨1, sL, updateRam (updateRam (updateRam (updateRam (updateRam (updateRam (updateRam (updateRam (updateRam (updateRam (updateRam (updateRam (updateRam (ram0) (16) (300)) (17) (ret)) (0) (309)) (p) (res)) (0) (p + 1)) (16) (299)) (4) (sT)) (16) (298)) (3) (sTh)) (16) (297)) (2) (sA)) (16) (296)) (1) (sL), 42⟩).trans (congrArg (run env (programOf (c1Cmds f s)) 2) r_s42)
      _ = run env (programOf (c1Cmds f s)) 1 ⟨ret, sL, updateRam (updateRam (updateRam (updateRam (updateRam (updateRam (updateRam (updateRam (updateRam (updateRam (updateRam (updateRam (updateRam (ram0) (16) (300)) (17) (ret)) (0) (309)) (p) (res)) (0) (p + 1)) (16) (299)) (4) (sT)) (16) (298)) (3) (sTh)) (16) (297)) (2) (sA)) (16) (296)) (1) (sL), 44⟩ := (run_succ env (programOf (c1Cmds f s)) 1 ⟨17, sL, updateRam (updateRam (updateRam (updateRam (updateRam (updateRam (updateRam (updateRam (updateRam (updateRam (updateRam (updateRam (updateRam (ram0) (16) (300)) (17) (ret)) (0) (309)) (p) (res)) (0) (p + 1)) (16) (299)) (4) (sT)) (16) (298)) (3) (sTh)) (16) (297)) (2) (sA)) (16) (296)) (1) (sL), 43⟩).trans (congrArg (run env (programOf (c1Cmds f s)) 1) r_s43)
      _ = run env (programOf (c1Cmds f s)) 0 ⟨ret, sL, updateRam (updateRam (updateRam (updateRam (updateRam (updateRam (updateRam (updateRam (updateRam (updateRam (updateRam (updateRam (updateRam (ram0) (16) (300)) (17) (ret)) (0) (309)) (p) (res)) (0) (p + 1)) (16) (299)) (4) (sT)) (16) (298)) (3) (sTh)) (16) (297)) (2) (sA)) (16) (296)) (1) (sL), ret⟩ := (run_succ env (programOf (c1Cmds f s)) 0 ⟨ret, sL, updateRam (updateRam (updateRam (updateRam (updateRam (updateRam (updateRam (updateRam (updateRam (updateRam (updateRam (updateRam (updateRam (ram0) (16) (300)) (17) (ret)) (0) (309)) (p) (res)) (0) (p + 1)) (16) (299)) (4) (sT)) (16) (298)) (3) (sTh)) (16) (297)) (2) (sA)) (16) (296)) (1) (sL), 44⟩).trans (congrArg (run env (programOf (c1Cmds f s)) 0) r_s44)
      _ = ⟨ret, sL, updateRam (updateRam (updateRam (updateRam (updateRam (updateRam (updateRam (updateRam (updateRam (updateRam (updateRam (updateRam (updateRam (ram0) (16) (300)) (17) (ret)) (0) (309)) (p) (res)) (0) (p + 1)) (16) (299)) (4) (sT)) (16) (298)) (3) (sTh)) (16) (297)) (2) (sA)) (16) (296)) (1) (sL), ret⟩ := run_zero env (programOf (c1Cmds f s)) ⟨ret, sL, updateRam (updateRam (updateRam (updateRam (updateRam (updateRam (updateRam (updateRam (updateRam (updateRam (updateRam (updateRam (updateRam (ram0) (16) (300)) (17) (ret)) (0) (309)) (p) (res)) (0) (p + 1)) (16) (299)) (4) (sT)) (16) (298)) (3) (sTh)) (16) (297)) (2) (sA)) (16) (296)) (1) (sL), ret⟩
  have n0p : ¬((0 : Nat) = p) := by omega
  have n1p : ¬((1 : Nat) = p) := by omega
  have n2p : ¬((2 : Nat) = p) := by omega
  have n3p : ¬((3 : Nat) = p) := by omega
  have n4p : ¬((4 : Nat) = p) := by omega
  have np0 : ¬(p = 0) := by omega
  have np1 : ¬(p = 1) := by omega
  have np2 : ¬(p = 2) := by omega
  have np3 : ¬(p = 3) := by omega
  have np4 : ¬(p = 4) := by omega
  have np16 : ¬(p = 16) := hp16
  have np17 : ¬(p = 17) := hp17
  have np296 : ¬(p = 296) := hp296
  have np297 : ¬(p = 297) := hp297
  have np298 : ¬(p = 298) := hp298
  have np299 : ¬(p = 299) := hp299
  rw [r_run]
  refine ⟨?_, ?_, ?_, ?_, ?_, ?_, ?_⟩ <;>
    simp only [updateRam_read, Nat.reduceEqDiff, reduceIte, n0p, n1p, n2p, n3p, n4p,
      np0, np1, np2, np3, np4, np16, np17, np296, np297, np298, np299]

/-- Concrete frame for the C1 witness: the Argument pointer is 295 = frame
base − 5, i.e. it aliases the slot holding the saved return address — the
case that makes the code's operation order essential. -/
def c1wRam : Nat → Nat :=
  fun x => if x = 0 then 310 else if x = 1 then 300 else if x = 2 then 295
    else if x = 295 then 1234 else if x = 296 then 11 else if x = 297 then 22
    else if x = 298 then 33 else if x = 299 then 44 else if x = 309 then 77 else 0

/-- Dedicated environment for the C1 witness. -/
def c1wEnv : String → Nat :=
  fun x => if x = "frame" then 16 else if x = "retaddr" then 17 else 0

/-- Witness for C1: with the result 77 on top of the stack and the saved
return address 1234 in the slot the Argument pointer aliases, return
stores 77 there, sets SP to 296, restores the four pointers, and jumps
to 1234. -/
theorem c1_return_semantics_witness :
    (run c1wEnv (programOf (c1Cmds "F" "return")) 45 ⟨0, 0, c1wRam, 0⟩).ram 295 = 77
    ∧ (run c1wEnv (programOf (c1Cmds "F" "return")) 45 ⟨0, 0, c1wRam, 0⟩).ram 0 = 296
    ∧ (run c1wEnv (programOf (c1Cmds "F" "return")) 45 ⟨0, 0, c1wRam, 0⟩).pc = 1234 := by
  have h := c1_return_semantics "F" "return" 295 1234 11 22 33 44 77 0 0 c1wEnv c1wRam
    rfl rfl (by decide) (by decide) (by decide) (by decide) (by decide) (by decide)
    (by decide) (by decide) (by decide) (by decide) (by decide) (by decide)
    (by decide) (by decide) rfl rfl rfl rfl rfl rfl rfl rfl rfl
  exact ⟨h.1, h.2.1, h.2.2.2.2.2.2⟩

/-! ## Claim C2: the Call protocol -/

/-- The code `generate_call` emits for `call name nargs` at source line 7 of
translation unit Main, in function scope Main.main. -/
def c2Prog (name : String) (nargs : Nat) (src : String) : List Instr :=
  okD (generate_call ⟨7, Command.Call name nargs, src, "Main"⟩ name nargs (some "Main.main"))

set_option maxHeartbeats 1000000 in
/-- C2: for every Call command with callee name `name` and argument count
`nargs`, from stack pointer 310 the generated code pushes the return
address (the position of the uniquely-labelled return line, 47), then the
saved Local, Argument, This, That pointer registers in that order
(slots 310-314), sets the Argument pointer to
stack_pointer − nargs − 5 = 315 − (nargs + 5), sets the Local pointer to
the new stack pointer 315, and jumps to wherever the callee's entry symbol
resolves; the 0;JMP to the callee is the second-to-last line and the
return-address label is emitted immediately after it. -/
theorem c2_call_semantics (name src : String) (nargs t l0 g0 t0 th0 a0 d0 : Nat)
    (env : String → Nat) (ram0 : Nat → Nat)
    (hname : resolveSym (c2Prog name nargs src) env name = t)
    (ht : t < 65536) (hn : nargs ≤ 300)
    (hl : l0 < 65536) (hg : g0 < 65536) (ht0 : t0 < 65536) (hth : th0 < 65536)
    (hsp : ram0 0 = 310) (hlcl : ram0 1 = l0) (harg : ram0 2 = g0)
    (hthis : ram0 3 = t0) (hthat : ram0 4 = th0) :
    nth (c2Prog name nargs src) 46 = some (.cinstr dNone .zero .jmp)
    ∧ nth (c2Prog name nargs src) 47 = some (.labelDef (returnLabel "Main.main" 7))
    ∧ (run env (c2Prog name nargs src) 47 ⟨a0, d0, ram0, 0⟩).ram 310 = 47
    ∧ (run env (c2Prog name nargs src) 47 ⟨a0, d0, ram0, 0⟩).ram 311 = l0
    ∧ (run env (c2Prog name nargs src) 47 ⟨a0, d0, ram0, 0⟩).ram 312 = g0
    ∧ (run env (c2Prog name nargs src) 47 ⟨a0, d0, ram0, 0⟩).ram 313 = t0
    ∧ (run env (c2Prog name nargs src) 47 ⟨a0, d0, ram0, 0⟩).ram 314 = th0
    ∧ (run env (c2Prog name nargs src) 47 ⟨a0, d0, ram0, 0⟩).ram 0 = 315
    ∧ (run env (c2Prog name nargs src) 47 ⟨a0, d0, ram0, 0⟩).ram 2 = 315 - (nargs + 5)
    ∧ (run env (c2Prog name nargs src) 47 ⟨a0, d0, ram0, 0⟩).ram 1 = 315
    ∧ (run env (c2Prog name nargs src) 47 ⟨a0, d0, ram0, 0⟩).pc = t := by
  have hn5m : (nargs + 5) % 65536 = nargs + 5 := Nat.mod_eq_of_lt (by omega)
  have htm : t % 65536 = t := Nat.mod_eq_of_lt ht
  have hargv : (315 + (65536 - (nargs + 5))) % 65536 = 310 - nargs := by omega
  have c_e0 : nth (c2Prog name nargs src) 0 = some (.atSym (returnLabel "Main.main" 7)) := rfl
  have c_r0 : resolveSym (c2Prog name nargs src) env (returnLabel "Main.main" 7) = 47 := rfl
  have c_s0 : step env (c2Prog name nargs src) ⟨a0, d0, ram0, 0⟩ = ⟨47, d0, ram0, 1⟩ := by
    rw [step_at c_e0, applyInstr_atSym]
    all_goals simp only [evalComp, w16, updateRam_read, jumpTaken, Mach.mk.injEq, reduceIte, Nat.reduceAdd, Nat.reduceMod, Nat.reduceSub, Nat.reduceEqDiff, Nat.mod_mod, and_true, true_and, and_self, if_true, if_false, c_r0]
  have c_e1 : nth (c2Prog name nargs src) 1 = some (.cinstr dD .ca .jnone) := rfl
  have c_s1 : step env (c2Prog name nargs src) ⟨47, d0, ram0, 1⟩ = ⟨47, 47, ram0, 2⟩ := by
    rw [step_at c_e1, applyInstr_cD]
    all_goals simp only [evalComp, w16, updateRam_read, jumpTaken, Mach.mk.injEq, reduceIte, Nat.reduceAdd, Nat.reduceMod, Nat.reduceSub, Nat.reduceEqDiff, Nat.mod_mod, and_true, true_and, and_self, if_true, if_false]
  have c_e2 : nth (c2Prog name nargs src) 2 = some (.atSym "SP") := rfl
  have c_r1 : resolveSym (c2Prog name nargs src) env ("SP") = 0 := rfl
  have c_s2 : step env (c2Prog name nargs src) ⟨47, 47, ram0, 2⟩ = ⟨0, 47, ram0, 3⟩ := by
    rw [step_at c_e2, applyInstr_atSym]
    all_goals simp only [evalComp, w16, updateRam_read, jumpTaken, Mach.mk.injEq, reduceIte, Nat.reduceAdd, Nat.reduceMod, Nat.reduceSub, Nat.reduceEqDiff, Nat.mod_mod, and_true, true_and, and_self, if_true, if_false, c_r1]
  have c_e3 : nth (c2Prog name nargs src) 3 = some (.cinstr dA .cm .jnone) := rfl
  have c_s3 : step env (c2Prog name nargs src) ⟨0, 47, ram0, 3⟩ = ⟨310, 47, ram0, 4⟩ := by
    rw [step_at c_e3, applyInstr_cA]
    all_goals simp only [evalComp, w16, updateRam_read, jumpTaken, Mach.mk.injEq, reduceIte, Nat.reduceAdd, Nat.reduceMod, Nat.reduceSub, Nat.reduceEqDiff, Nat.mod_mod, and_true, true_and, and_self, if_true, if_false, hsp]
  have c_e4 : nth (c2Prog name nargs src) 4 = some (.cinstr dM .cd .jnone) := rfl
  have c_s4 : step env (c2Prog name nargs src) ⟨310, 47, ram0, 4⟩ = ⟨310, 47, updateRam (ram0) (310) (47), 5⟩ := by
    rw [step_at c_e4, applyInstr_cM]
    all_goals simp only [evalComp, w16, updateRam_read, jumpTaken, Mach.mk.injEq, reduceIte, Nat.reduceAdd, Nat.reduceMod, Nat.reduceSub, Nat.reduceEqDiff, Nat.mod_mod, and_true, true_and, and_self, if_true, if_false]
  have c_e5 : nth (c2Prog name nargs src) 5 = some (.atSym "SP") := rfl
  have c_s5 : step env (c2Prog name nargs src) ⟨310, 47, updateRam (ram0) (310) (47), 5⟩ = ⟨0, 47, updateRam (ram0) (310) (47), 6⟩ := by
    rw [step_at c_e5, applyInstr_atSym]
    all_goals simp only [evalComp, w16, updateRam_read, jumpTaken, Mach.mk.injEq, reduceIte, Nat.reduceAdd, Nat.reduceMod, Nat.reduceSub, Nat.reduceEqDiff, Nat.mod_mod, and_true, true_and, and_self, if_true, if_false, c_r1]
  have c_e6 : nth (c2Prog name nargs src) 6 = some (.cinstr dM .mPlus1 .jnone) := rfl
  have c_s6 : step env (c2Prog name nargs src) ⟨0, 47, updateRam (ram0) (310) (47), 6⟩ = ⟨0, 47, updateRam (updateRam (ram0) (310) (47)) (0) (311), 7⟩ := by
    rw [step_at c_e6, applyInstr_cM]
    all_goals simp only [evalComp, w16, updateRam_read, jumpTaken, Mach.mk.injEq, reduceIte, Nat.reduceAdd, Nat.reduceMod, Nat.reduceSub, Nat.reduceEqDiff, Nat.mod_mod, and_true, true_and, and_self, if_true, if_false, hsp]
  have c_e7 : nth (c2Prog name nargs src) 7 = some (.atSym "LCL") := rfl
  have c_r2 : resolveSym (c2Prog name nargs src) env ("LCL") = 1 := rfl
  have c_s7 : step env (c2Prog name nargs src) ⟨0, 47, updateRam (updateRam (ram0) (310) (47)) (0) (311), 7⟩ = ⟨1, 47, updateRam (updateRam (ram0) (310) (47)) (0) (311), 8⟩ := by
    rw [step_at c_e7, applyInstr_atSym]
    all_goals simp only [evalComp, w16, updateRam_read, jumpTaken, Mach.mk.injEq, reduceIte, Nat.reduceAdd, Nat.reduceMod, Nat.reduceSub, Nat.reduceEqDiff, Nat.mod_mod, and_true, true_and, and_self, if_true, if_false, c_r2]
  have c_e8 : nth (c2Prog name nargs src) 8 = some (.cinstr dD .cm .jnone) := rfl
  have c_s8 : step env (c2Prog name nargs src) ⟨1, 47, updateRam (updateRam (ram0) (310) (47)) (0) (311), 8⟩ = ⟨1, l0, updateRam (updateRam (ram0) (310) (47)) (0) (311), 9⟩ := by
    rw [step_at c_e8, applyInstr_cD]
    all_goals simp only [evalComp, w16, updateRam_read, jumpTaken, Mach.mk.injEq, reduceIte, Nat.reduceAdd, Nat.reduceMod, Nat.reduceSub, Nat.reduceEqDiff, Nat.mod_mod, and_true, true_and, and_self, if_true, if_false, hlcl, Nat.mod_eq_of_lt hl]
  have c_e9 : nth (c2Prog name nargs src) 9 = some (.atSym "SP") := rfl
  have c_s9 : step env (c2Prog name nargs src) ⟨1, l0, updateRam (updateRam (ram0) (310) (47)) (0) (311), 9⟩ = ⟨0, l0, updateRam (updateRam (ram0) (310) (47)) (0) (311), 10⟩ := by
    rw [step_at c_e9, applyInstr_atSym]
    all_goals simp only [evalComp, w16, updateRam_read, jumpTaken, Mach.mk.injEq, reduceIte, Nat.reduceAdd, Nat.reduceMod, Nat.reduceSub, Nat.reduceEqDiff, Nat.mod_mod, and_true, true_and, and_self, if_true, if_false, c_r1]
  have c_e10 : nth (c2Prog name nargs src) 10 = some (.cinstr dA .cm .jnone) := rfl
  have c_s10 : step env (c2Prog name nargs src) ⟨0, l0, updateRam (updateRam (ram0) (310) (47)) (0) (311), 10⟩ = ⟨311, l0, updateRam (updateRam (ram0) (310) (47)) (0) (311), 11⟩ := by
    rw [step_at c_e10, applyInstr_cA]
    all_goals simp only [evalComp, w16, updateRam_read, jumpTaken, Mach.mk.injEq, reduceIte, Nat.reduceAdd, Nat.reduceMod, Nat.reduceSub, Nat.reduceEqDiff, Nat.mod_mod, and_true, true_and, and_self, if_true, if_false]
  have c_e11 : nth (c2Prog name nargs src) 11 = some (.cinstr dM .cd .jnone) := rfl
  have c_s11 : step env (c2Prog name nargs src) ⟨311, l0, updateRam (updateRam (ram0) (310) (47)) (0) (311), 11⟩ = ⟨311, l0, updateRam (updateRam (updateRam (ram0) (310) (47)) (0) (311)) (311) (l0), 12⟩ := by
    rw [step_at c_e11, applyInstr_cM]
    all_goals simp only [evalComp, w16, updateRam_read, jumpTaken, Mach.mk.injEq, reduceIte, Nat.reduceAdd, Nat.reduceMod, Nat.reduceSub, Nat.reduceEqDiff, Nat.mod_mod, and_true, true_and, and_self, if_true, if_false, Nat.mod_eq_of_lt hl]
  have c_e12 : nth (c2Prog name nargs src) 12 = some (.atSym "SP") := rfl
  have c_s12 : step env (c2Prog name nargs src) ⟨311, l0, updateRam (updateRam (updateRam (ram0) (310) (47)) (0) (311)) (311) (l0), 12⟩ = ⟨0, l0, updateRam (updateRam (updateRam (ram0) (310) (47)) (0) (311)) (311) (l0), 13⟩ := by
    rw [step_at c_e12, applyInstr_atSym]
    all_goals simp only [evalComp, w16, updateRam_read, jumpTaken, Mach.mk.injEq, reduceIte, Nat.reduceAdd, Nat.reduceMod, Nat.reduceSub, Nat.reduceEqDiff, Nat.mod_mod, and_true, true_and, and_self, if_true, if_false, c_r1]
  have c_e13 : nth (c2Prog name nargs src) 13 = some (.cinstr dM .mPlus1 .jnone) := rfl
  have c_s13 : step env (c2Prog name nargs src) ⟨0, l0, updateRam (updateRam (updateRam (ram0) (310) (47)) (0) (311)) (311) (l0), 13⟩ = ⟨0, l0, updateRam (updateRam (updateRam (updateRam (ram0) (310) (47)) (0) (311)) (311) (l0)) (0) (312), 14⟩ := by
    rw [step_at c_e13, applyInstr_cM]
    all_goals simp only [evalComp, w16, updateRam_read, jumpTaken, Mach.mk.injEq, reduceIte, Nat.reduceAdd, Nat.reduceMod, Nat.reduceSub, Nat.reduceEqDiff, Nat.mod_mod, and_true, true_and, and_self, if_true, if_false]
  have c_e14 : nth (c2Prog name nargs src) 14 = some (.atSym "ARG") := rfl
  have c_r3 : resolveSym (c2Prog name nargs src) env ("ARG") = 2 := rfl
  have c_s14 : step env (c2Prog name nargs src) ⟨0, l0, updateRam (updateRam (updateRam (updateRam (ram0) (310) (47)) (0) (311)) (311) (l0)) (0) (312), 14⟩ = ⟨2, l0, updateRam (updateRam (updateRam (updateRam (ram0) (310) (47)) (0) (311)) (311) (l0)) (0) (312), 15⟩ := by
    rw [step_at c_e14, applyInstr_atSym]
    all_goals simp only [evalComp, w16, updateRam_read, jumpTaken, Mach.mk.injEq, reduceIte, Nat.reduceAdd, Nat.reduceMod, Nat.reduceSub, Nat.reduceEqDiff, Nat.mod_mod, and_true, true_and, and_self, if_true, if_false, c_r3]
  have c_e15 : nth (c2Prog name nargs src) 15 = some (.cinstr dD .cm .jnone) := rfl
  have c_s15 : step env (c2Prog name nargs src) ⟨2, l0, updateRam (updateRam (updateRam (updateRam (ram0) (310) (47)) (0) (311)) (311) (l0)) (0) (312), 15⟩ = ⟨2, g0, updateRam (updateRam (updateRam (updateRam (ram0) (310) (47)) (0) (311)) (311) (l0)) (0) (312), 16⟩ := by
    rw [step_at c_e15, applyInstr_cD]
    all_goals simp only [evalComp, w16, updateRam_read, jumpTaken, Mach.mk.injEq, reduceIte, Nat.reduceAdd, Nat.reduceMod, Nat.reduceSub, Nat.reduceEqDiff, Nat.mod_mod, and_true, true_and, and_self, if_true, if_false, harg, Nat.mod_eq_of_lt hg]
  have c_e16 : nth (c2Prog name nargs src) 16 = some (.atSym "SP") := rfl
  have c_s16 : step env (c2Prog name nargs src) ⟨2, g0, updateRam (updateRam (updateRam (updateRam (ram0) (310) (47)) (0) (311)) (311) (l0)) (0) (312), 16⟩ = ⟨0, g0, updateRam (updateRam (updateRam (updateRam (ram0) (310) (47)) (0) (311)) (311) (l0)) (0) (312), 17⟩ := by
    rw [step_at c_e16, applyInstr_atSym]
    all_goals simp only [evalComp, w16, updateRam_read, jumpTaken, Mach.mk.injEq, reduceIte, Nat.reduceAdd, Nat.reduceMod, Nat.reduceSub, Nat.reduceEqDiff, Nat.mod_mod, and_true, true_and, and_self, if_true, if_false, c_r1]
  have c_e17 : nth (c2Prog name nargs src) 17 = some (.cinstr dA .cm .jnone) := rfl
  have c_s17 : step env (c2Prog name nargs src) ⟨0, g0, updateRam (updateRam (updateRam (updateRam (ram0) (310) (47)) (0) (311)) (311) (l0)) (0) (312), 17⟩ = ⟨312, g0, updateRam (updateRam (updateRam (updateRam (ram0) (310) (47)) (0) (311)) (311) (l0)) (0) (312), 18⟩ := by
    rw [step_at c_e17, applyInstr_cA]
    all_goals simp only [evalComp, w16, updateRam_read, jumpTaken, Mach.mk.injEq, reduceIte, Nat.reduceAdd, Nat.reduceMod, Nat.reduceSub, Nat.reduceEqDiff, Nat.mod_mod, and_true, true_and, and_self, if_true, if_false]
  have c_e18 : nth (c2Prog name nargs src) 18 = some (.cinstr dM .cd .jnone) := rfl
  have c_s18 : step env (c2Prog name nargs src) ⟨312, g0, updateRam (updateRam (updateRam (updateRam (ram0) (310) (47)) (0) (311)) (311) (l0)) (0) (312), 18⟩ = ⟨312, g0, updateRam (updateRam (updateRam (updateRam (updateRam (ram0) (310) (47)) (0) (311)) (311) (l0)) (0) (312)) (312) (g0), 19⟩ := by
    rw [step_at c_e18, applyInstr_cM]
    all_goals simp only [evalComp, w16, updateRam_read, jumpTaken, Mach.mk.injEq, reduceIte, Nat.reduceAdd, Nat.reduceMod, Nat.reduceSub, Nat.reduceEqDiff, Nat.mod_mod, and_true, true_and, and_self, if_true, if_false, Nat.mod_eq_of_lt hg]
  have c_e19 : nth (c2Prog name nargs src) 19 = some (.atSym "SP") := rfl
  have c_s19 : step env (c2Prog name nargs src) ⟨312, g0, updateRam (updateRam (updateRam (updateRam (updateRam (ram0) (310) (47)) (0) (311)) (311) (l0)) (0) (312)) (312) (g0), 19⟩ = ⟨0, g0, updateRam (updateRam (updateRam (updateRam (updateRam (ram0) (310) (47)) (0) (311)) (311) (l0)) (0) (312)) (312) (g0), 20⟩ := by
    rw [step_at c_e19, applyInstr_atSym]
    all_goals simp only [evalComp, w16, updateRam_read, jumpTaken, Mach.mk.injEq, reduceIte, Nat.reduceAdd, Nat.reduceMod, Nat.reduceSub, Nat.reduceEqDiff, Nat.mod_mod, and_true, true_and, and_self, if_true, if_false, c_r1]
  have c_e20 : nth (c2Prog name nargs src) 20 = some (.cinstr dM .mPlus1 .jnone) := rfl
  have c_s20 : step env (c2Prog name nargs src) ⟨0, g0, updateRam (updateRam (updateRam (updateRam (updateRam (ram0) (310) (47)) (0) (311)) (311) (l0)) (0) (312)) (312) (g0), 20⟩ = ⟨0, g0, updateRam (updateRam (updateRam (updateRam (updateRam (updateRam (ram0) (310) (47)) (0) (311)) (311) (l0)) (0) (312)) (312) (g0)) (0) (313), 21⟩ := by
    rw [step_at c_e20, applyInstr_cM]
    all_goals simp only [evalComp, w16, updateRam_read, jumpTaken, Mach.mk.injEq, reduceIte, Nat.reduceAdd, Nat.reduceMod, Nat.reduceSub, Nat.reduceEqDiff, Nat.mod_mod, and_true, true_and, and_self, if_true, if_false]
  have c_e21 : nth (c2Prog name nargs src) 21 = some (.atSym "THIS") := rfl
  have c_r4 : resolveSym (c2Prog name nargs src) env ("THIS") = 3 := rfl
  have c_s21 : step env (c2Prog name nargs src) ⟨0, g0, updateRam (updateRam (updateRam (updateRam (updateRam (updateRam (ram0) (310) (47)) (0) (311)) (311) (l0)) (0) (312)) (312) (g0)) (0) (313), 21⟩ = ⟨3, g0, updateRam (updateRam (updateRam (updateRam (updateRam (updateRam (ram0) (310) (47)) (0) (311)) (311) (l0)) (0) (312)) (312) (g0)) (0) (313), 22⟩ := by
    rw [step_at c_e21, applyInstr_atSym]
    all_goals simp only [evalComp, w16, updateRam_read, jumpTaken, Mach.mk.injEq, reduceIte, Nat.reduceAdd, Nat.reduceMod, Nat.reduceSub, Nat.reduceEqDiff, Nat.mod_mod, and_true, true_and, and_self, if_true, if_false, c_r4]
  have c_e22 : nth (c2Prog name nargs src) 22 = some (.cinstr dD .cm .jnone) := rfl
  have c_s22 : step env (c2Prog name nargs src) ⟨3, g0, updateRam (updateRam (updateRam (updateRam (updateRam (updateRam (ram0) (310) (47)) (0) (311)) (311) (l0)) (0) (312)) (312) (g0)) (0) (313), 22⟩ = ⟨3, t0, updateRam (updateRam (updateRam (updateRam (updateRam (updateRam (ram0) (310) (47)) (0) (311)) (311) (l0)) (0) (312)) (312) (g0)) (0) (313), 23⟩ := by
    rw [step_at c_e22, applyInstr_cD]
    all_goals simp only [evalComp, w16, updateRam_read, jumpTaken, Mach.mk.injEq, reduceIte, Nat.reduceAdd, Nat.reduceMod, Nat.reduceSub, Nat.reduceEqDiff, Nat.mod_mod, and_true, true_and, and_self, if_true, if_false, hthis, Nat.mod_eq_of_lt ht0]
  have c_e23 : nth (c2Prog name nargs src) 23 = some (.atSym "SP") := rfl
  have c_s23 : step env (c2Prog name nargs src) ⟨3, t0, updateRam (updateRam (updateRam (updateRam (updateRam (updateRam (ram0) (310) (47)) (0) (311)) (311) (l0)) (0) (312)) (312) (g0)) (0) (313), 23⟩ = ⟨0, t0, updateRam (updateRam (updateRam (updateRam (updateRam (updateRam (ram0) (310) (47)) (0) (311)) (311) (l0)) (0) (312)) (312) (g0)) (0) (313), 24⟩ := by
    rw [step_at c_e23, applyInstr_atSym]
    all_goals simp only [evalComp, w16, updateRam_read, jumpTaken, Mach.mk.injEq, reduceIte, Nat.reduceAdd, Nat.reduceMod, Nat.reduceSub, Nat.reduceEqDiff, Nat.mod_mod, and_true, true_and, and_self, if_true, if_false, c_r1]
  have c_e24 : nth (c2Prog name nargs src) 24 = some (.cinstr dA .cm .jnone) := rfl
  have c_s24 : step env (c2Prog name nargs src) ⟨0, t0, updateRam (updateRam (updateRam (updateRam (updateRam (updateRam (ram0) (310) (47)) (0) (311)) (311) (l0)) (0) (312)) (312) (g0)) (0) (313), 24⟩ = ⟨313, t0, updateRam (updateRam (updateRam (updateRam (updateRam (updateRam (ram0) (310) (47)) (0) (311)) (311) (l0)) (0) (312)) (312) (g0)) (0) (313), 25⟩ := by
    rw [step_at c_e24, applyInstr_cA]
    all_goals simp only [evalComp, w16, updateRam_read, jumpTaken, Mach.mk.injEq, reduceIte, Nat.reduceAdd, Nat.reduceMod, Nat.reduceSub, Nat.reduceEqDiff, Nat.mod_mod, and_true, true_and, and_self, if_true, if_false]
  have c_e25 : nth (c2Prog name nargs src) 25 = some (.cinstr dM .cd .jnone) := rfl
  have c_s25 : step env (c2Prog name nargs src) ⟨313, t0, updateRam (updateRam (updateRam (updateRam (updateRam (updateRam (ram0) (310) (47)) (0) (311)) (311) (l0)) (0) (312)) (312) (g0)) (0) (313), 25⟩ = ⟨313, t0, updateRam (updateRam (updateRam (updateRam (updateRam (updateRam (updateRam (ram0) (310) (47)) (0) (311)) (311) (l0)) (0) (312)) (312) (g0)) (0) (313)) (313) (t0), 26⟩ := by
    rw [step_at c_e25, applyInstr_cM]
    all_goals simp only [evalComp, w16, updateRam_read, jumpTaken, Mach.mk.injEq, reduceIte, Nat.reduceAdd, Nat.reduceMod, Nat.reduceSub, Nat.reduceEqDiff, Nat.mod_mod, and_true, true_and, and_self, if_true, if_false, Nat.mod_eq_of_lt ht0]
  have c_e26 : nth (c2Prog name nargs src) 26 = some (.atSym "SP") := rfl
  have c_s26 : step env (c2Prog name nargs src) ⟨313, t0, updateRam (updateRam (updateRam (updateRam (updateRam (updateRam (updateRam (ram0) (310) (47)) (0) (311)) (311) (l0)) (0) (312)) (312) (g0)) (0) (313)) (313) (t0), 26⟩ = ⟨0, t0, updateRam (updateRam (updateRam (updateRam (updateRam (updateRam (updateRam (ram0) (310) (47)) (0) (311)) (311) (l0)) (0) (312)) (312) (g0)) (0) (313)) (313) (t0), 27⟩ := by
    rw [step_at c_e26, applyInstr_atSym]
    all_goals simp only [evalComp, w16, updateRam_read, jumpTaken, Mach.mk.injEq, reduceIte, Nat.reduceAdd, Nat.reduceMod, Nat.reduceSub, Nat.reduceEqDiff, Nat.mod_mod, and_true, true_and, and_self, if_true, if_false, c_r1]
  have c_e27 : nth (c2Prog name nargs src) 27 = some (.cinstr dM .mPlus1 .jnone) := rfl
  have c_s27 : step env (c2Prog name nargs src) ⟨0, t0, updateRam (updateRam (updateRam (updateRam (updateRam (updateRam (updateRam (ram0) (310) (47)) (0) (311)) (311) (l0)) (0) (312)) (312) (g0)) (0) (313)) (313) (t0), 27⟩ = ⟨0, t0, updateRam (updateRam (updateRam (updateRam (updateRam (updateRam (updateRam (updateRam (ram0) (310) (47)) (0) (311)) (311) (l0)) (0) (312)) (312) (g0)) (0) (313)) (313) (t0)) (0) (314), 28⟩ := by
    rw [step_at c_e27, applyInstr_cM]
    all_goals simp only [evalComp, w16, updateRam_read, jumpTaken, Mach.mk.injEq, reduceIte, Nat.reduceAdd, Nat.reduceMod, Nat.reduceSub, Nat.reduceEqDiff, Nat.mod_mod, and_true, true_and, and_self, if_true, if_false]
  have c_e28 : nth (c2Prog name nargs src) 28 = some (.atSym "THAT") := rfl
  have c_r5 : resolveSym (c2Prog name nargs src) env ("THAT") = 4 := rfl
  have c_s28 : step env (c2Prog name nargs src) ⟨0, t0, updateRam (updateRam (updateRam (updateRam (updateRam (updateRam (updateRam (updateRam (ram0) (310) (47)) (0) (311)) (311) (l0)) (0) (312)) (312) (g0)) (0) (313)) (313) (t0)) (0) (314), 28⟩ = ⟨4, t0, updateRam (updateRam (updateRam (updateRam (updateRam (updateRam (updateRam (updateRam (ram0) (310) (47)) (0) (311)) (311) (l0)) (0) (312)) (312) (g0)) (0) (313)) (313) (t0)) (0) (314), 29⟩ := by
    rw [step_at c_e28, applyInstr_atSym]
    all_goals simp only [evalComp, w16, updateRam_read, jumpTaken, Mach.mk.injEq, reduceIte, Nat.reduceAdd, Nat.reduceMod, Nat.reduceSub, Nat.reduceEqDiff, Nat.mod_mod, and_true, true_and, and_self, if_true, if_false, c_r5]
  have c_e29 : nth (c2Prog name nargs src) 29 = some (.cinstr dD .cm .jnone) := rfl
  have c_s29 : step env (c2Prog name nargs src) ⟨4, t0, updateRam (updateRam (updateRam (updateRam (updateRam (updateRam (updateRam (updateRam (ram0) (310) (47)) (0) (311)) (311) (l0)) (0) (312)) (312) (g0)) (0) (313)) (313) (t0)) (0) (314), 29⟩ = ⟨4, th0, updateRam (updateRam (updateRam (updateRam (updateRam (updateRam (updateRam (updateRam (ram0) (310) (47)) (0) (311)) (311) (l0)) (0) (312)) (312) (g0)) (0) (313)) (313) (t0)) (0) (314), 30⟩ := by
    rw [step_at c_e29, applyInstr_cD]
    all_goals simp only [evalComp, w16, updateRam_read, jumpTaken, Mach.mk.injEq, reduceIte, Nat.reduceAdd, Nat.reduceMod, Nat.reduceSub, Nat.reduceEqDiff, Nat.mod_mod, and_true, true_and, and_self, if_true, if_false, hthat, Nat.mod_eq_of_lt hth]
  have c_e30 : nth (c2Prog name nargs src) 30 = some (.atSym "SP") := rfl
  have c_s30 : step env (c2Prog name nargs src) ⟨4, th0, updateRam (updateRam (updateRam (updateRam (updateRam (updateRam (updateRam (updateRam (ram0) (310) (47)) (0) (311)) (311) (l0)) (0) (312)) (312) (g0)) (0) (313)) (313) (t0)) (0) (314), 30⟩ = ⟨0, th0, updateRam (updateRam (updateRam (updateRam (updateRam (updateRam (updateRam (updateRam (ram0) (310) (47)) (0) (311)) (311) (l0)) (0) (312)) (312) (g0)) (0) (313)) (313) (t0)) (0) (314), 31⟩ := by
    rw [step_at c_e30, applyInstr_atSym]
    all_goals simp only [evalComp, w16, updateRam_read, jumpTaken, Mach.mk.injEq, reduceIte, Nat.reduceAdd, Nat.reduceMod, Nat.reduceSub, Nat.reduceEqDiff, Nat.mod_mod, and_true, true_and, and_self, if_true, if_false, c_r1]
  have c_e31 : nth (c2Prog name nargs src) 31 = some (.cinstr dA .cm .jnone) := rfl
  have c_s31 : step env (c2Prog name nargs src) ⟨0, th0, updateRam (updateRam (updateRam (updateRam (updateRam (updateRam (updateRam (updateRam (ram0) (310) (47)) (0) (311)) (311) (l0)) (0) (312)) (312) (g0)) (0) (313)) (313) (t0)) (0) (314), 31⟩ = ⟨314, th0, updateRam (updateRam (updateRam (updateRam (updateRam (updateRam (updateRam (updateRam (ram0) (310) (47)) (0) (311)) (311) (l0)) (0) (312)) (312) (g0)) (0) (313)) (313) (t0)) (0) (314), 32⟩ := by
    rw [step_at c_e31, applyInstr_cA]
    all_goals simp only [evalComp, w16, updateRam_read, jumpTaken, Mach.mk.injEq, reduceIte, Nat.reduceAdd, Nat.reduceMod, Nat.reduceSub, Nat.reduceEqDiff, Nat.mod_mod, and_true, true_and, and_self, if_true, if_false]
  have c_e32 : nth (c2Prog name nargs src) 32 = some (.cinstr dM .cd .jnone) := rfl
  have c_s32 : step env (c2Prog name nargs src) ⟨314, th0, updateRam (updateRam (updateRam (updateRam (updateRam (updateRam (updateRam (updateRam (ram0) (310) (47)) (0) (311)) (311) (l0)) (0) (312)) (312) (g0)) (0) (313)) (313) (t0)) (0) (314), 32⟩ = ⟨314, th0, updateRam (updateRam (updateRam (updateRam (updateRam (updateRam (updateRam (updateRam (updateRam (ram0) (310) (47)) (0) (311)) (311) (l0)) (0) (312)) (312) (g0)) (0) (313)) (313) (t0)) (0) (314)) (314) (th0), 33⟩ := by
    rw [step_at c_e32, applyInstr_cM]
    all_goals simp only [evalComp, w16, updateRam_read, jumpTaken, Mach.mk.injEq, reduceIte, Nat.reduceAdd, Nat.reduceMod, Nat.reduceSub, Nat.reduceEqDiff, Nat.mod_mod, and_true, true_and, and_self, if_true, if_false, Nat.mod_eq_of_lt hth]
  have c_e33 : nth (c2Prog name nargs src) 33 = some (.atSym "SP") := rfl
  have c_s33 : step env (c2Prog name nargs src) ⟨314, th0, updateRam (updateRam (updateRam (updateRam (updateRam (updateRam (updateRam (updateRam (updateRam (ram0) (310) (47)) (0) (311)) (311) (l0)) (0) (312)) (312) (g0)) (0) (313)) (313) (t0)) (0) (314)) (314) (th0), 33⟩ = ⟨0, th0, updateRam (updateRam (updateRam (updateRam (updateRam (updateRam (updateRam (updateRam (updateRam (ram0) (310) (47)) (0) (311)) (311) (l0)) (0) (312)) (312) (g0)) (0) (313)) (313) (t0)) (0) (314)) (314) (th0), 34⟩ := by
    rw [step_at c_e33, applyInstr_atSym]
    all_goals simp only [evalComp, w16, updateRam_read, jumpTaken, Mach.mk.injEq, reduceIte, Nat.reduceAdd, Nat.reduceMod, Nat.reduceSub, Nat.reduceEqDiff, Nat.mod_mod, and_true, true_and, and_self, if_true, if_false, c_r1]
  have c_e34 : nth (c2Prog name nargs src) 34 = some (.cinstr dM .mPlus1 .jnone) := rfl
  have c_s34 : step env (c2Prog name nargs src) ⟨0, th0, updateRam (updateRam (updateRam (updateRam (updateRam (updateRam (updateRam (updateRam (updateRam (ram0) (310) (47)) (0) (311)) (311) (l0)) (0) (312)) (312) (g0)) (0) (313)) (313) (t0)) (0) (314)) (314) (th0), 34⟩ = ⟨0, th0, updateRam (updateRam (updateRam (updateRam (updateRam (updateRam (updateRam (updateRam (updateRam (updateRam (ram0) (310) (47)) (0) (311)) (311) (l0)) (0) (312)) (312) (g0)) (0) (313)) (313) (t0)) (0) (314)) (314) (th0)) (0) (315), 35⟩ := by
    rw [step_at c_e34, applyInstr_cM]
    all_goals simp only [evalComp, w16, updateRam_read, jumpTaken, Mach.mk.injEq, reduceIte, Nat.reduceAdd, Nat.reduceMod, Nat.reduceSub, Nat.reduceEqDiff, Nat.mod_mod, and_true, true_and, and_self, if_true, if_false]
  have c_e35 : nth (c2Prog name nargs src) 35 = some (.atSym "SP") := rfl
  have c_s35 : step env (c2Prog name nargs src) ⟨0, th0, updateRam (updateRam (updateRam (updateRam (updateRam (updateRam (updateRam (updateRam (updateRam (updateRam (ram0) (310) (47)) (0) (311)) (311) (l0)) (0) (312)) (312) (g0)) (0) (313)) (313) (t0)) (0) (314)) (314) (th0)) (0) (315), 35⟩ = ⟨0, th0, updateRam (updateRam (updateRam (updateRam (updateRam (updateRam (updateRam (updateRam (updateRam (updateRam (ram0) (310) (47)) (0) (311)) (311) (l0)) (0) (312)) (312) (g0)) (0) (313)) (313) (t0)) (0) (314)) (314) (th0)) (0) (315), 36⟩ := by
    rw [step_at c_e35, applyInstr_atSym]
    all_goals simp only [evalComp, w16, updateRam_read, jumpTaken, Mach.mk.injEq, reduceIte, Nat.reduceAdd, Nat.reduceMod, Nat.reduceSub, Nat.reduceEqDiff, Nat.mod_mod, and_true, true_and, and_self, if_true, if_false, c_r1]
  have c_e36 : nth (c2Prog name nargs src) 36 = some (.cinstr dD .cm .jnone) := rfl
  have c_s36 : step env (c2Prog name nargs src) ⟨0, th0, updateRam (updateRam (updateRam (updateRam (updateRam (updateRam (updateRam (updateRam (updateRam (updateRam (ram0) (310) (47)) (0) (311)) (311) (l0)) (0) (312)) (312) (g0)) (0) (313)) (313) (t0)) (0) (314)) (314) (th0)) (0) (315), 36⟩ = ⟨0, 315, updateRam (updateRam (updateRam (updateRam (updateRam (updateRam (updateRam (updateRam (updateRam (updateRam (ram0) (310) (47)) (0) (311)) (311) (l0)) (0) (312)) (312) (g0)) (0) (313)) (313) (t0)) (0) (314)) (314) (th0)) (0) (315), 37⟩ := by
    rw [step_at c_e36, applyInstr_cD]
    all_goals simp only [evalComp, w16, updateRam_read, jumpTaken, Mach.mk.injEq, reduceIte, Nat.reduceAdd, Nat.reduceMod, Nat.reduceSub, Nat.reduceEqDiff, Nat.mod_mod, and_true, true_and, and_self, if_true, if_false]
  have c_e37 : nth (c2Prog name nargs src) 37 = some (.atNum (nargs + 5)) := rfl
  have c_s37 : step env (c2Prog name nargs src) ⟨0, 315, updateRam (updateRam (updateRam (updateRam (updateRam (updateRam (updateRam (updateRam (updateRam (updateRam (ram0) (310) (47)) (0) (311)) (311) (l0)) (0) (312)) (312) (g0)) (0) (313)) (313) (t0)) (0) (314)) (314) (th0)) (0) (315), 37⟩ = ⟨nargs + 5, 315, updateRam (updateRam (updateRam (updateRam (updateRam (updateRam (updateRam (updateRam (updateRam (updateRam (ram0) (310) (47)) (0) (311)) (311) (l0)) (0) (312)) (312) (g0)) (0) (313)) (313) (t0)) (0) (314)) (314) (th0)) (0) (315), 38⟩ := by
    rw [step_at c_e37, applyInstr_atNum]
    all_goals simp only [evalComp, w16, updateRam_read, jumpTaken, Mach.mk.injEq, reduceIte, Nat.reduceAdd, Nat.reduceMod, Nat.reduceSub, Nat.reduceEqDiff, Nat.mod_mod, and_true, true_and, and_self, if_true, if_false, hn5m]
  have c_e38 : nth (c2Prog name nargs src) 38 = some (.cinstr dD .dMinusA .jnone) := rfl
  have c_s38 : step env (c2Prog name nargs src) ⟨nargs + 5, 315, updateRam (updateRam (updateRam (updateRam (updateRam (updateRam (updateRam (updateRam (updateRam (updateRam (ram0) (310) (47)) (0) (311)) (311) (l0)) (0) (312)) (312) (g0)) (0) (313)) (313) (t0)) (0) (314)) (314) (th0)) (0) (315), 38⟩ = ⟨nargs + 5, 310 - nargs, updateRam (updateRam (updateRam (updateRam (updateRam (updateRam (updateRam (updateRam (updateRam (updateRam (ram0) (310) (47)) (0) (311)) (311) (l0)) (0) (312)) (312) (g0)) (0) (313)) (313) (t0)) (0) (314)) (314) (th0)) (0) (315), 39⟩ := by
    rw [step_at c_e38, applyInstr_cD]
    all_goals simp only [evalComp, w16, updateRam_read, jumpTaken, Mach.mk.injEq, reduceIte, Nat.reduceAdd, Nat.reduceMod, Nat.reduceSub, Nat.reduceEqDiff, Nat.mod_mod, and_true, true_and, and_self, if_true, if_false, hn5m, hargv]
  have c_e39 : nth (c2Prog name nargs src) 39 = some (.atSym "ARG") := rfl
  have c_s39 : step env (c2Prog name nargs src) ⟨nargs + 5, 310 - nargs, updateRam (updateRam (updateRam (updateRam (updateRam (updateRam (updateRam (updateRam (updateRam (updateRam (ram0) (310) (47)) (0) (311)) (311) (l0)) (0) (312)) (312) (g0)) (0) (313)) (313) (t0)) (0) (314)) (314) (th0)) (0) (315), 39⟩ = ⟨2, 310 - nargs, updateRam (updateRam (updateRam (updateRam (updateRam (updateRam (updateRam (updateRam (updateRam (updateRam (ram0) (310) (47)) (0) (311)) (311) (l0)) (0) (312)) (312) (g0)) (0) (313)) (313) (t0)) (0) (314)) (314) (th0)) (0) (315), 40⟩ := by
    rw [step_at c_e39, applyInstr_atSym]
    all_goals simp only [evalComp, w16, updateRam_read, jumpTaken, Mach.mk.injEq, reduceIte, Nat.reduceAdd, Nat.reduceMod, Nat.reduceSub, Nat.reduceEqDiff, Nat.mod_mod, and_true, true_and, and_self, if_true, if_false, c_r3]
  have c_e40 : nth (c2Prog name nargs src) 40 = some (.cinstr dM .cd .jnone) := rfl
  have c_s40 : step env (c2Prog name nargs src) ⟨2, 310 - nargs, updateRam (updateRam (updateRam (updateRam (updateRam (updateRam (updateRam (updateRam (updateRam (updateRam (ram0) (310) (47)) (0) (311)) (311) (l0)) (0) (312)) (312) (g0)) (0) (313)) (313) (t0)) (0) (314)) (314) (th0)) (0) (315), 40⟩ = ⟨2, 310 - nargs, updateRam (updateRam (updateRam (updateRam (updateRam (updateRam (updateRam (updateRam (updateRam (updateRam (updateRam (ram0) (310) (47)) (0) (311)) (311) (l0)) (0) (312)) (312) (g0)) (0) (313)) (313) (t0)) (0) (314)) (314) (th0)) (0) (315)) (2) ((310 - nargs) % 65536), 41⟩ := by
    rw [step_at c_e40, applyInstr_cM]
    all_goals simp only [evalComp, w16, updateRam_read, jumpTaken, Mach.mk.injEq, reduceIte, Nat.reduceAdd, Nat.reduceMod, Nat.reduceSub, Nat.reduceEqDiff, Nat.mod_mod, and_true, true_and, and_self, if_true, if_false]
  have c_e41 : nth (c2Prog name nargs src) 41 = some (.atSym "SP") := rfl
  have c_s41 : step env (c2Prog name nargs src) ⟨2, 310 - nargs, updateRam (updateRam (updateRam (updateRam (updateRam (updateRam (updateRam (updateRam (updateRam (updateRam (updateRam (ram0) (310) (47)) (0) (311)) (311) (l0)) (0) (312)) (312) (g0)) (0) (313)) (313) (t0)) (0) (314)) (314) (th0)) (0) (315)) (2) ((310 - nargs) % 65536), 41⟩ = ⟨0, 310 - nargs, updateRam (updateRam (updateRam (updateRam (updateRam (updateRam (updateRam (updateRam (updateRam (updateRam (updateRam (ram0) (310) (47)) (0) (311)) (311) (l0)) (0) (312)) (312) (g0)) (0) (313)) (313) (t0)) (0) (314)) (314) (th0)) (0) (315)) (2) ((310 - nargs) % 65536), 42⟩ := by
    rw [step_at c_e41, applyInstr_atSym]
    all_goals simp only [evalComp, w16, updateRam_read, jumpTaken, Mach.mk.injEq, reduceIte, Nat.reduceAdd, Nat.reduceMod, Nat.reduceSub, Nat.reduceEqDiff, Nat.mod_mod, and_true, true_and, and_self, if_true, if_false, c_r1]
  have c_e42 : nth (c2Prog name nargs src) 42 = some (.cinstr dD .cm .jnone) := rfl
  have c_s42 : step env (c2Prog name nargs src) ⟨0, 310 - nargs, updateRam (updateRam (updateRam (updateRam (updateRam (updateRam (updateRam (updateRam (updateRam (updateRam (updateRam (ram0) (310) (47)) (0) (311)) (311) (l0)) (0) (312)) (312) (g0)) (0) (313)) (313) (t0)) (0) (314)) (314) (th0)) (0) (315)) (2) ((310 - nargs) % 65536), 42⟩ = ⟨0, 315, updateRam (updateRam (updateRam (updateRam (updateRam (updateRam (updateRam (updateRam (updateRam (updateRam (updateRam (ram0) (310) (47)) (0) (311)) (311) (l0)) (0) (312)) (312) (g0)) (0) (313)) (313) (t0)) (0) (314)) (314) (th0)) (0) (315)) (2) ((310 - nargs) % 65536), 43⟩ := by
    rw [step_at c_e42, applyInstr_cD]
    all_goals simp only [evalComp, w16, updateRam_read, jumpTaken, Mach.mk.injEq, reduceIte, Nat.reduceAdd, Nat.reduceMod, Nat.reduceSub, Nat.reduceEqDiff, Nat.mod_mod, and_true, true_and, and_self, if_true, if_false]
  have c_e43 : nth (c2Prog name nargs src) 43 = some (.atSym "LCL") := rfl
  have c_s43 : step env (c2Prog name nargs src) ⟨0, 315, updateRam (updateRam (updateRam (updateRam (updateRam (updateRam (updateRam (updateRam (updateRam (updateRam (updateRam (ram0) (310) (47)) (0) (311)) (311) (l0)) (0) (312)) (312) (g0)) (0) (313)) (313) (t0)) (0) (314)) (314) (th0)) (0) (315)) (2) ((310 - nargs) % 65536), 43⟩ = ⟨1, 315, updateRam (updateRam (updateRam (updateRam (updateRam (updateRam (updateRam (updateRam (updateRam (updateRam (updateRam (ram0) (310) (47)) (0) (311)) (311) (l0)) (0) (312)) (312) (g0)) (0) (313)) (313) (t0)) (0) (314)) (314) (th0)) (0) (315)) (2) ((310 - nargs) % 65536), 44⟩ := by
    rw [step_at c_e43, applyInstr_atSym]
    all_goals simp only [evalComp, w16, updateRam_read, jumpTaken, Mach.mk.injEq, reduceIte, Nat.reduceAdd, Nat.reduceMod, Nat.reduceSub, Nat.reduceEqDiff, Nat.mod_mod, and_true, true_and, and_self, if_true, if_false, c_r2]
  have c_e44 : nth (c2Prog name nargs src) 44 = some (.cinstr dM .cd .jnone) := rfl
  have c_s44 : step env (c2Prog name nargs src) ⟨1, 315, updateRam (updateRam (updateRam (updateRam (updateRam (updateRam (updateRam (updateRam (updateRam (updateRam (updateRam (ram0) (310) (47)) (0) (311)) (311) (l0)) (0) (312)) (312) (g0)) (0) (313)) (313) (t0)) (0) (314)) (314) (th0)) (0) (315)) (2) ((310 - nargs) % 65536), 44⟩ = ⟨1, 315, updateRam (updateRam (updateRam (updateRam (updateRam (updateRam (updateRam (updateRam (updateRam (updateRam (updateRam (updateRam (ram0) (310) (47)) (0) (311)) (311) (l0)) (0) (312)) (312) (g0)) (0) (313)) (313) (t0)) (0) (314)) (314) (th0)) (0) (315)) (2) ((310 - nargs) % 65536)) (1) (315), 45⟩ := by
    rw [step_at c_e44, applyInstr_cM]
    all_goals simp only [evalComp, w16, updateRam_read, jumpTaken, Mach.mk.injEq, reduceIte, Nat.reduceAdd, Nat.reduceMod, Nat.reduceSub, Nat.reduceEqDiff, Nat.mod_mod, and_true, true_and, and_self, if_true, if_false]
  have c_e45 : nth (c2Prog name nargs src) 45 = some (.atSym (name)) := rfl
  have c_s45 : step env (c2Prog name nargs src) ⟨1, 315, updateRam (updateRam (updateRam (updateRam (updateRam (updateRam (updateRam (updateRam (updateRam (updateRam (updateRam (updateRam (ram0) (310) (47)) (0) (311)) (311) (l0)) (0) (312)) (312) (g0)) (0) (313)) (313) (t0)) (0) (314)) (314) (th0)) (0) (315)) (2) ((310 - nargs) % 65536)) (1) (315), 45⟩ = ⟨t, 315, updateRam (updateRam (updateRam (updateRam (updateRam (updateRam (updateRam (updateRam (updateRam (updateRam (updateRam (updateRam (ram0) (310) (47)) (0) (311)) (311) (l0)) (0) (312)) (312) (g0)) (0) (313)) (313) (t0)) (0) (314)) (314) (th0)) (0) (315)) (2) ((310 - nargs) % 65536)) (1) (315), 46⟩ := by
    rw [step_at c_e45, applyInstr_atSym]
    all_goals simp only [evalComp, w16, updateRam_read, jumpTaken, Mach.mk.injEq, reduceIte, Nat.reduceAdd, Nat.reduceMod, Nat.reduceSub, Nat.reduceEqDiff, Nat.mod_mod, and_true, true_and, and_self, if_true, if_false, hname, htm]
  have c_e46 : nth (c2Prog name nargs src) 46 = some (.cinstr dNone .zero .jmp) := rfl
  have c_s46 : step env (c2Prog name nargs src) ⟨t, 315, updateRam (updateRam (updateRam (updateRam (updateRam (updateRam (updateRam (updateRam (updateRam (updateRam (updateRam (updateRam (ram0) (310) (47)) (0) (311)) (311) (l0)) (0) (312)) (312) (g0)) (0) (313)) (313) (t0)) (0) (314)) (314) (th0)) (0) (315)) (2) ((310 - nargs) % 65536)) (1) (315), 46⟩ = ⟨t, 315, updateRam (updateRam (updateRam (updateRam (updateRam (updateRam (updateRam (updateRam (updateRam (updateRam (updateRam (updateRam (ram0) (310) (47)) (0) (311)) (311) (l0)) (0) (312)) (312) (g0)) (0) (313)) (313) (t0)) (0) (314)) (314) (th0)) (0) (315)) (2) ((310 - nargs) % 65536)) (1) (315), t⟩ := by
    rw [step_at c_e46, applyInstr_jump]
    all_goals simp only [evalComp, w16, updateRam_read, jumpTaken, Mach.mk.injEq, reduceIte, Nat.reduceAdd, Nat.reduceMod, Nat.reduceSub, Nat.reduceEqDiff, Nat.mod_mod, and_true, true_and, and_self, if_true, if_false]
  have c_run : run env (c2Prog name nargs src) 47 ⟨a0, d0, ram0, 0⟩ = ⟨t, 315, updateRam (updateRam (updateRam (updateRam (updateRam (updateRam (updateRam (updateRam (updateRam (updateRam (updateRam (updateRam (ram0) (310) (47)) (0) (311)) (311) (l0)) (0) (312)) (312) (g0)) (0) (313)) (313) (t0)) (0) (314)) (314) (th0)) (0) (315)) (2) ((310 - nargs) % 65536)) (1) (315), t⟩ :=
    calc run env (c2Prog name nargs src) 47 ⟨a0, d0, ram0, 0⟩
      _ = run env (c2Prog name nargs src) 46 ⟨47, d0, ram0, 1⟩ := (run_succ env (c2Prog name nargs src) 46 ⟨a0, d0, ram0, 0⟩).trans (congrArg (run env (c2Prog name nargs src) 46) c_s0)
      _ = run env (c2Prog name nargs src) 45 ⟨47, 47, ram0, 2⟩ := (run_succ env (c2Prog name nargs src) 45 ⟨47, d0, ram0, 1⟩).trans (congrArg (run env (c2Prog name nargs src) 45) c_s1)
      _ = run env (c2Prog name nargs src) 44 ⟨0, 47, ram0, 3⟩ := (run_succ env (c2Prog name nargs src) 44 ⟨47, 47, ram0, 2⟩).trans (congrArg (run env (c2Prog name nargs src) 44) c_s2)
      _ = run env (c2Prog name nargs src) 43 ⟨310, 47, ram0, 4⟩ := (run_succ env (c2Prog name nargs src) 43 ⟨0, 47, ram0, 3⟩).trans (congrArg (run env (c2Prog name nargs src) 43) c_s3)
      _ = run env (c2Prog name nargs src) 42 ⟨310, 47, updateRam (ram0) (310) (47), 5⟩ := (run_succ env (c2Prog name nargs src) 42 ⟨310, 47, ram0, 4⟩).trans (congrArg (run env (c2Prog name nargs src) 42) c_s4)
      _ = run env (c2Prog name nargs src) 41 ⟨0, 47, updateRam (ram0) (310) (47), 6⟩ := (run_succ env (c2Prog name nargs src) 41 ⟨310, 47, updateRam (ram0) (310) (47), 5⟩).trans (congrArg (run env (c2Prog name nargs src) 41) c_s5)
      _ = run env (c2Prog name nargs src) 40 ⟨0, 47, updateRam (updateRam (ram0) (310) (47)) (0) (311), 7⟩ := (run_succ env (c2Prog name nargs src) 40 ⟨0, 47, updateRam (ram0) (310) (47), 6⟩).trans (congrArg (run env (c2Prog name nargs src) 40) c_s6)
      _ = run env (c2Prog name nargs src) 39 ⟨1, 47, updateRam (updateRam (ram0) (310) (47)) (0) (311), 8⟩ := (run_succ env (c2Prog name nargs src) 39 ⟨0, 47, updateRam (updateRam (ram0) (310) (47)) (0) (311), 7⟩).trans (congrArg (run env (c2Prog name nargs src) 39) c_s7)
      _ = run env (c2Prog name nargs src) 38 ⟨1, l0, updateRam (updateRam (ram0) (310) (47)) (0) (311), 9⟩ := (run_succ env (c2Prog name nargs src) 38 ⟨1, 47, updateRam (updateRam (ram0) (310) (47)) (0) (311), 8⟩).trans (congrArg (run env (c2Prog name nargs src) 38) c_s8)
      _ = run env (c2Prog name nargs src) 37 ⟨0, l0, updateRam (updateRam (ram0) (310) (47)) (0) (311), 10⟩ := (run_succ env (c2Prog name nargs src) 37 ⟨1, l0, updateRam (updateRam (ram0) (310) (47)) (0) (311), 9⟩).trans (congrArg (run env (c2Prog name nargs src) 37) c_s9)
      _ = run env (c2Prog name nargs src) 36 ⟨311, l0, updateRam (updateRam (ram0) (310) (47)) (0) (311), 11⟩ := (run_succ env (c2Prog name nargs src) 36 ⟨0, l0, updateRam (updateRam (ram0) (310) (47)) (0) (311), 10⟩).trans (congrArg (run env (c2Prog name nargs src) 36) c_s10)
      _ = run env (c2Prog name nargs src) 35 ⟨311, l0, updateRam (updateRam (updateRam (ram0) (310) (47)) (0) (311)) (311) (l0), 12⟩ := (run_succ env (c2Prog name nargs src) 35 ⟨311, l0, updateRam (updateRam (ram0) (310) (47)) (0) (311), 11⟩).trans (congrArg (run env (c2Prog name nargs src) 35) c_s11)
      _ = run env (c2Prog name nargs src) 34 ⟨0, l0, updateRam (updateRam (updateRam (ram0) (310) (47)) (0) (311)) (311) (l0), 13⟩ := (run_succ env (c2Prog name nargs src) 34 ⟨311, l0, updateRam (updateRam (updateRam (ram0) (310) (47)) (0) (311)) (311) (l0), 12⟩).trans (congrArg (run env (c2Prog name nargs src) 34) c_s12)
      _ = run env (c2Prog name nargs src) 33 ⟨0, l0, updateRam (updateRam (updateRam (updateRam (ram0) (310) (47)) (0) (311)) (311) (l0)) (0) (312), 14⟩ := (run_succ env (c2Prog name nargs src) 33 ⟨0, l0, updateRam (updateRam (updateRam (ram0) (310) (47)) (0) (311)) (311) (l0), 13⟩).trans (congrArg (run env (c2Prog name nargs src) 33) c_s13)
      _ = run env (c2Prog name nargs src) 32 ⟨2, l0, updateRam (updateRam (updateRam (updateRam (ram0) (310) (47)) (0) (311)) (311) (l0)) (0) (312), 15⟩ := (run_succ env (c2Prog name nargs src) 32 ⟨0, l0, updateRam (updateRam (updateRam (updateRam (ram0) (310) (47)) (0) (311)) (311) (l0)) (0) (312), 14⟩).trans (congrArg (run env (c2Prog name nargs src) 32) c_s14)
      _ = run env (c2Prog name nargs src) 31 ⟨2, g0, updateRam (updateRam (updateRam (updateRam (ram0) (310) (47)) (0) (311)) (311) (l0)) (0) (312), 16⟩ := (run_succ env (c2Prog name nargs src) 31 ⟨2, l0, updateRam (updateRam (updateRam (updateRam (ram0) (310) (47)) (0) (311)) (311) (l0)) (0) (312), 15⟩).trans (congrArg (run env (c2Prog name nargs src) 31) c_s15)
      _ = run env (c2Prog name nargs src) 30 ⟨0, g0, updateRam (updateRam (updateRam (updateRam (ram0) (310) (47)) (0) (311)) (311) (l0)) (0) (312), 17⟩ := (run_succ env (c2Prog name nargs src) 30 ⟨2, g0, updateRam (updateRam (updateRam (updateRam (ram0) (310) (47)) (0) (311)) (311) (l0)) (0) (312), 16⟩).trans (congrArg (run env (c2Prog name nargs src) 30) c_s16)
      _ = run env (c2Prog name nargs src) 29 ⟨312, g0, updateRam (updateRam (updateRam (updateRam (ram0) (310) (47)) (0) (311)) (311) (l0)) (0) (312), 18⟩ := (run_succ env (c2Prog name nargs src) 29 ⟨0, g0, updateRam (updateRam (updateRam (updateRam (ram0) (310) (47)) (0) (311)) (311) (l0)) (0) (312), 17⟩).trans (congrArg (run env (c2Prog name nargs src) 29) c_s17)
      _ = run env (c2Prog name nargs src) 28 ⟨312, g0, updateRam (updateRam (updateRam (updateRam (updateRam (ram0) (310) (47)) (0) (311)) (311) (l0)) (0) (312)) (312) (g0), 19⟩ := (run_succ env (c2Prog name nargs src) 28 ⟨312, g0, updateRam (updateRam (updateRam (updateRam (ram0) (310) (47)) (0) (311)) (311) (l0)) (0) (312), 18⟩).trans (congrArg (run env (c2Prog name nargs src) 28) c_s18)
      _ = run env (c2Prog name nargs src) 27 ⟨0, g0, updateRam (updateRam (updateRam (updateRam (updateRam (ram0) (310) (47)) (0) (311)) (311) (l0)) (0) (312)) (312) (g0), 20⟩ := (run_succ env (c2Prog name nargs src) 27 ⟨312, g0, updateRam (updateRam (updateRam (updateRam (updateRam (ram0) (310) (47)) (0) (311)) (311) (l0)) (0) (312)) (312) (g0), 19⟩).trans (congrArg (run env (c2Prog name nargs src) 27) c_s19)
      _ = run env (c2Prog name nargs src) 26 ⟨0, g0, updateRam (updateRam (updateRam (updateRam (updateRam (updateRam (ram0) (310) (47)) (0) (311)) (311) (l0)) (0) (312)) (312) (g0)) (0) (313), 21⟩ := (run_succ env (c2Prog name nargs src) 26 ⟨0, g0, updateRam (updateRam (updateRam (updateRam (updateRam (ram0) (310) (47)) (0) (311)) (311) (l0)) (0) (312)) (312) (g0), 20⟩).trans (congrArg (run env (c2Prog name nargs src) 26) c_s20)
      _ = run env (c2Prog name nargs src) 25 ⟨3, g0, updateRam (updateRam (updateRam (updateRam (updateRam (updateRam (ram0) (310) (47)) (0) (311)) (311) (l0)) (0) (312)) (312) (g0)) (0) (313), 22⟩ := (run_succ env (c2Prog name nargs src) 25 ⟨0, g0, updateRam (updateRam (updateRam (updateRam (updateRam (updateRam (ram0) (310) (47)) (0) (311)) (311) (l0)) (0) (312)) (312) (g0)) (0) (313), 21⟩).trans (congrArg (run env (c2Prog name nargs src) 25) c_s21)
      _ = run env (c2Prog name nargs src) 24 ⟨3, t0, updateRam (updateRam (updateRam (updateRam (updateRam (updateRam (ram0) (310) (47)) (0) (311)) (311) (l0)) (0) (312)) (312) (g0)) (0) (313), 23⟩ := (run_succ env (c2Prog name nargs src) 24 ⟨3, g0, updateRam (updateRam (updateRam (updateRam (updateRam (updateRam (ram0) (310) (47)) (0) (311)) (311) (l0)) (0) (312)) (312) (g0)) (0) (313), 22⟩).trans (congrArg (run env (c2Prog name nargs src) 24) c_s22)
      _ = run env (c2Prog name nargs src) 23 ⟨0, t0, updateRam (updateRam (updateRam (updateRam (updateRam (updateRam (ram0) (310) (47)) (0) (311)) (311) (l0)) (0) (312)) (312) (g0)) (0) (313), 24⟩ := (run_succ env (c2Prog name nargs src) 23 ⟨3, t0, updateRam (updateRam (updateRam (updateRam (updateRam (updateRam (ram0) (310) (47)) (0) (311)) (311) (l0)) (0) (312)) (312) (g0)) (0) (313), 23⟩).trans (congrArg (run env (c2Prog name nargs src) 23) c_s23)
      _ = run env (c2Prog name nargs src) 22 ⟨313, t0, updateRam (updateRam (updateRam (updateRam (updateRam (updateRam (ram0) (310) (47)) (0) (311)) (311) (l0)) (0) (312)) (312) (g0)) (0) (313), 25⟩ := (run_succ env (c2Prog name nargs src) 22 ⟨0, t0, updateRam (updateRam (updateRam (updateRam (updateRam (updateRam (ram0) (310) (47)) (0) (311)) (311) (l0)) (0) (312)) (312) (g0)) (0) (313), 24⟩).trans (congrArg (run env (c2Prog name nargs src) 22) c_s24)
      _ = run env (c2Prog name nargs src) 21 ⟨313, t0, updateRam (updateRam (updateRam (updateRam (updateRam (updateRam (updateRam (ram0) (310) (47)) (0) (311)) (311) (l0)) (0) (312)) (312) (g0)) (0) (313)) (313) (t0), 26⟩ := (run_succ env (c2Prog name nargs src) 21 ⟨313, t0, updateRam (updateRam (updateRam (updateRam (updateRam (updateRam (ram0) (310) (47)) (0) (311)) (311) (l0)) (0) (312)) (312) (g0)) (0) (313), 25⟩).trans (congrArg (run env (c2Prog name nargs src) 21) c_s25)
      _ = run env (c2Prog name nargs src) 20 ⟨0, t0, updateRam (updateRam (updateRam (updateRam (updateRam (updateRam (updateRam (ram0) (310) (47)) (0) (311)) (311) (l0)) (0) (312)) (312) (g0)) (0) (313)) (313) (t0), 27⟩ := (run_succ env (c2Prog name nargs src) 20 ⟨313, t0, updateRam (updateRam (updateRam (updateRam (updateRam (updateRam (updateRam (ram0) (310) (47)) (0) (311)) (311) (l0)) (0) (312)) (312) (g0)) (0) (313)) (313) (t0), 26⟩).trans (congrArg (run env (c2Prog name nargs src) 20) c_s26)
      _ = run env (c2Prog name nargs src) 19 ⟨0, t0, updateRam (updateRam (updateRam (updateRam (updateRam (updateRam (updateRam (updateRam (ram0) (310) (47)) (0) (311)) (311) (l0)) (0) (312)) (312) (g0)) (0) (313)) (313) (t0)) (0) (314), 28⟩ := (run_succ env (c2Prog name nargs src) 19 ⟨0, t0, updateRam (updateRam (updateRam (updateRam (updateRam (updateRam (updateRam (ram0) (310) (47)) (0) (311)) (311) (l0)) (0) (312)) (312) (g0)) (0) (313)) (313) (t0), 27⟩).trans (congrArg (run env (c2Prog name nargs src) 19) c_s27)
      _ = run env (c2Prog name nargs src) 18 ⟨4, t0, updateRam (updateRam (updateRam (updateRam (updateRam (updateRam (updateRam (updateRam (ram0) (310) (47)) (0) (311)) (311) (l0)) (0) (312)) (312) (g0)) (0) (313)) (313) (t0)) (0) (314), 29⟩ := (run_succ env (c2Prog name nargs src) 18 ⟨0, t0, updateRam (updateRam (updateRam (updateRam (updateRam (updateRam (updateRam (updateRam (ram0) (310) (47)) (0) (311)) (311) (l0)) (0) (312)) (312) (g0)) (0) (313)) (313) (t0)) (0) (314), 28⟩).trans (congrArg (run env (c2Prog name nargs src) 18) c_s28)
      _ = run env (c2Prog name nargs src) 17 ⟨4, th0, updateRam (updateRam (updateRam (updateRam (updateRam (updateRam (updateRam (updateRam (ram0) (310) (47)) (0) (311)) (311) (l0)) (0) (312)) (312) (g0)) (0) (313)) (313) (t0)) (0) (314), 30⟩ := (run_succ env (c2Prog name nargs src) 17 ⟨4, t0, updateRam (updateRam (updateRam (updateRam (updateRam (updateRam (updateRam (updateRam (ram0) (310) (47)) (0) (311)) (311) (l0)) (0) (312)) (312) (g0)) (0) (313)) (313) (t0)) (0) (314), 29⟩).trans (congrArg (run env (c2Prog name nargs src) 17) c_s29)
      _ = run env (c2Prog name nargs src) 16 ⟨0, th0, updateRam (updateRam (updateRam (updateRam (updateRam (updateRam (updateRam (updateRam (ram0) (310) (47)) (0) (311)) (311) (l0)) (0) (312)) (312) (g0)) (0) (313)) (313) (t0)) (0) (314), 31⟩ := (run_succ env (c2Prog name nargs src) 16 ⟨4, th0, updateRam (updateRam (updateRam (updateRam (updateRam (updateRam (updateRam (updateRam (ram0) (310) (47)) (0) (311)) (311) (l0)) (0) (312)) (312) (g0)) (0) (313)) (313) (t0)) (0) (314), 30⟩).trans (congrArg (run env (c2Prog name nargs src) 16) c_s30)
      _ = run env (c2Prog name nargs src) 15 ⟨314, th0, updateRam (updateRam (updateRam (updateRam (updateRam (updateRam (updateRam (updateRam (ram0) (310) (47)) (0) (311)) (311) (l0)) (0) (312)) (312) (g0)) (0) (313)) (313) (t0)) (0) (314), 32⟩ := (run_succ env (c2Prog name nargs src) 15 ⟨0, th0, updateRam (updateRam (updateRam (updateRam (updateRam (updateRam (updateRam (updateRam (ram0) (310) (47)) (0) (311)) (311) (l0)) (0) (312)) (312) (g0)) (0) (313)) (313) (t0)) (0) (314), 31⟩).trans (congrArg (run env (c2Prog name nargs src) 15) c_s31)
      _ = run env (c2Prog name nargs src) 14 ⟨314, th0, updateRam (updateRam (updateRam (updateRam (updateRam (updateRam (updateRam (updateRam (updateRam (ram0) (310) (47)) (0) (311)) (311) (l0)) (0) (312)) (312) (g0)) (0) (313)) (313) (t0)) (0) (314)) (314) (th0), 33⟩ := (run_succ env (c2Prog name nargs src) 14 ⟨314, th0, updateRam (updateRam (updateRam (updateRam (updateRam (updateRam (updateRam (updateRam (ram0) (310) (47)) (0) (311)) (311) (l0)) (0) (312)) (312) (g0)) (0) (313)) (313) (t0)) (0) (314), 32⟩).trans (congrArg (run env (c2Prog name nargs src) 14) c_s32)
      _ = run env (c2Prog name nargs src) 13 ⟨0, th0, updateRam (updateRam (updateRam (updateRam (updateRam (updateRam (updateRam (updateRam (updateRam (ram0) (310) (47)) (0) (311)) (311) (l0)) (0) (312)) (312) (g0)) (0) (313)) (313) (t0)) (0) (314)) (314) (th0), 34⟩ := (run_succ env (c2Prog name nargs src) 13 ⟨314, th0, updateRam (updateRam (updateRam (updateRam (updateRam (updateRam (updateRam (updateRam (updateRam (ram0) (310) (47)) (0) (311)) (311) (l0)) (0) (312)) (312) (g0)) (0) (313)) (313) (t0)) (0) (314)) (314) (th0), 33⟩).trans (congrArg (run env (c2Prog name nargs src) 13) c_s33)
      _ = run env (c2Prog name nargs src) 12 ⟨0, th0, updateRam (updateRam (updateRam (updateRam (updateRam (updateRam (updateRam (updateRam (updateRam (updateRam (ram0) (310) (47)) (0) (311)) (311) (l0)) (0) (312)) (312) (g0)) (0) (313)) (313) (t0)) (0) (314)) (314) (th0)) (0) (315), 35⟩ := (run_succ env (c2Prog name nargs src) 12 ⟨0, th0, updateRam (updateRam (updateRam (updateRam (updateRam (updateRam (updateRam (updateRam (updateRam (ram0) (310) (47)) (0) (311)) (311) (l0)) (0) (312)) (312) (g0)) (0) (313)) (313) (t0)) (0) (314)) (314) (th0), 34⟩).trans (congrArg (run env (c2Prog name nargs src) 12) c_s34)
      _ = run env (c2Prog name nargs src) 11 ⟨0, th0, updateRam (updateRam (updateRam (updateRam (updateRam (updateRam (updateRam (updateRam (updateRam (updateRam (ram0) (310) (47)) (0) (311)) (311) (l0)) (0) (312)) (312) (g0)) (0) (313)) (313) (t0)) (0) (314)) (314) (th0)) (0) (315), 36⟩ := (run_succ env (c2Prog name nargs src) 11 ⟨0, th0, updateRam (updateRam (updateRam (updateRam (updateRam (updateRam (updateRam (updateRam (updateRam (updateRam (ram0) (310) (47)) (0) (311)) (311) (l0)) (0) (312)) (312) (g0)) (0) (313)) (313) (t0)) (0) (314)) (314) (th0)) (0) (315), 35⟩).trans (congrArg (run env (c2Prog name nargs src) 11) c_s35)
      _ = run env (c2Prog name nargs src) 10 ⟨0, 315, updateRam (updateRam (updateRam (updateRam (updateRam (updateRam (updateRam (updateRam (updateRam (updateRam (ram0) (310) (47)) (0) (311)) (311) (l0)) (0) (312)) (312) (g0)) (0) (313)) (313) (t0)) (0) (314)) (314) (th0)) (0) (315), 37⟩ := (run_succ env (c2Prog name nargs src) 10 ⟨0, th0, updateRam (updateRam (updateRam (updateRam (updateRam (updateRam (updateRam (updateRam (updateRam (updateRam (ram0) (310) (47)) (0) (311)) (311) (l0)) (0) (312)) (312) (g0)) (0) (313)) (313) (t0)) (0) (314)) (314) (th0)) (0) (315), 36⟩).trans (congrArg (run env (c2Prog name nargs src) 10) c_s36)
      _ = run env (c2Prog name nargs src) 9 ⟨nargs + 5, 315, updateRam (updateRam (updateRam (updateRam (updateRam (updateRam (updateRam (updateRam (updateRam (updateRam (ram0) (310) (47)) (0) (311)) (311) (l0)) (0) (312)) (312) (g0)) (0) (313)) (313) (t0)) (0) (314)) (314) (th0)) (0) (315), 38⟩ := (run_succ env (c2Prog name nargs src) 9 ⟨0, 315, updateRam (updateRam (updateRam (updateRam (updateRam (updateRam (updateRam (updateRam (updateRam (updateRam (ram0) (310) (47)) (0) (311)) (311) (l0)) (0) (312)) (312) (g0)) (0) (313)) (313) (t0)) (0) (314)) (314) (th0)) (0) (315), 37⟩).trans (congrArg (run env (c2Prog name nargs src) 9) c_s37)
      _ = run env (c2Prog name nargs src) 8 ⟨nargs + 5, 310 - nargs, updateRam (updateRam (updateRam (updateRam (updateRam (updateRam (updateRam (updateRam (updateRam (updateRam (ram0) (310) (47)) (0) (311)) (311) (l0)) (0) (312)) (312) (g0)) (0) (313)) (313) (t0)) (0) (314)) (314) (th0)) (0) (315), 39⟩ := (run_succ env (c2Prog name nargs src) 8 ⟨nargs + 5, 315, updateRam (updateRam (updateRam (updateRam (updateRam (updateRam (updateRam (updateRam (updateRam (updateRam (ram0) (310) (47)) (0) (311)) (311) (l0)) (0) (312)) (312) (g0)) (0) (313)) (313) (t0)) (0) (314)) (314) (th0)) (0) (315), 38⟩).trans (congrArg (run env (c2Prog name nargs src) 8) c_s38)
      _ = run env (c2Prog name nargs src) 7 ⟨2, 310 - nargs, updateRam (updateRam (updateRam (updateRam (updateRam (updateRam (updateRam (updateRam (updateRam (updateRam (ram0) (310) (47)) (0) (311)) (311) (l0)) (0) (312)) (312) (g0)) (0) (313)) (313) (t0)) (0) (314)) (314) (th0)) (0) (315), 40⟩ := (run_succ env (c2Prog name nargs src) 7 ⟨nargs + 5, 310 - nargs, updateRam (updateRam (updateRam (updateRam (updateRam (updateRam (updateRam (updateRam (updateRam (updateRam (ram0) (310) (47)) (0) (311)) (311) (l0)) (0) (312)) (312) (g0)) (0) (313)) (313) (t0)) (0) (314)) (314) (th0)) (0) (315), 39⟩).trans (congrArg (run env (c2Prog name nargs src) 7) c_s39)
      _ = run env (c2Prog name nargs src) 6 ⟨2, 310 - nargs, updateRam (updateRam (updateRam (updateRam (updateRam (updateRam (updateRam (updateRam (updateRam (updateRam (updateRam (ram0) (310) (47)) (0) (311)) (311) (l0)) (0) (312)) (312) (g0)) (0) (313)) (313) (t0)) (0) (314)) (314) (th0)) (0) (315)) (2) ((310 - nargs) % 65536), 41⟩ := (run_succ env (c2Prog name nargs src) 6 ⟨2, 310 - nargs, updateRam (updateRam (updateRam (updateRam (updateRam (updateRam (updateRam (updateRam (updateRam (updateRam (ram0) (310) (47)) (0) (311)) (311) (l0)) (0) (312)) (312) (g0)) (0) (313)) (313) (t0)) (0) (314)) (314) (th0)) (0) (315), 40⟩).trans (congrArg (run env (c2Prog name nargs src) 6) c_s40)
      _ = run env (c2Prog name nargs src) 5 ⟨0, 310 - nargs, updateRam (updateRam (updateRam (updateRam (updateRam (updateRam (updateRam (updateRam (updateRam (updateRam (updateRam (ram0) (310) (47)) (0) (311)) (311) (l0)) (0) (312)) (312) (g0)) (0) (313)) (313) (t0)) (0) (314)) (314) (th0)) (0) (315)) (2) ((310 - nargs) % 65536), 42⟩ := (run_succ env (c2Prog name nargs src) 5 ⟨2, 310 - nargs, updateRam (updateRam (updateRam (updateRam (updateRam (updateRam (updateRam (updateRam (updateRam (updateRam (updateRam (ram0) (310) (47)) (0) (311)) (311) (l0)) (0) (312)) (312) (g0)) (0) (313)) (313) (t0)) (0) (314)) (314) (th0)) (0) (315)) (2) ((310 - nargs) % 65536), 41⟩).trans (congrArg (run env (c2Prog name nargs src) 5) c_s41)
      _ = run env (c2Prog name nargs src) 4 ⟨0, 315, updateRam (updateRam (updateRam (updateRam (updateRam (updateRam (updateRam (updateRam (updateRam (updateRam (updateRam (ram0) (310) (47)) (0) (311)) (311) (l0)) (0) (312)) (312) (g0)) (0) (313)) (313) (t0)) (0) (314)) (314) (th0)) (0) (315)) (2) ((310 - nargs) % 65536), 43⟩ := (run_succ env (c2Prog name nargs src) 4 ⟨0, 310 - nargs, updateRam (updateRam (updateRam (updateRam (updateRam (updateRam (updateRam (updateRam (updateRam (updateRam (updateRam (ram0) (310) (47)) (0) (311)) (311) (l0)) (0) (312)) (312) (g0)) (0) (313)) (313) (t0)) (0) (314)) (314) (th0)) (0) (315)) (2) ((310 - nargs) % 65536), 42⟩).trans (congrArg (run env (c2Prog name nargs src) 4) c_s42)
      _ = run env (c2Prog name nargs src) 3 ⟨1, 315, updateRam (updateRam (updateRam (updateRam (updateRam (updateRam (updateRam (updateRam (updateRam (updateRam (updateRam (ram0) (310) (47)) (0) (311)) (311) (l0)) (0) (312)) (312) (g0)) (0) (313)) (313) (t0)) (0) (314)) (314) (th0)) (0) (315)) (2) ((310 - nargs) % 65536), 44⟩ := (run_succ env (c2Prog name nargs src) 3 ⟨0, 315, updateRam (updateRam (updateRam (updateRam (updateRam (updateRam (updateRam (updateRam (updateRam (updateRam (updateRam (ram0) (310) (47)) (0) (311)) (311) (l0)) (0) (312)) (312) (g0)) (0) (313)) (313) (t0)) (0) (314)) (314) (th0)) (0) (315)) (2) ((310 - nargs) % 65536), 43⟩).trans (congrArg (run env (c2Prog name nargs src) 3) c_s43)
      _ = run env (c2Prog name nargs src) 2 ⟨1, 315, updateRam (updateRam (updateRam (updateRam (updateRam (updateRam (updateRam (updateRam (updateRam (updateRam (updateRam (updateRam (ram0) (310) (47)) (0) (311)) (311) (l0)) (0) (312)) (312) (g0)) (0) (313)) (313) (t0)) (0) (314)) (314) (th0)) (0) (315)) (2) ((310 - nargs) % 65536)) (1) (315), 45⟩ := (run_succ env (c2Prog name nargs src) 2 ⟨1, 315, updateRam (updateRam (updateRam (updateRam (updateRam (updateRam (updateRam (updateRam (updateRam (updateRam (updateRam (ram0) (310) (47)) (0) (311)) (311) (l0)) (0) (312)) (312) (g0)) (0) (313)) (313) (t0)) (0) (314)) (314) (th0)) (0) (315)) (2) ((310 - nargs) % 65536), 44⟩).trans (congrArg (run env (c2Prog name nargs src) 2) c_s44)
      _ = run env (c2Prog name nargs src) 1 ⟨t, 315, updateRam (updateRam (updateRam (updateRam (updateRam (updateRam (updateRam (updateRam (updateRam (updateRam (updateRam (updateRam (ram0) (310) (47)) (0) (311)) (311) (l0)) (0) (312)) (312) (g0)) (0) (313)) (313) (t0)) (0) (314)) (314) (th0)) (0) (315)) (2) ((310 - nargs) % 65536)) (1) (315), 46⟩ := (run_succ env (c2Prog name nargs src) 1 ⟨1, 315, updateRam (updateRam (updateRam (updateRam (updateRam (updateRam (updateRam (updateRam (updateRam (updateRam (updateRam (updateRam (ram0) (310) (47)) (0) (311)) (311) (l0)) (0) (312)) (312) (g0)) (0) (313)) (313) (t0)) (0) (314)) (314) (th0)) (0) (315)) (2) ((310 - nargs) % 65536)) (1) (315), 45⟩).trans (congrArg (run env (c2Prog name nargs src) 1) c_s45)
      _ = run env (c2Prog name nargs src) 0 ⟨t, 315, updateRam (updateRam (updateRam (updateRam (updateRam (updateRam (updateRam (updateRam (updateRam (updateRam (updateRam (updateRam (ram0) (310) (47)) (0) (311)) (311) (l0)) (0) (312)) (312) (g0)) (0) (313)) (313) (t0)) (0) (314)) (314) (th0)) (0) (315)) (2) ((310 - nargs) % 65536)) (1) (315), t⟩ := (run_succ env (c2Prog name nargs src) 0 ⟨t, 315, updateRam (updateRam (updateRam (updateRam (updateRam (updateRam (updateRam (updateRam (updateRam (updateRam (updateRam (updateRam (ram0) (310) (47)) (0) (311)) (311) (l0)) (0) (312)) (312) (g0)) (0) (313)) (313) (t0)) (0) (314)) (314) (th0)) (0) (315)) (2) ((310 - nargs) % 65536)) (1) (315), 46⟩).trans (congrArg (run env (c2Prog name nargs src) 0) c_s46)
      _ = ⟨t, 315, updateRam (updateRam (updateRam (updateRam (updateRam (updateRam (updateRam (updateRam (updateRam (updateRam (updateRam (updateRam (ram0) (310) (47)) (0) (311)) (311) (l0)) (0) (312)) (312) (g0)) (0) (313)) (313) (t0)) (0) (314)) (314) (th0)) (0) (315)) (2) ((310 - nargs) % 65536)) (1) (315), t⟩ := run_zero env (c2Prog name nargs src) ⟨t, 315, updateRam (updateRam (updateRam (updateRam (updateRam (updateRam (updateRam (updateRam (updateRam (updateRam (updateRam (updateRam (ram0) (310) (47)) (0) (311)) (311) (l0)) (0) (312)) (312) (g0)) (0) (313)) (313) (t0)) (0) (314)) (314) (th0)) (0) (315)) (2) ((310 - nargs) % 65536)) (1) (315), t⟩
  refine ⟨rfl, rfl, ?_, ?_, ?_, ?_, ?_, ?_, ?_, ?_, ?_⟩ <;>
    rw [c_run] <;> simp only [updateRam_read, Nat.reduceEqDiff, reduceIte] <;> omega

/-- Witness for C2: `call Foo 2` with the callee symbol resolving to 100
pushes the return address 47, saves the four pointers, sets SP = 315,
ARG = 308 and jumps to 100. -/
theorem c2_call_semantics_witness :
    (run (fun _ => 100) (c2Prog "Foo" 2 "call Foo 2") 47
        ⟨0, 0, (fun x => if x = 0 then 310 else x), 0⟩).ram 310 = 47
    ∧ (run (fun _ => 100) (c2Prog "Foo" 2 "call Foo 2") 47
        ⟨0, 0, (fun x => if x = 0 then 310 else x), 0⟩).ram 0 = 315
    ∧ (run (fun _ => 100) (c2Prog "Foo" 2 "call Foo 2") 47
        ⟨0, 0, (fun x => if x = 0 then 310 else x), 0⟩).ram 2 = 308
    ∧ (run (fun _ => 100) (c2Prog "Foo" 2 "call Foo 2") 47
        ⟨0, 0, (fun x => if x = 0 then 310 else x), 0⟩).pc = 100 := by
  have h := c2_call_semantics "Foo" "call Foo 2" 2 100 1 2 3 4 0 0 (fun _ => 100)
    (fun x => if x = 0 then 310 else x) rfl (by decide) (by decide)
    (by decide) (by decide) (by decide) (by decide) rfl rfl rfl rfl rfl
  obtain ⟨-, -, h310, -, -, -, -, h0, h2, -, hpc⟩ := h
  exact ⟨h310, h0, by simpa using h2, hpc⟩

/-! ## Claim C6: bootstrap emission -/

/-- A successful `generate_code_for_command` block always starts with the
echo comment line. -/
theorem generate_code_for_command_comment (sc : SourceCommand) (scope : Option String)
    (code : List Instr) (h : generate_code_for_command sc scope = .ok code) :
    ∃ s rest, code = Instr.comment s :: rest := by
  unfold generate_code_for_command at h
  cases hM : generate_command_code sc scope with
  | ok c =>
    rw [hM] at h
    refine ⟨comment sc, c, ?_⟩
    injection h with h'
    exact h'.symm
  | error e =>
    rw [hM] at h
    exact absurd h (by simp)

/-- The bootstrap flag computed by the orchestrator loop is set exactly
when some command is `function Sys.init …`. -/
theorem generate_code_go_flag :
    ∀ (cmds : List SourceCommand) (scope : List String) (flag : Bool)
      (blocks : List (List Instr)),
      generate_code_go scope cmds = .ok (flag, blocks) →
      (flag = true ↔ ∃ sc ∈ cmds, isSysInit sc = true)
  | [], scope, flag, blocks => by
    intro h
    simp only [generate_code_go, Except.ok.injEq, Prod.mk.injEq] at h
    simp [← h.1]
  | c :: rest, scope, flag, blocks => by
    intro h
    simp only [generate_code_go] at h
    set scope' := (match functionName c with
      | some name => scope ++ [name]
      | none => scope) with hscope
    cases hc : generate_code_for_command c scope'.getLast? with
    | error e => rw [hc] at h; exact absurd h (by simp)
    | ok code =>
      rw [hc] at h
      cases hgo : generate_code_go scope' rest with
      | error e => rw [hgo] at h; exact absurd h (by simp)
      | ok fb =>
        rw [hgo] at h
        obtain ⟨flag', more⟩ := fb
        simp only [Except.ok.injEq, Prod.mk.injEq] at h
        obtain ⟨h1, h2⟩ := h
        have ih := generate_code_go_flag rest scope' flag' more hgo
        subst h1
        simp only [Bool.or_eq_true, ih, List.mem_cons]
        constructor
        · rintro (hx | ⟨sc, hsc, hx⟩)
          · exact ⟨c, Or.inl rfl, hx⟩
          · exact ⟨sc, Or.inr hsc, hx⟩
        · rintro ⟨sc, (rfl | hsc), hx⟩
          · exact Or.inl hx
          · exact Or.inr ⟨sc, hsc, hx⟩

/-- Every block produced by the orchestrator loop starts with a comment
line (in particular none of them is the bootstrap block). -/
theorem generate_code_go_comment :
    ∀ (cmds : List SourceCommand) (scope : List String) (flag : Bool)
      (blocks : List (List Instr)),
      generate_code_go scope cmds = .ok (flag, blocks) →
      ∀ b ∈ blocks, ∃ s rest, b = Instr.comment s :: rest
  | [], scope, flag, blocks => by
    intro h b hb
    simp only [generate_code_go, Except.ok.injEq, Prod.mk.injEq] at h
    rw [← h.2] at hb
    exact absurd hb (by simp)
  | c :: rest, scope, flag, blocks => by
    intro h b hb
    simp only [generate_code_go] at h
    set scope' := (match functionName c with
      | some name => scope ++ [name]
      | none => scope) with hscope
    cases hc : generate_code_for_command c scope'.getLast? with
    | error e => rw [hc] at h; exact absurd h (by simp)
    | ok code =>
      rw [hc] at h
      cases hgo : generate_code_go scope' rest with
      | error e => rw [hgo] at h; exact absurd h (by simp)
      | ok fb =>
        rw [hgo] at h
        obtain ⟨flag', more⟩ := fb
        simp only [Except.ok.injEq, Prod.mk.injEq] at h
        rw [← h.2] at hb
        rcases List.mem_cons.mp hb with rfl | hbm
        · exact generate_code_for_command_comment c scope'.getLast? b hc
        · exact generate_code_go_comment rest scope' flag' more hgo b hbm

/-- The bootstrap block is not one of the per-command blocks. -/
theorem bootstrap_not_in_go_blocks (cmds : List SourceCommand) (scope : List String)
    (flag : Bool) (blocks : List (List Instr))
    (h : generate_code_go scope cmds = .ok (flag, blocks)) :
    bootstrap ∉ blocks := by
  intro hmem
  obtain ⟨s, rest, hb⟩ := generate_code_go_comment cmds scope flag blocks h bootstrap hmem
  have : nth bootstrap 0 = some (Instr.comment s) := by rw [hb]; rfl
  rw [show nth bootstrap 0 = some (Instr.atNum 256) from rfl] at this
  exact absurd this (by simp)
set_option maxHeartbeats 1000000 in
/-- C6: a bootstrap prologue appears iff the input contains a
`function Sys.init …` command; when it appears it is the first block and
appears exactly once (conjuncts 1-2).  The prologue itself first sets the
stack pointer to 256 and the Local/Argument/This/That registers to the
sentinels -1, -2, -3, -4 (conjuncts after 18 steps), then performs a
synthetic zero-argument call to `Sys.init`: it pushes its own label-bearing
return address (the position 65 of the `Bootstrap$ret.0` label line),
saves the four sentinel registers, repositions ARG to 256 and LCL to the
new stack pointer 261 and jumps to wherever `Sys.init` resolves
(conjuncts after 65 steps). -/
theorem c6_bootstrap_emission (cmds : List SourceCommand) (blocks : List (List Instr))
    (e a0 d0 : Nat) (env : String → Nat) (ram0 : Nat → Nat)
    (hgen : generate_code cmds = .ok blocks)
    (hsys : env "Sys.init" = e) (he : e < 65536) :
    ((∃ sc ∈ cmds, isSysInit sc = true) →
        blocks.head? = some bootstrap ∧ blocks.count bootstrap = 1)
    ∧ ((¬ ∃ sc ∈ cmds, isSysInit sc = true) → bootstrap ∉ blocks)
    ∧ (run env bootstrap 18 ⟨a0, d0, ram0, 0⟩).ram 0 = 256
    ∧ (run env bootstrap 18 ⟨a0, d0, ram0, 0⟩).ram 1 = 65535
    ∧ (run env bootstrap 18 ⟨a0, d0, ram0, 0⟩).ram 2 = 65534
    ∧ (run env bootstrap 18 ⟨a0, d0, ram0, 0⟩).ram 3 = 65533
    ∧ (run env bootstrap 18 ⟨a0, d0, ram0, 0⟩).ram 4 = 65532
    ∧ (run env bootstrap 65 ⟨a0, d0, ram0, 0⟩).ram 256 = 65
    ∧ (run env bootstrap 65 ⟨a0, d0, ram0, 0⟩).ram 0 = 261
    ∧ (run env bootstrap 65 ⟨a0, d0, ram0, 0⟩).ram 1 = 261
    ∧ (run env bootstrap 65 ⟨a0, d0, ram0, 0⟩).ram 2 = 256
    ∧ (run env bootstrap 65 ⟨a0, d0, ram0, 0⟩).pc = e
    ∧ nth bootstrap 65 = some (.labelDef (returnLabel "Bootstrap" 0)) := by
  have hem : e % 65536 = e := Nat.mod_eq_of_lt he
  have b1_e0 : nth bootstrap 0 = some (.atNum 256) := rfl
  have b1_s0 : step env bootstrap ⟨a0, d0, ram0, 0⟩ = ⟨256, d0, ram0, 1⟩ := by
    rw [step_at b1_e0, applyInstr_atNum]
    all_goals simp only [evalComp, w16, updateRam_read, jumpTaken, Mach.mk.injEq, reduceIte, Nat.reduceAdd, Nat.reduceMod, Nat.reduceSub, Nat.reduceEqDiff, Nat.mod_mod, and_true, true_and, and_self, if_true, if_false]
  have b1_e1 : nth bootstrap 1 = some (.cinstr dD .ca .jnone) := rfl
  have b1_s1 : step env bootstrap ⟨256, d0, ram0, 1⟩ = ⟨256, 256, ram0, 2⟩ := by
    rw [step_at b1_e1, applyInstr_cD]
    all_goals simp only [evalComp, w16, updateRam_read, jumpTaken, Mach.mk.injEq, reduceIte, Nat.reduceAdd, Nat.reduceMod, Nat.reduceSub, Nat.reduceEqDiff, Nat.mod_mod, and_true, true_and, and_self, if_true, if_false]
  have b1_e2 : nth bootstrap 2 = some (.atSym "SP") := rfl
  have b1_r0 : resolveSym bootstrap env ("SP") = 0 := rfl
  have b1_s2 : step env bootstrap ⟨256, 256, ram0, 2⟩ = ⟨0, 256, ram0, 3⟩ := by
    rw [step_at b1_e2, applyInstr_atSym]
    all_goals simp only [evalComp, w16, updateRam_read, jumpTaken, Mach.mk.injEq, reduceIte, Nat.reduceAdd, Nat.reduceMod, Nat.reduceSub, Nat.reduceEqDiff, Nat.mod_mod, and_true, true_and, and_self, if_true, if_false, b1_r0]
  have b1_e3 : nth bootstrap 3 = some (.cinstr dM .cd .jnone) := rfl
  have b1_s3 : step env bootstrap ⟨0, 256, ram0, 3⟩ = ⟨0, 256, updateRam (ram0) (0) (256), 4⟩ := by
    rw [step_at b1_e3, applyInstr_cM]
    all_goals simp only [evalComp, w16, updateRam_read, jumpTaken, Mach.mk.injEq, reduceIte, Nat.reduceAdd, Nat.reduceMod, Nat.reduceSub, Nat.reduceEqDiff, Nat.mod_mod, and_true, true_and, and_self, if_true, if_false]
  have b1_e4 : nth bootstrap 4 = some (.atSym "LCL") := rfl
  have b1_r1 : resolveSym bootstrap env ("LCL") = 1 := rfl
  have b1_s4 : step env bootstrap ⟨0, 256, updateRam (ram0) (0) (256), 4⟩ = ⟨1, 256, updateRam (ram0) (0) (256), 5⟩ := by
    rw [step_at b1_e4, applyInstr_atSym]
    all_goals simp only [evalComp, w16, updateRam_read, jumpTaken, Mach.mk.injEq, reduceIte, Nat.reduceAdd, Nat.reduceMod, Nat.reduceSub, Nat.reduceEqDiff, Nat.mod_mod, and_true, true_and, and_self, if_true, if_false, b1_r1]
  have b1_e5 : nth bootstrap 5 = some (.cinstr dM .negOne .jnone) := rfl
  have b1_s5 : step env bootstrap ⟨1, 256, updateRam (ram0) (0) (256), 5⟩ = ⟨1, 256, updateRam (updateRam (ram0) (0) (256)) (1) (65535), 6⟩ := by
    rw [step_at b1_e5, applyInstr_cM]
    all_goals simp only [evalComp, w16, updateRam_read, jumpTaken, Mach.mk.injEq, reduceIte, Nat.reduceAdd, Nat.reduceMod, Nat.reduceSub, Nat.reduceEqDiff, Nat.mod_mod, and_true, true_and, and_self, if_true, if_false]
  have b1_e6 : nth bootstrap 6 = some (.atNum 2) := rfl
  have b1_s6 : step env bootstrap ⟨1, 256, updateRam (updateRam (ram0) (0) (256)) (1) (65535), 6⟩ = ⟨2, 256, updateRam (updateRam (ram0) (0) (256)) (1) (65535), 7⟩ := by
    rw [step_at b1_e6, applyInstr_atNum]
    all_goals simp only [evalComp, w16, updateRam_read, jumpTaken, Mach.mk.injEq, reduceIte, Nat.reduceAdd, Nat.reduceMod, Nat.reduceSub, Nat.reduceEqDiff, Nat.mod_mod, and_true, true_and, and_self, if_true, if_false]
  have b1_e7 : nth bootstrap 7 = some (.cinstr dD .negA .jnone) := rfl
  have b1_s7 : step env bootstrap ⟨2, 256, updateRam (updateRam (ram0) (0) (256)) (1) (65535), 7⟩ = ⟨2, 65534, updateRam (updateRam (ram0) (0) (256)) (1) (65535), 8⟩ := by
    rw [step_at b1_e7, applyInstr_cD]
    all_goals simp only [evalComp, w16, updateRam_read, jumpTaken, Mach.mk.injEq, reduceIte, Nat.reduceAdd, Nat.reduceMod, Nat.reduceSub, Nat.reduceEqDiff, Nat.mod_mod, and_true, true_and, and_self, if_true, if_false]
  have b1_e8 : nth bootstrap 8 = some (.atSym "ARG") := rfl
  have b1_r2 : resolveSym bootstrap env ("ARG") = 2 := rfl
  have b1_s8 : step env bootstrap ⟨2, 65534, updateRam (updateRam (ram0) (0) (256)) (1) (65535), 8⟩ = ⟨2, 65534, updateRam (updateRam (ram0) (0) (256)) (1) (65535), 9⟩ := by
    rw [step_at b1_e8, applyInstr_atSym]
    all_goals simp only [evalComp, w16, updateRam_read, jumpTaken, Mach.mk.injEq, reduceIte, Nat.reduceAdd, Nat.reduceMod, Nat.reduceSub, Nat.reduceEqDiff, Nat.mod_mod, and_true, true_and, and_self, if_true, if_false, b1_r2]
  have b1_e9 : nth bootstrap 9 = some (.cinstr dM .cd .jnone) := rfl
  have b1_s9 : step env bootstrap ⟨2, 65534, updateRam (updateRam (ram0) (0) (256)) (1) (65535), 9⟩ = ⟨2, 65534, updateRam (updateRam (updateRam (ram0) (0) (256)) (1) (65535)) (2) (65534), 10⟩ := by
    rw [step_at b1_e9, applyInstr_cM]
    all_goals simp only [evalComp, w16, updateRam_read, jumpTaken, Mach.mk.injEq, reduceIte, Nat.reduceAdd, Nat.reduceMod, Nat.reduceSub, Nat.reduceEqDiff, Nat.mod_mod, and_true, true_and, and_self, if_true, if_false]
  have b1_e10 : nth bootstrap 10 = some (.atNum 3) := rfl
  have b1_s10 : step env bootstrap ⟨2, 65534, updateRam (updateRam (updateRam (ram0) (0) (256)) (1) (65535)) (2) (65534), 10⟩ = ⟨3, 65534, updateRam (updateRam (updateRam (ram0) (0) (256)) (1) (65535)) (2) (65534), 11⟩ := by
    rw [step_at b1_e10, applyInstr_atNum]
    all_goals simp only [evalComp, w16, updateRam_read, jumpTaken, Mach.mk.injEq, reduceIte, Nat.reduceAdd, Nat.reduceMod, Nat.reduceSub, Nat.reduceEqDiff, Nat.mod_mod, and_true, true_and, and_self, if_true, if_false]
  have b1_e11 : nth bootstrap 11 = some (.cinstr dD .negA .jnone) := rfl
  have b1_s11 : step env bootstrap ⟨3, 65534, updateRam (updateRam (updateRam (ram0) (0) (256)) (1) (65535)) (2) (65534), 11⟩ = ⟨3, 65533, updateRam (updateRam (updateRam (ram0) (0) (256)) (1) (65535)) (2) (65534), 12⟩ := by
    rw [step_at b1_e11, applyInstr_cD]
    all_goals simp only [evalComp, w16, updateRam_read, jumpTaken, Mach.mk.injEq, reduceIte, Nat.reduceAdd, Nat.reduceMod, Nat.reduceSub, Nat.reduceEqDiff, Nat.mod_mod, and_true, true_and, and_self, if_true, if_false]
  have b1_e12 : nth bootstrap 12 = some (.atSym "THIS") := rfl
  have b1_r3 : resolveSym bootstrap env ("THIS") = 3 := rfl
  have b1_s12 : step env bootstrap ⟨3, 65533, updateRam (updateRam (updateRam (ram0) (0) (256)) (1) (65535)) (2) (65534), 12⟩ = ⟨3, 65533, updateRam (updateRam (updateRam (ram0) (0) (256)) (1) (65535)) (2) (65534), 13⟩ := by
    rw [step_at b1_e12, applyInstr_atSym]
    all_goals simp only [evalComp, w16, updateRam_read, jumpTaken, Mach.mk.injEq, reduceIte, Nat.reduceAdd, Nat.reduceMod, Nat.reduceSub, Nat.reduceEqDiff, Nat.mod_mod, and_true, true_and, and_self, if_true, if_false, b1_r3]
  have b1_e13 : nth bootstrap 13 = some (.cinstr dM .cd .jnone) := rfl
  have b1_s13 : step env bootstrap ⟨3, 65533, updateRam (updateRam (updateRam (ram0) (0) (256)) (1) (65535)) (2) (65534), 13⟩ = ⟨3, 65533, updateRam (updateRam (updateRam (updateRam (ram0) (0) (256)) (1) (65535)) (2) (65534)) (3) (65533), 14⟩ := by
    rw [step_at b1_e13, applyInstr_cM]
    all_goals simp only [evalComp, w16, updateRam_read, jumpTaken, Mach.mk.injEq, reduceIte, Nat.reduceAdd, Nat.reduceMod, Nat.reduceSub, Nat.reduceEqDiff, Nat.mod_mod, and_true, true_and, and_self, if_true, if_false]
  have b1_e14 : nth bootstrap 14 = some (.atNum 4) := rfl
  have b1_s14 : step env bootstrap ⟨3, 65533, updateRam (updateRam (updateRam (updateRam (ram0) (0) (256)) (1) (65535)) (2) (65534)) (3) (65533), 14⟩ = ⟨4, 65533, updateRam (updateRam (updateRam (updateRam (ram0) (0) (256)) (1) (65535)) (2) (65534)) (3) (65533), 15⟩ := by
    rw [step_at b1_e14, applyInstr_atNum]
    all_goals simp only [evalComp, w16, updateRam_read, jumpTaken, Mach.mk.injEq, reduceIte, Nat.reduceAdd, Nat.reduceMod, Nat.reduceSub, Nat.reduceEqDiff, Nat.mod_mod, and_true, true_and, and_self, if_true, if_false]
  have b1_e15 : nth bootstrap 15 = some (.cinstr dD .negA .jnone) := rfl
  have b1_s15 : step env bootstrap ⟨4, 65533, updateRam (updateRam (updateRam (updateRam (ram0) (0) (256)) (1) (65535)) (2) (65534)) (3) (65533), 15⟩ = ⟨4, 65532, updateRam (updateRam (updateRam (updateRam (ram0) (0) (256)) (1) (65535)) (2) (65534)) (3) (65533), 16⟩ := by
    rw [step_at b1_e15, applyInstr_cD]
    all_goals simp only [evalComp, w16, updateRam_read, jumpTaken, Mach.mk.injEq, reduceIte, Nat.reduceAdd, Nat.reduceMod, Nat.reduceSub, Nat.reduceEqDiff, Nat.mod_mod, and_true, true_and, and_self, if_true, if_false]
  have b1_e16 : nth bootstrap 16 = some (.atSym "THAT") := rfl
  have b1_r4 : resolveSym bootstrap env ("THAT") = 4 := rfl
  have b1_s16 : step env bootstrap ⟨4, 65532, updateRam (updateRam (updateRam (updateRam (ram0) (0) (256)) (1) (65535)) (2) (65534)) (3) (65533), 16⟩ = ⟨4, 65532, updateRam (updateRam (updateRam (updateRam (ram0) (0) (256)) (1) (65535)) (2) (65534)) (3) (65533), 17⟩ := by
    rw [step_at b1_e16, applyInstr_atSym]
    all_goals simp only [evalComp, w16, updateRam_read, jumpTaken, Mach.mk.injEq, reduceIte, Nat.reduceAdd, Nat.reduceMod, Nat.reduceSub, Nat.reduceEqDiff, Nat.mod_mod, and_true, true_and, and_self, if_true, if_false, b1_r4]
  have b1_e17 : nth bootstrap 17 = some (.cinstr dM .cd .jnone) := rfl
  have b1_s17 : step env bootstrap ⟨4, 65532, updateRam (updateRam (updateRam (updateRam (ram0) (0) (256)) (1) (65535)) (2) (65534)) (3) (65533), 17⟩ = ⟨4, 65532, updateRam (updateRam (updateRam (updateRam (updateRam (ram0) (0) (256)) (1) (65535)) (2) (65534)) (3) (65533)) (4) (65532), 18⟩ := by
    rw [step_at b1_e17, applyInstr_cM]
    all_goals simp only [evalComp, w16, updateRam_read, jumpTaken, Mach.mk.injEq, reduceIte, Nat.reduceAdd, Nat.reduceMod, Nat.reduceSub, Nat.reduceEqDiff, Nat.mod_mod, and_true, true_and, and_self, if_true, if_false]
  have b1_run : run env bootstrap 18 ⟨a0, d0, ram0, 0⟩ = ⟨4, 65532, updateRam (updateRam (updateRam (updateRam (updateRam (ram0) (0) (256)) (1) (65535)) (2) (65534)) (3) (65533)) (4) (65532), 18⟩ :=
    calc run env bootstrap 18 ⟨a0, d0, ram0, 0⟩
      _ = run env bootstrap 17 ⟨256, d0, ram0, 1⟩ := (run_succ env bootstrap 17 ⟨a0, d0, ram0, 0⟩).trans (congrArg (run env bootstrap 17) b1_s0)
      _ = run env bootstrap 16 ⟨256, 256, ram0, 2⟩ := (run_succ env bootstrap 16 ⟨256, d0, ram0, 1⟩).trans (congrArg (run env bootstrap 16) b1_s1)
      _ = run env bootstrap 15 ⟨0, 256, ram0, 3⟩ := (run_succ env bootstrap 15 ⟨256, 256, ram0, 2⟩).trans (congrArg (run env bootstrap 15) b1_s2)
      _ = run env bootstrap 14 ⟨0, 256, updateRam (ram0) (0) (256), 4⟩ := (run_succ env bootstrap 14 ⟨0, 256, ram0, 3⟩).trans (congrArg (run env bootstrap 14) b1_s3)
      _ = run env bootstrap 13 ⟨1, 256, updateRam (ram0) (0) (256), 5⟩ := (run_succ env bootstrap 13 ⟨0, 256, updateRam (ram0) (0) (256), 4⟩).trans (congrArg (run env bootstrap 13) b1_s4)
      _ = run env bootstrap 12 ⟨1, 256, updateRam (updateRam (ram0) (0) (256)) (1) (65535), 6⟩ := (run_succ env bootstrap 12 ⟨1, 256, updateRam (ram0) (0) (256), 5⟩).trans (congrArg (run env bootstrap 12) b1_s5)
      _ = run env bootstrap 11 ⟨2, 256, updateRam (updateRam (ram0) (0) (256)) (1) (65535), 7⟩ := (run_succ env bootstrap 11 ⟨1, 256, updateRam (updateRam (ram0) (0) (256)) (1) (65535), 6⟩).trans (congrArg (run env bootstrap 11) b1_s6)
      _ = run env bootstrap 10 ⟨2, 65534, updateRam (updateRam (ram0) (0) (256)) (1) (65535), 8⟩ := (run_succ env bootstrap 10 ⟨2, 256, updateRam (updateRam (ram0) (0) (256)) (1) (65535), 7⟩).trans (congrArg (run env bootstrap 10) b1_s7)
      _ = run env bootstrap 9 ⟨2, 65534, updateRam (updateRam (ram0) (0) (256)) (1) (65535), 9⟩ := (run_succ env bootstrap 9 ⟨2, 65534, updateRam (updateRam (ram0) (0) (256)) (1) (65535), 8⟩).trans (congrArg (run env bootstrap 9) b1_s8)
      _ = run env bootstrap 8 ⟨2, 65534, updateRam (updateRam (updateRam (ram0) (0) (256)) (1) (65535)) (2) (65534), 10⟩ := (run_succ env bootstrap 8 ⟨2, 65534, updateRam (updateRam (ram0) (0) (256)) (1) (65535), 9⟩).trans (congrArg (run env bootstrap 8) b1_s9)
      _ = run env bootstrap 7 ⟨3, 65534, updateRam (updateRam (updateRam (ram0) (0) (256)) (1) (65535)) (2) (65534), 11⟩ := (run_succ env bootstrap 7 ⟨2, 65534, updateRam (updateRam (updateRam (ram0) (0) (256)) (1) (65535)) (2) (65534), 10⟩).trans (congrArg (run env bootstrap 7) b1_s10)
      _ = run env bootstrap 6 ⟨3, 65533, updateRam (updateRam (updateRam (ram0) (0) (256)) (1) (65535)) (2) (65534), 12⟩ := (run_succ env bootstrap 6 ⟨3, 65534, updateRam (updateRam (updateRam (ram0) (0) (256)) (1) (65535)) (2) (65534), 11⟩).trans (congrArg (run env bootstrap 6) b1_s11)
      _ = run env bootstrap 5 ⟨3, 65533, updateRam (updateRam (updateRam (ram0) (0) (256)) (1) (65535)) (2) (65534), 13⟩ := (run_succ env bootstrap 5 ⟨3, 65533, updateRam (updateRam (updateRam (ram0) (0) (256)) (1) (65535)) (2) (65534), 12⟩).trans (congrArg (run env bootstrap 5) b1_s12)
      _ = run env bootstrap 4 ⟨3, 65533, updateRam (updateRam (updateRam (updateRam (ram0) (0) (256)) (1) (65535)) (2) (65534)) (3) (65533), 14⟩ := (run_succ env bootstrap 4 ⟨3, 65533, updateRam (updateRam (updateRam (ram0) (0) (256)) (1) (65535)) (2) (65534), 13⟩).trans (congrArg (run env bootstrap 4) b1_s13)
      _ = run env bootstrap 3 ⟨4, 65533, updateRam (updateRam (updateRam (updateRam (ram0) (0) (256)) (1) (65535)) (2) (65534)) (3) (65533), 15⟩ := (run_succ env bootstrap 3 ⟨3, 65533, updateRam (updateRam (updateRam (updateRam (ram0) (0) (256)) (1) (65535)) (2) (65534)) (3) (65533), 14⟩).trans (congrArg (run env bootstrap 3) b1_s14)
      _ = run env bootstrap 2 ⟨4, 65532, updateRam (updateRam (updateRam (updateRam (ram0) (0) (256)) (1) (65535)) (2) (65534)) (3) (65533), 16⟩ := (run_succ env bootstrap 2 ⟨4, 65533, updateRam (updateRam (updateRam (updateRam (ram0) (0) (256)) (1) (65535)) (2) (65534)) (3) (65533), 15⟩).trans (congrArg (run env bootstrap 2) b1_s15)
      _ = run env bootstrap 1 ⟨4, 65532, updateRam (updateRam (updateRam (updateRam (ram0) (0) (256)) (1) (65535)) (2) (65534)) (3) (65533), 17⟩ := (run_succ env bootstrap 1 ⟨4, 65532, updateRam (updateRam (updateRam (updateRam (ram0) (0) (256)) (1) (65535)) (2) (65534)) (3) (65533), 16⟩).trans (congrArg (run env bootstrap 1) b1_s16)
      _ = run env bootstrap 0 ⟨4, 65532, updateRam (updateRam (updateRam (updateRam (updateRam (ram0) (0) (256)) (1) (65535)) (2) (65534)) (3) (65533)) (4) (65532), 18⟩ := (run_succ env bootstrap 0 ⟨4, 65532, updateRam (updateRam (updateRam (updateRam (ram0) (0) (256)) (1) (65535)) (2) (65534)) (3) (65533), 17⟩).trans (congrArg (run env bootstrap 0) b1_s17)
      _ = ⟨4, 65532, updateRam (updateRam (updateRam (updateRam (updateRam (ram0) (0) (256)) (1) (65535)) (2) (65534)) (3) (65533)) (4) (65532), 18⟩ := run_zero env bootstrap ⟨4, 65532, updateRam (updateRam (updateRam (updateRam (updateRam (ram0) (0) (256)) (1) (65535)) (2) (65534)) (3) (65533)) (4) (65532), 18⟩
  have b2_e0 : nth bootstrap 0 = some (.atNum 256) := rfl
  have b2_s0 : step env bootstrap ⟨a0, d0, ram0, 0⟩ = ⟨256, d0, ram0, 1⟩ := by
    rw [step_at b2_e0, applyInstr_atNum]
    all_goals simp only [evalComp, w16, updateRam_read, jumpTaken, Mach.mk.injEq, reduceIte, Nat.reduceAdd, Nat.reduceMod, Nat.reduceSub, Nat.reduceEqDiff, Nat.mod_mod, and_true, true_and, and_self, if_true, if_false]
  have b2_e1 : nth bootstrap 1 = some (.cinstr dD .ca .jnone) := rfl
  have b2_s1 : step env bootstrap ⟨256, d0, ram0, 1⟩ = ⟨256, 256, ram0, 2⟩ := by
    rw [step_at b2_e1, applyInstr_cD]
    all_goals simp only [evalComp, w16, updateRam_read, jumpTaken, Mach.mk.injEq, reduceIte, Nat.reduceAdd, Nat.reduceMod, Nat.reduceSub, Nat.reduceEqDiff, Nat.mod_mod, and_true, true_and, and_self, if_true, if_false]
  have b2_e2 : nth bootstrap 2 = some (.atSym "SP") := rfl
  have b2_r0 : resolveSym bootstrap env ("SP") = 0 := rfl
  have b2_s2 : step env bootstrap ⟨256, 256, ram0, 2⟩ = ⟨0, 256, ram0, 3⟩ := by
    rw [step_at b2_e2, applyInstr_atSym]
    all_goals simp only [evalComp, w16, updateRam_read, jumpTaken, Mach.mk.injEq, reduceIte, Nat.reduceAdd, Nat.reduceMod, Nat.reduceSub, Nat.reduceEqDiff, Nat.mod_mod, and_true, true_and, and_self, if_true, if_false, b2_r0]
  have b2_e3 : nth bootstrap 3 = some (.cinstr dM .cd .jnone) := rfl
  have b2_s3 : step env bootstrap ⟨0, 256, ram0, 3⟩ = ⟨0, 256, updateRam (ram0) (0) (256), 4⟩ := by
    rw [step_at b2_e3, applyInstr_cM]
    all_goals simp only [evalComp, w16, updateRam_read, jumpTaken, Mach.mk.injEq, reduceIte, Nat.reduceAdd, Nat.reduceMod, Nat.reduceSub, Nat.reduceEqDiff, Nat.mod_mod, and_true, true_and, and_self, if_true, if_false]
  have b2_e4 : nth bootstrap 4 = some (.atSym "LCL") := rfl
  have b2_r1 : resolveSym bootstrap env ("LCL") = 1 := rfl
  have b2_s4 : step env bootstrap ⟨0, 256, updateRam (ram0) (0) (256), 4⟩ = ⟨1, 256, updateRam (ram0) (0) (256), 5⟩ := by
    rw [step_at b2_e4, applyInstr_atSym]
    all_goals simp only [evalComp, w16, updateRam_read, jumpTaken, Mach.mk.injEq, reduceIte, Nat.reduceAdd, Nat.reduceMod, Nat.reduceSub, Nat.reduceEqDiff, Nat.mod_mod, and_true, true_and, and_self, if_true, if_false, b2_r1]
  have b2_e5 : nth bootstrap 5 = some (.cinstr dM .negOne .jnone) := rfl
  have b2_s5 : step env bootstrap ⟨1, 256, updateRam (ram0) (0) (256), 5⟩ = ⟨1, 256, updateRam (updateRam (ram0) (0) (256)) (1) (65535), 6⟩ := by
    rw [step_at b2_e5, applyInstr_cM]
    all_goals simp only [evalComp, w16, updateRam_read, jumpTaken, Mach.mk.injEq, reduceIte, Nat.reduceAdd, Nat.reduceMod, Nat.reduceSub, Nat.reduceEqDiff, Nat.mod_mod, and_true, true_and, and_self, if_true, if_false]
  have b2_e6 : nth bootstrap 6 = some (.atNum 2) := rfl
  have b2_s6 : step env bootstrap ⟨1, 256, updateRam (updateRam (ram0) (0) (256)) (1) (65535), 6⟩ = ⟨2, 256, updateRam (updateRam (ram0) (0) (256)) (1) (65535), 7⟩ := by
    rw [step_at b2_e6, applyInstr_atNum]
    all_goals simp only [evalComp, w16, updateRam_read, jumpTaken, Mach.mk.injEq, reduceIte, Nat.reduceAdd, Nat.reduceMod, Nat.reduceSub, Nat.reduceEqDiff, Nat.mod_mod, and_true, true_and, and_self, if_true, if_false]
  have b2_e7 : nth bootstrap 7 = some (.cinstr dD .negA .jnone) := rfl
  have b2_s7 : step env bootstrap ⟨2, 256, updateRam (updateRam (ram0) (0) (256)) (1) (65535), 7⟩ = ⟨2, 65534, updateRam (updateRam (ram0) (0) (256)) (1) (65535), 8⟩ := by
    rw [step_at b2_e7, applyInstr_cD]
    all_goals simp only [evalComp, w16, updateRam_read, jumpTaken, Mach.mk.injEq, reduceIte, Nat.reduceAdd, Nat.reduceMod, Nat.reduceSub, Nat.reduceEqDiff, Nat.mod_mod, and_true, true_and, and_self, if_true, if_false]
  have b2_e8 : nth bootstrap 8 = some (.atSym "ARG") := rfl
  have b2_r2 : resolveSym bootstrap env ("ARG") = 2 := rfl
  have b2_s8 : step env bootstrap ⟨2, 65534, updateRam (updateRam (ram0) (0) (256)) (1) (65535), 8⟩ = ⟨2, 65534, updateRam (updateRam (ram0) (0) (256)) (1) (65535), 9⟩ := by
    rw [step_at b2_e8, applyInstr_atSym]
    all_goals simp only [evalComp, w16, updateRam_read, jumpTaken, Mach.mk.injEq, reduceIte, Nat.reduceAdd, Nat.reduceMod, Nat.reduceSub, Nat.reduceEqDiff, Nat.mod_mod, and_true, true_and, and_self, if_true, if_false, b2_r2]
  have b2_e9 : nth bootstrap 9 = some (.cinstr dM .cd .jnone) := rfl
  have b2_s9 : step env bootstrap ⟨2, 65534, updateRam (updateRam (ram0) (0) (256)) (1) (65535), 9⟩ = ⟨2, 65534, updateRam (updateRam (updateRam (ram0) (0) (256)) (1) (65535)) (2) (65534), 10⟩ := by
    rw [step_at b2_e9, applyInstr_cM]
    all_goals simp only [evalComp, w16, updateRam_read, jumpTaken, Mach.mk.injEq, reduceIte, Nat.reduceAdd, Nat.reduceMod, Nat.reduceSub, Nat.reduceEqDiff, Nat.mod_mod, and_true, true_and, and_self, if_true, if_false]
  have b2_e10 : nth bootstrap 10 = some (.atNum 3) := rfl
  have b2_s10 : step env bootstrap ⟨2, 65534, updateRam (updateRam (updateRam (ram0) (0) (256)) (1) (65535)) (2) (65534), 10⟩ = ⟨3, 65534, updateRam (updateRam (updateRam (ram0) (0) (256)) (1) (65535)) (2) (65534), 11⟩ := by
    rw [step_at b2_e10, applyInstr_atNum]
    all_goals simp only [evalComp, w16, updateRam_read, jumpTaken, Mach.mk.injEq, reduceIte, Nat.reduceAdd, Nat.reduceMod, Nat.reduceSub, Nat.reduceEqDiff, Nat.mod_mod, and_true, true_and, and_self, if_true, if_false]
  have b2_e11 : nth bootstrap 11 = some (.cinstr dD .negA .jnone) := rfl
  have b2_s11 : step env bootstrap ⟨3, 65534, updateRam (updateRam (updateRam (ram0) (0) (256)) (1) (65535)) (2) (65534), 11⟩ = ⟨3, 65533, updateRam (updateRam (updateRam (ram0) (0) (256)) (1) (65535)) (2) (65534), 12⟩ := by
    rw [step_at b2_e11, applyInstr_cD]
    all_goals simp only [evalComp, w16, updateRam_read, jumpTaken, Mach.mk.injEq, reduceIte, Nat.reduceAdd, Nat.reduceMod, Nat.reduceSub, Nat.reduceEqDiff, Nat.mod_mod, and_true, true_and, and_self, if_true, if_false]
  have b2_e12 : nth bootstrap 12 = some (.atSym "THIS") := rfl
  have b2_r3 : resolveSym bootstrap env ("THIS") = 3 := rfl
  have b2_s12 : step env bootstrap ⟨3, 65533, updateRam (updateRam (updateRam (ram0) (0) (256)) (1) (65535)) (2) (65534), 12⟩ = ⟨3, 65533, updateRam (updateRam (updateRam (ram0) (0) (256)) (1) (65535)) (2) (65534), 13⟩ := by
    rw [step_at b2_e12, applyInstr_atSym]
    all_goals simp only [evalComp, w16, updateRam_read, jumpTaken, Mach.mk.injEq, reduceIte, Nat.reduceAdd, Nat.reduceMod, Nat.reduceSub, Nat.reduceEqDiff, Nat.mod_mod, and_true, true_and, and_self, if_true, if_false, b2_r3]
  have b2_e13 : nth bootstrap 13 = some (.cinstr dM .cd .jnone) := rfl
  have b2_s13 : step env bootstrap ⟨3, 65533, updateRam (updateRam (updateRam (ram0) (0) (256)) (1) (65535)) (2) (65534), 13⟩ = ⟨3, 65533, updateRam (updateRam (updateRam (updateRam (ram0) (0) (256)) (1) (65535)) (2) (65534)) (3) (65533), 14⟩ := by
    rw [step_at b2_e13, applyInstr_cM]
    all_goals simp only [evalComp, w16, updateRam_read, jumpTaken, Mach.mk.injEq, reduceIte, Nat.reduceAdd, Nat.reduceMod, Nat.reduceSub, Nat.reduceEqDiff, Nat.mod_mod, and_true, true_and, and_self, if_true, if_false]
  have b2_e14 : nth bootstrap 14 = some (.atNum 4) := rfl
  have b2_s14 : step env bootstrap ⟨3, 65533, updateRam (updateRam (updateRam (updateRam (ram0) (0) (256)) (1) (65535)) (2) (65534)) (3) (65533), 14⟩ = ⟨4, 65533, updateRam (updateRam (updateRam (updateRam (ram0) (0) (256)) (1) (65535)) (2) (65534)) (3) (65533), 15⟩ := by
    rw [step_at b2_e14, applyInstr_atNum]
    all_goals simp only [evalComp, w16, updateRam_read, jumpTaken, Mach.mk.injEq, reduceIte, Nat.reduceAdd, Nat.reduceMod, Nat.reduceSub, Nat.reduceEqDiff, Nat.mod_mod, and_true, true_and, and_self, if_true, if_false]
  have b2_e15 : nth bootstrap 15 = some (.cinstr dD .negA .jnone) := rfl
  have b2_s15 : step env bootstrap ⟨4, 65533, updateRam (updateRam (updateRam (updateRam (ram0) (0) (256)) (1) (65535)) (2) (65534)) (3) (65533), 15⟩ = ⟨4, 65532, updateRam (updateRam (updateRam (updateRam (ram0) (0) (256)) (1) (65535)) (2) (65534)) (3) (65533), 16⟩ := by
    rw [step_at b2_e15, applyInstr_cD]
    all_goals simp only [evalComp, w16, updateRam_read, jumpTaken, Mach.mk.injEq, reduceIte, Nat.reduceAdd, Nat.reduceMod, Nat.reduceSub, Nat.reduceEqDiff, Nat.mod_mod, and_true, true_and, and_self, if_true, if_false]
  have b2_e16 : nth bootstrap 16 = some (.atSym "THAT") := rfl
  have b2_r4 : resolveSym bootstrap env ("THAT") = 4 := rfl
  have b2_s16 : step env bootstrap ⟨4, 65532, updateRam (updateRam (updateRam (updateRam (ram0) (0) (256)) (1) (65535)) (2) (65534)) (3) (65533), 16⟩ = ⟨4, 65532, updateRam (updateRam (updateRam (updateRam (ram0) (0) (256)) (1) (65535)) (2) (65534)) (3) (65533), 17⟩ := by
    rw [step_at b2_e16, applyInstr_atSym]
    all_goals simp only [evalComp, w16, updateRam_read, jumpTaken, Mach.mk.injEq, reduceIte, Nat.reduceAdd, Nat.reduceMod, Nat.reduceSub, Nat.reduceEqDiff, Nat.mod_mod, and_true, true_and, and_self, if_true, if_false, b2_r4]
  have b2_e17 : nth bootstrap 17 = some (.cinstr dM .cd .jnone) := rfl
  have b2_s17 : step env bootstrap ⟨4, 65532, updateRam (updateRam (updateRam (updateRam (ram0) (0) (256)) (1) (65535)) (2) (65534)) (3) (65533), 17⟩ = ⟨4, 65532, updateRam (updateRam (updateRam (updateRam (updateRam (ram0) (0) (256)) (1) (65535)) (2) (65534)) (3) (65533)) (4) (65532), 18⟩ := by
    rw [step_at b2_e17, applyInstr_cM]
    all_goals simp only [evalComp, w16, updateRam_read, jumpTaken, Mach.mk.injEq, reduceIte, Nat.reduceAdd, Nat.reduceMod, Nat.reduceSub, Nat.reduceEqDiff, Nat.mod_mod, and_true, true_and, and_self, if_true, if_false]
  have b2_e18 : nth bootstrap 18 = some (.atSym (returnLabel "Bootstrap" 0)) := rfl
  have b2_r5 : resolveSym bootstrap env (returnLabel "Bootstrap" 0) = 65 := rfl
  have b2_s18 : step env bootstrap ⟨4, 65532, updateRam (updateRam (updateRam (updateRam (updateRam (ram0) (0) (256)) (1) (65535)) (2) (65534)) (3) (65533)) (4) (65532), 18⟩ = ⟨65, 65532, updateRam (updateRam (updateRam (updateRam (updateRam (ram0) (0) (256)) (1) (65535)) (2) (65534)) (3) (65533)) (4) (65532), 19⟩ := by
    rw [step_at b2_e18, applyInstr_atSym]
    all_goals simp only [evalComp, w16, updateRam_read, jumpTaken, Mach.mk.injEq, reduceIte, Nat.reduceAdd, Nat.reduceMod, Nat.reduceSub, Nat.reduceEqDiff, Nat.mod_mod, and_true, true_and, and_self, if_true, if_false, b2_r5]
  have b2_e19 : nth bootstrap 19 = some (.cinstr dD .ca .jnone) := rfl
  have b2_s19 : step env bootstrap ⟨65, 65532, updateRam (updateRam (updateRam (updateRam (updateRam (ram0) (0) (256)) (1) (65535)) (2) (65534)) (3) (65533)) (4) (65532), 19⟩ = ⟨65, 65, updateRam (updateRam (updateRam (updateRam (updateRam (ram0) (0) (256)) (1) (65535)) (2) (65534)) (3) (65533)) (4) (65532), 20⟩ := by
    rw [step_at b2_e19, applyInstr_cD]
    all_goals simp only [evalComp, w16, updateRam_read, jumpTaken, Mach.mk.injEq, reduceIte, Nat.reduceAdd, Nat.reduceMod, Nat.reduceSub, Nat.reduceEqDiff, Nat.mod_mod, and_true, true_and, and_self, if_true, if_false]
  have b2_e20 : nth bootstrap 20 = some (.atSym "SP") := rfl
  have b2_s20 : step env bootstrap ⟨65, 65, updateRam (updateRam (updateRam (updateRam (updateRam (ram0) (0) (256)) (1) (65535)) (2) (65534)) (3) (65533)) (4) (65532), 20⟩ = ⟨0, 65, updateRam (updateRam (updateRam (updateRam (updateRam (ram0) (0) (256)) (1) (65535)) (2) (65534)) (3) (65533)) (4) (65532), 21⟩ := by
    rw [step_at b2_e20, applyInstr_atSym]
    all_goals simp only [evalComp, w16, updateRam_read, jumpTaken, Mach.mk.injEq, reduceIte, Nat.reduceAdd, Nat.reduceMod, Nat.reduceSub, Nat.reduceEqDiff, Nat.mod_mod, and_true, true_and, and_self, if_true, if_false, b2_r0]
  have b2_e21 : nth bootstrap 21 = some (.cinstr dA .cm .jnone) := rfl
  have b2_s21 : step env bootstrap ⟨0, 65, updateRam (updateRam (updateRam (updateRam (updateRam (ram0) (0) (256)) (1) (65535)) (2) (65534)) (3) (65533)) (4) (65532), 21⟩ = ⟨256, 65, updateRam (updateRam (updateRam (updateRam (updateRam (ram0) (0) (256)) (1) (65535)) (2) (65534)) (3) (65533)) (4) (65532), 22⟩ := by
    rw [step_at b2_e21, applyInstr_cA]
    all_goals simp only [evalComp, w16, updateRam_read, jumpTaken, Mach.mk.injEq, reduceIte, Nat.reduceAdd, Nat.reduceMod, Nat.reduceSub, Nat.reduceEqDiff, Nat.mod_mod, and_true, true_and, and_self, if_true, if_false]
  have b2_e22 : nth bootstrap 22 = some (.cinstr dM .cd .jnone) := rfl
  have b2_s22 : step env bootstrap ⟨256, 65, updateRam (updateRam (updateRam (updateRam (updateRam (ram0) (0) (256)) (1) (65535)) (2) (65534)) (3) (65533)) (4) (65532), 22⟩ = ⟨256, 65, updateRam (updateRam (updateRam (updateRam (updateRam (updateRam (ram0) (0) (256)) (1) (65535)) (2) (65534)) (3) (65533)) (4) (65532)) (256) (65), 23⟩ := by
    rw [step_at b2_e22, applyInstr_cM]
    all_goals simp only [evalComp, w16, updateRam_read, jumpTaken, Mach.mk.injEq, reduceIte, Nat.reduceAdd, Nat.reduceMod, Nat.reduceSub, Nat.reduceEqDiff, Nat.mod_mod, and_true, true_and, and_self, if_true, if_false]
  have b2_e23 : nth bootstrap 23 = some (.atSym "SP") := rfl
  have b2_s23 : step env bootstrap ⟨256, 65, updateRam (updateRam (updateRam (updateRam (updateRam (updateRam (ram0) (0) (256)) (1) (65535)) (2) (65534)) (3) (65533)) (4) (65532)) (256) (65), 23⟩ = ⟨0, 65, updateRam (updateRam (updateRam (updateRam (updateRam (updateRam (ram0) (0) (256)) (1) (65535)) (2) (65534)) (3) (65533)) (4) (65532)) (256) (65), 24⟩ := by
    rw [step_at b2_e23, applyInstr_atSym]
    all_goals simp only [evalComp, w16, updateRam_read, jumpTaken, Mach.mk.injEq, reduceIte, Nat.reduceAdd, Nat.reduceMod, Nat.reduceSub, Nat.reduceEqDiff, Nat.mod_mod, and_true, true_and, and_self, if_true, if_false, b2_r0]
  have b2_e24 : nth bootstrap 24 = some (.cinstr dM .mPlus1 .jnone) := rfl
  have b2_s24 : step env bootstrap ⟨0, 65, updateRam (updateRam (updateRam (updateRam (updateRam (updateRam (ram0) (0) (256)) (1) (65535)) (2) (65534)) (3) (65533)) (4) (65532)) (256) (65), 24⟩ = ⟨0, 65, updateRam (updateRam (updateRam (updateRam (updateRam (updateRam (updateRam (ram0) (0) (256)) (1) (65535)) (2) (65534)) (3) (65533)) (4) (65532)) (256) (65)) (0) (257), 25⟩ := by
    rw [step_at b2_e24, applyInstr_cM]
    all_goals simp only [evalComp, w16, updateRam_read, jumpTaken, Mach.mk.injEq, reduceIte, Nat.reduceAdd, Nat.reduceMod, Nat.reduceSub, Nat.reduceEqDiff, Nat.mod_mod, and_true, true_and, and_self, if_true, if_false]
  have b2_e25 : nth bootstrap 25 = some (.atSym "LCL") := rfl
  have b2_s25 : step env bootstrap ⟨0, 65, updateRam (updateRam (updateRam (updateRam (updateRam (updateRam (updateRam (ram0) (0) (256)) (1) (65535)) (2) (65534)) (3) (65533)) (4) (65532)) (256) (65)) (0) (257), 25⟩ = ⟨1, 65, updateRam (updateRam (updateRam (updateRam (updateRam (updateRam (updateRam (ram0) (0) (256)) (1) (65535)) (2) (65534)) (3) (65533)) (4) (65532)) (256) (65)) (0) (257), 26⟩ := by
    rw [step_at b2_e25, applyInstr_atSym]
    all_goals simp only [evalComp, w16, updateRam_read, jumpTaken, Mach.mk.injEq, reduceIte, Nat.reduceAdd, Nat.reduceMod, Nat.reduceSub, Nat.reduceEqDiff, Nat.mod_mod, and_true, true_and, and_self, if_true, if_false, b2_r1]
  have b2_e26 : nth bootstrap 26 = some (.cinstr dD .cm .jnone) := rfl
  have b2_s26 : step env bootstrap ⟨1, 65, updateRam (updateRam (updateRam (updateRam (updateRam (updateRam (updateRam (ram0) (0) (256)) (1) (65535)) (2) (65534)) (3) (65533)) (4) (65532)) (256) (65)) (0) (257), 26⟩ = ⟨1, 65535, updateRam (updateRam (updateRam (updateRam (updateRam (updateRam (updateRam (ram0) (0) (256)) (1) (65535)) (2) (65534)) (3) (65533)) (4) (65532)) (256) (65)) (0) (257), 27⟩ := by
    rw [step_at b2_e26, applyInstr_cD]
    all_goals simp only [evalComp, w16, updateRam_read, jumpTaken, Mach.mk.injEq, reduceIte, Nat.reduceAdd, Nat.reduceMod, Nat.reduceSub, Nat.reduceEqDiff, Nat.mod_mod, and_true, true_and, and_self, if_true, if_false]
  have b2_e27 : nth bootstrap 27 = some (.atSym "SP") := rfl
  have b2_s27 : step env bootstrap ⟨1, 65535, updateRam (updateRam (updateRam (updateRam (updateRam (updateRam (updateRam (ram0) (0) (256)) (1) (65535)) (2) (65534)) (3) (65533)) (4) (65532)) (256) (65)) (0) (257), 27⟩ = ⟨0, 65535, updateRam (updateRam (updateRam (updateRam (updateRam (updateRam (updateRam (ram0) (0) (256)) (1) (65535)) (2) (65534)) (3) (65533)) (4) (65532)) (256) (65)) (0) (257), 28⟩ := by
    rw [step_at b2_e27, applyInstr_atSym]
    all_goals simp only [evalComp, w16, updateRam_read, jumpTaken, Mach.mk.injEq, reduceIte, Nat.reduceAdd, Nat.reduceMod, Nat.reduceSub, Nat.reduceEqDiff, Nat.mod_mod, and_true, true_and, and_self, if_true, if_false, b2_r0]
  have b2_e28 : nth bootstrap 28 = some (.cinstr dA .cm .jnone) := rfl
  have b2_s28 : step env bootstrap ⟨0, 65535, updateRam (updateRam (updateRam (updateRam (updateRam (updateRam (updateRam (ram0) (0) (256)) (1) (65535)) (2) (65534)) (3) (65533)) (4) (65532)) (256) (65)) (0) (257), 28⟩ = ⟨257, 65535, updateRam (updateRam (updateRam (updateRam (updateRam (updateRam (updateRam (ram0) (0) (256)) (1) (65535)) (2) (65534)) (3) (65533)) (4) (65532)) (256) (65)) (0) (257), 29⟩ := by
    rw [step_at b2_e28, applyInstr_cA]
    all_goals simp only [evalComp, w16, updateRam_read, jumpTaken, Mach.mk.injEq, reduceIte, Nat.reduceAdd, Nat.reduceMod, Nat.reduceSub, Nat.reduceEqDiff, Nat.mod_mod, and_true, true_and, and_self, if_true, if_false]
  have b2_e29 : nth bootstrap 29 = some (.cinstr dM .cd .jnone) := rfl
  have b2_s29 : step env bootstrap ⟨257, 65535, updateRam (updateRam (updateRam (updateRam (updateRam (updateRam (updateRam (ram0) (0) (256)) (1) (65535)) (2) (65534)) (3) (65533)) (4) (65532)) (256) (65)) (0) (257), 29⟩ = ⟨257, 65535, updateRam (updateRam (updateRam (updateRam (updateRam (updateRam (updateRam (updateRam (ram0) (0) (256)) (1) (65535)) (2) (65534)) (3) (65533)) (4) (65532)) (256) (65)) (0) (257)) (257) (65535), 30⟩ := by
    rw [step_at b2_e29, applyInstr_cM]
    all_goals simp only [evalComp, w16, updateRam_read, jumpTaken, Mach.mk.injEq, reduceIte, Nat.reduceAdd, Nat.reduceMod, Nat.reduceSub, Nat.reduceEqDiff, Nat.mod_mod, and_true, true_and, and_self, if_true, if_false]
  have b2_e30 : nth bootstrap 30 = some (.atSym "SP") := rfl
  have b2_s30 : step env bootstrap ⟨257, 65535, updateRam (updateRam (updateRam (updateRam (updateRam (updateRam (updateRam (updateRam (ram0) (0) (256)) (1) (65535)) (2) (65534)) (3) (65533)) (4) (65532)) (256) (65)) (0) (257)) (257) (65535), 30⟩ = ⟨0, 65535, updateRam (updateRam (updateRam (updateRam (updateRam (updateRam (updateRam (updateRam (ram0) (0) (256)) (1) (65535)) (2) (65534)) (3) (65533)) (4) (65532)) (256) (65)) (0) (257)) (257) (65535), 31⟩ := by
    rw [step_at b2_e30, applyInstr_atSym]
    all_goals simp only [evalComp, w16, updateRam_read, jumpTaken, Mach.mk.injEq, reduceIte, Nat.reduceAdd, Nat.reduceMod, Nat.reduceSub, Nat.reduceEqDiff, Nat.mod_mod, and_true, true_and, and_self, if_true, if_false, b2_r0]
  have b2_e31 : nth bootstrap 31 = some (.cinstr dM .mPlus1 .jnone) := rfl
  have b2_s31 : step env bootstrap ⟨0, 65535, updateRam (updateRam (updateRam (updateRam (updateRam (updateRam (updateRam (updateRam (ram0) (0) (256)) (1) (65535)) (2) (65534)) (3) (65533)) (4) (65532)) (256) (65)) (0) (257)) (257) (65535), 31⟩ = ⟨0, 65535, updateRam (updateRam (updateRam (updateRam (updateRam (updateRam (updateRam (updateRam (updateRam (ram0) (0) (256)) (1) (65535)) (2) (65534)) (3) (65533)) (4) (65532)) (256) (65)) (0) (257)) (257) (65535)) (0) (258), 32⟩ := by
    rw [step_at b2_e31, applyInstr_cM]
    all_goals simp only [evalComp, w16, updateRam_read, jumpTaken, Mach.mk.injEq, reduceIte, Nat.reduceAdd, Nat.reduceMod, Nat.reduceSub, Nat.reduceEqDiff, Nat.mod_mod, and_true, true_and, and_self, if_true, if_false]
  have b2_e32 : nth bootstrap 32 = some (.atSym "ARG") := rfl
  have b2_s32 : step env bootstrap ⟨0, 65535, updateRam (updateRam (updateRam (updateRam (updateRam (updateRam (updateRam (updateRam (updateRam (ram0) (0) (256)) (1) (65535)) (2) (65534)) (3) (65533)) (4) (65532)) (256) (65)) (0) (257)) (257) (65535)) (0) (258), 32⟩ = ⟨2, 65535, updateRam (updateRam (updateRam (updateRam (updateRam (updateRam (updateRam (updateRam (updateRam (ram0) (0) (256)) (1) (65535)) (2) (65534)) (3) (65533)) (4) (65532)) (256) (65)) (0) (257)) (257) (65535)) (0) (258), 33⟩ := by
    rw [step_at b2_e32, applyInstr_atSym]
    all_goals simp only [evalComp, w16, updateRam_read, jumpTaken, Mach.mk.injEq, reduceIte, Nat.reduceAdd, Nat.reduceMod, Nat.reduceSub, Nat.reduceEqDiff, Nat.mod_mod, and_true, true_and, and_self, if_true, if_false, b2_r2]
  have b2_e33 : nth bootstrap 33 = some (.cinstr dD .cm .jnone) := rfl
  have b2_s33 : step env bootstrap ⟨2, 65535, updateRam (updateRam (updateRam (updateRam (updateRam (updateRam (updateRam (updateRam (updateRam (ram0) (0) (256)) (1) (65535)) (2) (65534)) (3) (65533)) (4) (65532)) (256) (65)) (0) (257)) (257) (65535)) (0) (258), 33⟩ = ⟨2, 65534, updateRam (updateRam (updateRam (updateRam (updateRam (updateRam (updateRam (updateRam (updateRam (ram0) (0) (256)) (1) (65535)) (2) (65534)) (3) (65533)) (4) (65532)) (256) (65)) (0) (257)) (257) (65535)) (0) (258), 34⟩ := by
    rw [step_at b2_e33, applyInstr_cD]
    all_goals simp only [evalComp, w16, updateRam_read, jumpTaken, Mach.mk.injEq, reduceIte, Nat.reduceAdd, Nat.reduceMod, Nat.reduceSub, Nat.reduceEqDiff, Nat.mod_mod, and_true, true_and, and_self, if_true, if_false]
  have b2_e34 : nth bootstrap 34 = some (.atSym "SP") := rfl
  have b2_s34 : step env bootstrap ⟨2, 65534, updateRam (updateRam (updateRam (updateRam (updateRam (updateRam (updateRam (updateRam (updateRam (ram0) (0) (256)) (1) (65535)) (2) (65534)) (3) (65533)) (4) (65532)) (256) (65)) (0) (257)) (257) (65535)) (0) (258), 34⟩ = ⟨0, 65534, updateRam (updateRam (updateRam (updateRam (updateRam (updateRam (updateRam (updateRam (updateRam (ram0) (0) (256)) (1) (65535)) (2) (65534)) (3) (65533)) (4) (65532)) (256) (65)) (0) (257)) (257) (65535)) (0) (258), 35⟩ := by
    rw [step_at b2_e34, applyInstr_atSym]
    all_goals simp only [evalComp, w16, updateRam_read, jumpTaken, Mach.mk.injEq, reduceIte, Nat.reduceAdd, Nat.reduceMod, Nat.reduceSub, Nat.reduceEqDiff, Nat.mod_mod, and_true, true_and, and_self, if_true, if_false, b2_r0]
  have b2_e35 : nth bootstrap 35 = some (.cinstr dA .cm .jnone) := rfl
  have b2_s35 : step env bootstrap ⟨0, 65534, updateRam (updateRam (updateRam (updateRam (updateRam (updateRam (updateRam (updateRam (updateRam (ram0) (0) (256)) (1) (65535)) (2) (65534)) (3) (65533)) (4) (65532)) (256) (65)) (0) (257)) (257) (65535)) (0) (258), 35⟩ = ⟨258, 65534, updateRam (updateRam (updateRam (updateRam (updateRam (updateRam (updateRam (updateRam (updateRam (ram0) (0) (256)) (1) (65535)) (2) (65534)) (3) (65533)) (4) (65532)) (256) (65)) (0) (257)) (257) (65535)) (0) (258), 36⟩ := by
    rw [step_at b2_e35, applyInstr_cA]
    all_goals simp only [evalComp, w16, updateRam_read, jumpTaken, Mach.mk.injEq, reduceIte, Nat.reduceAdd, Nat.reduceMod, Nat.reduceSub, Nat.reduceEqDiff, Nat.mod_mod, and_true, true_and, and_self, if_true, if_false]
  have b2_e36 : nth bootstrap 36 = some (.cinstr dM .cd .jnone) := rfl
  have b2_s36 : step env bootstrap ⟨258, 65534, updateRam (updateRam (updateRam (updateRam (updateRam (updateRam (updateRam (updateRam (updateRam (ram0) (0) (256)) (1) (65535)) (2) (65534)) (3) (65533)) (4) (65532)) (256) (65)) (0) (257)) (257) (65535)) (0) (258), 36⟩ = ⟨258, 65534, updateRam (updateRam (updateRam (updateRam (updateRam (updateRam (updateRam (updateRam (updateRam (updateRam (ram0) (0) (256)) (1) (65535)) (2) (65534)) (3) (65533)) (4) (65532)) (256) (65)) (0) (257)) (257) (65535)) (0) (258)) (258) (65534), 37⟩ := by
    rw [step_at b2_e36, applyInstr_cM]
    all_goals simp only [evalComp, w16, updateRam_read, jumpTaken, Mach.mk.injEq, reduceIte, Nat.reduceAdd, Nat.reduceMod, Nat.reduceSub, Nat.reduceEqDiff, Nat.mod_mod, and_true, true_and, and_self, if_true, if_false]
  have b2_e37 : nth bootstrap 37 = some (.atSym "SP") := rfl
  have b2_s37 : step env bootstrap ⟨258, 65534, updateRam (updateRam (updateRam (updateRam (updateRam (updateRam (updateRam (updateRam (updateRam (updateRam (ram0) (0) (256)) (1) (65535)) (2) (65534)) (3) (65533)) (4) (65532)) (256) (65)) (0) (257)) (257) (65535)) (0) (258)) (258) (65534), 37⟩ = ⟨0, 65534, updateRam (updateRam (updateRam (updateRam (updateRam (updateRam (updateRam (updateRam (updateRam (updateRam (ram0) (0) (256)) (1) (65535)) (2) (65534)) (3) (65533)) (4) (65532)) (256) (65)) (0) (257)) (257) (65535)) (0) (258)) (258) (65534), 38⟩ := by
    rw [step_at b2_e37, applyInstr_atSym]
    all_goals simp only [evalComp, w16, updateRam_read, jumpTaken, Mach.mk.injEq, reduceIte, Nat.reduceAdd, Nat.reduceMod, Nat.reduceSub, Nat.reduceEqDiff, Nat.mod_mod, and_true, true_and, and_self, if_true, if_false, b2_r0]
  have b2_e38 : nth bootstrap 38 = some (.cinstr dM .mPlus1 .jnone) := rfl
  have b2_s38 : step env bootstrap ⟨0, 65534, updateRam (updateRam (updateRam (updateRam (updateRam (updateRam (updateRam (updateRam (updateRam (updateRam (ram0) (0) (256)) (1) (65535)) (2) (65534)) (3) (65533)) (4) (65532)) (256) (65)) (0) (257)) (257) (65535)) (0) (258)) (258) (65534), 38⟩ = ⟨0, 65534, updateRam (updateRam (updateRam (updateRam (updateRam (updateRam (updateRam (updateRam (updateRam (updateRam (updateRam (ram0) (0) (256)) (1) (65535)) (2) (65534)) (3) (65533)) (4) (65532)) (256) (65)) (0) (257)) (257) (65535)) (0) (258)) (258) (65534)) (0) (259), 39⟩ := by
    rw [step_at b2_e38, applyInstr_cM]
    all_goals simp only [evalComp, w16, updateRam_read, jumpTaken, Mach.mk.injEq, reduceIte, Nat.reduceAdd, Nat.reduceMod, Nat.reduceSub, Nat.reduceEqDiff, Nat.mod_mod, and_true, true_and, and_self, if_true, if_false]
  have b2_e39 : nth bootstrap 39 = some (.atSym "THIS") := rfl
  have b2_s39 : step env bootstrap ⟨0, 65534, updateRam (updateRam (updateRam (updateRam (updateRam (updateRam (updateRam (updateRam (updateRam (updateRam (updateRam (ram0) (0) (256)) (1) (65535)) (2) (65534)) (3) (65533)) (4) (65532)) (256) (65)) (0) (257)) (257) (65535)) (0) (258)) (258) (65534)) (0) (259), 39⟩ = ⟨3, 65534, updateRam (updateRam (updateRam (updateRam (updateRam (updateRam (updateRam (updateRam (updateRam (updateRam (updateRam (ram0) (0) (256)) (1) (65535)) (2) (65534)) (3) (65533)) (4) (65532)) (256) (65)) (0) (257)) (257) (65535)) (0) (258)) (258) (65534)) (0) (259), 40⟩ := by
    rw [step_at b2_e39, applyInstr_atSym]
    all_goals simp only [evalComp, w16, updateRam_read, jumpTaken, Mach.mk.injEq, reduceIte, Nat.reduceAdd, Nat.reduceMod, Nat.reduceSub, Nat.reduceEqDiff, Nat.mod_mod, and_true, true_and, and_self, if_true, if_false, b2_r3]
  have b2_e40 : nth bootstrap 40 = some (.cinstr dD .cm .jnone) := rfl
  have b2_s40 : step env bootstrap ⟨3, 65534, updateRam (updateRam (updateRam (updateRam (updateRam (updateRam (updateRam (updateRam (updateRam (updateRam (updateRam (ram0) (0) (256)) (1) (65535)) (2) (65534)) (3) (65533)) (4) (65532)) (256) (65)) (0) (257)) (257) (65535)) (0) (258)) (258) (65534)) (0) (259), 40⟩ = ⟨3, 65533, updateRam (updateRam (updateRam (updateRam (updateRam (updateRam (updateRam (updateRam (updateRam (updateRam (updateRam (ram0) (0) (256)) (1) (65535)) (2) (65534)) (3) (65533)) (4) (65532)) (256) (65)) (0) (257)) (257) (65535)) (0) (258)) (258) (65534)) (0) (259), 41⟩ := by
    rw [step_at b2_e40, applyInstr_cD]
    all_goals simp only [evalComp, w16, updateRam_read, jumpTaken, Mach.mk.injEq, reduceIte, Nat.reduceAdd, Nat.reduceMod, Nat.reduceSub, Nat.reduceEqDiff, Nat.mod_mod, and_true, true_and, and_self, if_true, if_false]
  have b2_e41 : nth bootstrap 41 = some (.atSym "SP") := rfl
  have b2_s41 : step env bootstrap ⟨3, 65533, updateRam (updateRam (updateRam (updateRam (updateRam (updateRam (updateRam (updateRam (updateRam (updateRam (updateRam (ram0) (0) (256)) (1) (65535)) (2) (65534)) (3) (65533)) (4) (65532)) (256) (65)) (0) (257)) (257) (65535)) (0) (258)) (258) (65534)) (0) (259), 41⟩ = ⟨0, 65533, updateRam (updateRam (updateRam (updateRam (updateRam (updateRam (updateRam (updateRam (updateRam (updateRam (updateRam (ram0) (0) (256)) (1) (65535)) (2) (65534)) (3) (65533)) (4) (65532)) (256) (65)) (0) (257)) (257) (65535)) (0) (258)) (258) (65534)) (0) (259), 42⟩ := by
    rw [step_at b2_e41, applyInstr_atSym]
    all_goals simp only [evalComp, w16, updateRam_read, jumpTaken, Mach.mk.injEq, reduceIte, Nat.reduceAdd, Nat.reduceMod, Nat.reduceSub, Nat.reduceEqDiff, Nat.mod_mod, and_true, true_and, and_self, if_true, if_false, b2_r0]
  have b2_e42 : nth bootstrap 42 = some (.cinstr dA .cm .jnone) := rfl
  have b2_s42 : step env bootstrap ⟨0, 65533, updateRam (updateRam (updateRam (updateRam (updateRam (updateRam (updateRam (updateRam (updateRam (updateRam (updateRam (ram0) (0) (256)) (1) (65535)) (2) (65534)) (3) (65533)) (4) (65532)) (256) (65)) (0) (257)) (257) (65535)) (0) (258)) (258) (65534)) (0) (259), 42⟩ = ⟨259, 65533, updateRam (updateRam (updateRam (updateRam (updateRam (updateRam (updateRam (updateRam (updateRam (updateRam (updateRam (ram0) (0) (256)) (1) (65535)) (2) (65534)) (3) (65533)) (4) (65532)) (256) (65)) (0) (257)) (257) (65535)) (0) (258)) (258) (65534)) (0) (259), 43⟩ := by
    rw [step_at b2_e42, applyInstr_cA]
    all_goals simp only [evalComp, w16, updateRam_read, jumpTaken, Mach.mk.injEq, reduceIte, Nat.reduceAdd, Nat.reduceMod, Nat.reduceSub, Nat.reduceEqDiff, Nat.mod_mod, and_true, true_and, and_self, if_true, if_false]
  have b2_e43 : nth bootstrap 43 = some (.cinstr dM .cd .jnone) := rfl
  have b2_s43 : step env bootstrap ⟨259, 65533, updateRam (updateRam (updateRam (updateRam (updateRam (updateRam (updateRam (updateRam (updateRam (updateRam (updateRam (ram0) (0) (256)) (1) (65535)) (2) (65534)) (3) (65533)) (4) (65532)) (256) (65)) (0) (257)) (257) (65535)) (0) (258)) (258) (65534)) (0) (259), 43⟩ = ⟨259, 65533, updateRam (updateRam (updateRam (updateRam (updateRam (updateRam (updateRam (updateRam (updateRam (updateRam (updateRam (updateRam (ram0) (0) (256)) (1) (65535)) (2) (65534)) (3) (65533)) (4) (65532)) (256) (65)) (0) (257)) (257) (65535)) (0) (258)) (258) (65534)) (0) (259)) (259) (65533), 44⟩ := by
    rw [step_at b2_e43, applyInstr_cM]
    all_goals simp only [evalComp, w16, updateRam_read, jumpTaken, Mach.mk.injEq, reduceIte, Nat.reduceAdd, Nat.reduceMod, Nat.reduceSub, Nat.reduceEqDiff, Nat.mod_mod, and_true, true_and, and_self, if_true, if_false]
  have b2_e44 : nth bootstrap 44 = some (.atSym "SP") := rfl
  have b2_s44 : step env bootstrap ⟨259, 65533, updateRam (updateRam (updateRam (updateRam (updateRam (updateRam (updateRam (updateRam (updateRam (updateRam (updateRam (updateRam (ram0) (0) (256)) (1) (65535)) (2) (65534)) (3) (65533)) (4) (65532)) (256) (65)) (0) (257)) (257) (65535)) (0) (258)) (258) (65534)) (0) (259)) (259) (65533), 44⟩ = ⟨0, 65533, updateRam (updateRam (updateRam (updateRam (updateRam (updateRam (updateRam (updateRam (updateRam (updateRam (updateRam (updateRam (ram0) (0) (256)) (1) (65535)) (2) (65534)) (3) (65533)) (4) (65532)) (256) (65)) (0) (257)) (257) (65535)) (0) (258)) (258) (65534)) (0) (259)) (259) (65533), 45⟩ := by
    rw [step_at b2_e44, applyInstr_atSym]
    all_goals simp only [evalComp, w16, updateRam_read, jumpTaken, Mach.mk.injEq, reduceIte, Nat.reduceAdd, Nat.reduceMod, Nat.reduceSub, Nat.reduceEqDiff, Nat.mod_mod, and_true, true_and, and_self, if_true, if_false, b2_r0]
  have b2_e45 : nth bootstrap 45 = some (.cinstr dM .mPlus1 .jnone) := rfl
  have b2_s45 : step env bootstrap ⟨0, 65533, updateRam (updateRam (updateRam (updateRam (updateRam (updateRam (updateRam (updateRam (updateRam (updateRam (updateRam (updateRam (ram0) (0) (256)) (1) (65535)) (2) (65534)) (3) (65533)) (4) (65532)) (256) (65)) (0) (257)) (257) (65535)) (0) (258)) (258) (65534)) (0) (259)) (259) (65533), 45⟩ = ⟨0, 65533, updateRam (updateRam (updateRam (updateRam (updateRam (updateRam (updateRam (updateRam (updateRam (updateRam (updateRam (updateRam (updateRam (ram0) (0) (256)) (1) (65535)) (2) (65534)) (3) (65533)) (4) (65532)) (256) (65)) (0) (257)) (257) (65535)) (0) (258)) (258) (65534)) (0) (259)) (259) (65533)) (0) (260), 46⟩ := by
    rw [step_at b2_e45, applyInstr_cM]
    all_goals simp only [evalComp, w16, updateRam_read, jumpTaken, Mach.mk.injEq, reduceIte, Nat.reduceAdd, Nat.reduceMod, Nat.reduceSub, Nat.reduceEqDiff, Nat.mod_mod, and_true, true_and, and_self, if_true, if_false]
  have b2_e46 : nth bootstrap 46 = some (.atSym "THAT") := rfl
  have b2_s46 : step env bootstrap ⟨0, 65533, updateRam (updateRam (updateRam (updateRam (updateRam (updateRam (updateRam (updateRam (updateRam (updateRam (updateRam (updateRam (updateRam (ram0) (0) (256)) (1) (65535)) (2) (65534)) (3) (65533)) (4) (65532)) (256) (65)) (0) (257)) (257) (65535)) (0) (258)) (258) (65534)) (0) (259)) (259) (65533)) (0) (260), 46⟩ = ⟨4, 65533, updateRam (updateRam (updateRam (updateRam (updateRam (updateRam (updateRam (updateRam (updateRam (updateRam (updateRam (updateRam (updateRam (ram0) (0) (256)) (1) (65535)) (2) (65534)) (3) (65533)) (4) (65532)) (256) (65)) (0) (257)) (257) (65535)) (0) (258)) (258) (65534)) (0) (259)) (259) (65533)) (0) (260), 47⟩ := by
    rw [step_at b2_e46, applyInstr_atSym]
    all_goals simp only [evalComp, w16, updateRam_read, jumpTaken, Mach.mk.injEq, reduceIte, Nat.reduceAdd, Nat.reduceMod, Nat.reduceSub, Nat.reduceEqDiff, Nat.mod_mod, and_true, true_and, and_self, if_true, if_false, b2_r4]
  have b2_e47 : nth bootstrap 47 = some (.cinstr dD .cm .jnone) := rfl
  have b2_s47 : step env bootstrap ⟨4, 65533, updateRam (updateRam (updateRam (updateRam (updateRam (updateRam (updateRam (updateRam (updateRam (updateRam (updateRam (updateRam (updateRam (ram0) (0) (256)) (1) (65535)) (2) (65534)) (3) (65533)) (4) (65532)) (256) (65)) (0) (257)) (257) (65535)) (0) (258)) (258) (65534)) (0) (259)) (259) (65533)) (0) (260), 47⟩ = ⟨4, 65532, updateRam (updateRam (updateRam (updateRam (updateRam (updateRam (updateRam (updateRam (updateRam (updateRam (updateRam (updateRam (updateRam (ram0) (0) (256)) (1) (65535)) (2) (65534)) (3) (65533)) (4) (65532)) (256) (65)) (0) (257)) (257) (65535)) (0) (258)) (258) (65534)) (0) (259)) (259) (65533)) (0) (260), 48⟩ := by
    rw [step_at b2_e47, applyInstr_cD]
    all_goals simp only [evalComp, w16, updateRam_read, jumpTaken, Mach.mk.injEq, reduceIte, Nat.reduceAdd, Nat.reduceMod, Nat.reduceSub, Nat.reduceEqDiff, Nat.mod_mod, and_true, true_and, and_self, if_true, if_false]
  have b2_e48 : nth bootstrap 48 = some (.atSym "SP") := rfl
  have b2_s48 : step env bootstrap ⟨4, 65532, updateRam (updateRam (updateRam (updateRam (updateRam (updateRam (updateRam (updateRam (updateRam (updateRam (updateRam (updateRam (updateRam (ram0) (0) (256)) (1) (65535)) (2) (65534)) (3) (65533)) (4) (65532)) (256) (65)) (0) (257)) (257) (65535)) (0) (258)) (258) (65534)) (0) (259)) (259) (65533)) (0) (260), 48⟩ = ⟨0, 65532, updateRam (updateRam (updateRam (updateRam (updateRam (updateRam (updateRam (updateRam (updateRam (updateRam (updateRam (updateRam (updateRam (ram0) (0) (256)) (1) (65535)) (2) (65534)) (3) (65533)) (4) (65532)) (256) (65)) (0) (257)) (257) (65535)) (0) (258)) (258) (65534)) (0) (259)) (259) (65533)) (0) (260), 49⟩ := by
    rw [step_at b2_e48, applyInstr_atSym]
    all_goals simp only [evalComp, w16, updateRam_read, jumpTaken, Mach.mk.injEq, reduceIte, Nat.reduceAdd, Nat.reduceMod, Nat.reduceSub, Nat.reduceEqDiff, Nat.mod_mod, and_true, true_and, and_self, if_true, if_false, b2_r0]
  have b2_e49 : nth bootstrap 49 = some (.cinstr dA .cm .jnone) := rfl
  have b2_s49 : step env bootstrap ⟨0, 65532, updateRam (updateRam (updateRam (updateRam (updateRam (updateRam (updateRam (updateRam (updateRam (updateRam (updateRam (updateRam (updateRam (ram0) (0) (256)) (1) (65535)) (2) (65534)) (3) (65533)) (4) (65532)) (256) (65)) (0) (257)) (257) (65535)) (0) (258)) (258) (65534)) (0) (259)) (259) (65533)) (0) (260), 49⟩ = ⟨260, 65532, updateRam (updateRam (updateRam (updateRam (updateRam (updateRam (updateRam (updateRam (updateRam (updateRam (updateRam (updateRam (updateRam (ram0) (0) (256)) (1) (65535)) (2) (65534)) (3) (65533)) (4) (65532)) (256) (65)) (0) (257)) (257) (65535)) (0) (258)) (258) (65534)) (0) (259)) (259) (65533)) (0) (260), 50⟩ := by
    rw [step_at b2_e49, applyInstr_cA]
    all_goals simp only [evalComp, w16, updateRam_read, jumpTaken, Mach.mk.injEq, reduceIte, Nat.reduceAdd, Nat.reduceMod, Nat.reduceSub, Nat.reduceEqDiff, Nat.mod_mod, and_true, true_and, and_self, if_true, if_false]
  have b2_e50 : nth bootstrap 50 = some (.cinstr dM .cd .jnone) := rfl
  have b2_s50 : step env bootstrap ⟨260, 65532, updateRam (updateRam (updateRam (updateRam (updateRam (updateRam (updateRam (updateRam (updateRam (updateRam (updateRam (updateRam (updateRam (ram0) (0) (256)) (1) (65535)) (2) (65534)) (3) (65533)) (4) (65532)) (256) (65)) (0) (257)) (257) (65535)) (0) (258)) (258) (65534)) (0) (259)) (259) (65533)) (0) (260), 50⟩ = ⟨260, 65532, updateRam (updateRam (updateRam (updateRam (updateRam (updateRam (updateRam (updateRam (updateRam (updateRam (updateRam (updateRam (updateRam (updateRam (ram0) (0) (256)) (1) (65535)) (2) (65534)) (3) (65533)) (4) (65532)) (256) (65)) (0) (257)) (257) (65535)) (0) (258)) (258) (65534)) (0) (259)) (259) (65533)) (0) (260)) (260) (65532), 51⟩ := by
    rw [step_at b2_e50, applyInstr_cM]
    all_goals simp only [evalComp, w16, updateRam_read, jumpTaken, Mach.mk.injEq, reduceIte, Nat.reduceAdd, Nat.reduceMod, Nat.reduceSub, Nat.reduceEqDiff, Nat.mod_mod, and_true, true_and, and_self, if_true, if_false]
  have b2_e51 : nth bootstrap 51 = some (.atSym "SP") := rfl
  have b2_s51 : step env bootstrap ⟨260, 65532, updateRam (updateRam (updateRam (updateRam (updateRam (updateRam (updateRam (updateRam (updateRam (updateRam (updateRam (updateRam (updateRam (updateRam (ram0) (0) (256)) (1) (65535)) (2) (65534)) (3) (65533)) (4) (65532)) (256) (65)) (0) (257)) (257) (65535)) (0) (258)) (258) (65534)) (0) (259)) (259) (65533)) (0) (260)) (260) (65532), 51⟩ = ⟨0, 65532, updateRam (updateRam (updateRam (updateRam (updateRam (updateRam (updateRam (updateRam (updateRam (updateRam (updateRam (updateRam (updateRam (updateRam (ram0) (0) (256)) (1) (65535)) (2) (65534)) (3) (65533)) (4) (65532)) (256) (65)) (0) (257)) (257) (65535)) (0) (258)) (258) (65534)) (0) (259)) (259) (65533)) (0) (260)) (260) (65532), 52⟩ := by
    rw [step_at b2_e51, applyInstr_atSym]
    all_goals simp only [evalComp, w16, updateRam_read, jumpTaken, Mach.mk.injEq, reduceIte, Nat.reduceAdd, Nat.reduceMod, Nat.reduceSub, Nat.reduceEqDiff, Nat.mod_mod, and_true, true_and, and_self, if_true, if_false, b2_r0]
  have b2_e52 : nth bootstrap 52 = some (.cinstr dM .mPlus1 .jnone) := rfl
  have b2_s52 : step env bootstrap ⟨0, 65532, updateRam (updateRam (updateRam (updateRam (updateRam (updateRam (updateRam (updateRam (updateRam (updateRam (updateRam (updateRam (updateRam (updateRam (ram0) (0) (256)) (1) (65535)) (2) (65534)) (3) (65533)) (4) (65532)) (256) (65)) (0) (257)) (257) (65535)) (0) (258)) (258) (65534)) (0) (259)) (259) (65533)) (0) (260)) (260) (65532), 52⟩ = ⟨0, 65532, updateRam (updateRam (updateRam (updateRam (updateRam (updateRam (updateRam (updateRam (updateRam (updateRam (updateRam (updateRam (updateRam (updateRam (updateRam (ram0) (0) (256)) (1) (65535)) (2) (65534)) (3) (65533)) (4) (65532)) (256) (65)) (0) (257)) (257) (65535)) (0) (258)) (258) (65534)) (0) (259)) (259) (65533)) (0) (260)) (260) (65532)) (0) (261), 53⟩ := by
    rw [step_at b2_e52, applyInstr_cM]
    all_goals simp only [evalComp, w16, updateRam_read, jumpTaken, Mach.mk.injEq, reduceIte, Nat.reduceAdd, Nat.reduceMod, Nat.reduceSub, Nat.reduceEqDiff, Nat.mod_mod, and_true, true_and, and_self, if_true, if_false]
  have b2_e53 : nth bootstrap 53 = some (.atSym "SP") := rfl
  have b2_s53 : step env bootstrap ⟨0, 65532, updateRam (updateRam (updateRam (updateRam (updateRam (updateRam (updateRam (updateRam (updateRam (updateRam (updateRam (updateRam (updateRam (updateRam (updateRam (ram0) (0) (256)) (1) (65535)) (2) (65534)) (3) (65533)) (4) (65532)) (256) (65)) (0) (257)) (257) (65535)) (0) (258)) (258) (65534)) (0) (259)) (259) (65533)) (0) (260)) (260) (65532)) (0) (261), 53⟩ = ⟨0, 65532, updateRam (updateRam (updateRam (updateRam (updateRam (updateRam (updateRam (updateRam (updateRam (updateRam (updateRam (updateRam (updateRam (updateRam (updateRam (ram0) (0) (256)) (1) (65535)) (2) (65534)) (3) (65533)) (4) (65532)) (256) (65)) (0) (257)) (257) (65535)) (0) (258)) (258) (65534)) (0) (259)) (259) (65533)) (0) (260)) (260) (65532)) (0) (261), 54⟩ := by
    rw [step_at b2_e53, applyInstr_atSym]
    all_goals simp only [evalComp, w16, updateRam_read, jumpTaken, Mach.mk.injEq, reduceIte, Nat.reduceAdd, Nat.reduceMod, Nat.reduceSub, Nat.reduceEqDiff, Nat.mod_mod, and_true, true_and, and_self, if_true, if_false, b2_r0]
  have b2_e54 : nth bootstrap 54 = some (.cinstr dD .cm .jnone) := rfl
  have b2_s54 : step env bootstrap ⟨0, 65532, updateRam (updateRam (updateRam (updateRam (updateRam (updateRam (updateRam (updateRam (updateRam (updateRam (updateRam (updateRam (updateRam (updateRam (updateRam (ram0) (0) (256)) (1) (65535)) (2) (65534)) (3) (65533)) (4) (65532)) (256) (65)) (0) (257)) (257) (65535)) (0) (258)) (258) (65534)) (0) (259)) (259) (65533)) (0) (260)) (260) (65532)) (0) (261), 54⟩ = ⟨0, 261, updateRam (updateRam (updateRam (updateRam (updateRam (updateRam (updateRam (updateRam (updateRam (updateRam (updateRam (updateRam (updateRam (updateRam (updateRam (ram0) (0) (256)) (1) (65535)) (2) (65534)) (3) (65533)) (4) (65532)) (256) (65)) (0) (257)) (257) (65535)) (0) (258)) (258) (65534)) (0) (259)) (259) (65533)) (0) (260)) (260) (65532)) (0) (261), 55⟩ := by
    rw [step_at b2_e54, applyInstr_cD]
    all_goals simp only [evalComp, w16, updateRam_read, jumpTaken, Mach.mk.injEq, reduceIte, Nat.reduceAdd, Nat.reduceMod, Nat.reduceSub, Nat.reduceEqDiff, Nat.mod_mod, and_true, true_and, and_self, if_true, if_false]
  have b2_e55 : nth bootstrap 55 = some (.atNum 5) := rfl
  have b2_s55 : step env bootstrap ⟨0, 261, updateRam (updateRam (updateRam (updateRam (updateRam (updateRam (updateRam (updateRam (updateRam (updateRam (updateRam (updateRam (updateRam (updateRam (updateRam (ram0) (0) (256)) (1) (65535)) (2) (65534)) (3) (65533)) (4) (65532)) (256) (65)) (0) (257)) (257) (65535)) (0) (258)) (258) (65534)) (0) (259)) (259) (65533)) (0) (260)) (260) (65532)) (0) (261), 55⟩ = ⟨5, 261, updateRam (updateRam (updateRam (updateRam (updateRam (updateRam (updateRam (updateRam (updateRam (updateRam (updateRam (updateRam (updateRam (updateRam (updateRam (ram0) (0) (256)) (1) (65535)) (2) (65534)) (3) (65533)) (4) (65532)) (256) (65)) (0) (257)) (257) (65535)) (0) (258)) (258) (65534)) (0) (259)) (259) (65533)) (0) (260)) (260) (65532)) (0) (261), 56⟩ := by
    rw [step_at b2_e55, applyInstr_atNum]
    all_goals simp only [evalComp, w16, updateRam_read, jumpTaken, Mach.mk.injEq, reduceIte, Nat.reduceAdd, Nat.reduceMod, Nat.reduceSub, Nat.reduceEqDiff, Nat.mod_mod, and_true, true_and, and_self, if_true, if_false]
  have b2_e56 : nth bootstrap 56 = some (.cinstr dD .dMinusA .jnone) := rfl
  have b2_s56 : step env bootstrap ⟨5, 261, updateRam (updateRam (updateRam (updateRam (updateRam (updateRam (updateRam (updateRam (updateRam (updateRam (updateRam (updateRam (updateRam (updateRam (updateRam (ram0) (0) (256)) (1) (65535)) (2) (65534)) (3) (65533)) (4) (65532)) (256) (65)) (0) (257)) (257) (65535)) (0) (258)) (258) (65534)) (0) (259)) (259) (65533)) (0) (260)) (260) (65532)) (0) (261), 56⟩ = ⟨5, 256, updateRam (updateRam (updateRam (updateRam (updateRam (updateRam (updateRam (updateRam (updateRam (updateRam (updateRam (updateRam (updateRam (updateRam (updateRam (ram0) (0) (256)) (1) (65535)) (2) (65534)) (3) (65533)) (4) (65532)) (256) (65)) (0) (257)) (257) (65535)) (0) (258)) (258) (65534)) (0) (259)) (259) (65533)) (0) (260)) (260) (65532)) (0) (261), 57⟩ := by
    rw [step_at b2_e56, applyInstr_cD]
    all_goals simp only [evalComp, w16, updateRam_read, jumpTaken, Mach.mk.injEq, reduceIte, Nat.reduceAdd, Nat.reduceMod, Nat.reduceSub, Nat.reduceEqDiff, Nat.mod_mod, and_true, true_and, and_self, if_true, if_false]
  have b2_e57 : nth bootstrap 57 = some (.atSym "ARG") := rfl
  have b2_s57 : step env bootstrap ⟨5, 256, updateRam (updateRam (updateRam (updateRam (updateRam (updateRam (updateRam (updateRam (updateRam (updateRam (updateRam (updateRam (updateRam (updateRam (updateRam (ram0) (0) (256)) (1) (65535)) (2) (65534)) (3) (65533)) (4) (65532)) (256) (65)) (0) (257)) (257) (65535)) (0) (258)) (258) (65534)) (0) (259)) (259) (65533)) (0) (260)) (260) (65532)) (0) (261), 57⟩ = ⟨2, 256, updateRam (updateRam (updateRam (updateRam (updateRam (updateRam (updateRam (updateRam (updateRam (updateRam (updateRam (updateRam (updateRam (updateRam (updateRam (ram0) (0) (256)) (1) (65535)) (2) (65534)) (3) (65533)) (4) (65532)) (256) (65)) (0) (257)) (257) (65535)) (0) (258)) (258) (65534)) (0) (259)) (259) (65533)) (0) (260)) (260) (65532)) (0) (261), 58⟩ := by
    rw [step_at b2_e57, applyInstr_atSym]
    all_goals simp only [evalComp, w16, updateRam_read, jumpTaken, Mach.mk.injEq, reduceIte, Nat.reduceAdd, Nat.reduceMod, Nat.reduceSub, Nat.reduceEqDiff, Nat.mod_mod, and_true, true_and, and_self, if_true, if_false, b2_r2]
  have b2_e58 : nth bootstrap 58 = some (.cinstr dM .cd .jnone) := rfl
  have b2_s58 : step env bootstrap ⟨2, 256, updateRam (updateRam (updateRam (updateRam (updateRam (updateRam (updateRam (updateRam (updateRam (updateRam (updateRam (updateRam (updateRam (updateRam (updateRam (ram0) (0) (256)) (1) (65535)) (2) (65534)) (3) (65533)) (4) (65532)) (256) (65)) (0) (257)) (257) (65535)) (0) (258)) (258) (65534)) (0) (259)) (259) (65533)) (0) (260)) (260) (65532)) (0) (261), 58⟩ = ⟨2, 256, updateRam (updateRam (updateRam (updateRam (updateRam (updateRam (updateRam (updateRam (updateRam (updateRam (updateRam (updateRam (updateRam (updateRam (updateRam (updateRam (ram0) (0) (256)) (1) (65535)) (2) (65534)) (3) (65533)) (4) (65532)) (256) (65)) (0) (257)) (257) (65535)) (0) (258)) (258) (65534)) (0) (259)) (259) (65533)) (0) (260)) (260) (65532)) (0) (261)) (2) (256), 59⟩ := by
    rw [step_at b2_e58, applyInstr_cM]
    all_goals simp only [evalComp, w16, updateRam_read, jumpTaken, Mach.mk.injEq, reduceIte, Nat.reduceAdd, Nat.reduceMod, Nat.reduceSub, Nat.reduceEqDiff, Nat.mod_mod, and_true, true_and, and_self, if_true, if_false]
  have b2_e59 : nth bootstrap 59 = some (.atSym "SP") := rfl
  have b2_s59 : step env bootstrap ⟨2, 256, updateRam (updateRam (updateRam (updateRam (updateRam (updateRam (updateRam (updateRam (updateRam (updateRam (updateRam (updateRam (updateRam (updateRam (updateRam (updateRam (ram0) (0) (256)) (1) (65535)) (2) (65534)) (3) (65533)) (4) (65532)) (256) (65)) (0) (257)) (257) (65535)) (0) (258)) (258) (65534)) (0) (259)) (259) (65533)) (0) (260)) (260) (65532)) (0) (261)) (2) (256), 59⟩ = ⟨0, 256, updateRam (updateRam (updateRam (updateRam (updateRam (updateRam (updateRam (updateRam (updateRam (updateRam (updateRam (updateRam (updateRam (updateRam (updateRam (updateRam (ram0) (0) (256)) (1) (65535)) (2) (65534)) (3) (65533)) (4) (65532)) (256) (65)) (0) (257)) (257) (65535)) (0) (258)) (258) (65534)) (0) (259)) (259) (65533)) (0) (260)) (260) (65532)) (0) (261)) (2) (256), 60⟩ := by
    rw [step_at b2_e59, applyInstr_atSym]
    all_goals simp only [evalComp, w16, updateRam_read, jumpTaken, Mach.mk.injEq, reduceIte, Nat.reduceAdd, Nat.reduceMod, Nat.reduceSub, Nat.reduceEqDiff, Nat.mod_mod, and_true, true_and, and_self, if_true, if_false, b2_r0]
  have b2_e60 : nth bootstrap 60 = some (.cinstr dD .cm .jnone) := rfl
  have b2_s60 : step env bootstrap ⟨0, 256, updateRam (updateRam (updateRam (updateRam (updateRam (updateRam (updateRam (updateRam (updateRam (updateRam (updateRam (updateRam (updateRam (updateRam (updateRam (updateRam (ram0) (0) (256)) (1) (65535)) (2) (65534)) (3) (65533)) (4) (65532)) (256) (65)) (0) (257)) (257) (65535)) (0) (258)) (258) (65534)) (0) (259)) (259) (65533)) (0) (260)) (260) (65532)) (0) (261)) (2) (256), 60⟩ = ⟨0, 261, updateRam (updateRam (updateRam (updateRam (updateRam (updateRam (updateRam (updateRam (updateRam (updateRam (updateRam (updateRam (updateRam (updateRam (updateRam (updateRam (ram0) (0) (256)) (1) (65535)) (2) (65534)) (3) (65533)) (4) (65532)) (256) (65)) (0) (257)) (257) (65535)) (0) (258)) (258) (65534)) (0) (259)) (259) (65533)) (0) (260)) (260) (65532)) (0) (261)) (2) (256), 61⟩ := by
    rw [step_at b2_e60, applyInstr_cD]
    all_goals simp only [evalComp, w16, updateRam_read, jumpTaken, Mach.mk.injEq, reduceIte, Nat.reduceAdd, Nat.reduceMod, Nat.reduceSub, Nat.reduceEqDiff, Nat.mod_mod, and_true, true_and, and_self, if_true, if_false]
  have b2_e61 : nth bootstrap 61 = some (.atSym "LCL") := rfl
  have b2_s61 : step env bootstrap ⟨0, 261, updateRam (updateRam (updateRam (updateRam (updateRam (updateRam (updateRam (updateRam (updateRam (updateRam (updateRam (updateRam (updateRam (updateRam (updateRam (updateRam (ram0) (0) (256)) (1) (65535)) (2) (65534)) (3) (65533)) (4) (65532)) (256) (65)) (0) (257)) (257) (65535)) (0) (258)) (258) (65534)) (0) (259)) (259) (65533)) (0) (260)) (260) (65532)) (0) (261)) (2) (256), 61⟩ = ⟨1, 261, updateRam (updateRam (updateRam (updateRam (updateRam (updateRam (updateRam (updateRam (updateRam (updateRam (updateRam (updateRam (updateRam (updateRam (updateRam (updateRam (ram0) (0) (256)) (1) (65535)) (2) (65534)) (3) (65533)) (4) (65532)) (256) (65)) (0) (257)) (257) (65535)) (0) (258)) (258) (65534)) (0) (259)) (259) (65533)) (0) (260)) (260) (65532)) (0) (261)) (2) (256), 62⟩ := by
    rw [step_at b2_e61, applyInstr_atSym]
    all_goals simp only [evalComp, w16, updateRam_read, jumpTaken, Mach.mk.injEq, reduceIte, Nat.reduceAdd, Nat.reduceMod, Nat.reduceSub, Nat.reduceEqDiff, Nat.mod_mod, and_true, true_and, and_self, if_true, if_false, b2_r1]
  have b2_e62 : nth bootstrap 62 = some (.cinstr dM .cd .jnone) := rfl
  have b2_s62 : step env bootstrap ⟨1, 261, updateRam (updateRam (updateRam (updateRam (updateRam (updateRam (updateRam (updateRam (updateRam (updateRam (updateRam (updateRam (updateRam (updateRam (updateRam (updateRam (ram0) (0) (256)) (1) (65535)) (2) (65534)) (3) (65533)) (4) (65532)) (256) (65)) (0) (257)) (257) (65535)) (0) (258)) (258) (65534)) (0) (259)) (259) (65533)) (0) (260)) (260) (65532)) (0) (261)) (2) (256), 62⟩ = ⟨1, 261, updateRam (updateRam (updateRam (updateRam (updateRam (updateRam (updateRam (updateRam (updateRam (updateRam (updateRam (updateRam (updateRam (updateRam (updateRam (updateRam (updateRam (ram0) (0) (256)) (1) (65535)) (2) (65534)) (3) (65533)) (4) (65532)) (256) (65)) (0) (257)) (257) (65535)) (0) (258)) (258) (65534)) (0) (259)) (259) (65533)) (0) (260)) (260) (65532)) (0) (261)) (2) (256)) (1) (261), 63⟩ := by
    rw [step_at b2_e62, applyInstr_cM]
    all_goals simp only [evalComp, w16, updateRam_read, jumpTaken, Mach.mk.injEq, reduceIte, Nat.reduceAdd, Nat.reduceMod, Nat.reduceSub, Nat.reduceEqDiff, Nat.mod_mod, and_true, true_and, and_self, if_true, if_false]
  have b2_e63 : nth bootstrap 63 = some (.atSym "Sys.init") := rfl
  have b2_r6 : resolveSym bootstrap env ("Sys.init") = e := by
    rw [(show resolveSym bootstrap env ("Sys.init") = env ("Sys.init") from rfl), hsys]
  have b2_s63 : step env bootstrap ⟨1, 261, updateRam (updateRam (updateRam (updateRam (updateRam (updateRam (updateRam (updateRam (updateRam (updateRam (updateRam (updateRam (updateRam (updateRam (updateRam (updateRam (updateRam (ram0) (0) (256)) (1) (65535)) (2) (65534)) (3) (65533)) (4) (65532)) (256) (65)) (0) (257)) (257) (65535)) (0) (258)) (258) (65534)) (0) (259)) (259) (65533)) (0) (260)) (260) (65532)) (0) (261)) (2) (256)) (1) (261), 63⟩ = ⟨e, 261, updateRam (updateRam (updateRam (updateRam (updateRam (updateRam (updateRam (updateRam (updateRam (updateRam (updateRam (updateRam (updateRam (updateRam (updateRam (updateRam (updateRam (ram0) (0) (256)) (1) (65535)) (2) (65534)) (3) (65533)) (4) (65532)) (256) (65)) (0) (257)) (257) (65535)) (0) (258)) (258) (65534)) (0) (259)) (259) (65533)) (0) (260)) (260) (65532)) (0) (261)) (2) (256)) (1) (261), 64⟩ := by
    rw [step_at b2_e63, applyInstr_atSym]
    all_goals simp only [evalComp, w16, updateRam_read, jumpTaken, Mach.mk.injEq, reduceIte, Nat.reduceAdd, Nat.reduceMod, Nat.reduceSub, Nat.reduceEqDiff, Nat.mod_mod, and_true, true_and, and_self, if_true, if_false, b2_r6, hem]
  have b2_e64 : nth bootstrap 64 = some (.cinstr dNone .zero .jmp) := rfl
  have b2_s64 : step env bootstrap ⟨e, 261, updateRam (updateRam (updateRam (updateRam (updateRam (updateRam (updateRam (updateRam (updateRam (updateRam (updateRam (updateRam (updateRam (updateRam (updateRam (updateRam (updateRam (ram0) (0) (256)) (1) (65535)) (2) (65534)) (3) (65533)) (4) (65532)) (256) (65)) (0) (257)) (257) (65535)) (0) (258)) (258) (65534)) (0) (259)) (259) (65533)) (0) (260)) (260) (65532)) (0) (261)) (2) (256)) (1) (261), 64⟩ = ⟨e, 261, updateRam (updateRam (updateRam (updateRam (updateRam (updateRam (updateRam (updateRam (updateRam (updateRam (updateRam (updateRam (updateRam (updateRam (updateRam (updateRam (updateRam (ram0) (0) (256)) (1) (65535)) (2) (65534)) (3) (65533)) (4) (65532)) (256) (65)) (0) (257)) (257) (65535)) (0) (258)) (258) (65534)) (0) (259)) (259) (65533)) (0) (260)) (260) (65532)) (0) (261)) (2) (256)) (1) (261), e⟩ := by
    rw [step_at b2_e64, applyInstr_jump]
    all_goals simp only [evalComp, w16, updateRam_read, jumpTaken, Mach.mk.injEq, reduceIte, Nat.reduceAdd, Nat.reduceMod, Nat.reduceSub, Nat.reduceEqDiff, Nat.mod_mod, and_true, true_and, and_self, if_true, if_false]
  have b2_run : run env bootstrap 65 ⟨a0, d0, ram0, 0⟩ = ⟨e, 261, updateRam (updateRam (updateRam (updateRam (updateRam (updateRam (updateRam (updateRam (updateRam (updateRam (updateRam (updateRam (updateRam (updateRam (updateRam (updateRam (updateRam (ram0) (0) (256)) (1) (65535)) (2) (65534)) (3) (65533)) (4) (65532)) (256) (65)) (0) (257)) (257) (65535)) (0) (258)) (258) (65534)) (0) (259)) (259) (65533)) (0) (260)) (260) (65532)) (0) (261)) (2) (256)) (1) (261), e⟩ :=
    calc run env bootstrap 65 ⟨a0, d0, ram0, 0⟩
      _ = run env bootstrap 64 ⟨256, d0, ram0, 1⟩ := (run_succ env bootstrap 64 ⟨a0, d0, ram0, 0⟩).trans (congrArg (run env bootstrap 64) b2_s0)
      _ = run env bootstrap 63 ⟨256, 256, ram0, 2⟩ := (run_succ env bootstrap 63 ⟨256, d0, ram0, 1⟩).trans (congrArg (run env bootstrap 63) b2_s1)
      _ = run env bootstrap 62 ⟨0, 256, ram0, 3⟩ := (run_succ env bootstrap 62 ⟨256, 256, ram0, 2⟩).trans (congrArg (run env bootstrap 62) b2_s2)
      _ = run env bootstrap 61 ⟨0, 256, updateRam (ram0) (0) (256), 4⟩ := (run_succ env bootstrap 61 ⟨0, 256, ram0, 3⟩).trans (congrArg (run env bootstrap 61) b2_s3)
      _ = run env bootstrap 60 ⟨1, 256, updateRam (ram0) (0) (256), 5⟩ := (run_succ env bootstrap 60 ⟨0, 256, updateRam (ram0) (0) (256), 4⟩).trans (congrArg (run env bootstrap 60) b2_s4)
      _ = run env bootstrap 59 ⟨1, 256, updateRam (updateRam (ram0) (0) (256)) (1) (65535), 6⟩ := (run_succ env bootstrap 59 ⟨1, 256, updateRam (ram0) (0) (256), 5⟩).trans (congrArg (run env bootstrap 59) b2_s5)
      _ = run env bootstrap 58 ⟨2, 256, updateRam (updateRam (ram0) (0) (256)) (1) (65535), 7⟩ := (run_succ env bootstrap 58 ⟨1, 256, updateRam (updateRam (ram0) (0) (256)) (1) (65535), 6⟩).trans (congrArg (run env bootstrap 58) b2_s6)
      _ = run env bootstrap 57 ⟨2, 65534, updateRam (updateRam (ram0) (0) (256)) (1) (65535), 8⟩ := (run_succ env bootstrap 57 ⟨2, 256, updateRam (updateRam (ram0) (0) (256)) (1) (65535), 7⟩).trans (congrArg (run env bootstrap 57) b2_s7)
      _ = run env bootstrap 56 ⟨2, 65534, updateRam (updateRam (ram0) (0) (256)) (1) (65535), 9⟩ := (run_succ env bootstrap 56 ⟨2, 65534, updateRam (updateRam (ram0) (0) (256)) (1) (65535), 8⟩).trans (congrArg (run env bootstrap 56) b2_s8)
      _ = run env bootstrap 55 ⟨2, 65534, updateRam (updateRam (updateRam (ram0) (0) (256)) (1) (65535)) (2) (65534), 10⟩ := (run_succ env bootstrap 55 ⟨2, 65534, updateRam (updateRam (ram0) (0) (256)) (1) (65535), 9⟩).trans (congrArg (run env bootstrap 55) b2_s9)
      _ = run env bootstrap 54 ⟨3, 65534, updateRam (updateRam (updateRam (ram0) (0) (256)) (1) (65535)) (2) (65534), 11⟩ := (run_succ env bootstrap 54 ⟨2, 65534, updateRam (updateRam (updateRam (ram0) (0) (256)) (1) (65535)) (2) (65534), 10⟩).trans (congrArg (run env bootstrap 54) b2_s10)
      _ = run env bootstrap 53 ⟨3, 65533, updateRam (updateRam (updateRam (ram0) (0) (256)) (1) (65535)) (2) (65534), 12⟩ := (run_succ env bootstrap 53 ⟨3, 65534, updateRam (updateRam (updateRam (ram0) (0) (256)) (1) (65535)) (2) (65534), 11⟩).trans (congrArg (run env bootstrap 53) b2_s11)
      _ = run env bootstrap 52 ⟨3, 65533, updateRam (updateRam (updateRam (ram0) (0) (256)) (1) (65535)) (2) (65534), 13⟩ := (run_succ env bootstrap 52 ⟨3, 65533, updateRam (updateRam (updateRam (ram0) (0) (256)) (1) (65535)) (2) (65534), 12⟩).trans (congrArg (run env bootstrap 52) b2_s12)
      _ = run env bootstrap 51 ⟨3, 65533, updateRam (updateRam (updateRam (updateRam (ram0) (0) (256)) (1) (65535)) (2) (65534)) (3) (65533), 14⟩ := (run_succ env bootstrap 51 ⟨3, 65533, updateRam (updateRam (updateRam (ram0) (0) (256)) (1) (65535)) (2) (65534), 13⟩).trans (congrArg (run env bootstrap 51) b2_s13)
      _ = run env bootstrap 50 ⟨4, 65533, updateRam (updateRam (updateRam (updateRam (ram0) (0) (256)) (1) (65535)) (2) (65534)) (3) (65533), 15⟩ := (run_succ env bootstrap 50 ⟨3, 65533, updateRam (updateRam (updateRam (updateRam (ram0) (0) (256)) (1) (65535)) (2) (65534)) (3) (65533), 14⟩).trans (congrArg (run env bootstrap 50) b2_s14)
      _ = run env bootstrap 49 ⟨4, 65532, updateRam (updateRam (updateRam (updateRam (ram0) (0) (256)) (1) (65535)) (2) (65534)) (3) (65533), 16⟩ := (run_succ env bootstrap 49 ⟨4, 65533, updateRam (updateRam (updateRam (updateRam (ram0) (0) (256)) (1) (65535)) (2) (65534)) (3) (65533), 15⟩).trans (congrArg (run env bootstrap 49) b2_s15)
      _ = run env bootstrap 48 ⟨4, 65532, updateRam (updateRam (updateRam (updateRam (ram0) (0) (256)) (1) (65535)) (2) (65534)) (3) (65533), 17⟩ := (run_succ env bootstrap 48 ⟨4, 65532, updateRam (updateRam (updateRam (updateRam (ram0) (0) (256)) (1) (65535)) (2) (65534)) (3) (65533), 16⟩).trans (congrArg (run env bootstrap 48) b2_s16)
      _ = run env bootstrap 47 ⟨4, 65532, updateRam (updateRam (updateRam (updateRam (updateRam (ram0) (0) (256)) (1) (65535)) (2) (65534)) (3) (65533)) (4) (65532), 18⟩ := (run_succ env bootstrap 47 ⟨4, 65532, updateRam (updateRam (updateRam (updateRam (ram0) (0) (256)) (1) (65535)) (2) (65534)) (3) (65533), 17⟩).trans (congrArg (run env bootstrap 47) b2_s17)
      _ = run env bootstrap 46 ⟨65, 65532, updateRam (updateRam (updateRam (updateRam (updateRam (ram0) (0) (256)) (1) (65535)) (2) (65534)) (3) (65533)) (4) (65532), 19⟩ := (run_succ env bootstrap 46 ⟨4, 65532, updateRam (updateRam (updateRam (updateRam (updateRam (ram0) (0) (256)) (1) (65535)) (2) (65534)) (3) (65533)) (4) (65532), 18⟩).trans (congrArg (run env bootstrap 46) b2_s18)
      _ = run env bootstrap 45 ⟨65, 65, updateRam (updateRam (updateRam (updateRam (updateRam (ram0) (0) (256)) (1) (65535)) (2) (65534)) (3) (65533)) (4) (65532), 20⟩ := (run_succ env bootstrap 45 ⟨65, 65532, updateRam (updateRam (updateRam (updateRam (updateRam (ram0) (0) (256)) (1) (65535)) (2) (65534)) (3) (65533)) (4) (65532), 19⟩).trans (congrArg (run env bootstrap 45) b2_s19)
      _ = run env bootstrap 44 ⟨0, 65, updateRam (updateRam (updateRam (updateRam (updateRam (ram0) (0) (256)) (1) (65535)) (2) (65534)) (3) (65533)) (4) (65532), 21⟩ := (run_succ env bootstrap 44 ⟨65, 65, updateRam (updateRam (updateRam (updateRam (updateRam (ram0) (0) (256)) (1) (65535)) (2) (65534)) (3) (65533)) (4) (65532), 20⟩).trans (congrArg (run env bootstrap 44) b2_s20)
      _ = run env bootstrap 43 ⟨256, 65, updateRam (updateRam (updateRam (updateRam (updateRam (ram0) (0) (256)) (1) (65535)) (2) (65534)) (3) (65533)) (4) (65532), 22⟩ := (run_succ env bootstrap 43 ⟨0, 65, updateRam (updateRam (updateRam (updateRam (updateRam (ram0) (0) (256)) (1) (65535)) (2) (65534)) (3) (65533)) (4) (65532), 21⟩).trans (congrArg (run env bootstrap 43) b2_s21)
      _ = run env bootstrap 42 ⟨256, 65, updateRam (updateRam (updateRam (updateRam (updateRam (updateRam (ram0) (0) (256)) (1) (65535)) (2) (65534)) (3) (65533)) (4) (65532)) (256) (65), 23⟩ := (run_succ env bootstrap 42 ⟨256, 65, updateRam (updateRam (updateRam (updateRam (updateRam (ram0) (0) (256)) (1) (65535)) (2) (65534)) (3) (65533)) (4) (65532), 22⟩).trans (congrArg (run env bootstrap 42) b2_s22)
      _ = run env bootstrap 41 ⟨0, 65, updateRam (updateRam (updateRam (updateRam (updateRam (updateRam (ram0) (0) (256)) (1) (65535)) (2) (65534)) (3) (65533)) (4) (65532)) (256) (65), 24⟩ := (run_succ env bootstrap 41 ⟨256, 65, updateRam (updateRam (updateRam (updateRam (updateRam (updateRam (ram0) (0) (256)) (1) (65535)) (2) (65534)) (3) (65533)) (4) (65532)) (256) (65), 23⟩).trans (congrArg (run env bootstrap 41) b2_s23)
      _ = run env bootstrap 40 ⟨0, 65, updateRam (updateRam (updateRam (updateRam (updateRam (updateRam (updateRam (ram0) (0) (256)) (1) (65535)) (2) (65534)) (3) (65533)) (4) (65532)) (256) (65)) (0) (257), 25⟩ := (run_succ env bootstrap 40 ⟨0, 65, updateRam (updateRam (updateRam (updateRam (updateRam (updateRam (ram0) (0) (256)) (1) (65535)) (2) (65534)) (3) (65533)) (4) (65532)) (256) (65), 24⟩).trans (congrArg (run env bootstrap 40) b2_s24)
      _ = run env bootstrap 39 ⟨1, 65, updateRam (updateRam (updateRam (updateRam (updateRam (updateRam (updateRam (ram0) (0) (256)) (1) (65535)) (2) (65534)) (3) (65533)) (4) (65532)) (256) (65)) (0) (257), 26⟩ := (run_succ env bootstrap 39 ⟨0, 65, updateRam (updateRam (updateRam (updateRam (updateRam (updateRam (updateRam (ram0) (0) (256)) (1) (65535)) (2) (65534)) (3) (65533)) (4) (65532)) (256) (65)) (0) (257), 25⟩).trans (congrArg (run env bootstrap 39) b2_s25)
      _ = run env bootstrap 38 ⟨1, 65535, updateRam (updateRam (updateRam (updateRam (updateRam (updateRam (updateRam (ram0) (0) (256)) (1) (65535)) (2) (65534)) (3) (65533)) (4) (65532)) (256) (65)) (0) (257), 27⟩ := (run_succ env bootstrap 38 ⟨1, 65, updateRam (updateRam (updateRam (updateRam (updateRam (updateRam (updateRam (ram0) (0) (256)) (1) (65535)) (2) (65534)) (3) (65533)) (4) (65532)) (256) (65)) (0) (257), 26⟩).trans (congrArg (run env bootstrap 38) b2_s26)
      _ = run env bootstrap 37 ⟨0, 65535, updateRam (updateRam (updateRam (updateRam (updateRam (updateRam (updateRam (ram0) (0) (256)) (1) (65535)) (2) (65534)) (3) (65533)) (4) (65532)) (256) (65)) (0) (257), 28⟩ := (run_succ env bootstrap 37 ⟨1, 65535, updateRam (updateRam (updateRam (updateRam (updateRam (updateRam (updateRam (ram0) (0) (256)) (1) (65535)) (2) (65534)) (3) (65533)) (4) (65532)) (256) (65)) (0) (257), 27⟩).trans (congrArg (run env bootstrap 37) b2_s27)
      _ = run env bootstrap 36 ⟨257, 65535, updateRam (updateRam (updateRam (updateRam (updateRam (updateRam (updateRam (ram0) (0) (256)) (1) (65535)) (2) (65534)) (3) (65533)) (4) (65532)) (256) (65)) (0) (257), 29⟩ := (run_succ env bootstrap 36 ⟨0, 65535, updateRam (updateRam (updateRam (updateRam (updateRam (updateRam (updateRam (ram0) (0) (256)) (1) (65535)) (2) (65534)) (3) (65533)) (4) (65532)) (256) (65)) (0) (257), 28⟩).trans (congrArg (run env bootstrap 36) b2_s28)
      _ = run env bootstrap 35 ⟨257, 65535, updateRam (updateRam (updateRam (updateRam (updateRam (updateRam (updateRam (updateRam (ram0) (0) (256)) (1) (65535)) (2) (65534)) (3) (65533)) (4) (65532)) (256) (65)) (0) (257)) (257) (65535), 30⟩ := (run_succ env bootstrap 35 ⟨257, 65535, updateRam (updateRam (updateRam (updateRam (updateRam (updateRam (updateRam (ram0) (0) (256)) (1) (65535)) (2) (65534)) (3) (65533)) (4) (65532)) (256) (65)) (0) (257), 29⟩).trans (congrArg (run env bootstrap 35) b2_s29)
      _ = run env bootstrap 34 ⟨0, 65535, updateRam (updateRam (updateRam (updateRam (updateRam (updateRam (updateRam (updateRam (ram0) (0) (256)) (1) (65535)) (2) (65534)) (3) (65533)) (4) (65532)) (256) (65)) (0) (257)) (257) (65535), 31⟩ := (run_succ env bootstrap 34 ⟨257, 65535, updateRam (updateRam (updateRam (updateRam (updateRam (updateRam (updateRam (updateRam (ram0) (0) (256)) (1) (65535)) (2) (65534)) (3) (65533)) (4) (65532)) (256) (65)) (0) (257)) (257) (65535), 30⟩).trans (congrArg (run env bootstrap 34) b2_s30)
      _ = run env bootstrap 33 ⟨0, 65535, updateRam (updateRam (updateRam (updateRam (updateRam (updateRam (updateRam (updateRam (updateRam (ram0) (0) (256)) (1) (65535)) (2) (65534)) (3) (65533)) (4) (65532)) (256) (65)) (0) (257)) (257) (65535)) (0) (258), 32⟩ := (run_succ env bootstrap 33 ⟨0, 65535, updateRam (updateRam (updateRam (updateRam (updateRam (updateRam (updateRam (updateRam (ram0) (0) (256)) (1) (65535)) (2) (65534)) (3) (65533)) (4) (65532)) (256) (65)) (0) (257)) (257) (65535), 31⟩).trans (congrArg (run env bootstrap 33) b2_s31)
      _ = run env bootstrap 32 ⟨2, 65535, updateRam (updateRam (updateRam (updateRam (updateRam (updateRam (updateRam (updateRam (updateRam (ram0) (0) (256)) (1) (65535)) (2) (65534)) (3) (65533)) (4) (65532)) (256) (65)) (0) (257)) (257) (65535)) (0) (258), 33⟩ := (run_succ env bootstrap 32 ⟨0, 65535, updateRam (updateRam (updateRam (updateRam (updateRam (updateRam (updateRam (updateRam (updateRam (ram0) (0) (256)) (1) (65535)) (2) (65534)) (3) (65533)) (4) (65532)) (256) (65)) (0) (257)) (257) (65535)) (0) (258), 32⟩).trans (congrArg (run env bootstrap 32) b2_s32)
      _ = run env bootstrap 31 ⟨2, 65534, updateRam (updateRam (updateRam (updateRam (updateRam (updateRam (updateRam (updateRam (updateRam (ram0) (0) (256)) (1) (65535)) (2) (65534)) (3) (65533)) (4) (65532)) (256) (65)) (0) (257)) (257) (65535)) (0) (258), 34⟩ := (run_succ env bootstrap 31 ⟨2, 65535, updateRam (updateRam (updateRam (updateRam (updateRam (updateRam (updateRam (updateRam (updateRam (ram0) (0) (256)) (1) (65535)) (2) (65534)) (3) (65533)) (4) (65532)) (256) (65)) (0) (257)) (257) (65535)) (0) (258), 33⟩).trans (congrArg (run env bootstrap 31) b2_s33)
      _ = run env bootstrap 30 ⟨0, 65534, updateRam (updateRam (updateRam (updateRam (updateRam (updateRam (updateRam (updateRam (updateRam (ram0) (0) (256)) (1) (65535)) (2) (65534)) (3) (65533)) (4) (65532)) (256) (65)) (0) (257)) (257) (65535)) (0) (258), 35⟩ := (run_succ env bootstrap 30 ⟨2, 65534, updateRam (updateRam (updateRam (updateRam (updateRam (updateRam (updateRam (updateRam (updateRam (ram0) (0) (256)) (1) (65535)) (2) (65534)) (3) (65533)) (4) (65532)) (256) (65)) (0) (257)) (257) (65535)) (0) (258), 34⟩).trans (congrArg (run env bootstrap 30) b2_s34)
      _ = run env bootstrap 29 ⟨258, 65534, updateRam (updateRam (updateRam (updateRam (updateRam (updateRam (updateRam (updateRam (updateRam (ram0) (0) (256)) (1) (65535)) (2) (65534)) (3) (65533)) (4) (65532)) (256) (65)) (0) (257)) (257) (65535)) (0) (258), 36⟩ := (run_succ env bootstrap 29 ⟨0, 65534, updateRam (updateRam (updateRam (updateRam (updateRam (updateRam (updateRam (updateRam (updateRam (ram0) (0) (256)) (1) (65535)) (2) (65534)) (3) (65533)) (4) (65532)) (256) (65)) (0) (257)) (257) (65535)) (0) (258), 35⟩).trans (congrArg (run env bootstrap 29) b2_s35)
      _ = run env bootstrap 28 ⟨258, 65534, updateRam (updateRam (updateRam (updateRam (updateRam (updateRam (updateRam (updateRam (updateRam (updateRam (ram0) (0) (256)) (1) (65535)) (2) (65534)) (3) (65533)) (4) (65532)) (256) (65)) (0) (257)) (257) (65535)) (0) (258)) (258) (65534), 37⟩ := (run_succ env bootstrap 28 ⟨258, 65534, updateRam (updateRam (updateRam (updateRam (updateRam (updateRam (updateRam (updateRam (updateRam (ram0) (0) (256)) (1) (65535)) (2) (65534)) (3) (65533)) (4) (65532)) (256) (65)) (0) (257)) (257) (65535)) (0) (258), 36⟩).trans (congrArg (run env bootstrap 28) b2_s36)
      _ = run env bootstrap 27 ⟨0, 65534, updateRam (updateRam (updateRam (updateRam (updateRam (updateRam (updateRam (updateRam (updateRam (updateRam (ram0) (0) (256)) (1) (65535)) (2) (65534)) (3) (65533)) (4) (65532)) (256) (65)) (0) (257)) (257) (65535)) (0) (258)) (258) (65534), 38⟩ := (run_succ env bootstrap 27 ⟨258, 65534, updateRam (updateRam (updateRam (updateRam (updateRam (updateRam (updateRam (updateRam (updateRam (updateRam (ram0) (0) (256)) (1) (65535)) (2) (65534)) (3) (65533)) (4) (65532)) (256) (65)) (0) (257)) (257) (65535)) (0) (258)) (258) (65534), 37⟩).trans (congrArg (run env bootstrap 27) b2_s37)
      _ = run env bootstrap 26 ⟨0, 65534, updateRam (updateRam (updateRam (updateRam (updateRam (updateRam (updateRam (updateRam (updateRam (updateRam (updateRam (ram0) (0) (256)) (1) (65535)) (2) (65534)) (3) (65533)) (4) (65532)) (256) (65)) (0) (257)) (257) (65535)) (0) (258)) (258) (65534)) (0) (259), 39⟩ := (run_succ env bootstrap 26 ⟨0, 65534, updateRam (updateRam (updateRam (updateRam (updateRam (updateRam (updateRam (updateRam (updateRam (updateRam (ram0) (0) (256)) (1) (65535)) (2) (65534)) (3) (65533)) (4) (65532)) (256) (65)) (0) (257)) (257) (65535)) (0) (258)) (258) (65534), 38⟩).trans (congrArg (run env bootstrap 26) b2_s38)
      _ = run env bootstrap 25 ⟨3, 65534, updateRam (updateRam (updateRam (updateRam (updateRam (updateRam (updateRam (updateRam (updateRam (updateRam (updateRam (ram0) (0) (256)) (1) (65535)) (2) (65534)) (3) (65533)) (4) (65532)) (256) (65)) (0) (257)) (257) (65535)) (0) (258)) (258) (65534)) (0) (259), 40⟩ := (run_succ env bootstrap 25 ⟨0, 65534, updateRam (updateRam (updateRam (updateRam (updateRam (updateRam (updateRam (updateRam (updateRam (updateRam (updateRam (ram0) (0) (256)) (1) (65535)) (2) (65534)) (3) (65533)) (4) (65532)) (256) (65)) (0) (257)) (257) (65535)) (0) (258)) (258) (65534)) (0) (259), 39⟩).trans (congrArg (run env bootstrap 25) b2_s39)
      _ = run env bootstrap 24 ⟨3, 65533, updateRam (updateRam (updateRam (updateRam (updateRam (updateRam (updateRam (updateRam (updateRam (updateRam (updateRam (ram0) (0) (256)) (1) (65535)) (2) (65534)) (3) (65533)) (4) (65532)) (256) (65)) (0) (257)) (257) (65535)) (0) (258)) (258) (65534)) (0) (259), 41⟩ := (run_succ env bootstrap 24 ⟨3, 65534, updateRam (updateRam (updateRam (updateRam (updateRam (updateRam (updateRam (updateRam (updateRam (updateRam (updateRam (ram0) (0) (256)) (1) (65535)) (2) (65534)) (3) (65533)) (4) (65532)) (256) (65)) (0) (257)) (257) (65535)) (0) (258)) (258) (65534)) (0) (259), 40⟩).trans (congrArg (run env bootstrap 24) b2_s40)
      _ = run env bootstrap 23 ⟨0, 65533, updateRam (updateRam (updateRam (updateRam (updateRam (updateRam (updateRam (updateRam (updateRam (updateRam (updateRam (ram0) (0) (256)) (1) (65535)) (2) (65534)) (3) (65533)) (4) (65532)) (256) (65)) (0) (257)) (257) (65535)) (0) (258)) (258) (65534)) (0) (259), 42⟩ := (run_succ env bootstrap 23 ⟨3, 65533, updateRam (updateRam (updateRam (updateRam (updateRam (updateRam (updateRam (updateRam (updateRam (updateRam (updateRam (ram0) (0) (256)) (1) (65535)) (2) (65534)) (3) (65533)) (4) (65532)) (256) (65)) (0) (257)) (257) (65535)) (0) (258)) (258) (65534)) (0) (259), 41⟩).trans (congrArg (run env bootstrap 23) b2_s41)
      _ = run env bootstrap 22 ⟨259, 65533, updateRam (updateRam (updateRam (updateRam (updateRam (updateRam (updateRam (updateRam (updateRam (updateRam (updateRam (ram0) (0) (256)) (1) (65535)) (2) (65534)) (3) (65533)) (4) (65532)) (256) (65)) (0) (257)) (257) (65535)) (0) (258)) (258) (65534)) (0) (259), 43⟩ := (run_succ env bootstrap 22 ⟨0, 65533, updateRam (updateRam (updateRam (updateRam (updateRam (updateRam (updateRam (updateRam (updateRam (updateRam (updateRam (ram0) (0) (256)) (1) (65535)) (2) (65534)) (3) (65533)) (4) (65532)) (256) (65)) (0) (257)) (257) (65535)) (0) (258)) (258) (65534)) (0) (259), 42⟩).trans (congrArg (run env bootstrap 22) b2_s42)
      _ = run env bootstrap 21 ⟨259, 65533, updateRam (updateRam (updateRam (updateRam (updateRam (updateRam (updateRam (updateRam (updateRam (updateRam (updateRam (updateRam (ram0) (0) (256)) (1) (65535)) (2) (65534)) (3) (65533)) (4) (65532)) (256) (65)) (0) (257)) (257) (65535)) (0) (258)) (258) (65534)) (0) (259)) (259) (65533), 44⟩ := (run_succ env bootstrap 21 ⟨259, 65533, updateRam (updateRam (updateRam (updateRam (updateRam (updateRam (updateRam (updateRam (updateRam (updateRam (updateRam (ram0) (0) (256)) (1) (65535)) (2) (65534)) (3) (65533)) (4) (65532)) (256) (65)) (0) (257)) (257) (65535)) (0) (258)) (258) (65534)) (0) (259), 43⟩).trans (congrArg (run env bootstrap 21) b2_s43)
      _ = run env bootstrap 20 ⟨0, 65533, updateRam (updateRam (updateRam (updateRam (updateRam (updateRam (updateRam (updateRam (updateRam (updateRam (updateRam (updateRam (ram0) (0) (256)) (1) (65535)) (2) (65534)) (3) (65533)) (4) (65532)) (256) (65)) (0) (257)) (257) (65535)) (0) (258)) (258) (65534)) (0) (259)) (259) (65533), 45⟩ := (run_succ env bootstrap 20 ⟨259, 65533, updateRam (updateRam (updateRam (updateRam (updateRam (updateRam (updateRam (updateRam (updateRam (updateRam (updateRam (updateRam (ram0) (0) (256)) (1) (65535)) (2) (65534)) (3) (65533)) (4) (65532)) (256) (65)) (0) (257)) (257) (65535)) (0) (258)) (258) (65534)) (0) (259)) (259) (65533), 44⟩).trans (congrArg (run env bootstrap 20) b2_s44)
      _ = run env bootstrap 19 ⟨0, 65533, updateRam (updateRam (updateRam (updateRam (updateRam (updateRam (updateRam (updateRam (updateRam (updateRam (updateRam (updateRam (updateRam (ram0) (0) (256)) (1) (65535)) (2) (65534)) (3) (65533)) (4) (65532)) (256) (65)) (0) (257)) (257) (65535)) (0) (258)) (258) (65534)) (0) (259)) (259) (65533)) (0) (260), 46⟩ := (run_succ env bootstrap 19 ⟨0, 65533, updateRam (updateRam (updateRam (updateRam (updateRam (updateRam (updateRam (updateRam (updateRam (updateRam (updateRam (updateRam (ram0) (0) (256)) (1) (65535)) (2) (65534)) (3) (65533)) (4) (65532)) (256) (65)) (0) (257)) (257) (65535)) (0) (258)) (258) (65534)) (0) (259)) (259) (65533), 45⟩).trans (congrArg (run env bootstrap 19) b2_s45)
      _ = run env bootstrap 18 ⟨4, 65533, updateRam (updateRam (updateRam (updateRam (updateRam (updateRam (updateRam (updateRam (updateRam (updateRam (updateRam (updateRam (updateRam (ram0) (0) (256)) (1) (65535)) (2) (65534)) (3) (65533)) (4) (65532)) (256) (65)) (0) (257)) (257) (65535)) (0) (258)) (258) (65534)) (0) (259)) (259) (65533)) (0) (260), 47⟩ := (run_succ env bootstrap 18 ⟨0, 65533, updateRam (updateRam (updateRam (updateRam (updateRam (updateRam (updateRam (updateRam (updateRam (updateRam (updateRam (updateRam (updateRam (ram0) (0) (256)) (1) (65535)) (2) (65534)) (3) (65533)) (4) (65532)) (256) (65)) (0) (257)) (257) (65535)) (0) (258)) (258) (65534)) (0) (259)) (259) (65533)) (0) (260), 46⟩).trans (congrArg (run env bootstrap 18) b2_s46)
      _ = run env bootstrap 17 ⟨4, 65532, updateRam (updateRam (updateRam (updateRam (updateRam (updateRam (updateRam (updateRam (updateRam (updateRam (updateRam (updateRam (updateRam (ram0) (0) (256)) (1) (65535)) (2) (65534)) (3) (65533)) (4) (65532)) (256) (65)) (0) (257)) (257) (65535)) (0) (258)) (258) (65534)) (0) (259)) (259) (65533)) (0) (260), 48⟩ := (run_succ env bootstrap 17 ⟨4, 65533, updateRam (updateRam (updateRam (updateRam (updateRam (updateRam (updateRam (updateRam (updateRam (updateRam (updateRam (updateRam (updateRam (ram0) (0) (256)) (1) (65535)) (2) (65534)) (3) (65533)) (4) (65532)) (256) (65)) (0) (257)) (257) (65535)) (0) (258)) (258) (65534)) (0) (259)) (259) (65533)) (0) (260), 47⟩).trans (congrArg (run env bootstrap 17) b2_s47)
      _ = run env bootstrap 16 ⟨0, 65532, updateRam (updateRam (updateRam (updateRam (updateRam (updateRam (updateRam (updateRam (updateRam (updateRam (updateRam (updateRam (updateRam (ram0) (0) (256)) (1) (65535)) (2) (65534)) (3) (65533)) (4) (65532)) (256) (65)) (0) (257)) (257) (65535)) (0) (258)) (258) (65534)) (0) (259)) (259) (65533)) (0) (260), 49⟩ := (run_succ env bootstrap 16 ⟨4, 65532, updateRam (updateRam (updateRam (updateRam (updateRam (updateRam (updateRam (updateRam (updateRam (updateRam (updateRam (updateRam (updateRam (ram0) (0) (256)) (1) (65535)) (2) (65534)) (3) (65533)) (4) (65532)) (256) (65)) (0) (257)) (257) (65535)) (0) (258)) (258) (65534)) (0) (259)) (259) (65533)) (0) (260), 48⟩).trans (congrArg (run env bootstrap 16) b2_s48)
      _ = run env bootstrap 15 ⟨260, 65532, updateRam (updateRam (updateRam (updateRam (updateRam (updateRam (updateRam (updateRam (updateRam (updateRam (updateRam (updateRam (updateRam (ram0) (0) (256)) (1) (65535)) (2) (65534)) (3) (65533)) (4) (65532)) (256) (65)) (0) (257)) (257) (65535)) (0) (258)) (258) (65534)) (0) (259)) (259) (65533)) (0) (260), 50⟩ := (run_succ env bootstrap 15 ⟨0, 65532, updateRam (updateRam (updateRam (updateRam (updateRam (updateRam (updateRam (updateRam (updateRam (updateRam (updateRam (updateRam (updateRam (ram0) (0) (256)) (1) (65535)) (2) (65534)) (3) (65533)) (4) (65532)) (256) (65)) (0) (257)) (257) (65535)) (0) (258)) (258) (65534)) (0) (259)) (259) (65533)) (0) (260), 49⟩).trans (congrArg (run env bootstrap 15) b2_s49)
      _ = run env bootstrap 14 ⟨260, 65532, updateRam (updateRam (updateRam (updateRam (updateRam (updateRam (updateRam (updateRam (updateRam (updateRam (updateRam (updateRam (updateRam (updateRam (ram0) (0) (256)) (1) (65535)) (2) (65534)) (3) (65533)) (4) (65532)) (256) (65)) (0) (257)) (257) (65535)) (0) (258)) (258) (65534)) (0) (259)) (259) (65533)) (0) (260)) (260) (65532), 51⟩ := (run_succ env bootstrap 14 ⟨260, 65532, updateRam (updateRam (updateRam (updateRam (updateRam (updateRam (updateRam (updateRam (updateRam (updateRam (updateRam (updateRam (updateRam (ram0) (0) (256)) (1) (65535)) (2) (65534)) (3) (65533)) (4) (65532)) (256) (65)) (0) (257)) (257) (65535)) (0) (258)) (258) (65534)) (0) (259)) (259) (65533)) (0) (260), 50⟩).trans (congrArg (run env bootstrap 14) b2_s50)
      _ = run env bootstrap 13 ⟨0, 65532, updateRam (updateRam (updateRam (updateRam (updateRam (updateRam (updateRam (updateRam (updateRam (updateRam (updateRam (updateRam (updateRam (updateRam (ram0) (0) (256)) (1) (65535)) (2) (65534)) (3) (65533)) (4) (65532)) (256) (65)) (0) (257)) (257) (65535)) (0) (258)) (258) (65534)) (0) (259)) (259) (65533)) (0) (260)) (260) (65532), 52⟩ := (run_succ env bootstrap 13 ⟨260, 65532, updateRam (updateRam (updateRam (updateRam (updateRam (updateRam (updateRam (updateRam (updateRam (updateRam (updateRam (updateRam (updateRam (updateRam (ram0) (0) (256)) (1) (65535)) (2) (65534)) (3) (65533)) (4) (65532)) (256) (65)) (0) (257)) (257) (65535)) (0) (258)) (258) (65534)) (0) (259)) (259) (65533)) (0) (260)) (260) (65532), 51⟩).trans (congrArg (run env bootstrap 13) b2_s51)
      _ = run env bootstrap 12 ⟨0, 65532, updateRam (updateRam (updateRam (updateRam (updateRam (updateRam (updateRam (updateRam (updateRam (updateRam (updateRam (updateRam (updateRam (updateRam (updateRam (ram0) (0) (256)) (1) (65535)) (2) (65534)) (3) (65533)) (4) (65532)) (256) (65)) (0) (257)) (257) (65535)) (0) (258)) (258) (65534)) (0) (259)) (259) (65533)) (0) (260)) (260) (65532)) (0) (261), 53⟩ := (run_succ env bootstrap 12 ⟨0, 65532, updateRam (updateRam (updateRam (updateRam (updateRam (updateRam (updateRam (updateRam (updateRam (updateRam (updateRam (updateRam (updateRam (updateRam (ram0) (0) (256)) (1) (65535)) (2) (65534)) (3) (65533)) (4) (65532)) (256) (65)) (0) (257)) (257) (65535)) (0) (258)) (258) (65534)) (0) (259)) (259) (65533)) (0) (260)) (260) (65532), 52⟩).trans (congrArg (run env bootstrap 12) b2_s52)
      _ = run env bootstrap 11 ⟨0, 65532, updateRam (updateRam (updateRam (updateRam (updateRam (updateRam (updateRam (updateRam (updateRam (updateRam (updateRam (updateRam (updateRam (updateRam (updateRam (ram0) (0) (256)) (1) (65535)) (2) (65534)) (3) (65533)) (4) (65532)) (256) (65)) (0) (257)) (257) (65535)) (0) (258)) (258) (65534)) (0) (259)) (259) (65533)) (0) (260)) (260) (65532)) (0) (261), 54⟩ := (run_succ env bootstrap 11 ⟨0, 65532, updateRam (updateRam (updateRam (updateRam (updateRam (updateRam (updateRam (updateRam (updateRam (updateRam (updateRam (updateRam (updateRam (updateRam (updateRam (ram0) (0) (256)) (1) (65535)) (2) (65534)) (3) (65533)) (4) (65532)) (256) (65)) (0) (257)) (257) (65535)) (0) (258)) (258) (65534)) (0) (259)) (259) (65533)) (0) (260)) (260) (65532)) (0) (261), 53⟩).trans (congrArg (run env bootstrap 11) b2_s53)
      _ = run env bootstrap 10 ⟨0, 261, updateRam (updateRam (updateRam (updateRam (updateRam (updateRam (updateRam (updateRam (updateRam (updateRam (updateRam (updateRam (updateRam (updateRam (updateRam (ram0) (0) (256)) (1) (65535)) (2) (65534)) (3) (65533)) (4) (65532)) (256) (65)) (0) (257)) (257) (65535)) (0) (258)) (258) (65534)) (0) (259)) (259) (65533)) (0) (260)) (260) (65532)) (0) (261), 55⟩ := (run_succ env bootstrap 10 ⟨0, 65532, updateRam (updateRam (updateRam (updateRam (updateRam (updateRam (updateRam (updateRam (updateRam (updateRam (updateRam (updateRam (updateRam (updateRam (updateRam (ram0) (0) (256)) (1) (65535)) (2) (65534)) (3) (65533)) (4) (65532)) (256) (65)) (0) (257)) (257) (65535)) (0) (258)) (258) (65534)) (0) (259)) (259) (65533)) (0) (260)) (260) (65532)) (0) (261), 54⟩).trans (congrArg (run env bootstrap 10) b2_s54)
      _ = run env bootstrap 9 ⟨5, 261, updateRam (updateRam (updateRam (updateRam (updateRam (updateRam (updateRam (updateRam (updateRam (updateRam (updateRam (updateRam (updateRam (updateRam (updateRam (ram0) (0) (256)) (1) (65535)) (2) (65534)) (3) (65533)) (4) (65532)) (256) (65)) (0) (257)) (257) (65535)) (0) (258)) (258) (65534)) (0) (259)) (259) (65533)) (0) (260)) (260) (65532)) (0) (261), 56⟩ := (run_succ env bootstrap 9 ⟨0, 261, updateRam (updateRam (updateRam (updateRam (updateRam (updateRam (updateRam (updateRam (updateRam (updateRam (updateRam (updateRam (updateRam (updateRam (updateRam (ram0) (0) (256)) (1) (65535)) (2) (65534)) (3) (65533)) (4) (65532)) (256) (65)) (0) (257)) (257) (65535)) (0) (258)) (258) (65534)) (0) (259)) (259) (65533)) (0) (260)) (260) (65532)) (0) (261), 55⟩).trans (congrArg (run env bootstrap 9) b2_s55)
      _ = run env bootstrap 8 ⟨5, 256, updateRam (updateRam (updateRam (updateRam (updateRam (updateRam (updateRam (updateRam (updateRam (updateRam (updateRam (updateRam (updateRam (updateRam (updateRam (ram0) (0) (256)) (1) (65535)) (2) (65534)) (3) (65533)) (4) (65532)) (256) (65)) (0) (257)) (257) (65535)) (0) (258)) (258) (65534)) (0) (259)) (259) (65533)) (0) (260)) (260) (65532)) (0) (261), 57⟩ := (run_succ env bootstrap 8 ⟨5, 261, updateRam (updateRam (updateRam (updateRam (updateRam (updateRam (updateRam (updateRam (updateRam (updateRam (updateRam (updateRam (updateRam (updateRam (updateRam (ram0) (0) (256)) (1) (65535)) (2) (65534)) (3) (65533)) (4) (65532)) (256) (65)) (0) (257)) (257) (65535)) (0) (258)) (258) (65534)) (0) (259)) (259) (65533)) (0) (260)) (260) (65532)) (0) (261), 56⟩).trans (congrArg (run env bootstrap 8) b2_s56)
      _ = run env bootstrap 7 ⟨2, 256, updateRam (updateRam (updateRam (updateRam (updateRam (updateRam (updateRam (updateRam (updateRam (updateRam (updateRam (updateRam (updateRam (updateRam (updateRam (ram0) (0) (256)) (1) (65535)) (2) (65534)) (3) (65533)) (4) (65532)) (256) (65)) (0) (257)) (257) (65535)) (0) (258)) (258) (65534)) (0) (259)) (259) (65533)) (0) (260)) (260) (65532)) (0) (261), 58⟩ := (run_succ env bootstrap 7 ⟨5, 256, updateRam (updateRam (updateRam (updateRam (updateRam (updateRam (updateRam (updateRam (updateRam (updateRam (updateRam (updateRam (updateRam (updateRam (updateRam (ram0) (0) (256)) (1) (65535)) (2) (65534)) (3) (65533)) (4) (65532)) (256) (65)) (0) (257)) (257) (65535)) (0) (258)) (258) (65534)) (0) (259)) (259) (65533)) (0) (260)) (260) (65532)) (0) (261), 57⟩).trans (congrArg (run env bootstrap 7) b2_s57)
      _ = run env bootstrap 6 ⟨2, 256, updateRam (updateRam (updateRam (updateRam (updateRam (updateRam (updateRam (updateRam (updateRam (updateRam (updateRam (updateRam (updateRam (updateRam (updateRam (updateRam (ram0) (0) (256)) (1) (65535)) (2) (65534)) (3) (65533)) (4) (65532)) (256) (65)) (0) (257)) (257) (65535)) (0) (258)) (258) (65534)) (0) (259)) (259) (65533)) (0) (260)) (260) (65532)) (0) (261)) (2) (256), 59⟩ := (run_succ env bootstrap 6 ⟨2, 256, updateRam (updateRam (updateRam (updateRam (updateRam (updateRam (updateRam (updateRam (updateRam (updateRam (updateRam (updateRam (updateRam (updateRam (updateRam (ram0) (0) (256)) (1) (65535)) (2) (65534)) (3) (65533)) (4) (65532)) (256) (65)) (0) (257)) (257) (65535)) (0) (258)) (258) (65534)) (0) (259)) (259) (65533)) (0) (260)) (260) (65532)) (0) (261), 58⟩).trans (congrArg (run env bootstrap 6) b2_s58)
      _ = run env bootstrap 5 ⟨0, 256, updateRam (updateRam (updateRam (updateRam (updateRam (updateRam (updateRam (updateRam (updateRam (updateRam (updateRam (updateRam (updateRam (updateRam (updateRam (updateRam (ram0) (0) (256)) (1) (65535)) (2) (65534)) (3) (65533)) (4) (65532)) (256) (65)) (0) (257)) (257) (65535)) (0) (258)) (258) (65534)) (0) (259)) (259) (65533)) (0) (260)) (260) (65532)) (0) (261)) (2) (256), 60⟩ := (run_succ env bootstrap 5 ⟨2, 256, updateRam (updateRam (updateRam (updateRam (updateRam (updateRam (updateRam (updateRam (updateRam (updateRam (updateRam (updateRam (updateRam (updateRam (updateRam (updateRam (ram0) (0) (256)) (1) (65535)) (2) (65534)) (3) (65533)) (4) (65532)) (256) (65)) (0) (257)) (257) (65535)) (0) (258)) (258) (65534)) (0) (259)) (259) (65533)) (0) (260)) (260) (65532)) (0) (261)) (2) (256), 59⟩).trans (congrArg (run env bootstrap 5) b2_s59)
      _ = run env bootstrap 4 ⟨0, 261, updateRam (updateRam (updateRam (updateRam (updateRam (updateRam (updateRam (updateRam (updateRam (updateRam (updateRam (updateRam (updateRam (updateRam (updateRam (updateRam (ram0) (0) (256)) (1) (65535)) (2) (65534)) (3) (65533)) (4) (65532)) (256) (65)) (0) (257)) (257) (65535)) (0) (258)) (258) (65534)) (0) (259)) (259) (65533)) (0) (260)) (260) (65532)) (0) (261)) (2) (256), 61⟩ := (run_succ env bootstrap 4 ⟨0, 256, updateRam (updateRam (updateRam (updateRam (updateRam (updateRam (updateRam (updateRam (updateRam (updateRam (updateRam (updateRam (updateRam (updateRam (updateRam (updateRam (ram0) (0) (256)) (1) (65535)) (2) (65534)) (3) (65533)) (4) (65532)) (256) (65)) (0) (257)) (257) (65535)) (0) (258)) (258) (65534)) (0) (259)) (259) (65533)) (0) (260)) (260) (65532)) (0) (261)) (2) (256), 60⟩).trans (congrArg (run env bootstrap 4) b2_s60)
      _ = run env bootstrap 3 ⟨1, 261, updateRam (updateRam (updateRam (updateRam (updateRam (updateRam (updateRam (updateRam (updateRam (updateRam (updateRam (updateRam (updateRam (updateRam (updateRam (updateRam (ram0) (0) (256)) (1) (65535)) (2) (65534)) (3) (65533)) (4) (65532)) (256) (65)) (0) (257)) (257) (65535)) (0) (258)) (258) (65534)) (0) (259)) (259) (65533)) (0) (260)) (260) (65532)) (0) (261)) (2) (256), 62⟩ := (run_succ env bootstrap 3 ⟨0, 261, updateRam (updateRam (updateRam (updateRam (updateRam (updateRam (updateRam (updateRam (updateRam (updateRam (updateRam (updateRam (updateRam (updateRam (updateRam (updateRam (ram0) (0) (256)) (1) (65535)) (2) (65534)) (3) (65533)) (4) (65532)) (256) (65)) (0) (257)) (257) (65535)) (0) (258)) (258) (65534)) (0) (259)) (259) (65533)) (0) (260)) (260) (65532)) (0) (261)) (2) (256), 61⟩).trans (congrArg (run env bootstrap 3) b2_s61)
      _ = run env bootstrap 2 ⟨1, 261, updateRam (updateRam (updateRam (updateRam (updateRam (updateRam (updateRam (updateRam (updateRam (updateRam (updateRam (updateRam (updateRam (updateRam (updateRam (updateRam (updateRam (ram0) (0) (256)) (1) (65535)) (2) (65534)) (3) (65533)) (4) (65532)) (256) (65)) (0) (257)) (257) (65535)) (0) (258)) (258) (65534)) (0) (259)) (259) (65533)) (0) (260)) (260) (65532)) (0) (261)) (2) (256)) (1) (261), 63⟩ := (run_succ env bootstrap 2 ⟨1, 261, updateRam (updateRam (updateRam (updateRam (updateRam (updateRam (updateRam (updateRam (updateRam (updateRam (updateRam (updateRam (updateRam (updateRam (updateRam (updateRam (ram0) (0) (256)) (1) (65535)) (2) (65534)) (3) (65533)) (4) (65532)) (256) (65)) (0) (257)) (257) (65535)) (0) (258)) (258) (65534)) (0) (259)) (259) (65533)) (0) (260)) (260) (65532)) (0) (261)) (2) (256), 62⟩).trans (congrArg (run env bootstrap 2) b2_s62)
      _ = run env bootstrap 1 ⟨e, 261, updateRam (updateRam (updateRam (updateRam (updateRam (updateRam (updateRam (updateRam (updateRam (updateRam (updateRam (updateRam (updateRam (updateRam (updateRam (updateRam (updateRam (ram0) (0) (256)) (1) (65535)) (2) (65534)) (3) (65533)) (4) (65532)) (256) (65)) (0) (257)) (257) (65535)) (0) (258)) (258) (65534)) (0) (259)) (259) (65533)) (0) (260)) (260) (65532)) (0) (261)) (2) (256)) (1) (261), 64⟩ := (run_succ env bootstrap 1 ⟨1, 261, updateRam (updateRam (updateRam (updateRam (updateRam (updateRam (updateRam (updateRam (updateRam (updateRam (updateRam (updateRam (updateRam (updateRam (updateRam (updateRam (updateRam (ram0) (0) (256)) (1) (65535)) (2) (65534)) (3) (65533)) (4) (65532)) (256) (65)) (0) (257)) (257) (65535)) (0) (258)) (258) (65534)) (0) (259)) (259) (65533)) (0) (260)) (260) (65532)) (0) (261)) (2) (256)) (1) (261), 63⟩).trans (congrArg (run env bootstrap 1) b2_s63)
      _ = run env bootstrap 0 ⟨e, 261, updateRam (updateRam (updateRam (updateRam (updateRam (updateRam (updateRam (updateRam (updateRam (updateRam (updateRam (updateRam (updateRam (updateRam (updateRam (updateRam (updateRam (ram0) (0) (256)) (1) (65535)) (2) (65534)) (3) (65533)) (4) (65532)) (256) (65)) (0) (257)) (257) (65535)) (0) (258)) (258) (65534)) (0) (259)) (259) (65533)) (0) (260)) (260) (65532)) (0) (261)) (2) (256)) (1) (261), e⟩ := (run_succ env bootstrap 0 ⟨e, 261, updateRam (updateRam (updateRam (updateRam (updateRam (updateRam (updateRam (updateRam (updateRam (updateRam (updateRam (updateRam (updateRam (updateRam (updateRam (updateRam (updateRam (ram0) (0) (256)) (1) (65535)) (2) (65534)) (3) (65533)) (4) (65532)) (256) (65)) (0) (257)) (257) (65535)) (0) (258)) (258) (65534)) (0) (259)) (259) (65533)) (0) (260)) (260) (65532)) (0) (261)) (2) (256)) (1) (261), 64⟩).trans (congrArg (run env bootstrap 0) b2_s64)
      _ = ⟨e, 261, updateRam (updateRam (updateRam (updateRam (updateRam (updateRam (updateRam (updateRam (updateRam (updateRam (updateRam (updateRam (updateRam (updateRam (updateRam (updateRam (updateRam (ram0) (0) (256)) (1) (65535)) (2) (65534)) (3) (65533)) (4) (65532)) (256) (65)) (0) (257)) (257) (65535)) (0) (258)) (258) (65534)) (0) (259)) (259) (65533)) (0) (260)) (260) (65532)) (0) (261)) (2) (256)) (1) (261), e⟩ := run_zero env bootstrap ⟨e, 261, updateRam (updateRam (updateRam (updateRam (updateRam (updateRam (updateRam (updateRam (updateRam (updateRam (updateRam (updateRam (updateRam (updateRam (updateRam (updateRam (updateRam (ram0) (0) (256)) (1) (65535)) (2) (65534)) (3) (65533)) (4) (65532)) (256) (65)) (0) (257)) (257) (65535)) (0) (258)) (258) (65534)) (0) (259)) (259) (65533)) (0) (260)) (260) (65532)) (0) (261)) (2) (256)) (1) (261), e⟩
  have hstruct : ((∃ sc ∈ cmds, isSysInit sc = true) →
        blocks.head? = some bootstrap ∧ blocks.count bootstrap = 1)
      ∧ ((¬ ∃ sc ∈ cmds, isSysInit sc = true) → bootstrap ∉ blocks) := by
    unfold generate_code at hgen
    cases hgo : generate_code_go [] cmds with
    | error err => rw [hgo] at hgen; exact absurd hgen (by simp)
    | ok fb =>
      obtain ⟨flag, rest⟩ := fb
      rw [hgo] at hgen
      simp only [Except.ok.injEq] at hgen
      have hflag := generate_code_go_flag cmds [] flag rest hgo
      have hnotin := bootstrap_not_in_go_blocks cmds [] flag rest hgo
      constructor
      · intro hex
        have hft : flag = true := hflag.mpr hex
        subst hft
        simp only [if_true] at hgen
        subst hgen
        refine ⟨rfl, ?_⟩
        simp [List.count_cons_self, List.count_eq_zero.mpr hnotin]
      · intro hnex
        have hff : flag = false := by
          cases hfv : flag
          · rfl
          · exact absurd (hflag.mp hfv) hnex
        subst hff
        simp only [Bool.false_eq_true, if_false] at hgen
        subst hgen
        exact hnotin
  refine ⟨hstruct.1, hstruct.2, ?_, ?_, ?_, ?_, ?_, ?_, ?_, ?_, ?_, ?_, rfl⟩ <;>
    first
      | (rw [b1_run]; try simp only [updateRam_read, Nat.reduceEqDiff, reduceIte])
      | (rw [b2_run]; try simp only [updateRam_read, Nat.reduceEqDiff, reduceIte])

/-- Input with a `Sys.init` function for the C6 witness. -/
def c6wCmds : List SourceCommand :=
  [⟨0, Command.Function "Sys.init" 0, "function Sys.init 0", "Sys"⟩]

/-- The blocks generated for it. -/
def c6wBlocks : List (List Instr) :=
  match generate_code c6wCmds with
  | .ok bs => bs
  | .error _ => []

/-- Witness for C6: with `function Sys.init 0` present the bootstrap block
is first and occurs once, and running it jumps to `Sys.init`'s address. -/
theorem c6_bootstrap_emission_witness :
    c6wBlocks.head? = some bootstrap
    ∧ c6wBlocks.count bootstrap = 1
    ∧ (run (fun _ => 7) bootstrap 65 ⟨0, 0, (fun _ => 0), 0⟩).pc = 7 := by
  have hgen : generate_code c6wCmds = .ok c6wBlocks := rfl
  have h := c6_bootstrap_emission c6wCmds c6wBlocks 7 0 0 (fun _ => 7) (fun _ => 0)
    hgen rfl (by decide)
  obtain ⟨s1, -, -, -, -, -, -, -, -, -, -, fpc, -⟩ := h
  have hex : ∃ sc ∈ c6wCmds, isSysInit sc = true :=
    ⟨⟨0, Command.Function "Sys.init" 0, "function Sys.init 0", "Sys"⟩, by decide, rfl⟩
  exact ⟨(s1 hex).1, (s1 hex).2, fpc⟩

/-! ## Claim C10: scope selection for labels -/

/-- The scope the orchestrator uses for the i-th command: the name of the
most recent `Function` command among commands 0..i of the whole combined
stream (`none` before the first `Function` of the entire input). -/
def scopeAt (cmds : List SourceCommand) (i : Nat) : Option String :=
  ((cmds.take (i + 1)).filterMap functionName).getLast?

/-- The orchestrator loop passes exactly the last declared function name
(on top of the ambient scope stack) to each command's generator. -/
theorem generate_code_go_scope :
    ∀ (cmds : List SourceCommand) (scope : List String) (flag : Bool)
      (blocks : List (List Instr)),
      generate_code_go scope cmds = .ok (flag, blocks) →
      ∀ i sc, cmds.get? i = some sc →
        ∃ code, blocks.get? i = some code ∧
          generate_code_for_command sc
            ((scope ++ (cmds.take (i + 1)).filterMap functionName).getLast?) = .ok code
  | [], scope, flag, blocks => by
    intro h i sc hget
    exact absurd hget (by simp)
  | c :: rest, scope, flag, blocks => by
    intro h i sc hget
    simp only [generate_code_go] at h
    set scope' := (match functionName c with
      | some name => scope ++ [name]
      | none => scope) with hscope
    have hsc' : scope' = scope ++ [c].filterMap functionName := by
      rw [hscope]
      cases hf : functionName c <;> simp [hf]
    cases hc : generate_code_for_command c scope'.getLast? with
    | error e => rw [hc] at h; exact absurd h (by simp)
    | ok code =>
      rw [hc] at h
      cases hgo : generate_code_go scope' rest with
      | error e => rw [hgo] at h; exact absurd h (by simp)
      | ok fb =>
        rw [hgo] at h
        obtain ⟨flag', more⟩ := fb
        simp only [Except.ok.injEq, Prod.mk.injEq] at h
        obtain ⟨-, h2⟩ := h
        subst h2
        match i, hget with
        | 0, hget =>
          injection hget with hget
          subst hget
          refine ⟨code, rfl, ?_⟩
          rw [← hc]
          congr 1
          rw [hsc']
          simp
        | Nat.succ j, hget =>
          simp only [List.get?] at hget
          obtain ⟨code', hb, hgen⟩ :=
            generate_code_go_scope rest scope' flag' more hgo j sc hget
          refine ⟨code', by simpa using hb, ?_⟩
          rw [← hgen]
          congr 2
          rw [hsc']
          simp [List.append_assoc, ← List.filterMap_append]

set_option maxHeartbeats 400000 in
/-- C10: for every input command sequence, the scope used to qualify
labels is the function name of the most recent preceding `Function`
command anywhere in the combined stream (`Return` never removes it, and
translation-unit boundaries do not reset it): the code generated for the
i-th command is produced with scope `scopeAt cmds i`; that scope is `none`
— making `generate_label` fall back to the translation-unit name — exactly
when no `Function` command occurs among the first i+1 commands of the
whole input; and `generate_label` qualifies with the unit name under
`none` and with the function name otherwise. -/
theorem c10_scope_tracking (cmds : List SourceCommand) (flag : Bool)
    (blocks : List (List Instr))
    (h : generate_code_go [] cmds = .ok (flag, blocks)) :
    (∀ i sc, cmds.get? i = some sc →
      ∃ code, blocks.get? i = some code ∧
        generate_code_for_command sc (scopeAt cmds i) = .ok code)
    ∧ (∀ i, scopeAt cmds i = none ↔
        ∀ sc ∈ cmds.take (i + 1), functionName sc = none)
    ∧ (∀ sc lbl, generate_label sc lbl none
        = .ok [.labelDef (sc.file_base ++ "$" ++ lbl)])
    ∧ (∀ sc lbl fn, generate_label sc lbl (some fn)
        = .ok [.labelDef (fn ++ "$" ++ lbl)])
    ∧ generate_code cmds
        = .ok (if flag = true then bootstrap :: blocks else blocks) := by
  refine ⟨?_, ?_, fun sc lbl => rfl, fun sc lbl fn => rfl, ?_⟩
  · intro i sc hget
    have := generate_code_go_scope cmds [] flag blocks h i sc hget
    simpa [scopeAt] using this
  · intro i
    unfold scopeAt
    rw [List.getLast?_eq_none_iff]
    exact List.filterMap_eq_nil_iff
  · unfold generate_code
    rw [h]

/-- Two translation units for the C10 witness: unit A declares a function;
unit B's label — and a command after a `return` — still use A's scope. -/
def c10wCmds : List SourceCommand :=
  [⟨0, Command.Function "A.f" 0, "function A.f 0", "A"⟩,
   ⟨1, Command.Return, "return", "A"⟩,
   ⟨0, Command.Label "LOOP", "label LOOP", "B"⟩]

/-- The loop's output for it. -/
def c10wResult : Bool × List (List Instr) :=
  match generate_code_go [] c10wCmds with
  | .ok p => p
  | .error _ => (false, [])

/-- Witness for C10: the unit-B label two commands after `function A.f 0`
(and after a `return`) is still generated in scope `A.f`, producing
`(A.f$LOOP)`. -/
theorem c10_scope_tracking_witness :
    scopeAt c10wCmds 2 = some "A.f"
    ∧ (∃ code, c10wResult.2.get? 2 = some code ∧
        generate_code_for_command ⟨0, Command.Label "LOOP", "label LOOP", "B"⟩
          (scopeAt c10wCmds 2) = .ok code)
    ∧ generate_label ⟨0, Command.Label "LOOP", "label LOOP", "B"⟩ "LOOP" (some "A.f")
        = .ok [.labelDef ("A.f" ++ "$" ++ "LOOP")] := by
  have h := c10_scope_tracking c10wCmds c10wResult.1 c10wResult.2 rfl
  exact ⟨rfl, h.1 2 ⟨0, Command.Label "LOOP", "label LOOP", "B"⟩ rfl,
    h.2.2.2.1 ⟨0, Command.Label "LOOP", "label LOOP", "B"⟩ "LOOP" "A.f"⟩

/-! ## Claim C8: parse errors block all output -/

instance {ε α : Type} [DecidableEq ε] [DecidableEq α] : DecidableEq (Except ε α) := fun x y =>
  match x, y with
  | .ok a, .ok b =>
    if h : a = b then isTrue (by rw [h]) else isFalse (fun hx => h (Except.ok.inj hx))
  | .error e, .error f =>
    if h : e = f then isTrue (by rw [h]) else isFalse (fun hx => h (Except.error.inj hx))
  | .ok _, .error _ => isFalse (fun hx => Except.noConfusion hx)
  | .error _, .ok _ => isFalse (fun hx => Except.noConfusion hx)

set_option maxHeartbeats 400000 in
/-- C8: if any line of the multi-file input fails to parse, the command
extraction fails and no output is produced (conjunct 1); every parse error
of the whole input is in the reported list, so all errors are seen in one
run (conjunct 2); and any produced output is the complete code generation
of a fully-parsed input — there is no partial output (conjunct 3). -/
theorem c8_parse_errors_block_output (sources : List (String × String)) :
    ((∃ e, Except.error e ∈ parse_sources sources) →
        (extract_and_report_errors (parse_sources sources)).2
            = .error ("Parse errors found: "
                ++ natStr (extract_and_report_errors (parse_sources sources)).1.length)
        ∧ main_result sources = none)
    ∧ (∀ e, Except.error e ∈ parse_sources sources →
        e ∈ (extract_and_report_errors (parse_sources sources)).1)
    ∧ (∀ out, main_result sources = some out →
        (∀ r ∈ parse_sources sources, r.isOk = true)
        ∧ ∃ cmds, (extract_and_report_errors (parse_sources sources)).2 = .ok cmds
            ∧ generate_code cmds = .ok out) := by
  set R := parse_sources sources with hR
  set rep := R.filterMap (fun r =>
    match r with | .error e => some e | .ok _ => none) with hrep
  have hfst : (extract_and_report_errors R).1 = rep := by
    simp only [extract_and_report_errors]
    rw [← hrep]
    split <;> rfl
  have hmemrep : ∀ e, Except.error e ∈ R → e ∈ rep := by
    intro e he
    rw [hrep]
    exact List.mem_filterMap.mpr ⟨.error e, he, rfl⟩
  refine ⟨?_, ?_, ?_⟩
  · rintro ⟨e, he⟩
    have hlen : 0 < rep.length :=
      List.length_pos.mpr (List.ne_nil_of_mem (hmemrep e he))
    have hsnd : (extract_and_report_errors R).2
        = .error ("Parse errors found: " ++ natStr rep.length) := by
      simp only [extract_and_report_errors]
      rw [← hrep]
      simp only [gt_iff_lt, hlen, if_pos]
    refine ⟨by rw [hfst, hsnd], ?_⟩
    unfold main_result
    rw [← hR, hsnd]
  · intro e he
    rw [hfst]
    exact hmemrep e he
  · intro out hout
    unfold main_result at hout
    rw [← hR] at hout
    cases hx : (extract_and_report_errors R).2 with
    | error err => rw [hx] at hout; exact absurd hout (by simp)
    | ok cmds =>
      rw [hx] at hout
      dsimp only at hout
      cases hg : generate_code cmds with
      | error err => rw [hg] at hout; exact absurd hout (by simp)
      | ok asm =>
        rw [hg] at hout
        dsimp only at hout
        injection hout with hout
        subst hout
        refine ⟨?_, cmds, rfl, hg⟩
        intro r hr
        cases hrv : r with
        | ok c => rfl
        | error e =>
          exfalso
          have hlen : 0 < rep.length := by
            have : e ∈ rep := hmemrep e (hrv ▸ hr)
            exact List.length_pos.mpr (List.ne_nil_of_mem this)
          have : (extract_and_report_errors R).2
              = .error ("Parse errors found: " ++ natStr rep.length) := by
            simp only [extract_and_report_errors]
            rw [← hrep]
            simp only [gt_iff_lt, hlen, if_pos]
          rw [this] at hx
          exact absurd hx (by simp)

theorem c8_parse_errors_block_output_witness :
    (extract_and_report_errors
        (parse_sources [("A", "push constant 1\nbogus")])).2
      = .error ("Parse errors found: "
          ++ natStr (extract_and_report_errors
              (parse_sources [("A", "push constant 1\nbogus")])).1.length)
    ∧ main_result [("A", "push constant 1\nbogus")] = none :=
  (c8_parse_errors_block_output [("A", "push constant 1\nbogus")]).1
    ⟨"Parse error at line A:1 (bogus): Parser not implemented for 'bogus'",
      by decide⟩

/-! ## Claim C5: label uniqueness -/

/-- The label names defined (as `labelDef` instructions) by a generator
result, in emission order. -/
def labelDefsOf (r : Except String (List Instr)) : List String :=
  match r with
  | .ok is => is.filterMap (fun i => match i with
      | .labelDef s => some s
      | _ => none)
  | .error _ => []

/-- Every character printed by `natDigitsAux` is a decimal digit. -/
theorem natDigitsAux_digits : ∀ (fuel n : Nat) (c : Char),
    c ∈ natDigitsAux fuel n → 48 ≤ c.toNat ∧ c.toNat ≤ 57 := by
  intro fuel
  induction fuel with
  | zero => intro n c hc; simp [natDigitsAux] at hc
  | succ fuel ih =>
    intro n c hc
    by_cases h10 : n < 10
    · simp only [natDigitsAux, if_pos h10, List.mem_singleton] at hc
      subst hc
      interval_cases n <;> simp
    · simp only [natDigitsAux, if_neg h10, List.mem_append,
        List.mem_singleton] at hc
      rcases hc with hc | hc
      · exact ih (n / 10) c hc
      · subst hc
        have hm : n % 10 < 10 := Nat.mod_lt _ (by omega)
        interval_cases h : n % 10 <;> simp

/-- The digit list of `n` never contains the dot character. -/
theorem dot_not_mem_natDigits (n : Nat) : '.' ∉ natDigits n := by
  intro h
  have := natDigitsAux_digits (n + 1) n '.' h
  simp at this

/-- The numeric value of a digit list, most significant first. -/
def digitsToVal (l : List Char) : Nat :=
  l.foldl (fun a c => a * 10 + (c.toNat - 48)) 0

/-- Folding the digit accumulator over `natDigitsAux fuel n` (with `n < fuel`)
recovers `n` on top of the shifted accumulator. -/
theorem foldl_natDigitsAux : ∀ (fuel n a : Nat), n < fuel →
    (natDigitsAux fuel n).foldl (fun a c => a * 10 + (c.toNat - 48)) a
      = a * 10 ^ (natDigitsAux fuel n).length + n := by
  intro fuel
  induction fuel with
  | zero => intro n a h; omega
  | succ fuel ih =>
    intro n a h
    by_cases h10 : n < 10
    · have htn : (Char.ofNat (48 + n)).toNat = 48 + n := by
        interval_cases n <;> rfl
      simp [natDigitsAux, if_pos h10, htn]
    · have hdiv : n / 10 < fuel := by omega
      have htn : (Char.ofNat (48 + n % 10)).toNat = 48 + n % 10 := by
        have hm : n % 10 < 10 := Nat.mod_lt _ (by omega)
        interval_cases h : n % 10 <;> rfl
      simp only [natDigitsAux, if_neg h10, List.foldl_append, List.foldl_cons,
        List.foldl_nil, List.length_append, List.length_singleton,
        ih (n / 10) a hdiv, htn]
      have : a * 10 ^ ((natDigitsAux fuel (n / 10)).length + 1)
          = a * 10 ^ (natDigitsAux fuel (n / 10)).length * 10 := by
        rw [pow_succ]; ring
      rw [this]
      omega

/-- `natDigits` is injective: equal digit strings come from equal numbers. -/
theorem natDigits_inj {m n : Nat} (h : natDigits m = natDigits n) : m = n := by
  have hm := foldl_natDigitsAux (m + 1) m 0 (Nat.lt_succ_self m)
  have hn := foldl_natDigitsAux (n + 1) n 0 (Nat.lt_succ_self n)
  simp only [natDigits] at h
  rw [h] at hm
  omega

/-- Splitting a character list at a separator absent from both right parts
is unambiguous. -/
theorem append_sep_inj : ∀ (u1 : List Char) (d1 : List Char)
    (u2 : List Char) (d2 : List Char) (sep : Char),
    sep ∉ d1 → sep ∉ d2 → u1 ++ sep :: d1 = u2 ++ sep :: d2 →
    u1 = u2 ∧ d1 = d2 := by
  intro u1
  induction u1 with
  | nil =>
    intro d1 u2 d2 sep h1 h2 heq
    cases u2 with
    | nil =>
      simp only [List.nil_append, List.cons.injEq] at heq
      exact ⟨rfl, heq.2⟩
    | cons c u2' =>
      exfalso
      simp only [List.nil_append, List.cons_append, List.cons.injEq] at heq
      exact h1 (heq.2 ▸ List.mem_append_right u2' (List.mem_cons_self sep d2))
  | cons c u1' ih =>
    intro d1 u2 d2 sep h1 h2 heq
    cases u2 with
    | nil =>
      exfalso
      simp only [List.cons_append, List.nil_append, List.cons.injEq] at heq
      exact h2 (heq.2 ▸ List.mem_append_right u1' (List.mem_cons_self sep d1))
    | cons c' u2' =>
      simp only [List.cons_append, List.cons.injEq] at heq
      obtain ⟨hc, htl⟩ := heq
      obtain ⟨hu, hd⟩ := ih d1 u2' d2 sep h1 h2 htl
      exact ⟨by rw [hc, hu], hd⟩

/-- A scope/line label `p ++ f ++ "." ++ natStr l` determines `f` and `l`
for any fixed prefix `p`. -/
theorem label_scheme_inj (p f1 f2 : String) (l1 l2 : Nat)
    (h : p ++ f1 ++ "." ++ natStr l1 = p ++ f2 ++ "." ++ natStr l2) :
    f1 = f2 ∧ l1 = l2 := by
  have hd : p.data ++ (f1.data ++ '.' :: natDigits l1)
      = p.data ++ (f2.data ++ '.' :: natDigits l2) := by
    have h' := congrArg String.data h
    simpa [String.data_append, List.append_assoc] using h'
  have hd' := List.append_cancel_left hd
  obtain ⟨hf, hl⟩ := append_sep_inj f1.data (natDigits l1) f2.data
    (natDigits l2) '.' (dot_not_mem_natDigits l1) (dot_not_mem_natDigits l2) hd'
  refine ⟨?_, natDigits_inj hl⟩
  exact congrArg String.mk hf

/-- Return labels with the same scope and different lines differ. -/
theorem returnLabel_inj (scope : String) {l1 l2 : Nat}
    (h : returnLabel scope l1 = returnLabel scope l2) : l1 = l2 := by
  have h' := congrArg String.data h
  simp only [returnLabel, natStr, String.data_append, List.append_assoc] at h'
  exact natDigits_inj (List.append_cancel_left (List.append_cancel_left h'))

/-- C5: the only labels defined by a comparison site are its branch-taken
label `COMP_TRUE_{file}.{line}` and join label `COMP_END_{file}.{line}`, and
the only label defined by a call site is its return label
`{scope}$ret.{line}`; two comparison sites with different
(translation-unit, line) pairs define disjoint branch-taken labels and
disjoint join labels, and two call sites in the same scope with different
lines define distinct return labels. -/
theorem c5_label_uniqueness (sc1 sc2 : SourceCommand) (cmp : Jump)
    (name : String) (nargs : Nat) (scope : String) :
    labelDefsOf (generate_comparison sc1 cmp)
        = [compTrueLabel sc1.file_base sc1.line,
           compEndLabel sc1.file_base sc1.line]
    ∧ labelDefsOf (generate_call sc1 name nargs (some scope))
        = [returnLabel scope sc1.line]
    ∧ ((sc1.file_base, sc1.line) ≠ (sc2.file_base, sc2.line) →
        compTrueLabel sc1.file_base sc1.line
            ≠ compTrueLabel sc2.file_base sc2.line
        ∧ compEndLabel sc1.file_base sc1.line
            ≠ compEndLabel sc2.file_base sc2.line)
    ∧ (sc1.line ≠ sc2.line →
        returnLabel scope sc1.line ≠ returnLabel scope sc2.line) := by
  refine ⟨rfl, rfl, ?_, ?_⟩
  · intro hne
    constructor
    · intro heq
      obtain ⟨hf, hl⟩ := label_scheme_inj "COMP_TRUE_" sc1.file_base
        sc2.file_base sc1.line sc2.line heq
      exact hne (by rw [hf, hl])
    · intro heq
      obtain ⟨hf, hl⟩ := label_scheme_inj "COMP_END_" sc1.file_base
        sc2.file_base sc1.line sc2.line heq
      exact hne (by rw [hf, hl])
  · intro hne heq
    exact hne (returnLabel_inj scope heq)

theorem c5_label_uniqueness_witness :
    labelDefsOf (generate_comparison ⟨3, .Gt, "gt", "F"⟩ .jgt)
        = [compTrueLabel "F" 3, compEndLabel "F" 3]
    ∧ labelDefsOf (generate_call ⟨3, .Gt, "gt", "F"⟩ "G" 2 (some "F.caller"))
        = [returnLabel "F.caller" 3]
    ∧ (compTrueLabel "F" 3 ≠ compTrueLabel "F" 7
        ∧ compEndLabel "F" 3 ≠ compEndLabel "F" 7)
    ∧ returnLabel "F.caller" 3 ≠ returnLabel "F.caller" 7 := by
  have h := c5_label_uniqueness ⟨3, .Gt, "gt", "F"⟩
    ⟨7, .Lt, "lt", "F"⟩ .jgt "G" 2 "F.caller"
  exact ⟨h.1, h.2.1, h.2.2.1 (by decide), h.2.2.2 (by decide)⟩
